import Mathlib

/-!
# Gree AC serial protocol (`components/gree_ac`)

A shallow embedding of the wire codec, the checksum and the frame validation of
`gree_ac_cnt.cpp`, followed by the properties proved about them.

Conventions of the embedding:

* a `uint8_t` buffer is a `List Nat`; a store into it is reduced modulo 256, and a
  store outside the array (undefined behaviour in C++) leaves it unchanged; a byte read
  from the UART is a `uint8_t` already and is stored as it is;
* the constants of `namespace protocol` (declared in `gree_ac_cnt.h`) are the
  fields of the structure `Protocol`, so every definition that uses one of them
  takes the protocol as an argument; the theorems about the payload layout state what
  they need of the constants through `Protocol.WellFormed` and `Protocol.Isolated`;
* the option strings (`fan_modes::FAN_AUTO`, `vertical_swing_options::OFF`, ...) are
  the constructors of one enumeration per option namespace; a state string that
  holds none of the options (for instance the empty string) is `none`.
-/

namespace GreeAC

/-! ## Byte buffers -/

/-- A `uint8_t` array. -/
abbrev Bytes := List Nat

/-- The read `data[i]`. -/
def rd (data : Bytes) (i : Nat) : Nat := data.getD i 0

/-- The store `data[i] = v` into a `uint8_t` array. -/
def wr (data : Bytes) (i v : Nat) : Bytes := data.set i (v % 256)

/-- The update `data[i] |= v` of a `uint8_t` array. -/
def orAt (data : Bytes) (i v : Nat) : Bytes := wr data i (rd data i ||| v)

/-- The guarded update `if (c) data[i] |= v;`. -/
def orAtIf (c : Bool) (data : Bytes) (i v : Nat) : Bytes := if c then orAt data i v else data

/-! ## Enumerations -/

/-- The ESPHome `climate::ClimateMode` values. -/
inductive ClimateMode
  | OFF | HEAT_COOL | COOL | HEAT | FAN_ONLY | DRY | AUTO
  deriving DecidableEq, Repr

/-- Modelled from the spec: the option strings of `namespace fan_modes`, declared in
`gree_ac.h`; the spec lists the fan speeds auto/min/low/medium/high/max. -/
inductive fan_modes
  | FAN_AUTO | FAN_MIN | FAN_LOW | FAN_MED | FAN_HIGH | FAN_MAX
  deriving DecidableEq, Repr

/-- Modelled from the spec: the option strings of `namespace vertical_swing_options`,
declared in `gree_ac.h` (a 12-way enumeration). -/
inductive vertical_swing_options
  | OFF | FULL | DOWN | MIDD | MID | MIDU | UP | CDOWN | CMIDD | CMID | CMIDU | CUP
  deriving DecidableEq, Repr

/-- Modelled from the spec: the option strings of `namespace horizontal_swing_options`,
declared in `gree_ac.h` (a 7-way enumeration). -/
inductive horizontal_swing_options
  | OFF | FULL | CLEFT | CMIDL | CMID | CMIDR | CRIGHT
  deriving DecidableEq, Repr

/-- Modelled from the spec: the option strings of `namespace display_options`
(set / actual), declared in `gree_ac.h`. -/
inductive display_options
  | SET | ACT
  deriving DecidableEq, Repr

/-- Modelled from the spec: the option strings of `namespace display_unit_options`
(C / F), declared in `gree_ac.h`. -/
inductive display_unit_options
  | DEGC | DEGF
  deriving DecidableEq, Repr

/-- Modelled from the spec: the option strings of `namespace quiet_options`
(off / on / auto), declared in `gree_ac.h`. -/
inductive quiet_options
  | OFF | ON | AUTO
  deriving DecidableEq, Repr

/-- Modelled from the spec: the option strings of `namespace light_options`
(auto / on / off), declared in `gree_ac.h`. -/
inductive light_options
  | AUTO | ON | OFF
  deriving DecidableEq, Repr

/-- The ESPHome `climate::ClimateSwingMode` values. -/
inductive ClimateSwingMode
  | OFF | BOTH | VERTICAL | HORIZONTAL
  deriving DecidableEq, Repr

/-- The tri-state marker `ACUpdate`. -/
inductive ACUpdate
  | NoUpdate | UpdateStart | UpdateClear
  deriving DecidableEq, Repr

/-- The connection state `ACState`. -/
inductive ACState
  | Initializing | Ready
  deriving DecidableEq, Repr

/-- The receiver state of `serialProcess_`. -/
inductive SerialState
  | STATE_WAIT_SYNC | STATE_COMPLETE
  deriving DecidableEq, Repr

/-! ## Protocol constants -/

/-- The constants of `namespace protocol`. They are declared in `gree_ac_cnt.h`; every
one of them that `gree_ac_cnt.cpp` uses is a field here, under its own name. -/
structure Protocol where
  SYNC : Nat
  CMD_IN_UNIT_REPORT : Nat
  CMD_OUT_PARAMS_SET : Nat
  CMD_OUT_MAC_REPORT : Nat
  CMD_OUT_SYNC_TIME : Nat
  TIME_REFRESH_PERIOD_MS : Nat
  TIME_MAC_CYCLE_PERIOD_MS : Nat
  TIME_TIMEOUT_INACTIVE_MS : Nat
  TIME_WAIT_RESPONSE_TIMEOUT_MS : Nat
  SET_PACKET_LEN : Nat
  SET_CONST_02_BYTE : Nat
  SET_CONST_02_VAL : Nat
  SET_CONST_BIT_BYTE : Nat
  SET_CONST_BIT_MASK : Nat
  SET_AF_BYTE : Nat
  SET_AF_VAL : Nat
  REPORT_PWR_BYTE : Nat
  REPORT_PWR_MASK : Nat
  REPORT_MODE_BYTE : Nat
  REPORT_MODE_MASK : Nat
  REPORT_MODE_POS : Nat
  REPORT_MODE_AUTO : Nat
  REPORT_MODE_COOL : Nat
  REPORT_MODE_DRY : Nat
  REPORT_MODE_FAN : Nat
  REPORT_MODE_HEAT : Nat
  REPORT_TEMP_SET_BYTE : Nat
  REPORT_TEMP_SET_MASK : Nat
  REPORT_TEMP_SET_POS : Nat
  REPORT_TEMP_SET_OFF : Nat
  REPORT_TEMP_ACT_BYTE : Nat
  REPORT_TEMP_ACT_OFF : Nat
  REPORT_FAN_SPD1_BYTE : Nat
  REPORT_FAN_SPD1_MASK : Nat
  REPORT_FAN_SPD1_POS : Nat
  REPORT_FAN_SPD2_BYTE : Nat
  REPORT_FAN_SPD2_POS : Nat
  REPORT_FAN_TURBO_BYTE : Nat
  REPORT_FAN_TURBO_MASK : Nat
  REPORT_FAN_QUIET_BYTE : Nat
  REPORT_FAN_QUIET_MASK : Nat
  REPORT_FAN_QUIET_AUTO_MASK : Nat
  REPORT_VSWING_BYTE : Nat
  REPORT_VSWING_MASK : Nat
  REPORT_VSWING_POS : Nat
  REPORT_VSWING_OFF : Nat
  REPORT_VSWING_FULL : Nat
  REPORT_VSWING_DOWN : Nat
  REPORT_VSWING_MIDD : Nat
  REPORT_VSWING_MID : Nat
  REPORT_VSWING_MIDU : Nat
  REPORT_VSWING_UP : Nat
  REPORT_VSWING_CDOWN : Nat
  REPORT_VSWING_CMIDD : Nat
  REPORT_VSWING_CMID : Nat
  REPORT_VSWING_CMIDU : Nat
  REPORT_VSWING_CUP : Nat
  REPORT_HSWING_BYTE : Nat
  REPORT_HSWING_MASK : Nat
  REPORT_HSWING_POS : Nat
  REPORT_HSWING_OFF : Nat
  REPORT_HSWING_FULL : Nat
  REPORT_HSWING_CLEFT : Nat
  REPORT_HSWING_CMIDL : Nat
  REPORT_HSWING_CMID : Nat
  REPORT_HSWING_CMIDR : Nat
  REPORT_HSWING_CRIGHT : Nat
  REPORT_DISP_MODE_BYTE : Nat
  REPORT_DISP_MODE_MASK : Nat
  REPORT_DISP_MODE_POS : Nat
  REPORT_DISP_MODE_SET : Nat
  REPORT_DISP_MODE_ACT : Nat
  REPORT_DISP_MODE_OUT : Nat
  REPORT_DISP_ON_BYTE : Nat
  REPORT_DISP_ON_MASK : Nat
  REPORT_DISP_F_BYTE : Nat
  REPORT_DISP_F_MASK : Nat
  REPORT_IONIZER1_BYTE : Nat
  REPORT_IONIZER1_MASK : Nat
  REPORT_IONIZER2_BYTE : Nat
  REPORT_IONIZER2_MASK : Nat
  REPORT_BEEPER_BYTE : Nat
  REPORT_BEEPER_MASK : Nat
  REPORT_SLEEP_BYTE : Nat
  REPORT_SLEEP_MASK : Nat
  REPORT_XFAN_BYTE : Nat
  REPORT_XFAN_MASK : Nat
  REPORT_POWERSAVE_BYTE : Nat
  REPORT_POWERSAVE_MASK : Nat
  REPORT_IFEEL_BYTE : Nat
  REPORT_IFEEL_MASK : Nat

/-! ## Engine state -/

/-- The receive buffer `serialProcess_` filled by `GreeAC::loop`. -/
structure SerialProcess where
  state : SerialState := .STATE_WAIT_SYNC
  last_byte_time : Nat := 0
  size : Nat := 0
  data : Bytes := []
  frame_size : Nat := 0
  deriving DecidableEq, Repr

/-- The members of `GreeACCNT` (and of its base class `GreeAC`) that the engine reads or
writes. `target_temperature` is the `float` member of the climate entity: it is held as
a rational number, which every finite `float` is, so that a request such as 23.5 is
stored as it is (NaN and the infinities are not modelled). `current_temperature` is
written only by `update_current_temperature` with the whole number read from a report;
`custom_fan_mode` is `none` when `has_custom_fan_mode()` is false. The times are
`uint32_t` millisecond stamps.

The UI entities are collaborators outside the engine. Publishing to one of them calls
back into the engine only with the value the engine has just stored, and every callback
returns at once on an equal value, so they have no effect on the members below. The one
entity the engine reads back is the light select: `light_select_` is `none` for a null
pointer and otherwise holds `current_option()`, `none` when that string is empty.

Three members record what the engine does to its collaborators: `published` counts the
calls of `publish_state()` on the climate entity, `transmitted` lists the frames handed
to `write_array` (latest first), `status_error` is the error indicator of the component,
and `uart_rx` is the queue of bytes that `available()` / `read_byte` deliver. -/
structure GreeACCNT where
  serialProcess_ : SerialProcess := {}
  state_ : ACState := .Initializing
  update_ : ACUpdate := .NoUpdate
  reqmodechange : Bool := false
  wait_response_ : Bool := false
  mode : ClimateMode := .OFF
  mode_internal_ : ClimateMode := .OFF
  power_internal_ : Bool := false
  target_temperature : ℚ := 0
  current_temperature : Int := 0
  custom_fan_mode : Option fan_modes := none
  vertical_swing_state_ : Option vertical_swing_options := none
  horizontal_swing_state_ : Option horizontal_swing_options := none
  display_state_ : Option display_options := none
  display_unit_state_ : Option display_unit_options := none
  light_mode_ : Option light_options := none
  light_state_ : Bool := false
  ionizer_state_ : Bool := false
  beeper_state_ : Bool := false
  sleep_state_ : Bool := false
  xfan_state_ : Bool := false
  powersave_state_ : Bool := false
  turbo_state_ : Bool := false
  ifeel_state_ : Bool := false
  quiet_state_ : Option quiet_options := none
  swing_mode : ClimateSwingMode := .OFF
  init_time_ : Nat := 0
  last_packet_sent_ : Nat := 0
  last_packet_received_ : Nat := 0
  last_packet_duration_ms_ : Nat := 0
  last_sync_time_sent_ : Nat := 0
  last_mac_sequence_millis_ : Nat := 0
  startup_special_sent_ : Bool := false
  mac_packets_pending_ : Nat := 0
  light_select_ : Option (Option light_options) := none
  status_error : Bool := false
  published : Nat := 0
  transmitted : List Bytes := []
  uart_rx : List Nat := []
  deriving DecidableEq, Repr

/-! ## Checksum (`calculate_checksum_`, `finalize_checksum_`, `verify_checksum_`) -/

/-- The function `calculate_checksum_(data, len)`: the loop
`for (i = 2; i < len - 1; i++) checksum += data[i]` on a `uint8_t` accumulator.
The bound `len - 1` is a `size_t`; every caller passes `len >= 1`, where it is the
natural-number subtraction used here. -/
def calculate_checksum_ (data : Bytes) (len : Nat) : Nat :=
  (List.range' 2 (len - 1 - 2)).foldl (fun checksum i => (checksum + rd data i) % 256) 0

/-- The function `finalize_checksum_(data, len)`: `data[len - 1] = calculate_checksum_(data, len)`. -/
def finalize_checksum_ (data : Bytes) (len : Nat) : Bytes :=
  wr data (len - 1) (calculate_checksum_ data len)

/-- The function `verify_checksum_(data, len)`: `data[len - 1] == calculate_checksum_(data, len)`. -/
def verify_checksum_ (data : Bytes) (len : Nat) : Bool :=
  rd data (len - 1) == calculate_checksum_ data len

/-! ## Building the parameter frame (`send_params_set_packet`) -/

/-- MODE and POWER: the values of the locals `mode` and `power` after the two nested
`switch` statements on `this->mode` and `this->mode_internal_`. -/
def mode_and_power (p : Protocol) (s : GreeACCNT) : Nat × Bool :=
  match s.mode with
  | .AUTO => (p.REPORT_MODE_AUTO, true)
  | .COOL => (p.REPORT_MODE_COOL, true)
  | .DRY => (p.REPORT_MODE_DRY, true)
  | .FAN_ONLY => (p.REPORT_MODE_FAN, true)
  | .HEAT => (p.REPORT_MODE_HEAT, true)
  | _ =>
    (match s.mode_internal_ with
      | .AUTO => p.REPORT_MODE_AUTO
      | .COOL => p.REPORT_MODE_COOL
      | .DRY => p.REPORT_MODE_DRY
      | .FAN_ONLY => p.REPORT_MODE_FAN
      | .HEAT => p.REPORT_MODE_HEAT
      | _ => p.REPORT_MODE_AUTO, false)

/-- The C library function `round` on a finite value: the nearest whole number, a value
half way between two whole numbers going away from zero (23.5 gives 24, -2.5 gives -3).
With `x = num / den` in lowest terms this is `floor ((2 num + den) / (2 den))` for
`0 ≤ x` and the mirror image below zero. -/
def c_round (x : ℚ) : Int :=
  if 0 ≤ x.num then (2 * x.num + x.den) / (2 * x.den)
  else -((2 * (-x.num) + x.den) / (2 * x.den))

/-- TARGET TEMPERATURE: the value or-ed into `payload[REPORT_TEMP_SET_BYTE]`,
`((target_temperature - REPORT_TEMP_SET_OFF) << REPORT_TEMP_SET_POS) & REPORT_TEMP_SET_MASK`,
where `target_temperature` is
`static_cast<uint8_t>(round(this->target_temperature))` (the cast keeps the low eight
bits) and the subtraction and the shift are done on `int`. -/
def target_temperature_bits (p : Protocol) (s : GreeACCNT) : Nat :=
  let target_temperature : Int := c_round s.target_temperature % 256
  (((target_temperature - p.REPORT_TEMP_SET_OFF) * 2 ^ p.REPORT_TEMP_SET_POS) % 256).toNat
    &&& p.REPORT_TEMP_SET_MASK

/-- The table `FAN_MAP` of `send_params_set_packet`: option, `byte4`, `byte18`. -/
def FAN_MAP_SET : List (fan_modes × Nat × Nat) :=
  [(.FAN_MIN, 1, 0x09), (.FAN_LOW, 2, 0x0A), (.FAN_MED, 2, 0x0B),
   (.FAN_HIGH, 3, 0x0C), (.FAN_MAX, 3, 0x0D)]

/-- FAN SPEED: the locals `(fan_mode_byte4, fan_mode_byte18)` after the loop over
`FAN_MAP`; they keep `(0, 0x08)` (auto) when no entry matches. -/
def fan_mode_bytes (custom_fan_mode : fan_modes) : Nat × Nat :=
  match FAN_MAP_SET.find? (fun mapping => custom_fan_mode == mapping.1) with
  | some mapping => mapping.2
  | none => (0, 0x08)

/-- The table `VSWING_MAP` of `send_params_set_packet`. -/
def VSWING_MAP_SET (p : Protocol) : List (vertical_swing_options × Nat) :=
  [(.OFF, p.REPORT_VSWING_OFF), (.FULL, p.REPORT_VSWING_FULL), (.DOWN, p.REPORT_VSWING_DOWN),
   (.MIDD, p.REPORT_VSWING_MIDD), (.MID, p.REPORT_VSWING_MID), (.MIDU, p.REPORT_VSWING_MIDU),
   (.UP, p.REPORT_VSWING_UP), (.CDOWN, p.REPORT_VSWING_CDOWN), (.CMIDD, p.REPORT_VSWING_CMIDD),
   (.CMID, p.REPORT_VSWING_CMID), (.CMIDU, p.REPORT_VSWING_CMIDU), (.CUP, p.REPORT_VSWING_CUP)]

/-- VERTICAL SWING: the local `mode_vertical_swing` after the loop over `VSWING_MAP`. -/
def mode_vertical_swing (p : Protocol) (s : GreeACCNT) : Nat :=
  match (VSWING_MAP_SET p).find? (fun mapping => s.vertical_swing_state_ == some mapping.1) with
  | some mapping => mapping.2
  | none => p.REPORT_VSWING_OFF

/-- The table `HSWING_MAP` of `send_params_set_packet`. -/
def HSWING_MAP_SET (p : Protocol) : List (horizontal_swing_options × Nat) :=
  [(.OFF, p.REPORT_HSWING_OFF), (.FULL, p.REPORT_HSWING_FULL), (.CLEFT, p.REPORT_HSWING_CLEFT),
   (.CMIDL, p.REPORT_HSWING_CMIDL), (.CMID, p.REPORT_HSWING_CMID),
   (.CMIDR, p.REPORT_HSWING_CMIDR), (.CRIGHT, p.REPORT_HSWING_CRIGHT)]

/-- HORIZONTAL SWING: the local `mode_horizontal_swing` after the loop over `HSWING_MAP`. -/
def mode_horizontal_swing (p : Protocol) (s : GreeACCNT) : Nat :=
  match (HSWING_MAP_SET p).find? (fun mapping => s.horizontal_swing_state_ == some mapping.1) with
  | some mapping => mapping.2
  | none => p.REPORT_HSWING_OFF

/-- DISPLAY: the local `display_mode`; when the mode is off it is always "set". -/
def display_mode (p : Protocol) (s : GreeACCNT) : Nat :=
  if s.mode ≠ .OFF then
    if s.display_state_ = some .SET then p.REPORT_DISP_MODE_SET
    else if s.display_state_ = some .ACT then p.REPORT_DISP_MODE_ACT
    else p.REPORT_DISP_MODE_SET
  else p.REPORT_DISP_MODE_SET

/-- The local array `payload` of `send_params_set_packet`, as it stands when it is
copied into the frame: zero-filled, then written statement by statement. -/
def params_set_payload (p : Protocol) (s : GreeACCNT) : Bytes :=
  let payload := List.replicate p.SET_PACKET_LEN 0
  let payload := wr payload p.SET_CONST_02_BYTE p.SET_CONST_02_VAL
  let payload := wr payload p.SET_CONST_BIT_BYTE p.SET_CONST_BIT_MASK
  let payload :=
    match s.update_ with
    | .NoUpdate => payload
    | .UpdateStart => wr payload p.SET_AF_BYTE p.SET_AF_VAL
    | .UpdateClear => payload
  -- MODE and POWER
  let payload := orAt payload p.REPORT_MODE_BYTE ((mode_and_power p s).1 <<< p.REPORT_MODE_POS)
  let payload := orAtIf (mode_and_power p s).2 payload p.REPORT_PWR_BYTE p.REPORT_PWR_MASK
  -- TARGET TEMPERATURE
  let payload := orAt payload p.REPORT_TEMP_SET_BYTE (target_temperature_bits p s)
  -- FAN SPEED
  let payload :=
    match s.custom_fan_mode with
    | some custom_fan_mode =>
      let payload := orAt payload p.REPORT_FAN_SPD2_BYTE
        ((fan_mode_bytes custom_fan_mode).1 <<< p.REPORT_FAN_SPD2_POS)
      orAt payload p.REPORT_FAN_SPD1_BYTE
        ((fan_mode_bytes custom_fan_mode).2 <<< p.REPORT_FAN_SPD1_POS)
    | none => payload
  let payload := orAtIf s.turbo_state_ payload p.REPORT_FAN_TURBO_BYTE p.REPORT_FAN_TURBO_MASK
  let payload :=
    if s.quiet_state_ = some .ON then
      orAt payload p.REPORT_FAN_QUIET_BYTE p.REPORT_FAN_QUIET_MASK
    else if s.quiet_state_ = some .AUTO then
      orAt payload p.REPORT_FAN_QUIET_BYTE p.REPORT_FAN_QUIET_AUTO_MASK
    else payload
  -- VERTICAL SWING
  let payload := orAt payload p.REPORT_VSWING_BYTE (mode_vertical_swing p s <<< p.REPORT_VSWING_POS)
  -- HORIZONTAL SWING
  let payload := orAt payload p.REPORT_HSWING_BYTE (mode_horizontal_swing p s <<< p.REPORT_HSWING_POS)
  -- DISPLAY
  let payload := orAt payload p.REPORT_DISP_MODE_BYTE (display_mode p s <<< p.REPORT_DISP_MODE_POS)
  let payload := orAtIf s.light_state_ payload p.REPORT_DISP_ON_BYTE p.REPORT_DISP_ON_MASK
  -- DISPLAY UNIT
  let payload := orAtIf (s.display_unit_state_ = some .DEGF) payload
    p.REPORT_DISP_F_BYTE p.REPORT_DISP_F_MASK
  -- IONIZER
  let payload :=
    if s.ionizer_state_ then
      let payload := orAt payload p.REPORT_IONIZER1_BYTE p.REPORT_IONIZER1_MASK
      orAt payload p.REPORT_IONIZER2_BYTE p.REPORT_IONIZER2_MASK
    else payload
  -- BEEPER
  let payload := orAtIf (!s.beeper_state_) payload p.REPORT_BEEPER_BYTE p.REPORT_BEEPER_MASK
  -- SLEEP
  let payload := orAtIf s.sleep_state_ payload p.REPORT_SLEEP_BYTE p.REPORT_SLEEP_MASK
  -- XFAN
  let payload := orAtIf s.xfan_state_ payload p.REPORT_XFAN_BYTE p.REPORT_XFAN_MASK
  -- POWERSAVE
  let payload := orAtIf s.powersave_state_ payload
    p.REPORT_POWERSAVE_BYTE p.REPORT_POWERSAVE_MASK
  -- IFEEL
  orAtIf s.ifeel_state_ payload p.REPORT_IFEEL_BYTE p.REPORT_IFEEL_MASK

/-- The array `full_packet` that `send_params_set_packet` hands to `transmit_packet`:
the two sync bytes, the length `SET_PACKET_LEN + 2`, the command, the payload and the
checksum written by `finalize_checksum_`. -/
def params_set_packet (p : Protocol) (s : GreeACCNT) : Bytes :=
  let full_packet :=
    [p.SYNC, p.SYNC, (p.SET_PACKET_LEN + 2) % 256, p.CMD_OUT_PARAMS_SET] ++
      params_set_payload p s ++ [0]
  finalize_checksum_ full_packet (p.SET_PACKET_LEN + 5)

/-! ## The other outbound frames -/

/-- The array `packet` transmitted by `send_special_startup_packet`. -/
def special_startup_packet : Bytes :=
  [0x7E, 0x7E, 0x10, 0x02,
   0x00, 0x00, 0x00, 0x00, 0x00, 0x00, 0x03, 0x00,
   0x28, 0x1E, 0x19, 0x23, 0x23, 0x00, 0xBA]

/-- The array `full_packet` transmitted by `send_mac_report_packet`; `mac` is the
six-byte result of `get_mac_address_raw`. -/
def mac_report_packet (p : Protocol) (mac : Bytes) : Bytes :=
  let full_packet :=
    [p.SYNC, p.SYNC, 0x0D, p.CMD_OUT_MAC_REPORT, 0x07, 0x00, 0x00, 0x00,
     rd mac 0, rd mac 1, rd mac 2, rd mac 3, rd mac 4, rd mac 5, 0x00, 0]
  finalize_checksum_ full_packet 16

/-- The array `full_packet` transmitted by `send_sync_time_packet`. -/
def sync_time_packet (p : Protocol) : Bytes :=
  let full_packet :=
    [p.SYNC, p.SYNC, 0x0E, p.CMD_OUT_SYNC_TIME, 0x04,
     0, 0, 0, 0, 0, 0, 0, 0, 0, 0, 0x7E, 0]
  finalize_checksum_ full_packet 17

/-! ## Frame assembly (`GreeAC::loop`) -/

/-- The constant `GreeAC::DATA_MAX`. -/
def DATA_MAX : Nat := 200

/-- The end of one iteration of the `while` loop of `GreeAC::loop`, from `if (s == 3)`
on: capture of the declared length, completion test and cap. The local `s` is the
buffered size at that point. -/
def feed_finish (c : Nat) (sp : SerialProcess) : SerialProcess :=
  let s := sp.size
  let sp := if s = 3 then { sp with frame_size := c } else sp
  let sp := if s ≥ 3 ∧ s = sp.frame_size + 3 then { sp with state := .STATE_COMPLETE } else sp
  if s ≥ DATA_MAX then { sp with size := 0 } else sp

/-- One iteration of the `while` loop of `GreeAC::loop` once the byte `c` has been read
at time `now`: the byte is stored at `data[size++]`, then the resync rule and the two
discard rules are tried in this order; a discard ends the iteration (`continue`). -/
def feed (now c : Nat) (sp : SerialProcess) : SerialProcess :=
  let sp := { sp with last_byte_time := now }
  let sp := { sp with data := sp.data.set sp.size c, size := sp.size + 1 }
  let s := sp.size
  if s ≥ 2 ∧ rd sp.data (s - 2) = 0x7E ∧ rd sp.data (s - 1) = 0x7E then
    if s > 2 then
      feed_finish c { sp with data := (sp.data.set 0 0x7E).set 1 0x7E, size := 2 }
    else feed_finish c sp
  else if s = 1 ∧ rd sp.data 0 ≠ 0x7E then { sp with size := 0 }
  else if s = 2 ∧ rd sp.data 0 = 0x7E ∧ rd sp.data 1 ≠ 0x7E then { sp with size := 0 }
  else feed_finish c sp

/-- The bytes fed one at a time, as the `while` loop of `GreeAC::loop` does: once the
state is `STATE_COMPLETE` no further byte is consumed. -/
def feedAll (now : Nat) (bytes : List Nat) (sp : SerialProcess) : SerialProcess :=
  bytes.foldl (fun sp c => if sp.state = .STATE_COMPLETE then sp else feed now c sp) sp

/-- The restart of the assembler by its caller, `GreeACCNT::loop`, after a complete
frame: `size = 0` and `state = STATE_WAIT_SYNC`. -/
def restart (sp : SerialProcess) : SerialProcess :=
  if sp.state = .STATE_COMPLETE then { sp with size := 0, state := .STATE_WAIT_SYNC } else sp

/-- The bytes fed one at a time, the caller restarting the assembler after each complete
frame before the next byte is fed. -/
def assembleAll (now : Nat) (bytes : List Nat) (sp : SerialProcess) : SerialProcess :=
  bytes.foldl (fun sp c => feed now c (restart sp)) sp

/-- The `while` loop of `GreeAC::loop` with `n` iterations left of its 32: it stops when
no byte is available or when a frame is complete. -/
def loop_read (now : Nat) : Nat → GreeACCNT → GreeACCNT
  | 0, s => s
  | n + 1, s =>
    match s.uart_rx with
    | [] => s
    | c :: rest =>
      if s.serialProcess_.state = .STATE_COMPLETE then s
      else loop_read now n { s with uart_rx := rest, serialProcess_ := feed now c s.serialProcess_ }

/-- The function `GreeAC::loop`, run at time `now`. -/
def loop (now : Nat) (s : GreeACCNT) : GreeACCNT := loop_read now 32 s

/-- An assembler with an empty 200-byte buffer. -/
def emptyAssembler : SerialProcess where
  state := .STATE_WAIT_SYNC
  size := 0
  data := List.replicate 200 0

/-! ## Frame validation (`verify_packet`) -/

/-- The array `ALLOWED_PACKETS`. -/
def ALLOWED_PACKETS (p : Protocol) : List Nat := [p.CMD_IN_UNIT_REPORT]

/-- The three reasons for which `verify_packet` drops a packet, one per log message. -/
inductive Drop
  | length | command | checksum
  deriving DecidableEq, Repr

/-- The branch of `verify_packet` that drops the packet, `none` when it reaches
`return true`. -/
def verify_packet_drop (p : Protocol) (s : GreeACCNT) : Option Drop :=
  if s.serialProcess_.size < 5 then some .length
  else if !(ALLOWED_PACKETS p).any (fun packet => rd s.serialProcess_.data 3 == packet) then
    some .command
  else if !verify_checksum_ s.serialProcess_.data s.serialProcess_.size then some .checksum
  else none

/-- The function `verify_packet`. -/
def verify_packet (p : Protocol) (s : GreeACCNT) : Bool :=
  (verify_packet_drop p s).isNone

/-! ## Decoding a unit report (`determine_*`, the temperature of `processUnitReport`)

After `handle_packet` has moved the payload to the front of the buffer,
`serialProcess_.data[k]` is byte `k` of the payload. -/

/-- The function `determine_mode`: it stores the power flag and the reported mode in
`power_internal_` and `mode_internal_` and returns the climate mode. -/
def determine_mode (p : Protocol) (s : GreeACCNT) : ClimateMode × GreeACCNT :=
  let mode := (rd s.serialProcess_.data p.REPORT_MODE_BYTE &&& p.REPORT_MODE_MASK)
    >>> p.REPORT_MODE_POS
  let s := { s with
    power_internal_ := (rd s.serialProcess_.data p.REPORT_PWR_BYTE &&& p.REPORT_PWR_MASK) != 0 }
  let s := { s with
    mode_internal_ :=
      if mode = p.REPORT_MODE_AUTO then .AUTO
      else if mode = p.REPORT_MODE_COOL then .COOL
      else if mode = p.REPORT_MODE_DRY then .DRY
      else if mode = p.REPORT_MODE_FAN then .FAN_ONLY
      else if mode = p.REPORT_MODE_HEAT then .HEAT
      else .OFF }
  if s.power_internal_ then (s.mode_internal_, s) else (.OFF, s)

/-- The table `FAN_MAP` of `determine_fan_mode`. -/
def FAN_MAP_REPORT : List (Nat × fan_modes) :=
  [(0x08, .FAN_AUTO), (0x09, .FAN_MIN), (0x0A, .FAN_LOW), (0x0B, .FAN_MED),
   (0x0C, .FAN_HIGH), (0x0D, .FAN_MAX)]

/-- The function `determine_fan_mode`. -/
def determine_fan_mode (p : Protocol) (s : GreeACCNT) : fan_modes :=
  let fan_mode := rd s.serialProcess_.data p.REPORT_FAN_SPD1_BYTE &&& p.REPORT_FAN_SPD1_MASK
  match FAN_MAP_REPORT.find? (fun mapping => fan_mode == mapping.1) with
  | some mapping => mapping.2
  | none => .FAN_AUTO

/-- The table `VSWING_MAP` of `determine_vertical_swing`. -/
def VSWING_MAP_REPORT (p : Protocol) : List (Nat × vertical_swing_options) :=
  [(p.REPORT_VSWING_OFF, .OFF), (p.REPORT_VSWING_FULL, .FULL), (p.REPORT_VSWING_CUP, .CUP),
   (p.REPORT_VSWING_CMIDU, .CMIDU), (p.REPORT_VSWING_CMID, .CMID),
   (p.REPORT_VSWING_CMIDD, .CMIDD), (p.REPORT_VSWING_CDOWN, .CDOWN),
   (p.REPORT_VSWING_DOWN, .DOWN), (p.REPORT_VSWING_MIDD, .MIDD), (p.REPORT_VSWING_MID, .MID),
   (p.REPORT_VSWING_MIDU, .MIDU), (p.REPORT_VSWING_UP, .UP)]

/-- The function `determine_vertical_swing`. -/
def determine_vertical_swing (p : Protocol) (s : GreeACCNT) : vertical_swing_options :=
  let mode := (rd s.serialProcess_.data p.REPORT_VSWING_BYTE &&& p.REPORT_VSWING_MASK)
    >>> p.REPORT_VSWING_POS
  match (VSWING_MAP_REPORT p).find? (fun mapping => mode == mapping.1) with
  | some mapping => mapping.2
  | none => .OFF

/-- The table `HSWING_MAP` of `determine_horizontal_swing`. -/
def HSWING_MAP_REPORT (p : Protocol) : List (Nat × horizontal_swing_options) :=
  [(p.REPORT_HSWING_OFF, .OFF), (p.REPORT_HSWING_FULL, .FULL), (p.REPORT_HSWING_CLEFT, .CLEFT),
   (p.REPORT_HSWING_CMIDL, .CMIDL), (p.REPORT_HSWING_CMID, .CMID),
   (p.REPORT_HSWING_CMIDR, .CMIDR), (p.REPORT_HSWING_CRIGHT, .CRIGHT)]

/-- The function `determine_horizontal_swing`. -/
def determine_horizontal_swing (p : Protocol) (s : GreeACCNT) : horizontal_swing_options :=
  let mode := (rd s.serialProcess_.data p.REPORT_HSWING_BYTE &&& p.REPORT_HSWING_MASK)
    >>> p.REPORT_HSWING_POS
  match (HSWING_MAP_REPORT p).find? (fun mapping => mode == mapping.1) with
  | some mapping => mapping.2
  | none => .OFF

/-- The function `determine_display`. -/
def determine_display (p : Protocol) (s : GreeACCNT) : display_options :=
  let mode := (rd s.serialProcess_.data p.REPORT_DISP_MODE_BYTE &&& p.REPORT_DISP_MODE_MASK)
    >>> p.REPORT_DISP_MODE_POS
  if mode = p.REPORT_DISP_MODE_SET then .SET
  else if mode = p.REPORT_DISP_MODE_ACT then .ACT
  else if mode = p.REPORT_DISP_MODE_OUT then .SET
  else .SET

/-- The function `determine_light`. -/
def determine_light (p : Protocol) (s : GreeACCNT) : Bool :=
  (rd s.serialProcess_.data p.REPORT_DISP_ON_BYTE &&& p.REPORT_DISP_ON_MASK) != 0

/-- The function `determine_display_unit`. -/
def determine_display_unit (p : Protocol) (s : GreeACCNT) : display_unit_options :=
  if (rd s.serialProcess_.data p.REPORT_DISP_F_BYTE &&& p.REPORT_DISP_F_MASK) ≠ 0 then .DEGF
  else .DEGC

/-- The function `determine_ionizer`. -/
def determine_ionizer (p : Protocol) (s : GreeACCNT) : Bool :=
  let ionizer1 :=
    (rd s.serialProcess_.data p.REPORT_IONIZER1_BYTE &&& p.REPORT_IONIZER1_MASK) != 0
  let ionizer2 :=
    (rd s.serialProcess_.data p.REPORT_IONIZER2_BYTE &&& p.REPORT_IONIZER2_MASK) != 0
  ionizer1 || ionizer2

/-- The function `determine_beeper`. -/
def determine_beeper (p : Protocol) (s : GreeACCNT) : Bool :=
  (rd s.serialProcess_.data p.REPORT_BEEPER_BYTE &&& p.REPORT_BEEPER_MASK) == 0

/-- The function `determine_sleep`. -/
def determine_sleep (p : Protocol) (s : GreeACCNT) : Bool :=
  (rd s.serialProcess_.data p.REPORT_SLEEP_BYTE &&& p.REPORT_SLEEP_MASK) != 0

/-- The function `determine_xfan`. -/
def determine_xfan (p : Protocol) (s : GreeACCNT) : Bool :=
  (rd s.serialProcess_.data p.REPORT_XFAN_BYTE &&& p.REPORT_XFAN_MASK) != 0

/-- The function `determine_powersave`. -/
def determine_powersave (p : Protocol) (s : GreeACCNT) : Bool :=
  (rd s.serialProcess_.data p.REPORT_POWERSAVE_BYTE &&& p.REPORT_POWERSAVE_MASK) != 0

/-- The function `determine_turbo`. -/
def determine_turbo (p : Protocol) (s : GreeACCNT) : Bool :=
  (rd s.serialProcess_.data p.REPORT_FAN_TURBO_BYTE &&& p.REPORT_FAN_TURBO_MASK) != 0

/-- The function `determine_ifeel`. -/
def determine_ifeel (p : Protocol) (s : GreeACCNT) : Bool :=
  (rd s.serialProcess_.data p.REPORT_IFEEL_BYTE &&& p.REPORT_IFEEL_MASK) != 0

/-- The function `determine_quiet`. -/
def determine_quiet (p : Protocol) (s : GreeACCNT) : quiet_options :=
  if (rd s.serialProcess_.data p.REPORT_FAN_QUIET_BYTE &&& p.REPORT_FAN_QUIET_MASK) ≠ 0 then .ON
  else if (rd s.serialProcess_.data p.REPORT_FAN_QUIET_BYTE &&& p.REPORT_FAN_QUIET_AUTO_MASK) ≠ 0
  then .AUTO
  else .OFF

/-- The target temperature that `processUnitReport` hands to `update_target_temperature`:
`temset + REPORT_TEMP_SET_OFF`, where the `uint8_t` local `temset` is
`(data[REPORT_TEMP_SET_BYTE] & REPORT_TEMP_SET_MASK) >> REPORT_TEMP_SET_POS`. -/
def reported_target_temperature (p : Protocol) (s : GreeACCNT) : Nat :=
  let temset := ((rd s.serialProcess_.data p.REPORT_TEMP_SET_BYTE &&& p.REPORT_TEMP_SET_MASK)
    >>> p.REPORT_TEMP_SET_POS) % 256
  temset + p.REPORT_TEMP_SET_OFF

/-! ## State updates (`GreeAC::update_*`)

Each function returns the `bool` of the source together with the new state. -/

/-- The constant `GreeAC::MIN_TEMPERATURE`. -/
def MIN_TEMPERATURE : Nat := 16

/-- The constant `GreeAC::MAX_TEMPERATURE`. -/
def MAX_TEMPERATURE : Nat := 30

/-- The constant `GreeAC::TEMPERATURE_THRESHOLD`. -/
def TEMPERATURE_THRESHOLD : Nat := 100

/-- The function `GreeAC::update_current_temperature`. -/
def update_current_temperature (temperature : Int) (s : GreeACCNT) : Bool × GreeACCNT :=
  if temperature > (TEMPERATURE_THRESHOLD : Int) then (false, s)
  else if s.current_temperature = temperature then (false, s)
  else (true, { s with current_temperature := temperature })

/-- The function `GreeAC::update_target_temperature`. -/
def update_target_temperature (temperature : ℚ) (s : GreeACCNT) : Bool × GreeACCNT :=
  if temperature > (TEMPERATURE_THRESHOLD : ℚ) then (false, s)
  else if s.target_temperature = temperature then (false, s)
  else (true, { s with target_temperature := temperature })

/-- The function `GreeAC::update_swing_horizontal`. -/
def update_swing_horizontal (swing : horizontal_swing_options) (s : GreeACCNT) :
    Bool × GreeACCNT :=
  if s.horizontal_swing_state_ = some swing then (false, s)
  else (true, { s with horizontal_swing_state_ := some swing })

/-- The function `GreeAC::update_swing_vertical`. -/
def update_swing_vertical (swing : vertical_swing_options) (s : GreeACCNT) : Bool × GreeACCNT :=
  if s.vertical_swing_state_ = some swing then (false, s)
  else (true, { s with vertical_swing_state_ := some swing })

/-- The function `GreeAC::update_display`. -/
def update_display (display : display_options) (s : GreeACCNT) : Bool × GreeACCNT :=
  if s.display_state_ = some display then (false, s)
  else (true, { s with display_state_ := some display })

/-- The function `GreeAC::update_display_unit`. -/
def update_display_unit (display_unit : display_unit_options) (s : GreeACCNT) :
    Bool × GreeACCNT :=
  if s.display_unit_state_ = some display_unit then (false, s)
  else (true, { s with display_unit_state_ := some display_unit })

/-- The function `GreeAC::update_light`: when the light select shows another option than
`light_mode_`, the mode is published to it and the result is `true`. -/
def update_light (light : Bool) (s : GreeACCNT) : Bool × GreeACCNT :=
  let changed := s.light_state_ != light
  let s := { s with light_state_ := light }
  match s.light_select_ with
  | some current_option =>
    if current_option ≠ s.light_mode_ then (true, { s with light_select_ := some s.light_mode_ })
    else (changed, s)
  | none => (changed, s)

/-- The function `GreeAC::update_ionizer`. -/
def update_ionizer (ionizer : Bool) (s : GreeACCNT) : Bool × GreeACCNT :=
  if s.ionizer_state_ = ionizer then (false, s) else (true, { s with ionizer_state_ := ionizer })

/-- The function `GreeAC::update_beeper`. -/
def update_beeper (beeper : Bool) (s : GreeACCNT) : Bool × GreeACCNT :=
  if s.beeper_state_ = beeper then (false, s) else (true, { s with beeper_state_ := beeper })

/-- The function `GreeAC::update_sleep`. -/
def update_sleep (sleep : Bool) (s : GreeACCNT) : Bool × GreeACCNT :=
  if s.sleep_state_ = sleep then (false, s) else (true, { s with sleep_state_ := sleep })

/-- The function `GreeAC::update_xfan`. -/
def update_xfan (xfan : Bool) (s : GreeACCNT) : Bool × GreeACCNT :=
  if s.xfan_state_ = xfan then (false, s) else (true, { s with xfan_state_ := xfan })

/-- The function `GreeAC::update_powersave`. -/
def update_powersave (powersave : Bool) (s : GreeACCNT) : Bool × GreeACCNT :=
  if s.powersave_state_ = powersave then (false, s)
  else (true, { s with powersave_state_ := powersave })

/-- The function `GreeAC::update_turbo`. -/
def update_turbo (turbo : Bool) (s : GreeACCNT) : Bool × GreeACCNT :=
  if s.turbo_state_ = turbo then (false, s) else (true, { s with turbo_state_ := turbo })

/-- The function `GreeAC::update_ifeel`. -/
def update_ifeel (ifeel : Bool) (s : GreeACCNT) : Bool × GreeACCNT :=
  if s.ifeel_state_ = ifeel then (false, s) else (true, { s with ifeel_state_ := ifeel })

/-- The function `GreeAC::update_quiet`. -/
def update_quiet (quiet : quiet_options) (s : GreeACCNT) : Bool × GreeACCNT :=
  if s.quiet_state_ = some quiet then (false, s) else (true, { s with quiet_state_ := some quiet })

/-! ## Processing a unit report (`processUnitReport`, `handle_packet`)

`processUnitReport` is cut into its consecutive blocks; each returns what it adds to
`hasChanged`. -/

/-- The mode block of `processUnitReport`; the result is `modeChanged`. -/
def report_mode (p : Protocol) (s : GreeACCNT) : Bool × GreeACCNT :=
  let newMode := (determine_mode p s).1
  let s := (determine_mode p s).2
  if s.mode ≠ newMode then
    let s := { s with mode := newMode }
    if s.light_mode_ = some .AUTO then
      let new_light_state : Bool := s.mode ≠ .OFF
      if s.light_state_ ≠ new_light_state then
        (true, { s with light_state_ := new_light_state, update_ := .UpdateStart })
      else (true, s)
    else (true, s)
  else (false, s)

/-- The fan block of `processUnitReport`. -/
def report_fan (p : Protocol) (s : GreeACCNT) : Bool × GreeACCNT :=
  let newFanMode := determine_fan_mode p s
  if s.custom_fan_mode ≠ some newFanMode then (true, { s with custom_fan_mode := some newFanMode })
  else (false, s)

/-- The temperature block of `processUnitReport`: target, then measured temperature
`data[REPORT_TEMP_ACT_BYTE] - REPORT_TEMP_ACT_OFF`. -/
def report_temperature (p : Protocol) (s : GreeACCNT) : Bool × GreeACCNT :=
  let r1 := update_target_temperature (reported_target_temperature p s) s
  let r2 := update_current_temperature
    ((rd s.serialProcess_.data p.REPORT_TEMP_ACT_BYTE : Int) - p.REPORT_TEMP_ACT_OFF) r1.2
  (r1.1 || r2.1, r2.2)

/-- The swing block of `processUnitReport`. -/
def report_swing (p : Protocol) (s : GreeACCNT) : Bool × GreeACCNT :=
  let verticalSwing := determine_vertical_swing p s
  let r1 := update_swing_vertical verticalSwing s
  let horizontalSwing := determine_horizontal_swing p s
  let r2 := update_swing_horizontal horizontalSwing r1.2
  let newSwingMode : ClimateSwingMode :=
    if verticalSwing = .FULL ∧ horizontalSwing = .FULL then .BOTH
    else if verticalSwing = .FULL then .VERTICAL
    else if horizontalSwing = .FULL then .HORIZONTAL
    else .OFF
  if r2.2.swing_mode ≠ newSwingMode then (true, { r2.2 with swing_mode := newSwingMode })
  else (r1.1 || r2.1, r2.2)

/-- The display block of `processUnitReport`. -/
def report_display (p : Protocol) (s : GreeACCNT) : Bool × GreeACCNT :=
  let display := determine_display p s
  if s.display_state_ = none ∨ display = .ACT ∨ s.mode ≠ .OFF then update_display display s
  else (false, s)

/-- The light block of `processUnitReport`. -/
def report_light (p : Protocol) (modeChanged : Bool) (s : GreeACCNT) : Bool × GreeACCNT :=
  let light_reported := determine_light p s
  if s.light_state_ ≠ light_reported ∨ s.light_select_ = some none then
    if s.light_mode_ = some .AUTO then
      let s := if !modeChanged then { s with light_state_ := light_reported } else s
      update_light s.light_state_ s
    else if s.light_mode_ = some .OFF then
      if light_reported = true then (false, { s with update_ := .UpdateStart, light_state_ := false })
      else update_light false s
    else if s.light_mode_ = some .ON then
      if light_reported = false then (false, { s with update_ := .UpdateStart, light_state_ := true })
      else update_light true s
    else (false, s)
  else (false, s)

/-- The last block of `processUnitReport`: display unit and the eight switches and
selects that follow it. -/
def report_flags (p : Protocol) (s : GreeACCNT) : Bool × GreeACCNT :=
  let r1 := update_display_unit (determine_display_unit p s) s
  let r2 := update_ionizer (determine_ionizer p r1.2) r1.2
  let r3 := update_beeper (determine_beeper p r2.2) r2.2
  let r4 := update_sleep (determine_sleep p r3.2) r3.2
  let r5 := update_xfan (determine_xfan p r4.2) r4.2
  let r6 := update_powersave (determine_powersave p r5.2) r5.2
  let r7 := update_turbo (determine_turbo p r6.2) r6.2
  let r8 := update_ifeel (determine_ifeel p r7.2) r7.2
  let r9 := update_quiet (determine_quiet p r8.2) r8.2
  (r1.1 || r2.1 || r3.1 || r4.1 || r5.1 || r6.1 || r7.1 || r8.1 || r9.1, r9.2)

/-- The function `processUnitReport`. -/
def processUnitReport (p : Protocol) (s : GreeACCNT) : Bool × GreeACCNT :=
  let r1 := report_mode p s
  let r2 := report_fan p r1.2
  let r3 := report_temperature p r2.2
  let r4 := report_swing p r3.2
  let r5 := report_display p r4.2
  let r6 := report_light p r1.1 r5.2
  let r7 := report_flags p r6.2
  (r1.1 || r2.1 || r3.1 || r4.1 || r5.1 || r6.1 || r7.1, r7.2)

/-- The first statements of `handle_packet` for a unit report: the payload is moved to
the front of the buffer (`memmove` of `size - 5` bytes from offset 4) and `size` becomes
the payload size. -/
def move_payload (s : GreeACCNT) : GreeACCNT :=
  let payload_size := s.serialProcess_.size - 5
  { s with serialProcess_ := { s.serialProcess_ with
      data := (s.serialProcess_.data.drop 4).take payload_size ++
        s.serialProcess_.data.drop payload_size
      size := payload_size } }

/-- The function `handle_packet`. -/
def handle_packet (p : Protocol) (s : GreeACCNT) : GreeACCNT :=
  if rd s.serialProcess_.data 3 = p.CMD_IN_UNIT_REPORT then
    let r := processUnitReport p (move_payload s)
    if r.1 || r.2.reqmodechange then
      { r.2 with published := r.2.published + 1, reqmodechange := false }
    else r.2
  else s

/-! ## User requests (`control`, `on_*_change`) -/

/-- The fields of a `climate::ClimateCall` that `control` reads; `none` is a field
without a value. -/
structure ClimateCall where
  mode : Option ClimateMode := none
  target_temperature : Option ℚ := none
  custom_fan_mode : Option fan_modes := none
  swing_mode : Option ClimateSwingMode := none
  deriving DecidableEq, Repr

/-- The function `mark_for_update_`. -/
def mark_for_update_ (s : GreeACCNT) : GreeACCNT :=
  { s with reqmodechange := true, update_ := .UpdateStart }

/-- The mode block of `control`. -/
def control_mode (mode : ClimateMode) (s : GreeACCNT) : GreeACCNT :=
  let s := mark_for_update_ s
  let s := { s with mode := mode }
  if s.light_mode_ = some .AUTO then { s with light_state_ := s.mode ≠ .OFF } else s

/-- The target temperature block of `control`: the requested value is stored as it is and
then clamped to `MIN_TEMPERATURE .. MAX_TEMPERATURE`; nothing is rounded here. -/
def control_target_temperature (target_temperature : ℚ) (s : GreeACCNT) : GreeACCNT :=
  let s := mark_for_update_ s
  let s := { s with target_temperature := target_temperature }
  if s.target_temperature < (MIN_TEMPERATURE : ℚ) then
    { s with target_temperature := (MIN_TEMPERATURE : ℚ) }
  else if s.target_temperature > (MAX_TEMPERATURE : ℚ) then
    { s with target_temperature := (MAX_TEMPERATURE : ℚ) }
  else s

/-- The fan mode block of `control`. -/
def control_fan_mode (custom_fan_mode : fan_modes) (s : GreeACCNT) : GreeACCNT :=
  let s := mark_for_update_ s
  let s := { s with custom_fan_mode := some custom_fan_mode }
  let s := (update_turbo false s).2
  (update_quiet .OFF s).2

/-- The swing mode block of `control`. -/
def control_swing_mode (swing_mode : ClimateSwingMode) (s : GreeACCNT) : GreeACCNT :=
  let s := mark_for_update_ s
  match swing_mode with
  | .BOTH => { s with vertical_swing_state_ := some .FULL, horizontal_swing_state_ := some .FULL }
  | .OFF => { s with vertical_swing_state_ := some .CMID, horizontal_swing_state_ := some .CMID }
  | .VERTICAL =>
    { s with vertical_swing_state_ := some .FULL, horizontal_swing_state_ := some .CMID }
  | .HORIZONTAL =>
    { s with vertical_swing_state_ := some .CMID, horizontal_swing_state_ := some .FULL }

/-- The function `control`. -/
def control (call : ClimateCall) (s : GreeACCNT) : GreeACCNT :=
  if s.state_ ≠ .Ready then s
  else
    let s := match call.mode with
      | some mode => control_mode mode s
      | none => s
    let s := match call.target_temperature with
      | some target_temperature => control_target_temperature target_temperature s
      | none => s
    let s := match call.custom_fan_mode with
      | some custom_fan_mode => control_fan_mode custom_fan_mode s
      | none => s
    match call.swing_mode with
    | some swing_mode => control_swing_mode swing_mode s
    | none => s

/-- The function `on_vertical_swing_change`. -/
def on_vertical_swing_change (swing : vertical_swing_options) (s : GreeACCNT) : GreeACCNT :=
  if s.state_ ≠ .Ready then s
  else { mark_for_update_ s with vertical_swing_state_ := some swing }

/-- The function `on_horizontal_swing_change`. -/
def on_horizontal_swing_change (swing : horizontal_swing_options) (s : GreeACCNT) : GreeACCNT :=
  if s.state_ ≠ .Ready then s
  else { mark_for_update_ s with horizontal_swing_state_ := some swing }

/-- The function `on_display_change`. -/
def on_display_change (display : display_options) (s : GreeACCNT) : GreeACCNT :=
  if s.state_ ≠ .Ready then s
  else { mark_for_update_ s with display_state_ := some display }

/-- The function `on_display_unit_change`. -/
def on_display_unit_change (display_unit : display_unit_options) (s : GreeACCNT) : GreeACCNT :=
  if s.state_ ≠ .Ready then s
  else { mark_for_update_ s with display_unit_state_ := some display_unit }

/-- The function `on_light_mode_change`. -/
def on_light_mode_change (mode : light_options) (s : GreeACCNT) : GreeACCNT :=
  if s.state_ ≠ .Ready then s
  else
    let s := mark_for_update_ s
    let s := { s with light_mode_ := some mode }
    if s.light_mode_ = some .AUTO then { s with light_state_ := s.mode ≠ .OFF }
    else if s.light_mode_ = some .ON then { s with light_state_ := true }
    else { s with light_state_ := false }

/-- The function `on_ionizer_change`. -/
def on_ionizer_change (ionizer : Bool) (s : GreeACCNT) : GreeACCNT :=
  if s.state_ ≠ .Ready then s else { mark_for_update_ s with ionizer_state_ := ionizer }

/-- The function `on_beeper_change`. -/
def on_beeper_change (beeper : Bool) (s : GreeACCNT) : GreeACCNT :=
  if s.state_ ≠ .Ready then s else { mark_for_update_ s with beeper_state_ := beeper }

/-- The function `on_sleep_change`. -/
def on_sleep_change (sleep : Bool) (s : GreeACCNT) : GreeACCNT :=
  if s.state_ ≠ .Ready then s else { mark_for_update_ s with sleep_state_ := sleep }

/-- The function `on_xfan_change`. -/
def on_xfan_change (xfan : Bool) (s : GreeACCNT) : GreeACCNT :=
  if s.state_ ≠ .Ready then s else { mark_for_update_ s with xfan_state_ := xfan }

/-- The function `on_powersave_change`. -/
def on_powersave_change (powersave : Bool) (s : GreeACCNT) : GreeACCNT :=
  if s.state_ ≠ .Ready then s else { mark_for_update_ s with powersave_state_ := powersave }

/-- The function `on_turbo_change`. -/
def on_turbo_change (turbo : Bool) (s : GreeACCNT) : GreeACCNT :=
  if s.state_ ≠ .Ready then s
  else
    let s := { mark_for_update_ s with turbo_state_ := turbo }
    if turbo then (update_quiet .OFF s).2 else s

/-- The function `on_ifeel_change`. -/
def on_ifeel_change (ifeel : Bool) (s : GreeACCNT) : GreeACCNT :=
  if s.state_ ≠ .Ready then s else { mark_for_update_ s with ifeel_state_ := ifeel }

/-- The function `on_quiet_change`. -/
def on_quiet_change (quiet : quiet_options) (s : GreeACCNT) : GreeACCNT :=
  if s.state_ ≠ .Ready then s
  else
    let s := { mark_for_update_ s with quiet_state_ := some quiet }
    if quiet ≠ .OFF then (update_turbo false s).2 else s

/-! ## Transmission and scheduling (`transmit_packet`, `send_*`, `setup`, `loop`) -/

/-- The difference `a - b` of two `uint32_t` values. -/
def u32sub (a b : Nat) : Nat := (a + 2 ^ 32 - b % 2 ^ 32) % 2 ^ 32

/-- The function `transmit_packet`, called at time `now`. -/
def transmit_packet (now : Nat) (packet : Bytes) (length : Nat) (s : GreeACCNT) : GreeACCNT :=
  { s with
    last_packet_sent_ := now
    last_packet_duration_ms_ := (length * 11000) / 4800
    transmitted := packet.take length :: s.transmitted }

/-- The function `send_special_startup_packet`. -/
def send_special_startup_packet (now : Nat) (s : GreeACCNT) : GreeACCNT :=
  { transmit_packet now special_startup_packet 19 s with startup_special_sent_ := true }

/-- The function `send_params_set_packet`: nothing is sent while a response is awaited
and the response timeout has not elapsed. -/
def send_params_set_packet (p : Protocol) (now : Nat) (s : GreeACCNT) : GreeACCNT :=
  if s.wait_response_ ∧ u32sub now s.last_packet_sent_ < p.TIME_WAIT_RESPONSE_TIMEOUT_MS then s
  else
    let s := if s.wait_response_ then { s with wait_response_ := false } else s
    let full_packet := params_set_packet p s
    let s := { s with wait_response_ := true }
    let s := transmit_packet now full_packet (p.SET_PACKET_LEN + 5) s
    match s.update_ with
    | .NoUpdate => s
    | .UpdateStart => { s with update_ := .NoUpdate }
    | .UpdateClear => { s with update_ := .NoUpdate }

/-- The function `send_mac_report_packet`; `mac` is the result of `get_mac_address_raw`. -/
def send_mac_report_packet (p : Protocol) (mac : Bytes) (now : Nat) (s : GreeACCNT) : GreeACCNT :=
  transmit_packet now (mac_report_packet p mac) 16 s

/-- The function `send_sync_time_packet`. -/
def send_sync_time_packet (p : Protocol) (now : Nat) (s : GreeACCNT) : GreeACCNT :=
  { transmit_packet now (sync_time_packet p) 17 s with last_sync_time_sent_ := now }

/-- The function `GreeAC::setup`, run at time `now`. -/
def setup (now : Nat) (s : GreeACCNT) : GreeACCNT :=
  { s with
    init_time_ := now
    last_packet_sent_ := now
    light_mode_ := some .AUTO
    light_state_ := false
    light_select_ := s.light_select_.map (fun _ => some .AUTO)
    serialProcess_ := { s.serialProcess_ with
      state := .STATE_WAIT_SYNC, last_byte_time := now, size := 0 } }

/-- The function `GreeACCNT::setup`, run at time `now`. -/
def GreeACCNT.setup (p : Protocol) (now : Nat) (s : GreeACCNT) : GreeACCNT :=
  { GreeAC.setup now s with
    startup_special_sent_ := false
    mac_packets_pending_ := 3
    last_mac_sequence_millis_ := 0
    last_sync_time_sent_ := u32sub now 10000
    last_packet_duration_ms_ := 0
    last_packet_sent_ := u32sub (u32sub now p.TIME_REFRESH_PERIOD_MS) 1000 }

/-- The first block of `GreeACCNT::loop`: what is done with a complete frame. -/
def loop_frame (p : Protocol) (now : Nat) (s : GreeACCNT) : GreeACCNT :=
  if s.serialProcess_.state = .STATE_COMPLETE then
    let s := { s with wait_response_ := false }
    let s :=
      if verify_packet p s then
        let s := { s with last_packet_received_ := now }
        let s := if s.state_ ≠ .Ready then { s with state_ := .Ready, status_error := false } else s
        if s.update_ = .NoUpdate then handle_packet p s else s
      else s
    { s with serialProcess_ := { s.serialProcess_ with size := 0, state := .STATE_WAIT_SYNC } }
  else s

/-- The second block of `GreeACCNT::loop`: the frame to send, by priority, once the gap
since the last transmission has elapsed. -/
def loop_send (p : Protocol) (mac : Bytes) (now : Nat) (s : GreeACCNT) : GreeACCNT :=
  if u32sub now s.last_packet_sent_ ≥ p.TIME_REFRESH_PERIOD_MS + s.last_packet_duration_ms_ then
    if !s.startup_special_sent_ then send_special_startup_packet now s
    else if s.mac_packets_pending_ > 0 then
      let s := send_mac_report_packet p mac now s
      let s := { s with mac_packets_pending_ := s.mac_packets_pending_ - 1 }
      if s.mac_packets_pending_ = 0 then { s with last_mac_sequence_millis_ := now } else s
    else if u32sub now s.last_sync_time_sent_ ≥ 10000 then send_sync_time_packet p now s
    else if u32sub now s.last_mac_sequence_millis_ ≥ p.TIME_MAC_CYCLE_PERIOD_MS then
      { s with mac_packets_pending_ := 6 }
    else send_params_set_packet p now s
  else s

/-- The third block of `GreeACCNT::loop`: the inactivity timeout. -/
def loop_timeout (p : Protocol) (now : Nat) (s : GreeACCNT) : GreeACCNT :=
  if u32sub now s.last_packet_received_ ≥ p.TIME_TIMEOUT_INACTIVE_MS then
    if s.state_ ≠ .Initializing then { s with state_ := .Initializing, status_error := true }
    else s
  else s

/-- The function `GreeACCNT::loop`, one scheduling pass at time `now` (the value every
`millis()` call of the pass returns). -/
def GreeACCNT.loop (p : Protocol) (mac : Bytes) (now : Nat) (s : GreeACCNT) : GreeACCNT :=
  loop_timeout p now (loop_send p mac now (loop_frame p now (GreeAC.loop now s)))

/-! ## Events

What can happen to the engine after `setup`: bytes arrive on the UART, a scheduling
pass runs, or the climate entity or a UI entity issues a request. -/

/-- One event in the life of the engine. -/
inductive Event
  | arrive (bytes : List Nat)
  | loop (now : Nat)
  | control (call : ClimateCall)
  | on_vertical_swing_change (swing : vertical_swing_options)
  | on_horizontal_swing_change (swing : horizontal_swing_options)
  | on_display_change (display : display_options)
  | on_display_unit_change (display_unit : display_unit_options)
  | on_light_mode_change (mode : light_options)
  | on_ionizer_change (ionizer : Bool)
  | on_beeper_change (beeper : Bool)
  | on_sleep_change (sleep : Bool)
  | on_xfan_change (xfan : Bool)
  | on_powersave_change (powersave : Bool)
  | on_turbo_change (turbo : Bool)
  | on_ifeel_change (ifeel : Bool)
  | on_quiet_change (quiet : quiet_options)
  deriving DecidableEq, Repr

/-- The effect of one event. -/
def Event.apply (p : Protocol) (mac : Bytes) (e : Event) (s : GreeACCNT) : GreeACCNT :=
  match e with
  | .arrive bytes => { s with uart_rx := s.uart_rx ++ bytes }
  | .loop now => s.loop p mac now
  | .control call => GreeAC.control call s
  | .on_vertical_swing_change swing => GreeAC.on_vertical_swing_change swing s
  | .on_horizontal_swing_change swing => GreeAC.on_horizontal_swing_change swing s
  | .on_display_change display => GreeAC.on_display_change display s
  | .on_display_unit_change display_unit => GreeAC.on_display_unit_change display_unit s
  | .on_light_mode_change mode => GreeAC.on_light_mode_change mode s
  | .on_ionizer_change ionizer => GreeAC.on_ionizer_change ionizer s
  | .on_beeper_change beeper => GreeAC.on_beeper_change beeper s
  | .on_sleep_change sleep => GreeAC.on_sleep_change sleep s
  | .on_xfan_change xfan => GreeAC.on_xfan_change xfan s
  | .on_powersave_change powersave => GreeAC.on_powersave_change powersave s
  | .on_turbo_change turbo => GreeAC.on_turbo_change turbo s
  | .on_ifeel_change ifeel => GreeAC.on_ifeel_change ifeel s
  | .on_quiet_change quiet => GreeAC.on_quiet_change quiet s

/-- The state after a sequence of events. -/
def run (p : Protocol) (mac : Bytes) (events : List Event) (s : GreeACCNT) : GreeACCNT :=
  events.foldl (fun s e => e.apply p mac s) s

/-! ## Bit fields of the parameter payload

The statements of `send_params_set_packet` that or a value into the payload, one
name per statement, in source order. They are used to state which bits of the payload
each statement may touch. -/

/-- The or-statements of `send_params_set_packet`. -/
inductive BitField
  | mode | pwr | temp | spd2 | spd1 | turbo | quiet | quietAuto | vswing | hswing
  | dispMode | dispOn | dispF | ion1 | ion2 | beeper | sleep | xfan | powersave | ifeel
  deriving DecidableEq, Repr, Fintype

/-- The or-statements in the order in which `send_params_set_packet` executes them. -/
def BitField.order : List BitField :=
  [.mode, .pwr, .temp, .spd2, .spd1, .turbo, .quiet, .quietAuto, .vswing, .hswing,
   .dispMode, .dispOn, .dispF, .ion1, .ion2, .beeper, .sleep, .xfan, .powersave, .ifeel]

/-- The byte index and the mask of each field. The second fan field has no mask
constant; its two-bit value `byte4 <= 3` is shifted by `REPORT_FAN_SPD2_POS`. -/
def Protocol.loc (p : Protocol) : BitField → Nat × Nat
  | .mode => (p.REPORT_MODE_BYTE, p.REPORT_MODE_MASK)
  | .pwr => (p.REPORT_PWR_BYTE, p.REPORT_PWR_MASK)
  | .temp => (p.REPORT_TEMP_SET_BYTE, p.REPORT_TEMP_SET_MASK)
  | .spd2 => (p.REPORT_FAN_SPD2_BYTE, 3 <<< p.REPORT_FAN_SPD2_POS)
  | .spd1 => (p.REPORT_FAN_SPD1_BYTE, p.REPORT_FAN_SPD1_MASK)
  | .turbo => (p.REPORT_FAN_TURBO_BYTE, p.REPORT_FAN_TURBO_MASK)
  | .quiet => (p.REPORT_FAN_QUIET_BYTE, p.REPORT_FAN_QUIET_MASK)
  | .quietAuto => (p.REPORT_FAN_QUIET_BYTE, p.REPORT_FAN_QUIET_AUTO_MASK)
  | .vswing => (p.REPORT_VSWING_BYTE, p.REPORT_VSWING_MASK)
  | .hswing => (p.REPORT_HSWING_BYTE, p.REPORT_HSWING_MASK)
  | .dispMode => (p.REPORT_DISP_MODE_BYTE, p.REPORT_DISP_MODE_MASK)
  | .dispOn => (p.REPORT_DISP_ON_BYTE, p.REPORT_DISP_ON_MASK)
  | .dispF => (p.REPORT_DISP_F_BYTE, p.REPORT_DISP_F_MASK)
  | .ion1 => (p.REPORT_IONIZER1_BYTE, p.REPORT_IONIZER1_MASK)
  | .ion2 => (p.REPORT_IONIZER2_BYTE, p.REPORT_IONIZER2_MASK)
  | .beeper => (p.REPORT_BEEPER_BYTE, p.REPORT_BEEPER_MASK)
  | .sleep => (p.REPORT_SLEEP_BYTE, p.REPORT_SLEEP_MASK)
  | .xfan => (p.REPORT_XFAN_BYTE, p.REPORT_XFAN_MASK)
  | .powersave => (p.REPORT_POWERSAVE_BYTE, p.REPORT_POWERSAVE_MASK)
  | .ifeel => (p.REPORT_IFEEL_BYTE, p.REPORT_IFEEL_MASK)

/-- The condition under which the or-statement of a field is executed. -/
def fieldActive (p : Protocol) (s : GreeACCNT) : BitField → Bool
  | .mode => true
  | .pwr => (mode_and_power p s).2
  | .temp => true
  | .spd2 => s.custom_fan_mode.isSome
  | .spd1 => s.custom_fan_mode.isSome
  | .turbo => s.turbo_state_
  | .quiet => s.quiet_state_ = some .ON
  | .quietAuto => s.quiet_state_ = some .AUTO
  | .vswing => true
  | .hswing => true
  | .dispMode => true
  | .dispOn => s.light_state_
  | .dispF => s.display_unit_state_ = some .DEGF
  | .ion1 => s.ionizer_state_
  | .ion2 => s.ionizer_state_
  | .beeper => !s.beeper_state_
  | .sleep => s.sleep_state_
  | .xfan => s.xfan_state_
  | .powersave => s.powersave_state_
  | .ifeel => s.ifeel_state_

/-- The value that the or-statement of a field writes. -/
def fieldBits (p : Protocol) (s : GreeACCNT) : BitField → Nat
  | .mode => (mode_and_power p s).1 <<< p.REPORT_MODE_POS
  | .pwr => p.REPORT_PWR_MASK
  | .temp => target_temperature_bits p s
  | .spd2 =>
    match s.custom_fan_mode with
    | some custom_fan_mode => (fan_mode_bytes custom_fan_mode).1 <<< p.REPORT_FAN_SPD2_POS
    | none => 0
  | .spd1 =>
    match s.custom_fan_mode with
    | some custom_fan_mode => (fan_mode_bytes custom_fan_mode).2 <<< p.REPORT_FAN_SPD1_POS
    | none => 0
  | .turbo => p.REPORT_FAN_TURBO_MASK
  | .quiet => p.REPORT_FAN_QUIET_MASK
  | .quietAuto => p.REPORT_FAN_QUIET_AUTO_MASK
  | .vswing => mode_vertical_swing p s <<< p.REPORT_VSWING_POS
  | .hswing => mode_horizontal_swing p s <<< p.REPORT_HSWING_POS
  | .dispMode => display_mode p s <<< p.REPORT_DISP_MODE_POS
  | .dispOn => p.REPORT_DISP_ON_MASK
  | .dispF => p.REPORT_DISP_F_MASK
  | .ion1 => p.REPORT_IONIZER1_MASK
  | .ion2 => p.REPORT_IONIZER2_MASK
  | .beeper => p.REPORT_BEEPER_MASK
  | .sleep => p.REPORT_SLEEP_MASK
  | .xfan => p.REPORT_XFAN_MASK
  | .powersave => p.REPORT_POWERSAVE_MASK
  | .ifeel => p.REPORT_IFEEL_MASK

/-- The bits of a field that the payload receives: the value written, or nothing when
the statement is skipped. -/
def fieldValue (p : Protocol) (s : GreeACCNT) (f : BitField) : Nat :=
  if fieldActive p s f then fieldBits p s f else 0

/-- One or-statement of `send_params_set_packet` applied to the payload. -/
def fieldStep (p : Protocol) (s : GreeACCNT) (payload : Bytes) (f : BitField) : Bytes :=
  orAtIf (fieldActive p s f) payload (p.loc f).1 (fieldBits p s f)

/-- The payload before the first or-statement: zero-filled, with the two constants and,
for `UpdateStart`, the `0xAF` marker assigned. -/
def payloadBase (p : Protocol) (u : ACUpdate) : Bytes :=
  let payload := List.replicate p.SET_PACKET_LEN 0
  let payload := wr payload p.SET_CONST_02_BYTE p.SET_CONST_02_VAL
  let payload := wr payload p.SET_CONST_BIT_BYTE p.SET_CONST_BIT_MASK
  match u with
  | .NoUpdate => payload
  | .UpdateStart => wr payload p.SET_AF_BYTE p.SET_AF_VAL
  | .UpdateClear => payload

/-- The shifted code `c << pos` lies inside `mask`; equivalently the mask and the shift
preserve the code, `((c << pos) & mask) >> pos = c`. -/
def Fits (c pos mask : Nat) : Prop := (c <<< pos) &&& mask = c <<< pos

instance (c pos mask : Nat) : Decidable (Fits c pos mask) := by
  unfold Fits; infer_instance

/-- The mode codes of the `switch` of `determine_mode`. -/
def Protocol.modeCodes (p : Protocol) : List Nat :=
  [p.REPORT_MODE_AUTO, p.REPORT_MODE_COOL, p.REPORT_MODE_DRY, p.REPORT_MODE_FAN,
   p.REPORT_MODE_HEAT]

/-- The vertical swing codes, in the order of the table of `determine_vertical_swing`. -/
def Protocol.vswingCodes (p : Protocol) : List Nat := (VSWING_MAP_REPORT p).map Prod.fst

/-- The horizontal swing codes, in the order of the table of `determine_horizontal_swing`. -/
def Protocol.hswingCodes (p : Protocol) : List Nat := (HSWING_MAP_REPORT p).map Prod.fst

/-- The fan codes of the table of `determine_fan_mode`, `0x08 .. 0x0D`. -/
def fanCodes : List Nat := FAN_MAP_REPORT.map Prod.fst

/-- Conditions on the protocol constants under which `send_params_set_packet` stays
inside its `payload` array and loses no bit of a code: every byte index it uses is
below `SET_PACKET_LEN` (the source would otherwise store outside the array), and every
code it writes fits the mask of its field. -/
structure Protocol.WellFormed (p : Protocol) : Prop where
  inBounds : ∀ f : BitField, (p.loc f).1 < p.SET_PACKET_LEN
  const02InBounds : p.SET_CONST_02_BYTE < p.SET_PACKET_LEN
  constBitInBounds : p.SET_CONST_BIT_BYTE < p.SET_PACKET_LEN
  afInBounds : p.SET_AF_BYTE < p.SET_PACKET_LEN
  modeFits : ∀ c ∈ p.modeCodes, Fits c p.REPORT_MODE_POS p.REPORT_MODE_MASK
  fanFits : ∀ c ∈ fanCodes, Fits c p.REPORT_FAN_SPD1_POS p.REPORT_FAN_SPD1_MASK
  vswingFits : ∀ c ∈ p.vswingCodes, Fits c p.REPORT_VSWING_POS p.REPORT_VSWING_MASK
  hswingFits : ∀ c ∈ p.hswingCodes, Fits c p.REPORT_HSWING_POS p.REPORT_HSWING_MASK
  dispFits : ∀ c ∈ [p.REPORT_DISP_MODE_SET, p.REPORT_DISP_MODE_ACT],
    Fits c p.REPORT_DISP_MODE_POS p.REPORT_DISP_MODE_MASK

/-- The field `f` is not overlapped: its mask is a `uint8_t`, every other field that
shares its byte has a disjoint mask, and the two constant bytes do not touch it. -/
structure Protocol.Isolated (p : Protocol) (f : BitField) : Prop where
  maskU8 : (p.loc f).2 < 256
  disjoint : ∀ g : BitField, g ≠ f → (p.loc g).1 = (p.loc f).1 →
    (p.loc g).2 &&& (p.loc f).2 = 0
  const02 : p.SET_CONST_02_BYTE = (p.loc f).1 → p.SET_CONST_02_VAL &&& (p.loc f).2 = 0
  constBit : p.SET_CONST_BIT_BYTE = (p.loc f).1 → p.SET_CONST_BIT_MASK &&& (p.loc f).2 = 0

/-- The `0xAF` marker byte does not overlap the field `f`. -/
def Protocol.AFClear (p : Protocol) (f : BitField) : Prop :=
  p.SET_AF_BYTE = (p.loc f).1 → p.SET_AF_VAL &&& (p.loc f).2 = 0

instance (p : Protocol) (f : BitField) : Decidable (p.AFClear f) := by
  unfold Protocol.AFClear; infer_instance

/-- A concrete assignment of the protocol constants, used to evaluate the definitions
on concrete inputs. The authoritative values are those of `gree_ac_cnt.h`. -/
def sampleProtocol : Protocol where
  SYNC := 0x7E
  CMD_IN_UNIT_REPORT := 0x31
  CMD_OUT_PARAMS_SET := 0x01
  CMD_OUT_MAC_REPORT := 0x04
  CMD_OUT_SYNC_TIME := 0x03
  TIME_REFRESH_PERIOD_MS := 300
  TIME_MAC_CYCLE_PERIOD_MS := 600000
  TIME_TIMEOUT_INACTIVE_MS := 10000
  TIME_WAIT_RESPONSE_TIMEOUT_MS := 1000
  SET_PACKET_LEN := 45
  SET_CONST_02_BYTE := 1
  SET_CONST_02_VAL := 0x02
  SET_CONST_BIT_BYTE := 7
  SET_CONST_BIT_MASK := 0x40
  SET_AF_BYTE := 0
  SET_AF_VAL := 0xAF
  REPORT_PWR_BYTE := 4
  REPORT_PWR_MASK := 0x80
  REPORT_MODE_BYTE := 4
  REPORT_MODE_MASK := 0x70
  REPORT_MODE_POS := 4
  REPORT_MODE_AUTO := 0
  REPORT_MODE_COOL := 1
  REPORT_MODE_DRY := 2
  REPORT_MODE_FAN := 3
  REPORT_MODE_HEAT := 4
  REPORT_TEMP_SET_BYTE := 5
  REPORT_TEMP_SET_MASK := 0xF0
  REPORT_TEMP_SET_POS := 4
  REPORT_TEMP_SET_OFF := 16
  REPORT_TEMP_ACT_BYTE := 42
  REPORT_TEMP_ACT_OFF := 40
  REPORT_FAN_SPD1_BYTE := 18
  REPORT_FAN_SPD1_MASK := 0x0F
  REPORT_FAN_SPD1_POS := 0
  REPORT_FAN_SPD2_BYTE := 4
  REPORT_FAN_SPD2_POS := 0
  REPORT_FAN_TURBO_BYTE := 6
  REPORT_FAN_TURBO_MASK := 0x01
  REPORT_FAN_QUIET_BYTE := 16
  REPORT_FAN_QUIET_MASK := 0x08
  REPORT_FAN_QUIET_AUTO_MASK := 0x04
  REPORT_VSWING_BYTE := 8
  REPORT_VSWING_MASK := 0xF0
  REPORT_VSWING_POS := 4
  REPORT_VSWING_OFF := 0
  REPORT_VSWING_FULL := 1
  REPORT_VSWING_CUP := 2
  REPORT_VSWING_CMIDU := 3
  REPORT_VSWING_CMID := 4
  REPORT_VSWING_CMIDD := 5
  REPORT_VSWING_CDOWN := 6
  REPORT_VSWING_DOWN := 7
  REPORT_VSWING_MIDD := 8
  REPORT_VSWING_MID := 9
  REPORT_VSWING_MIDU := 10
  REPORT_VSWING_UP := 11
  REPORT_HSWING_BYTE := 8
  REPORT_HSWING_MASK := 0x07
  REPORT_HSWING_POS := 0
  REPORT_HSWING_OFF := 0
  REPORT_HSWING_FULL := 1
  REPORT_HSWING_CLEFT := 2
  REPORT_HSWING_CMIDL := 3
  REPORT_HSWING_CMID := 4
  REPORT_HSWING_CMIDR := 5
  REPORT_HSWING_CRIGHT := 6
  REPORT_DISP_MODE_BYTE := 9
  REPORT_DISP_MODE_MASK := 0x30
  REPORT_DISP_MODE_POS := 4
  REPORT_DISP_MODE_SET := 1
  REPORT_DISP_MODE_ACT := 2
  REPORT_DISP_MODE_OUT := 3
  REPORT_DISP_ON_BYTE := 6
  REPORT_DISP_ON_MASK := 0x02
  REPORT_DISP_F_BYTE := 7
  REPORT_DISP_F_MASK := 0x80
  REPORT_IONIZER1_BYTE := 6
  REPORT_IONIZER1_MASK := 0x04
  REPORT_IONIZER2_BYTE := 0
  REPORT_IONIZER2_MASK := 0x04
  REPORT_BEEPER_BYTE := 3
  REPORT_BEEPER_MASK := 0x01
  REPORT_SLEEP_BYTE := 4
  REPORT_SLEEP_MASK := 0x08
  REPORT_XFAN_BYTE := 6
  REPORT_XFAN_MASK := 0x08
  REPORT_POWERSAVE_BYTE := 11
  REPORT_POWERSAVE_MASK := 0x40
  REPORT_IFEEL_BYTE := 12
  REPORT_IFEEL_MASK := 0x01

/-- The wire code that the `switch` statements of `send_params_set_packet` and
`determine_mode` pair with each active mode; `none` for the modes without a code. -/
def Protocol.REPORT_MODE (p : Protocol) : ClimateMode → Option Nat
  | .AUTO => some p.REPORT_MODE_AUTO
  | .COOL => some p.REPORT_MODE_COOL
  | .DRY => some p.REPORT_MODE_DRY
  | .FAN_ONLY => some p.REPORT_MODE_FAN
  | .HEAT => some p.REPORT_MODE_HEAT
  | _ => none

/-- The one-bit (flag) fields of the payload. -/
def BitField.flags : List BitField :=
  [.turbo, .quiet, .quietAuto, .dispOn, .dispF, .ion1, .ion2, .beeper, .sleep, .xfan,
   .powersave, .ifeel]

/-- A concrete climate state, used to evaluate the definitions. -/
def sampleState : GreeACCNT where
  state_ := .Ready
  update_ := .NoUpdate
  mode := .COOL
  mode_internal_ := .COOL
  power_internal_ := true
  target_temperature := 24
  custom_fan_mode := some .FAN_MED
  vertical_swing_state_ := some .CMID
  horizontal_swing_state_ := some .CLEFT
  display_state_ := some .ACT
  display_unit_state_ := some .DEGC
  light_mode_ := some .AUTO
  light_state_ := true
  ionizer_state_ := true
  beeper_state_ := false
  sleep_state_ := true
  xfan_state_ := false
  powersave_state_ := true
  turbo_state_ := false
  ifeel_state_ := true
  quiet_state_ := some .AUTO

/-- An engine whose receive buffer holds the payload encoded from `sampleState`. -/
def sampleReport : GreeACCNT where
  serialProcess_ := { data := params_set_payload sampleProtocol sampleState, size := 45 }

/-- The sample state switched off, with the display option "actual" selected. -/
def sampleOffState : GreeACCNT := { sampleState with mode := .OFF, light_state_ := false }

/-- An engine whose receive buffer holds the payload encoded from `sampleOffState`. -/
def sampleOffReport : GreeACCNT where
  serialProcess_ := { data := params_set_payload sampleProtocol sampleOffState, size := 45 }

/-! ## Checksum and frame shape, as the specification words them -/

/-- The checksum as the specification words it: the sum of `data[2] .. data[len - 2]`
taken modulo 256 (0 when that range is empty). -/
def checksum_sum (data : Bytes) (len : Nat) : Nat :=
  ((List.range' 2 (len - 3)).map (rd data)).sum % 256

/-- The shape of a frame on the wire: two sync bytes, a length byte equal to the total
size minus 3, and a trailing byte accepted by `verify_checksum_`. -/
def FrameWellFormed (sync : Nat) (frame : Bytes) : Prop :=
  rd frame 0 = sync ∧ rd frame 1 = sync ∧ rd frame 2 = frame.length - 3 ∧
    verify_checksum_ frame frame.length = true

instance (sync : Nat) (frame : Bytes) : Decidable (FrameWellFormed sync frame) := by
  unfold FrameWellFormed; infer_instance

/-- Bit `k` of byte `i` of the buffer flipped. -/
def flipBit (data : Bytes) (i k : Nat) : Bytes := data.set i (rd data i ^^^ 2 ^ k)

/-- The engine with bit `k` of byte `i` of its receive buffer flipped. -/
def GreeACCNT.flipBit (s : GreeACCNT) (i k : Nat) : GreeACCNT :=
  { s with serialProcess_ := { s.serialProcess_ with data := GreeAC.flipBit s.serialProcess_.data i k } }

/-- An engine that has assembled the seven-byte unit report
`7E 7E 04 31 12 34 7B` (command `0x31`, payload `12 34`, checksum `0x7B`). -/
def sampleReceived : GreeACCNT where
  serialProcess_ :=
    { state := .STATE_COMPLETE, size := 7, frame_size := 4,
      data := [0x7E, 0x7E, 0x04, 0x31, 0x12, 0x34, 0x7B] }

/-- An engine that has assembled the seven-byte frame `7E 7E 04 A1 00 00 A5`, whose
checksum is correct and whose command `0xA1` is not the unit report. -/
def sampleUnsupported : GreeACCNT where
  serialProcess_ :=
    { state := .STATE_COMPLETE, size := 7, frame_size := 4,
      data := [0x7E, 0x7E, 0x04, 0xA1, 0x00, 0x00, 0xA5] }

/-- An engine that has assembled the four-byte frame `7E 7E 01 31`. -/
def sampleShort : GreeACCNT where
  serialProcess_ :=
    { state := .STATE_COMPLETE, size := 4, frame_size := 1, data := [0x7E, 0x7E, 0x01, 0x31] }

/-- An engine that has assembled the unit report `7E 7E 04 31 12 34 7C`, whose trailing
byte is not the checksum `0x7B`. -/
def sampleBadChecksum : GreeACCNT where
  serialProcess_ :=
    { state := .STATE_COMPLETE, size := 7, frame_size := 4,
      data := [0x7E, 0x7E, 0x04, 0x31, 0x12, 0x34, 0x7C] }

/-- No two adjacent bytes after the first byte of the frame are both `0x7E`. -/
def NoMarkerPair (frame : Bytes) : Prop :=
  ∀ i, i < frame.length → 1 ≤ i → ¬(rd frame i = 0x7E ∧ rd frame (i + 1) = 0x7E)

instance (frame : Bytes) : Decidable (NoMarkerPair frame) := by
  unfold NoMarkerPair; infer_instance

/-- A reset of the buffer between the assembler states `a` and `b`: it is cleared, or
it is cut back to the two marker bytes. -/
def BufferReset (a b : SerialProcess) : Prop :=
  b.size = 0 ∨ (b.size = 2 ∧ 2 ≤ a.size ∧ rd b.data 0 = 0x7E ∧ rd b.data 1 = 0x7E)

instance (a b : SerialProcess) : Decidable (BufferReset a b) := by
  unfold BufferReset; infer_instance

/-- The 200-byte frame `7E 7E C5 00 ... 00` with declared length 197. -/
def frame200 : Bytes := [0x7E, 0x7E, 197] ++ List.replicate 197 0

/-- A powered-on engine before `setup`: every member at its initial value, the receive
buffer 200 bytes long. -/
def powerOn : GreeACCNT where
  serialProcess_ := emptyAssembler

/-- The sample state before the first valid frame: the connection is `Initializing`. -/
def sampleInitializing : GreeACCNT := { sampleState with state_ := .Initializing }

/-- The sample state with turbo on and quiet on, as a unit could report it. -/
def sampleTurboQuiet : GreeACCNT := { sampleState with turbo_state_ := true, quiet_state_ := some .ON }

/-- The seven bytes `7E 7E 05 A1 00 00 A6`: the length byte declares eight bytes. -/
def unsupportedSeven : Bytes := [0x7E, 0x7E, 0x05, 0xA1, 0x00, 0x00, 0xA6]

/-- The eight-byte frame `7E 7E 05 A1 00 00 00 A6`: command `0xA1`, three payload bytes,
checksum `0xA6`. -/
def unsupportedEight : Bytes := [0x7E, 0x7E, 0x05, 0xA1, 0x00, 0x00, 0x00, 0xA6]

/-- A request for a target temperature of 35 degrees. -/
def sampleCall35 : ClimateCall := { target_temperature := some 35 }

/-- An engine whose receive buffer holds the payload encoded after `sampleCall35` was
applied to `sampleState`. -/
def sampleClampedReport : GreeACCNT where
  serialProcess_ := { data := params_set_payload sampleProtocol (control sampleCall35 sampleState) }

/-- A climate call that asks for a target temperature of 23.5 degrees. -/
def sampleCallHalf : ClimateCall := { target_temperature := some (mkRat 47 2) }

/-- An engine whose receive buffer holds the payload encoded after `sampleCallHalf` was
applied to `sampleState`. -/
def sampleHalfReport : GreeACCNT where
  serialProcess_ :=
    { data := params_set_payload sampleProtocol (control sampleCallHalf sampleState) }

/-- Turbo is not active at the same time as quiet is on or auto. -/
def Exclusive (s : GreeACCNT) : Prop :=
  ¬(s.turbo_state_ = true ∧ (s.quiet_state_ = some .ON ∨ s.quiet_state_ = some .AUTO))

instance (s : GreeACCNT) : Decidable (Exclusive s) := by
  unfold Exclusive; infer_instance

/-- The frame that the frame block of `GreeACCNT::loop` would hand to
`processUnitReport` in the state `s`, if any, does not report turbo together with quiet
on or auto. -/
def ReportExclusive (p : Protocol) (s : GreeACCNT) : Prop :=
  s.serialProcess_.state = .STATE_COMPLETE → verify_packet p s = true → s.update_ = .NoUpdate →
    ¬(determine_turbo p (move_payload s) = true ∧ determine_quiet p (move_payload s) ≠ .OFF)

instance (p : Protocol) (s : GreeACCNT) : Decidable (ReportExclusive p s) := by
  unfold ReportExclusive; infer_instance

/-- The condition `ReportExclusive` for the frame that the event `e` processes in the
state `s`: only a scheduling pass processes a frame, after its read loop. -/
def Event.reportExclusive (p : Protocol) (e : Event) (s : GreeACCNT) : Prop :=
  match e with
  | .loop now => ReportExclusive p (GreeAC.loop now s)
  | _ => True

instance (p : Protocol) (e : Event) (s : GreeACCNT) : Decidable (e.reportExclusive p s) := by
  unfold Event.reportExclusive; split <;> infer_instance

/-- Two engine states with the same receive buffer, turbo flag and quiet option. -/
def SameTurboQuiet (a b : GreeACCNT) : Prop :=
  a.serialProcess_ = b.serialProcess_ ∧ a.turbo_state_ = b.turbo_state_ ∧
    a.quiet_state_ = b.quiet_state_

/-- The unit report `7E 7E 2F 31 <payload> <checksum>` whose 45-byte payload is the one
encoded from `sampleTurboQuiet`: it reports turbo on and quiet on. -/
def turboQuietFrame : Bytes :=
  finalize_checksum_
    ([0x7E, 0x7E, 47, 0x31] ++ params_set_payload sampleProtocol sampleTurboQuiet ++ [0]) 50

/-- The unit report whose payload is the one encoded from `sampleState`. -/
def sampleFrame : Bytes :=
  finalize_checksum_
    ([0x7E, 0x7E, 47, 0x31] ++ params_set_payload sampleProtocol sampleState ++ [0]) 50

/-- The bytes of `turboQuietFrame` arrive and two scheduling passes run. -/
def turboQuietEvents : List Event := [.arrive turboQuietFrame, .loop 1, .loop 2]

/-- The bytes of `sampleFrame` arrive, two scheduling passes run, then the user turns
turbo on, then quiet on. -/
def sampleEvents : List Event :=
  [.arrive sampleFrame, .loop 1, .loop 2, .on_turbo_change true, .on_quiet_change .ON]

/-- An assembler in progress: it has buffered the four bytes `7E 7E 10 31` of a frame
that declares 19 bytes. -/
def sampleInProgress : SerialProcess := feedAll 0 [0x7E, 0x7E, 0x10, 0x31] emptyAssembler

/-- The state `s` with the members that `processUnitReport` may write taken from `c`:
the climate state, the pending update and what the light select shows. -/
def GreeACCNT.reportedFrom (s c : GreeACCNT) : GreeACCNT :=
  { s with
    update_ := c.update_
    mode := c.mode
    mode_internal_ := c.mode_internal_
    power_internal_ := c.power_internal_
    target_temperature := c.target_temperature
    current_temperature := c.current_temperature
    custom_fan_mode := c.custom_fan_mode
    vertical_swing_state_ := c.vertical_swing_state_
    horizontal_swing_state_ := c.horizontal_swing_state_
    display_state_ := c.display_state_
    display_unit_state_ := c.display_unit_state_
    light_state_ := c.light_state_
    ionizer_state_ := c.ionizer_state_
    beeper_state_ := c.beeper_state_
    sleep_state_ := c.sleep_state_
    xfan_state_ := c.xfan_state_
    powersave_state_ := c.powersave_state_
    turbo_state_ := c.turbo_state_
    ifeel_state_ := c.ifeel_state_
    quiet_state_ := c.quiet_state_
    swing_mode := c.swing_mode
    light_select_ := c.light_select_ }

/-- The sample state with the light off. -/
def sampleLightOff : GreeACCNT := { sampleState with light_state_ := false }

/-- The sample state whose receive buffer holds, moved to the front as `handle_packet`
leaves it, the payload encoded from `sampleLightOff`: the unit reports the same mode and
the light off, while the state holds the light on under the policy "auto". -/
def sampleLightReport : GreeACCNT :=
  { sampleState with
    serialProcess_ := { data := params_set_payload sampleProtocol sampleLightOff, size := 45 } }

/-- The state `sampleLightReport` under the light policy "on". -/
def sampleLightReportOn : GreeACCNT := { sampleLightReport with light_mode_ := some .ON }

/-- The sample state under the light policy "off" with the light off, whose receive
buffer holds the payload encoded from `sampleState`, which reports the light on. -/
def sampleLightReportOff : GreeACCNT :=
  { sampleState with
    light_mode_ := some .OFF
    light_state_ := false
    serialProcess_ := { data := params_set_payload sampleProtocol sampleState, size := 45 } }

/-- The sample state with the complete unit report `sampleFrame` in its receive buffer. -/
def sampleAccepted : GreeACCNT :=
  { sampleState with
    serialProcess_ := { state := .STATE_COMPLETE, size := 50, frame_size := 47, data := sampleFrame } }

/-- The state `sampleAccepted` once its report has been handled, with the same report
complete in the receive buffer again. -/
def sampleSettled : GreeACCNT :=
  { handle_packet sampleProtocol sampleAccepted with serialProcess_ := sampleAccepted.serialProcess_ }

/-- The sample state with a pending update and the complete unit report
`turboQuietFrame`, which reports turbo on, in its receive buffer. -/
def samplePending : GreeACCNT :=
  { sampleState with
    update_ := .UpdateStart
    serialProcess_ :=
      { state := .STATE_COMPLETE, size := 50, frame_size := 47, data := turboQuietFrame } }

/-- Two engine states with the same receive buffer, light policy, desired light state,
light select option and pending update. -/
def SameLight (a b : GreeACCNT) : Prop :=
  a.light_state_ = b.light_state_ ∧ a.update_ = b.update_ ∧ a.light_mode_ = b.light_mode_ ∧
    a.light_select_ = b.light_select_ ∧ a.serialProcess_ = b.serialProcess_

/-- The engine once the frame block of `GreeACCNT::loop` has accepted a frame at time
`now`, before `handle_packet` is called: the response is no longer awaited, the
reception time is recorded and the connection is `Ready`, its error indicator cleared
if it was not. -/
def accept_frame (now : Nat) (s : GreeACCNT) : GreeACCNT :=
  { s with
    wait_response_ := false
    last_packet_received_ := now
    state_ := .Ready
    status_error := if s.state_ ≠ .Ready then false else s.status_error }

/-- An assembler that holds the two marker bytes `7E 7E`. -/
def sampleMarkers : SerialProcess := feedAll 0 [0x7E, 0x7E] emptyAssembler

/-- The test of `send_params_set_packet` that withholds the frame: a response is awaited
and the response timeout has not elapsed since the last transmission. -/
def withheld (p : Protocol) (now : Nat) (s : GreeACCNT) : Prop :=
  s.wait_response_ = true ∧ u32sub now s.last_packet_sent_ < p.TIME_WAIT_RESPONSE_TIMEOUT_MS

instance (p : Protocol) (now : Nat) (s : GreeACCNT) : Decidable (withheld p now s) := by
  unfold withheld; infer_instance

/-- The parameter frame carries the apply flag: the byte `SET_AF_BYTE` of its payload
holds `SET_AF_VAL`. -/
def apply_flag (p : Protocol) (frame : Bytes) : Prop :=
  rd frame (4 + p.SET_AF_BYTE) = p.SET_AF_VAL

instance (p : Protocol) (frame : Bytes) : Decidable (apply_flag p frame) := by
  unfold apply_flag; infer_instance

/-- Conditions on the protocol constants under which the apply flag can be told from
the other bits of its byte: `SET_AF_VAL` is a `uint8_t`, every field that shares the byte
`SET_AF_BYTE` lies inside the bits of `SET_AF_VAL`, and the bits `m` of `SET_AF_VAL` are
written by no field and by neither of the two constants. -/
structure Protocol.AFMarker (p : Protocol) (m : Nat) : Prop where
  valU8 : p.SET_AF_VAL < 256
  inside : ∀ g : BitField, (p.loc g).1 = p.SET_AF_BYTE →
    (p.loc g).2 &&& p.SET_AF_VAL = (p.loc g).2
  maskU8 : m < 256
  own : p.SET_AF_VAL &&& m ≠ 0
  free : ∀ g : BitField, (p.loc g).1 = p.SET_AF_BYTE → (p.loc g).2 &&& m = 0
  const02 : p.SET_CONST_02_BYTE = p.SET_AF_BYTE → p.SET_CONST_02_VAL &&& m = 0
  constBit : p.SET_CONST_BIT_BYTE = p.SET_AF_BYTE → p.SET_CONST_BIT_MASK &&& m = 0

/-- The sample state with the pending update `UpdateStart`, as a request of the user
leaves it. -/
def sampleRequested : GreeACCNT := { sampleState with update_ := .UpdateStart }

/-- The sample state waiting for a response to a frame sent at time 1000. -/
def sampleWaiting : GreeACCNT :=
  { sampleState with update_ := .UpdateStart, wait_response_ := true, last_packet_sent_ := 1000 }

/-- The state `c` with the members that only a transmission or the scheduler writes
taken from `s`: an equation `c = s.receivedFrom c` says that the step from `s` to `c` has
transmitted nothing and has left the scheduler as it was. -/
def GreeACCNT.receivedFrom (s c : GreeACCNT) : GreeACCNT :=
  { c with
    init_time_ := s.init_time_
    last_packet_sent_ := s.last_packet_sent_
    last_packet_duration_ms_ := s.last_packet_duration_ms_
    last_sync_time_sent_ := s.last_sync_time_sent_
    last_mac_sequence_millis_ := s.last_mac_sequence_millis_
    startup_special_sent_ := s.startup_special_sent_
    mac_packets_pending_ := s.mac_packets_pending_
    transmitted := s.transmitted }

/-- The state `c` with the connection members taken from `s`: an equation
`c = s.linkedFrom c` says that the step from `s` to `c` has left the connection state, its
error indicator and the time of the last accepted frame as they were. -/
def GreeACCNT.linkedFrom (s c : GreeACCNT) : GreeACCNT :=
  { c with
    state_ := s.state_
    status_error := s.status_error
    last_packet_received_ := s.last_packet_received_ }

/-! ## The scheduler, as the specification words it -/

/-- The actions among which the scheduler chooses at a tick. -/
inductive Action
  | handshake | identity | timeSync | rearm | parameters
  deriving DecidableEq, Repr

/-- The minimum spacing since the last transmission has elapsed at time `now`: the
refresh period plus the transmission time of the last frame. -/
def gap_elapsed (p : Protocol) (now : Nat) (s : GreeACCNT) : Prop :=
  u32sub now s.last_packet_sent_ ≥ p.TIME_REFRESH_PERIOD_MS + s.last_packet_duration_ms_

instance (p : Protocol) (now : Nat) (s : GreeACCNT) : Decidable (gap_elapsed p now s) := by
  unfold gap_elapsed; infer_instance

/-- The action of the tick at time `now`, chosen in the order of the specification: the
startup handshake if it has not been sent; else the next identity frame if a burst is
pending; else the time-sync frame if 10000 ms have passed since the last one; else
re-arming an identity burst if the identity cycle period has passed since the last burst
completed; else a parameter frame. No action is due before the minimum spacing has
elapsed. -/
def scheduled (p : Protocol) (now : Nat) (s : GreeACCNT) : Option Action :=
  if ¬ gap_elapsed p now s then none
  else if s.startup_special_sent_ = false then some .handshake
  else if s.mac_packets_pending_ > 0 then some .identity
  else if u32sub now s.last_sync_time_sent_ ≥ 10000 then some .timeSync
  else if u32sub now s.last_mac_sequence_millis_ ≥ p.TIME_MAC_CYCLE_PERIOD_MS then some .rearm
  else some .parameters

/-- What an action does to the engine at time `now`. An identity frame decrements the
pending count and records the completion time when the count reaches zero; re-arming
sets the pending count to 6 and sends nothing. -/
def Action.perform (p : Protocol) (mac : Bytes) (now : Nat) : Action → GreeACCNT → GreeACCNT
  | .handshake, s => send_special_startup_packet now s
  | .identity, s =>
    { send_mac_report_packet p mac now s with
      mac_packets_pending_ := s.mac_packets_pending_ - 1
      last_mac_sequence_millis_ :=
        if s.mac_packets_pending_ - 1 = 0 then now else s.last_mac_sequence_millis_ }
  | .timeSync, s => send_sync_time_packet p now s
  | .rearm, s => { s with mac_packets_pending_ := 6 }
  | .parameters, s => send_params_set_packet p now s

/-- The actions taken in a run, in order: one for each scheduling pass at which an
action is due, chosen in the state in which the pass reaches its sending block. -/
def actions (p : Protocol) (mac : Bytes) : List Event → GreeACCNT → List Action
  | [], _ => []
  | e :: events, s =>
    (match e with
      | .loop now => (scheduled p now (loop_frame p now (GreeAC.loop now s))).toList
      | _ => []) ++ actions p mac events (e.apply p mac s)

/-- Six scheduling passes, 400 ms apart, after `setup` at time 0. -/
def sampleTicks : List Event :=
  [.loop 1, .loop 401, .loop 801, .loop 1201, .loop 1601, .loop 2001]

/-! ## Transmissions of a run -/

/-- The frames that the step from `before` to `after` has handed to `write_array`,
latest first. -/
def newFrames (before after : GreeACCNT) : List Bytes :=
  after.transmitted.take (after.transmitted.length - before.transmitted.length)

/-- The transmissions of a run in the order in which they happen, each frame with the
time of the scheduling pass that sent it. -/
def sendLog (p : Protocol) (mac : Bytes) : List Event → GreeACCNT → List (Nat × Bytes)
  | [], _ => []
  | e :: events, s =>
    (match e with
      | .loop now => (newFrames s (e.apply p mac s)).reverse.map (fun frame => (now, frame))
      | _ => []) ++ sendLog p mac events (e.apply p mac s)

/-- The minimum gap after a frame: the refresh period plus the transmission time of the
frame, `length * 11000 / 4800` ms for `length` bytes. -/
def min_gap (p : Protocol) (frame : Bytes) : Nat :=
  p.TIME_REFRESH_PERIOD_MS + (frame.length * 11000) / 4800

/-- The transmission `b` follows the transmission `a` by at least the minimum gap, on
the 32-bit millisecond clock. -/
def Spaced (p : Protocol) (a b : Nat × Bytes) : Prop := u32sub b.1 a.1 ≥ min_gap p a.2

instance (p : Protocol) (a b : Nat × Bytes) : Decidable (Spaced p a b) := by
  unfold Spaced; infer_instance

/-! ## Accepted frames of a run -/

/-- The scheduling pass at time `now` from the state `s` accepts a frame: its read loop
completes one and `verify_packet` returns `true`. -/
def accepts (p : Protocol) (now : Nat) (s : GreeACCNT) : Prop :=
  (GreeAC.loop now s).serialProcess_.state = .STATE_COMPLETE ∧
    verify_packet p (GreeAC.loop now s) = true

instance (p : Protocol) (now : Nat) (s : GreeACCNT) : Decidable (accepts p now s) := by
  unfold accepts; infer_instance

/-- The time of the most recent scheduling pass that accepted a frame, after the run
`events` from the state `s`; `acc` is that time before the run, `none` when no frame has
been accepted. -/
def lastAccepted (p : Protocol) (mac : Bytes) : List Event → GreeACCNT → Option Nat → Option Nat
  | [], _, acc => acc
  | e :: events, s, acc =>
    lastAccepted p mac events (e.apply p mac s)
      (match e with
        | .loop now => if accepts p now s then some now else acc
        | _ => acc)

/-- The times of the scheduling passes of a run, in order. -/
def passTimes : List Event → List Nat
  | [] => []
  | .loop now :: events => now :: passTimes events
  | _ :: events => passTimes events

/-- The invariant of the connection state: `acc` is the time of the most recent accepted
frame and `tp` the time of the most recent scheduling pass. -/
def ConnInv (p : Protocol) (s : GreeACCNT) (acc : Option Nat) (tp : Nat) : Prop :=
  (acc = none → s.state_ = .Initializing) ∧
  ∀ t, acc = some t →
    s.last_packet_received_ = t ∧ t ≤ tp ∧
      (s.state_ = .Ready ↔ tp - t < p.TIME_TIMEOUT_INACTIVE_MS)

/-- The bytes of `sampleFrame` arrive and two scheduling passes read them: the second one
completes the frame and accepts it. -/
def sampleLinkEvents : List Event :=
  [.arrive sampleFrame, .loop 1, .loop 2]

/-- The desired light state agrees with the light policy: on under the policy "on", off
under the policy "off". -/
def LightPolicy (s : GreeACCNT) : Prop :=
  (s.light_mode_ = some .ON → s.light_state_ = true) ∧
    (s.light_mode_ = some .OFF → s.light_state_ = false)

/-! ## Invariants of the receive buffer -/

/-- The bytes that the assembler holds: the first `size` bytes of `data`. -/
def SerialProcess.buffered (sp : SerialProcess) : Bytes := sp.data.take sp.size

/-- The marker prefix of the buffer: a first buffered byte is `0x7E`, a second buffered
byte is `0x7E`, and once three bytes are buffered `frame_size` is the third one. -/
def MarkerHead (sp : SerialProcess) : Prop :=
  (1 ≤ sp.size → rd sp.data 0 = 0x7E) ∧ (2 ≤ sp.size → rd sp.data 1 = 0x7E) ∧
    (3 ≤ sp.size → sp.frame_size = rd sp.data 2)

instance (sp : SerialProcess) : Decidable (MarkerHead sp) := by
  unfold MarkerHead; infer_instance

/-- No two adjacent buffered bytes after the first one are both `0x7E`. -/
def NoBufferedPair (sp : SerialProcess) : Prop :=
  ∀ i, 1 ≤ i → i + 1 < sp.size → ¬(rd sp.data i = 0x7E ∧ rd sp.data (i + 1) = 0x7E)

/-- The receive buffer of the engine is the 200-byte array, holds fewer than 200 bytes
and has the marker prefix. -/
def BufferInv (s : GreeACCNT) : Prop :=
  s.serialProcess_.data.length = DATA_MAX ∧ s.serialProcess_.size < DATA_MAX ∧
    MarkerHead s.serialProcess_

/-- An assembler that holds the three bytes `7E 7E 01` of a frame cut short: its declared
length is 1, so the next byte completes it. -/
def sampleTruncated : SerialProcess := assembleAll 0 [0x7E, 0x7E, 0x01] emptyAssembler

/-! ## A state that holds what a report decodes to -/

/-- The climate members of `t` hold what the report in its buffer decodes to, as far as
the first five blocks of `processUnitReport` compare them: mode, fan mode, the two
temperatures (unless the reported one is out of range), the swing positions and the
swing mode, and the display mode when the report is allowed to set it. -/
def SettledClimate (p : Protocol) (t : GreeACCNT) : Prop :=
  t.mode = (determine_mode p t).1 ∧
  t.custom_fan_mode = some (determine_fan_mode p t) ∧
  ((reported_target_temperature p t : ℚ) > (TEMPERATURE_THRESHOLD : ℚ) ∨
    t.target_temperature = (reported_target_temperature p t : ℚ)) ∧
  ((rd t.serialProcess_.data p.REPORT_TEMP_ACT_BYTE : Int) - p.REPORT_TEMP_ACT_OFF
      > (TEMPERATURE_THRESHOLD : Int) ∨
    t.current_temperature =
      (rd t.serialProcess_.data p.REPORT_TEMP_ACT_BYTE : Int) - p.REPORT_TEMP_ACT_OFF) ∧
  t.vertical_swing_state_ = some (determine_vertical_swing p t) ∧
  t.horizontal_swing_state_ = some (determine_horizontal_swing p t) ∧
  t.swing_mode =
    (if determine_vertical_swing p t = .FULL ∧ determine_horizontal_swing p t = .FULL then .BOTH
      else if determine_vertical_swing p t = .FULL then .VERTICAL
      else if determine_horizontal_swing p t = .FULL then .HORIZONTAL
      else .OFF) ∧
  (t.display_state_ = none ∨ determine_display p t = .ACT ∨ t.mode ≠ .OFF →
    t.display_state_ = some (determine_display p t))

/-- No light select is attached, and the desired light state does not contradict the
report in a way that the light block of `processUnitReport` counts as a change. -/
def SettledLight (p : Protocol) (t : GreeACCNT) : Prop :=
  t.light_select_ = none ∧
  (t.light_mode_ = some .OFF → t.light_state_ = true → determine_light p t = true) ∧
  (t.light_mode_ = some .ON → t.light_state_ = false → determine_light p t = false)

/-- The display unit and the eight switches and selects of `t` hold what the report in
its buffer decodes to. -/
def SettledFlags (p : Protocol) (t : GreeACCNT) : Prop :=
  t.display_unit_state_ = some (determine_display_unit p t) ∧
  t.ionizer_state_ = determine_ionizer p t ∧
  t.beeper_state_ = determine_beeper p t ∧
  t.sleep_state_ = determine_sleep p t ∧
  t.xfan_state_ = determine_xfan p t ∧
  t.powersave_state_ = determine_powersave p t ∧
  t.turbo_state_ = determine_turbo p t ∧
  t.ifeel_state_ = determine_ifeel p t ∧
  t.quiet_state_ = some (determine_quiet p t)

/-! ## Sample states for rejected and short frames -/

/-- The state `sampleWaiting`, which awaits a response to a frame sent at time 1000, with
the complete frame `7E 7E 04 31 12 34 7C` in its receive buffer: the trailing byte is not
the checksum. -/
def sampleRejected : GreeACCNT :=
  { sampleWaiting with serialProcess_ := sampleBadChecksum.serialProcess_ }

/-- The five-byte unit report `7E 7E 02 31 33`: declared length 2, command `0x31`, no
payload, checksum `0x33`. -/
def shortReport : Bytes := [0x7E, 0x7E, 0x02, 0x31, 0x33]

/-- The receive buffer once the report `frame` has been assembled and handled and the
bytes of `shortReport` have then been assembled: the first five bytes are the short
report, the bytes after them are left from `frame`. -/
def staleAfter (frame : Bytes) : SerialProcess :=
  feedAll 0 shortReport
    (loop_frame sampleProtocol 1
      { sampleState with serialProcess_ := feedAll 0 frame emptyAssembler }).serialProcess_

/-- The sample state with `shortReport` complete in a buffer that held `sampleFrame`. -/
def sampleStaleA : GreeACCNT := { sampleState with serialProcess_ := staleAfter sampleFrame }

/-- The sample state with `shortReport` complete in a buffer that held
`turboQuietFrame`. -/
def sampleStaleB : GreeACCNT :=
  { sampleState with serialProcess_ := staleAfter turboQuietFrame }

/-- The sample state with the ionizer switched off and a parameter change pending, so that
the next parameter frame carries the `0xAF` marker. -/
def sampleIonizerOff : GreeACCNT :=
  { sampleState with update_ := .UpdateStart, ionizer_state_ := false }

/-- An engine whose receive buffer holds the payload encoded from `sampleIonizerOff`. -/
def sampleIonizerOffReport : GreeACCNT where
  serialProcess_ := { data := params_set_payload sampleProtocol sampleIonizerOff, size := 45 }

/-- The sample engine with a unit report in its receive buffer whose mode bits are `7`, a
code outside the five mode codes, and whose power bit is clear. -/
def sampleUnknownModeReport : GreeACCNT :=
  { sampleState with
    serialProcess_ :=
      { data := wr (params_set_payload sampleProtocol sampleOffState) 4 0x70, size := 45 } }

/-- The engine after `report_mode` has read the report of `sampleUnknownModeReport`. -/
def sampleForgotten : GreeACCNT := (report_mode sampleProtocol sampleUnknownModeReport).2

/-- An engine whose receive buffer holds the payload encoded from `sampleForgotten`. -/
def sampleForgottenReport : GreeACCNT where
  serialProcess_ := { data := params_set_payload sampleProtocol sampleForgotten, size := 45 }

/-! ## Buffer lemmas -/

theorem length_wr (d : Bytes) (i v : Nat) : (wr d i v).length = d.length := by
  simp [wr]

theorem length_orAt (d : Bytes) (i v : Nat) : (orAt d i v).length = d.length := by
  simp [orAt, wr]

theorem rd_wr (d : Bytes) (i v j : Nat) :
    rd (wr d i v) j = if i = j ∧ i < d.length then v % 256 else rd d j := by
  unfold rd wr
  simp only [List.getD_eq_getElem?_getD, List.getElem?_set]
  by_cases hij : i = j
  · subst hij
    by_cases hl : i < d.length
    · simp [hl]
    · simp [hl, List.getElem?_eq_none (Nat.le_of_not_lt hl)]
  · simp [hij]

theorem rd_replicate_zero (n j : Nat) : rd (List.replicate n 0) j = 0 := by
  unfold rd
  simp only [List.getD_eq_getElem?_getD, List.getElem?_replicate]
  split <;> rfl

theorem mod_and_of_lt (x m : Nat) (h : m < 256) : (x % 256) &&& m = x &&& m := by
  apply Nat.eq_of_testBit_eq
  intro i
  have h256 : (256 : Nat) = 2 ^ 8 := by norm_num
  rw [h256] at h ⊢
  simp only [Nat.testBit_and, Nat.testBit_mod_two_pow]
  by_cases hi : i < 8
  · simp [hi]
  · have hb : m.testBit i = false :=
      Nat.testBit_lt_two_pow (lt_of_lt_of_le h (Nat.pow_le_pow_right (by norm_num) (by omega)))
    simp [hb]

theorem and_rd_orAt (d : Bytes) (i v j m : Nat) (hm : m < 256) :
    rd (orAt d i v) j &&& m =
      if i = j ∧ i < d.length then (rd d j &&& m) ||| (v &&& m) else rd d j &&& m := by
  unfold orAt
  rw [rd_wr]
  split
  · next h =>
    rw [mod_and_of_lt _ _ hm, Nat.and_distrib_right, h.1]
  · rfl

theorem sample_wellFormed : sampleProtocol.WellFormed where
  inBounds := by decide
  const02InBounds := by decide
  constBitInBounds := by decide
  afInBounds := by decide
  modeFits := by decide
  fanFits := by decide
  vswingFits := by decide
  hswingFits := by decide
  dispFits := by decide

theorem sample_isolated (f : BitField) : sampleProtocol.Isolated f where
  maskU8 := by revert f; decide
  disjoint := by revert f; decide
  const02 := by revert f; decide
  constBit := by revert f; decide

/-! ## The payload as a sequence of or-statements -/

theorem params_set_payload_eq_foldl (p : Protocol) (s : GreeACCNT) :
    params_set_payload p s = BitField.order.foldl (fieldStep p s) (payloadBase p s.update_) := by
  have hfan : ∀ (pl : Bytes),
      (match s.custom_fan_mode with
        | some custom_fan_mode =>
          orAt (orAt pl p.REPORT_FAN_SPD2_BYTE
              ((fan_mode_bytes custom_fan_mode).1 <<< p.REPORT_FAN_SPD2_POS))
            p.REPORT_FAN_SPD1_BYTE ((fan_mode_bytes custom_fan_mode).2 <<< p.REPORT_FAN_SPD1_POS)
        | none => pl) =
      fieldStep p s (fieldStep p s pl .spd2) .spd1 := by
    intro pl
    unfold fieldStep orAtIf fieldActive fieldBits Protocol.loc
    cases s.custom_fan_mode <;> rfl
  have hquiet : ∀ (pl : Bytes),
      (if s.quiet_state_ = some .ON then
          orAt pl p.REPORT_FAN_QUIET_BYTE p.REPORT_FAN_QUIET_MASK
        else if s.quiet_state_ = some .AUTO then
          orAt pl p.REPORT_FAN_QUIET_BYTE p.REPORT_FAN_QUIET_AUTO_MASK
        else pl) =
      fieldStep p s (fieldStep p s pl .quiet) .quietAuto := by
    intro pl
    unfold fieldStep orAtIf fieldActive fieldBits Protocol.loc
    rcases s.quiet_state_ with _ | q
    · rfl
    · cases q <;> rfl
  have hion : ∀ (pl : Bytes),
      (if s.ionizer_state_ = true then
          orAt (orAt pl p.REPORT_IONIZER1_BYTE p.REPORT_IONIZER1_MASK)
            p.REPORT_IONIZER2_BYTE p.REPORT_IONIZER2_MASK
        else pl) =
      fieldStep p s (fieldStep p s pl .ion1) .ion2 := by
    intro pl
    unfold fieldStep orAtIf fieldActive fieldBits Protocol.loc
    cases s.ionizer_state_ <;> rfl
  unfold params_set_payload
  simp only [hfan, hquiet, hion]
  rfl

theorem length_fieldStep (p : Protocol) (s : GreeACCNT) (pl : Bytes) (f : BitField) :
    (fieldStep p s pl f).length = pl.length := by
  unfold fieldStep orAtIf
  split
  · exact length_orAt _ _ _
  · rfl

theorem and_rd_fieldStep (p : Protocol) (s : GreeACCNT) (pl : Bytes) (f : BitField)
    (i m : Nat) (hm : m < 256) :
    rd (fieldStep p s pl f) i &&& m =
      if (p.loc f).1 = i ∧ (p.loc f).1 < pl.length then
        (rd pl i &&& m) ||| (fieldValue p s f &&& m)
      else rd pl i &&& m := by
  unfold fieldStep orAtIf fieldValue
  by_cases ha : fieldActive p s f = true
  · simp only [ha, if_true]
    exact and_rd_orAt _ _ _ _ _ hm
  · simp only [ha, Bool.false_eq_true, if_false, Nat.zero_and, Nat.or_zero, ite_self]

theorem and_rd_foldl_of_clear (p : Protocol) (s : GreeACCNT) (i m : Nat) (hm : m < 256)
    (l : List BitField) :
    ∀ pl : Bytes, (∀ g ∈ l, (p.loc g).1 = i → fieldValue p s g &&& m = 0) →
      rd (l.foldl (fieldStep p s) pl) i &&& m = rd pl i &&& m := by
  induction l with
  | nil => intro pl _; rfl
  | cons g l ih =>
    intro pl h
    rw [List.foldl_cons, ih _ (fun g' hg' => h g' (List.mem_cons_of_mem _ hg')),
      and_rd_fieldStep _ _ _ _ _ _ hm]
    split
    · next hc => rw [h g (List.mem_cons_self _ _) hc.1, Nat.or_zero]
    · rfl

theorem and_rd_foldl_target (p : Protocol) (s : GreeACCNT) (f : BitField) (m : Nat)
    (hm : m < 256) (l : List BitField) :
    ∀ pl : Bytes, l.Nodup → f ∈ l → (p.loc f).1 < pl.length →
      (∀ g ∈ l, g ≠ f → (p.loc g).1 = (p.loc f).1 → fieldValue p s g &&& m = 0) →
      rd (l.foldl (fieldStep p s) pl) (p.loc f).1 &&& m =
        (rd pl (p.loc f).1 &&& m) ||| (fieldValue p s f &&& m) := by
  induction l with
  | nil => intro pl _ hf; cases hf
  | cons g l ih =>
    intro pl hnd hf hlen hclear
    rw [List.nodup_cons] at hnd
    rw [List.foldl_cons]
    by_cases hgf : g = f
    · subst hgf
      rw [and_rd_foldl_of_clear p s _ m hm l _ (fun g' hg' hb =>
          hclear g' (List.mem_cons_of_mem _ hg') (fun e => hnd.1 (e ▸ hg')) hb),
        and_rd_fieldStep _ _ _ _ _ _ hm, if_pos ⟨rfl, hlen⟩]
    · have hfl : f ∈ l := by
        rcases List.mem_cons.mp hf with e | e
        · exact absurd e.symm hgf
        · exact e
      rw [ih _ hnd.2 hfl (by rw [length_fieldStep]; exact hlen)
          (fun g' hg' => hclear g' (List.mem_cons_of_mem _ hg')),
        and_rd_fieldStep _ _ _ _ _ _ hm]
      split
      · next hc => rw [hclear g (List.mem_cons_self _ _) hgf hc.1, Nat.or_zero]
      · rfl

/-! ## Every value written fits the mask of its field -/

theorem shiftLeft_and_shiftLeft_of_and (a b k : Nat) (h : a &&& b = a) :
    (a <<< k) &&& (b <<< k) = a <<< k := by
  apply Nat.eq_of_testBit_eq
  intro j
  have hj : (a &&& b).testBit (j - k) = a.testBit (j - k) := by rw [h]
  rw [Nat.testBit_and] at hj
  simp only [Nat.testBit_and, Nat.testBit_shiftLeft]
  by_cases hk : j ≥ k
  · simp only [hk, decide_True, Bool.true_and]
    exact hj
  · simp [hk]

theorem mode_code_mem (p : Protocol) (s : GreeACCNT) : (mode_and_power p s).1 ∈ p.modeCodes := by
  unfold mode_and_power Protocol.modeCodes
  cases s.mode <;> cases s.mode_internal_ <;> simp

theorem fan_code_mem (f : fan_modes) : (fan_mode_bytes f).2 ∈ fanCodes := by
  cases f <;> decide

theorem fan_byte4_and (f : fan_modes) : (fan_mode_bytes f).1 &&& 3 = (fan_mode_bytes f).1 := by
  cases f <;> decide

theorem vswing_code_mem (p : Protocol) (s : GreeACCNT) :
    mode_vertical_swing p s ∈ p.vswingCodes := by
  unfold mode_vertical_swing Protocol.vswingCodes VSWING_MAP_REPORT VSWING_MAP_SET
  rcases s.vertical_swing_state_ with _ | o
  · simp
  · cases o <;> simp

theorem hswing_code_mem (p : Protocol) (s : GreeACCNT) :
    mode_horizontal_swing p s ∈ p.hswingCodes := by
  unfold mode_horizontal_swing Protocol.hswingCodes HSWING_MAP_REPORT HSWING_MAP_SET
  rcases s.horizontal_swing_state_ with _ | o
  · simp
  · cases o <;> simp

theorem display_code_mem (p : Protocol) (s : GreeACCNT) :
    display_mode p s ∈ [p.REPORT_DISP_MODE_SET, p.REPORT_DISP_MODE_ACT] := by
  unfold display_mode
  split_ifs <;> simp

theorem fieldBits_fits (p : Protocol) (hL : p.WellFormed) (s : GreeACCNT) (f : BitField) :
    fieldBits p s f &&& (p.loc f).2 = fieldBits p s f := by
  cases f
  case mode => exact hL.modeFits _ (mode_code_mem p s)
  case temp =>
    simp only [fieldBits, Protocol.loc, target_temperature_bits, Nat.and_assoc, Nat.and_self]
  case spd2 =>
    simp only [fieldBits, Protocol.loc]
    rcases s.custom_fan_mode with _ | fm
    · exact Nat.zero_and _
    · exact shiftLeft_and_shiftLeft_of_and _ _ _ (fan_byte4_and fm)
  case spd1 =>
    simp only [fieldBits, Protocol.loc]
    rcases s.custom_fan_mode with _ | fm
    · exact Nat.zero_and _
    · exact hL.fanFits _ (fan_code_mem fm)
  case vswing => exact hL.vswingFits _ (vswing_code_mem p s)
  case hswing => exact hL.hswingFits _ (hswing_code_mem p s)
  case dispMode => exact hL.dispFits _ (display_code_mem p s)
  all_goals exact Nat.and_self _

theorem fieldValue_fits (p : Protocol) (hL : p.WellFormed) (s : GreeACCNT) (f : BitField) :
    fieldValue p s f &&& (p.loc f).2 = fieldValue p s f := by
  unfold fieldValue
  split
  · exact fieldBits_fits p hL s f
  · exact Nat.zero_and _

theorem fieldValue_clear (p : Protocol) (hL : p.WellFormed) (s : GreeACCNT) (f g : BitField)
    (hI : p.Isolated f) (hgf : g ≠ f) (hb : (p.loc g).1 = (p.loc f).1) :
    fieldValue p s g &&& (p.loc f).2 = 0 := by
  rw [← fieldValue_fits p hL s g, Nat.and_assoc, hI.disjoint g hgf hb, Nat.and_zero]

/-! ## What a field of the payload holds -/

theorem length_payloadBase (p : Protocol) (u : ACUpdate) :
    (payloadBase p u).length = p.SET_PACKET_LEN := by
  unfold payloadBase
  cases u <;> simp [length_wr]

theorem and_rd_wr_of_clear (d : Bytes) (b v i m : Nat) (hm : m < 256)
    (h : b = i → v &&& m = 0) (h0 : rd d i &&& m = 0) : rd (wr d b v) i &&& m = 0 := by
  rw [rd_wr]
  split
  · next hc => rw [mod_and_of_lt _ _ hm]; exact h hc.1
  · exact h0

theorem and_rd_payloadBase (p : Protocol) (u : ACUpdate) (f : BitField) (hI : p.Isolated f)
    (hAF : u = .UpdateStart → p.AFClear f) :
    rd (payloadBase p u) (p.loc f).1 &&& (p.loc f).2 = 0 := by
  have h2 : rd (wr (wr (List.replicate p.SET_PACKET_LEN 0) p.SET_CONST_02_BYTE p.SET_CONST_02_VAL)
      p.SET_CONST_BIT_BYTE p.SET_CONST_BIT_MASK) (p.loc f).1 &&& (p.loc f).2 = 0 := by
    apply and_rd_wr_of_clear _ _ _ _ _ hI.maskU8 hI.constBit
    apply and_rd_wr_of_clear _ _ _ _ _ hI.maskU8 hI.const02
    rw [rd_replicate_zero, Nat.zero_and]
  unfold payloadBase
  cases u
  · exact h2
  · exact and_rd_wr_of_clear _ _ _ _ _ hI.maskU8 (hAF rfl) h2
  · exact h2

/-- The bits of field `f` in the payload built by `send_params_set_packet` are exactly
the bits that the statement of `f` writes: no other statement touches them. -/
theorem field_read (p : Protocol) (hL : p.WellFormed) (s : GreeACCNT) (f : BitField)
    (hI : p.Isolated f) (hAF : s.update_ = .UpdateStart → p.AFClear f) :
    rd (params_set_payload p s) (p.loc f).1 &&& (p.loc f).2 = fieldValue p s f := by
  rw [params_set_payload_eq_foldl,
    and_rd_foldl_target p s f _ hI.maskU8 BitField.order _ (by decide) (by cases f <;> decide)
      (by rw [length_payloadBase]; exact hL.inBounds f)
      (fun g _ hgf hb => fieldValue_clear p hL s f g hI hgf hb),
    and_rd_payloadBase p _ f hI hAF, Nat.zero_or, fieldValue_fits p hL s f]

/-! ## Table lookups -/

theorem find?_of_nodup_keys {α : Type} (l : List (Nat × α)) (hnd : (l.map Prod.fst).Nodup)
    (k : Nat) (v : α) (h : (k, v) ∈ l) : l.find? (fun mapping => k == mapping.1) = some (k, v) := by
  induction l with
  | nil => cases h
  | cons a l ih =>
    rw [List.map_cons, List.nodup_cons] at hnd
    rcases List.mem_cons.mp h with e | e
    · subst e
      simp [List.find?_cons]
    · have hk : k ≠ a.1 := by
        intro hka
        exact hnd.1 (hka ▸ List.mem_map_of_mem Prod.fst e)
      have hb : (k == a.1) = false := beq_false_of_ne hk
      rw [List.find?_cons, hb]
      exact ih hnd.2 e

/-! ## C1: table-coded enum fields -/

/-- C1. Round trip of the table-coded enum fields. Let the protocol constants be
well-formed (`Protocol.WellFormed`), let no other field overlap the fan, vertical swing
and horizontal swing fields (`Protocol.Isolated`), let the fan field read back,
unshifted, as the code written, and let the codes of each swing table be pairwise
distinct. Then the payload built by `send_params_set_packet` decodes, through
`determine_fan_mode`, `determine_vertical_swing` and `determine_horizontal_swing`, to
the fan speed, the vertical swing option and the horizontal swing option held in the
state. When the frame carries the `0xAF` marker (`UpdateStart`), the marker must not
overlap the three fields. -/
theorem C1_enum_roundtrip (p : Protocol) (hL : p.WellFormed)
    (hI : p.Isolated .spd1 ∧ p.Isolated .vswing ∧ p.Isolated .hswing)
    (hfan : ∀ c ∈ fanCodes, (c <<< p.REPORT_FAN_SPD1_POS) &&& p.REPORT_FAN_SPD1_MASK = c)
    (hv : p.vswingCodes.Nodup) (hh : p.hswingCodes.Nodup)
    (s r : GreeACCNT)
    (hAF : s.update_ = .UpdateStart → p.AFClear .spd1 ∧ p.AFClear .vswing ∧ p.AFClear .hswing)
    (hr : r.serialProcess_.data = params_set_payload p s) :
    (∀ f, s.custom_fan_mode = some f → determine_fan_mode p r = f) ∧
    (∀ v, s.vertical_swing_state_ = some v → determine_vertical_swing p r = v) ∧
    (∀ h, s.horizontal_swing_state_ = some h → determine_horizontal_swing p r = h) := by
  refine ⟨?_, ?_, ?_⟩
  · intro f hf
    have h1 := field_read p hL s .spd1 hI.1 (fun u => (hAF u).1)
    simp only [Protocol.loc, fieldValue, fieldActive, fieldBits, hf, Option.isSome, if_true] at h1
    have h2 := hL.fanFits _ (fan_code_mem f)
    unfold Fits at h2
    have h3 := hfan _ (fan_code_mem f)
    rw [h2] at h3
    unfold determine_fan_mode
    simp only [hr, h1, h3]
    cases f <;> rfl
  · intro v hs
    have h1 := field_read p hL s .vswing hI.2.1 (fun u => (hAF u).2.1)
    simp only [Protocol.loc, fieldValue, fieldActive, fieldBits, if_true] at h1
    unfold determine_vertical_swing
    simp only [hr, h1, Nat.shiftLeft_shiftRight]
    have hm : (mode_vertical_swing p s, v) ∈ VSWING_MAP_REPORT p := by
      unfold mode_vertical_swing VSWING_MAP_SET VSWING_MAP_REPORT
      rw [hs]
      cases v <;> simp
    rw [find?_of_nodup_keys _ hv _ _ hm]
  · intro h hs
    have h1 := field_read p hL s .hswing hI.2.2 (fun u => (hAF u).2.2)
    simp only [Protocol.loc, fieldValue, fieldActive, fieldBits, if_true] at h1
    unfold determine_horizontal_swing
    simp only [hr, h1, Nat.shiftLeft_shiftRight]
    have hm : (mode_horizontal_swing p s, h) ∈ HSWING_MAP_REPORT p := by
      unfold mode_horizontal_swing HSWING_MAP_SET HSWING_MAP_REPORT
      rw [hs]
      cases h <;> simp
    rw [find?_of_nodup_keys _ hh _ _ hm]

/-- C1 at the sample layout: fan "medium", vertical "centre middle" and horizontal
"centre left" are read back from the encoded payload. -/
theorem C1_enum_roundtrip_witness :
    determine_fan_mode sampleProtocol sampleReport = .FAN_MED ∧
    determine_vertical_swing sampleProtocol sampleReport = .CMID ∧
    determine_horizontal_swing sampleProtocol sampleReport = .CLEFT :=
  have h := C1_enum_roundtrip sampleProtocol sample_wellFormed
    ⟨sample_isolated _, sample_isolated _, sample_isolated _⟩ (by decide) (by decide) (by decide)
    sampleState sampleReport (by decide) rfl
  ⟨h.1 _ rfl, h.2.1 _ rfl, h.2.2 _ rfl⟩

/-! ## C2: flag fields -/

theorem rd_fieldStep (p : Protocol) (s : GreeACCNT) (pl : Bytes) (f : BitField) (i : Nat) :
    rd (fieldStep p s pl f) i =
      if (p.loc f).1 = i ∧ (p.loc f).1 < pl.length ∧ fieldActive p s f = true then
        (rd pl i ||| fieldValue p s f) % 256
      else rd pl i := by
  unfold fieldStep orAtIf orAt fieldValue
  by_cases ha : fieldActive p s f = true
  · simp only [ha, if_true, and_true]
    rw [rd_wr]
    split
    · next h => rw [h.1]
    · rfl
  · simp only [ha, Bool.false_eq_true, if_false, and_false]

theorem flag_read (p : Protocol) (hL : p.WellFormed) (s : GreeACCNT) (f : BitField)
    (hI : p.Isolated f) (hAF : s.update_ = .UpdateStart → p.AFClear f)
    (hbits : fieldBits p s f = (p.loc f).2) (hnz : (p.loc f).2 ≠ 0) :
    (rd (params_set_payload p s) (p.loc f).1 &&& (p.loc f).2 ≠ 0) ↔ fieldActive p s f = true := by
  rw [field_read p hL s f hI hAF]
  unfold fieldValue
  by_cases ha : fieldActive p s f = true
  · simp [ha, hbits, hnz]
  · simp [ha]

theorem and_or_mod_keep (a b x : Nat) (hx : x < 256) (h : a &&& x = x) :
    ((a ||| b) % 256) &&& x = x := by
  rw [mod_and_of_lt _ _ hx]
  apply Nat.eq_of_testBit_eq
  intro i
  have hi := congrArg (fun y => y.testBit i) h
  simp only [Nat.testBit_and, Nat.testBit_or] at hi ⊢
  cases ha : a.testBit i <;> cases hb : b.testBit i <;> cases hxx : x.testBit i <;> simp_all

/-- Bits that a byte of the payload holds before the or-statements are still set after
them: the statements only add bits. -/
theorem and_rd_foldl_keep (p : Protocol) (s : GreeACCNT) (i x : Nat) (hx : x < 256)
    (l : List BitField) :
    ∀ pl : Bytes, rd pl i &&& x = x → rd (l.foldl (fieldStep p s) pl) i &&& x = x := by
  induction l with
  | nil => intro pl h; exact h
  | cons g l ih =>
    intro pl h
    rw [List.foldl_cons]
    apply ih
    rw [rd_fieldStep]
    split
    · exact and_or_mod_keep _ _ _ hx h
    · exact h

theorem and_rd_payloadBase_marker (p : Protocol) (hL : p.WellFormed) (m : Nat) (hm : m < 256) :
    rd (payloadBase p .UpdateStart) p.SET_AF_BYTE &&& (p.SET_AF_VAL &&& m)
      = p.SET_AF_VAL &&& m := by
  unfold payloadBase
  simp only []
  rw [rd_wr, if_pos ⟨rfl, by rw [length_wr, length_wr, List.length_replicate]; exact hL.afInBounds⟩,
    mod_and_of_lt _ _ (lt_of_le_of_lt Nat.and_le_right hm), ← Nat.and_assoc, Nat.and_self]

/-- In a frame that carries the marker, a flag whose mask shares a set bit with the marker
byte has that bit set in the payload, whatever the state holds. -/
theorem flag_marked (p : Protocol) (hL : p.WellFormed) (s : GreeACCNT) (f : BitField)
    (hm : (p.loc f).2 < 256) (hu : s.update_ = .UpdateStart) (hA : ¬ p.AFClear f) :
    rd (params_set_payload p s) (p.loc f).1 &&& (p.loc f).2 ≠ 0 := by
  unfold Protocol.AFClear at hA
  rw [Classical.not_imp] at hA
  obtain ⟨hb, hv⟩ := hA
  have h := and_rd_foldl_keep p s p.SET_AF_BYTE (p.SET_AF_VAL &&& (p.loc f).2)
    (lt_of_le_of_lt Nat.and_le_right hm) BitField.order (payloadBase p .UpdateStart)
    (and_rd_payloadBase_marker p hL _ hm)
  rw [← hu, ← params_set_payload_eq_foldl, hb] at h
  intro h0
  apply hv
  rw [← h, Nat.and_comm p.SET_AF_VAL (p.loc f).2, ← Nat.and_assoc, h0, Nat.zero_and]

set_option maxRecDepth 100000 in
/-- C2, as stated, fails. In the sample state with the ionizer off and a parameter change
pending, the payload built by `send_params_set_packet` starts with the marker `0xAF`,
assigned to byte 0. The second ionizer bit is bit 2 of that byte and is set in `0xAF`,
so `determine_ionizer`, which ors the two ionizer bits, decodes the payload to on. -/
theorem C2_marker_counterexample :
    sampleIonizerOff.update_ = .UpdateStart ∧
    sampleIonizerOff.ionizer_state_ = false ∧
    sampleIonizerOffReport.serialProcess_.data
      = params_set_payload sampleProtocol sampleIonizerOff ∧
    rd (params_set_payload sampleProtocol sampleIonizerOff) 0 = 0xAF ∧
    sampleProtocol.REPORT_IONIZER2_BYTE = 0 ∧
    sampleProtocol.REPORT_IONIZER2_MASK = 0x04 ∧
    determine_ionizer sampleProtocol sampleIonizerOffReport = true := by
  decide

/-- C2, amended. Let the protocol constants be well-formed, let no other field overlap a
flag field, and let every flag mask be non-zero. In a frame without the `0xAF` marker
(`NoUpdate`, `UpdateClear`) the payload built by `send_params_set_packet` decodes to the
ionizer, beeper, sleep, xfan, powersave, turbo, ifeel and light flags, to the display unit
and to the quiet option held in the state; on the wire the beeper bit is set exactly when
the beeper is off, and each of the two ionizer bits is set exactly when the ionizer is
on. In a frame with the marker (`UpdateStart`) the same holds for each flag whose bits
the marker byte does not overlap. A flag bit that lies under a set bit of the marker is
set in the payload whatever the state holds; when that is one of the two ionizer bits,
the ionizer is decoded as on. -/
theorem C2_flag_roundtrip (p : Protocol) (hL : p.WellFormed)
    (hI : ∀ f ∈ BitField.flags, p.Isolated f)
    (hnz : ∀ f ∈ BitField.flags, (p.loc f).2 ≠ 0)
    (s r : GreeACCNT)
    (hr : r.serialProcess_.data = params_set_payload p s) :
    ((s.update_ = .UpdateStart → p.AFClear .ion1 ∧ p.AFClear .ion2) →
      determine_ionizer p r = s.ionizer_state_) ∧
    ((s.update_ = .UpdateStart → p.AFClear .beeper) →
      determine_beeper p r = s.beeper_state_) ∧
    ((s.update_ = .UpdateStart → p.AFClear .sleep) →
      determine_sleep p r = s.sleep_state_) ∧
    ((s.update_ = .UpdateStart → p.AFClear .xfan) →
      determine_xfan p r = s.xfan_state_) ∧
    ((s.update_ = .UpdateStart → p.AFClear .powersave) →
      determine_powersave p r = s.powersave_state_) ∧
    ((s.update_ = .UpdateStart → p.AFClear .turbo) →
      determine_turbo p r = s.turbo_state_) ∧
    ((s.update_ = .UpdateStart → p.AFClear .ifeel) →
      determine_ifeel p r = s.ifeel_state_) ∧
    ((s.update_ = .UpdateStart → p.AFClear .dispOn) →
      determine_light p r = s.light_state_) ∧
    ((s.update_ = .UpdateStart → p.AFClear .dispF) →
      ∀ u, s.display_unit_state_ = some u → determine_display_unit p r = u) ∧
    ((s.update_ = .UpdateStart → p.AFClear .quiet ∧ p.AFClear .quietAuto) →
      ∀ q, s.quiet_state_ = some q → determine_quiet p r = q) ∧
    ((s.update_ = .UpdateStart → p.AFClear .beeper) →
      (rd (params_set_payload p s) p.REPORT_BEEPER_BYTE &&& p.REPORT_BEEPER_MASK ≠ 0 ↔
        s.beeper_state_ = false)) ∧
    ((s.update_ = .UpdateStart → p.AFClear .ion1) →
      (rd (params_set_payload p s) p.REPORT_IONIZER1_BYTE &&& p.REPORT_IONIZER1_MASK ≠ 0 ↔
        s.ionizer_state_ = true)) ∧
    ((s.update_ = .UpdateStart → p.AFClear .ion2) →
      (rd (params_set_payload p s) p.REPORT_IONIZER2_BYTE &&& p.REPORT_IONIZER2_MASK ≠ 0 ↔
        s.ionizer_state_ = true)) ∧
    (s.update_ = .UpdateStart → ∀ f ∈ BitField.flags, ¬ p.AFClear f →
      rd (params_set_payload p s) (p.loc f).1 &&& (p.loc f).2 ≠ 0) ∧
    (s.update_ = .UpdateStart → (¬ p.AFClear .ion1 ∨ ¬ p.AFClear .ion2) →
      determine_ionizer p r = true) := by
  have key : ∀ f ∈ BitField.flags, (s.update_ = .UpdateStart → p.AFClear f) →
      ((rd (params_set_payload p s) (p.loc f).1 &&& (p.loc f).2 ≠ 0) ↔
        fieldActive p s f = true) := by
    intro f hf hAF
    refine flag_read p hL s f (hI f hf) hAF ?_ (hnz f hf)
    revert hf
    cases f <;> simp [BitField.flags, fieldBits, Protocol.loc]
  have mark : s.update_ = .UpdateStart → ∀ f ∈ BitField.flags, ¬ p.AFClear f →
      rd (params_set_payload p s) (p.loc f).1 &&& (p.loc f).2 ≠ 0 :=
    fun hu f hf hA => flag_marked p hL s f (hI f hf).maskU8 hu hA
  refine ⟨?_, ?_, ?_, ?_, ?_, ?_, ?_, ?_, ?_, ?_, ?_, ?_, ?_, mark, ?_⟩
  · intro hA
    have hion1 := key .ion1 (by decide) (fun u => (hA u).1)
    have hion2 := key .ion2 (by decide) (fun u => (hA u).2)
    simp only [Protocol.loc, fieldActive, ne_eq, decide_eq_true_eq] at hion1 hion2
    unfold determine_ionizer
    rw [hr]
    cases hi : s.ionizer_state_ <;> simp_all
  · intro hA
    have h := key .beeper (by decide) hA
    simp only [Protocol.loc, fieldActive, ne_eq, decide_eq_true_eq] at h
    unfold determine_beeper
    rw [hr]
    cases hi : s.beeper_state_ <;> simp_all
  · intro hA
    have h := key .sleep (by decide) hA
    simp only [Protocol.loc, fieldActive, ne_eq, decide_eq_true_eq] at h
    unfold determine_sleep
    rw [hr]
    cases hi : s.sleep_state_ <;> simp_all
  · intro hA
    have h := key .xfan (by decide) hA
    simp only [Protocol.loc, fieldActive, ne_eq, decide_eq_true_eq] at h
    unfold determine_xfan
    rw [hr]
    cases hi : s.xfan_state_ <;> simp_all
  · intro hA
    have h := key .powersave (by decide) hA
    simp only [Protocol.loc, fieldActive, ne_eq, decide_eq_true_eq] at h
    unfold determine_powersave
    rw [hr]
    cases hi : s.powersave_state_ <;> simp_all
  · intro hA
    have h := key .turbo (by decide) hA
    simp only [Protocol.loc, fieldActive, ne_eq, decide_eq_true_eq] at h
    unfold determine_turbo
    rw [hr]
    cases hi : s.turbo_state_ <;> simp_all
  · intro hA
    have h := key .ifeel (by decide) hA
    simp only [Protocol.loc, fieldActive, ne_eq, decide_eq_true_eq] at h
    unfold determine_ifeel
    rw [hr]
    cases hi : s.ifeel_state_ <;> simp_all
  · intro hA
    have h := key .dispOn (by decide) hA
    simp only [Protocol.loc, fieldActive, ne_eq, decide_eq_true_eq] at h
    unfold determine_light
    rw [hr]
    cases hi : s.light_state_ <;> simp_all
  · intro hA u hu
    have h := key .dispF (by decide) hA
    simp only [Protocol.loc, fieldActive, ne_eq, decide_eq_true_eq] at h
    unfold determine_display_unit
    rw [hr]
    cases u <;> simp_all
  · intro hA q hq
    have hquiet := key .quiet (by decide) (fun u => (hA u).1)
    have hquietAuto := key .quietAuto (by decide) (fun u => (hA u).2)
    simp only [Protocol.loc, fieldActive, ne_eq, decide_eq_true_eq] at hquiet hquietAuto
    unfold determine_quiet
    rw [hr]
    cases q <;> simp_all
  · intro hA
    have h := key .beeper (by decide) hA
    simp only [Protocol.loc, fieldActive, ne_eq, decide_eq_true_eq] at h
    rw [ne_eq, h]
    cases s.beeper_state_ <;> simp
  · intro hA
    have h := key .ion1 (by decide) hA
    simp only [Protocol.loc, fieldActive, ne_eq, decide_eq_true_eq] at h
    exact h
  · intro hA
    have h := key .ion2 (by decide) hA
    simp only [Protocol.loc, fieldActive, ne_eq, decide_eq_true_eq] at h
    exact h
  · intro hu hA
    unfold determine_ionizer
    rw [hr]
    rcases hA with hA | hA
    · have h := mark hu .ion1 (by decide) hA
      simp only [Protocol.loc] at h
      simp [h]
    · have h := mark hu .ion2 (by decide) hA
      simp only [Protocol.loc] at h
      simp [h]

set_option maxRecDepth 100000 in
/-- C2 at the sample layout. Every flag of `sampleState` is read back from its payload,
which carries no marker. The payload of `sampleIonizerOff` carries the marker: its
beeper, sleep, xfan, powersave, turbo, ifeel and light flags, display unit and quiet
option are read back, the second ionizer bit is set by the marker, and the ionizer is
decoded as on although the state holds off. -/
theorem C2_flag_roundtrip_witness :
    (determine_ionizer sampleProtocol sampleReport = true ∧
      determine_beeper sampleProtocol sampleReport = false ∧
      determine_sleep sampleProtocol sampleReport = true ∧
      determine_xfan sampleProtocol sampleReport = false ∧
      determine_powersave sampleProtocol sampleReport = true ∧
      determine_turbo sampleProtocol sampleReport = false ∧
      determine_ifeel sampleProtocol sampleReport = true ∧
      determine_light sampleProtocol sampleReport = true ∧
      determine_display_unit sampleProtocol sampleReport = .DEGC ∧
      determine_quiet sampleProtocol sampleReport = .AUTO) ∧
    (sampleIonizerOff.update_ = .UpdateStart ∧
      determine_beeper sampleProtocol sampleIonizerOffReport = false ∧
      determine_sleep sampleProtocol sampleIonizerOffReport = true ∧
      determine_xfan sampleProtocol sampleIonizerOffReport = false ∧
      determine_powersave sampleProtocol sampleIonizerOffReport = true ∧
      determine_turbo sampleProtocol sampleIonizerOffReport = false ∧
      determine_ifeel sampleProtocol sampleIonizerOffReport = true ∧
      determine_light sampleProtocol sampleIonizerOffReport = true ∧
      determine_display_unit sampleProtocol sampleIonizerOffReport = .DEGC ∧
      determine_quiet sampleProtocol sampleIonizerOffReport = .AUTO ∧
      rd (params_set_payload sampleProtocol sampleIonizerOff) 0 &&& 0x04 ≠ 0 ∧
      determine_ionizer sampleProtocol sampleIonizerOffReport = true) :=
  have h := C2_flag_roundtrip sampleProtocol sample_wellFormed (fun f _ => sample_isolated f)
    (by decide) sampleState sampleReport rfl
  have g := C2_flag_roundtrip sampleProtocol sample_wellFormed (fun f _ => sample_isolated f)
    (by decide) sampleIonizerOff sampleIonizerOffReport rfl
  ⟨⟨h.1 (by decide), h.2.1 (by decide), h.2.2.1 (by decide), h.2.2.2.1 (by decide),
    h.2.2.2.2.1 (by decide), h.2.2.2.2.2.1 (by decide), h.2.2.2.2.2.2.1 (by decide),
    h.2.2.2.2.2.2.2.1 (by decide), h.2.2.2.2.2.2.2.2.1 (by decide) _ rfl,
    h.2.2.2.2.2.2.2.2.2.1 (by decide) _ rfl⟩,
   ⟨rfl, g.2.1 (by decide), g.2.2.1 (by decide), g.2.2.2.1 (by decide),
    g.2.2.2.2.1 (by decide), g.2.2.2.2.2.1 (by decide), g.2.2.2.2.2.2.1 (by decide),
    g.2.2.2.2.2.2.2.1 (by decide), g.2.2.2.2.2.2.2.2.1 (by decide) _ rfl,
    g.2.2.2.2.2.2.2.2.2.1 (by decide) _ rfl,
    g.2.2.2.2.2.2.2.2.2.2.2.2.2.1 rfl .ion2 (by decide) (by decide),
    g.2.2.2.2.2.2.2.2.2.2.2.2.2.2 rfl (Or.inr (by decide))⟩⟩

/-! ## C3: target temperature -/

theorem c_round_natCast (t : Nat) : c_round (t : ℚ) = t := by
  unfold c_round
  simp only [Rat.num_natCast, Rat.den_natCast]
  rw [if_pos (by omega)]
  omega

theorem c_round_intCast (t : Int) : c_round (t : ℚ) = t := by
  unfold c_round
  simp only [Rat.intCast_num, Rat.intCast_den]
  split_ifs <;> omega

/-- From zero upwards `c_round x` is `floor (x + 1/2)`. -/
theorem c_round_of_nonneg (x : ℚ) (h : 0 ≤ x) : c_round x = ⌊x + 1 / 2⌋ := by
  unfold c_round
  rw [if_pos (Rat.num_nonneg.mpr h)]
  have hd : (0 : ℚ) < x.den := by exact_mod_cast x.den_pos
  have hx : x + 1 / 2 = ((2 * x.num + x.den : Int) : ℚ) / ((2 * x.den : Nat) : ℚ) := by
    conv_lhs => rw [← Rat.num_div_den x]
    push_cast
    field_simp
    ring
  rw [hx, Rat.floor_intCast_div_natCast]
  push_cast
  rfl

/-- Below zero `c_round` is the mirror image: `c_round x = -c_round (-x)`. -/
theorem c_round_of_neg (x : ℚ) (h : x < 0) : c_round x = -c_round (-x) := by
  have hn : x.num < 0 := Rat.num_neg.mpr h
  unfold c_round
  rw [if_neg (by omega), if_pos (by simp only [Rat.neg_num]; omega)]
  simp only [Rat.neg_num, Rat.neg_den]

/-- The rounded value is at most half a unit away. -/
theorem c_round_near (x : ℚ) : |(c_round x : ℚ) - x| ≤ 1 / 2 := by
  rcases le_or_lt 0 x with h | h
  · rw [c_round_of_nonneg x h, abs_le]
    have h1 := Int.floor_le (x + 1 / 2)
    have h2 := Int.lt_floor_add_one (x + 1 / 2)
    constructor <;> linarith
  · rw [c_round_of_neg x h, c_round_of_nonneg (-x) (by linarith), abs_le]
    have h1 := Int.floor_le (-x + 1 / 2)
    have h2 := Int.lt_floor_add_one (-x + 1 / 2)
    push_cast
    constructor <;> linarith

theorem c_round_bounds (x : ℚ) (a b : Nat) (ha : (a : ℚ) ≤ x) (hb : x ≤ (b : ℚ)) :
    (a : Int) ≤ c_round x ∧ c_round x ≤ (b : Int) := by
  have h0 : (0 : ℚ) ≤ x := le_trans (by positivity) ha
  rw [c_round_of_nonneg x h0]
  constructor
  · apply Int.le_floor.mpr
    push_cast
    linarith
  · have : ⌊x + 1 / 2⌋ < (b : Int) + 1 := by
      apply Int.floor_lt.mpr
      push_cast
      linarith
    omega

theorem target_temperature_bits_eq (p : Protocol) (s : GreeACCNT) (t : Nat)
    (hoff : p.REPORT_TEMP_SET_OFF ≤ t) (ht : t < 256)
    (hs : c_round s.target_temperature = (t : Int))
    (hm : p.REPORT_TEMP_SET_MASK < 256) :
    target_temperature_bits p s =
      ((t - p.REPORT_TEMP_SET_OFF) <<< p.REPORT_TEMP_SET_POS) &&& p.REPORT_TEMP_SET_MASK := by
  unfold target_temperature_bits
  rw [hs]
  have h1 : ((t : Int) % 256) = (t : Int) := Int.emod_eq_of_lt (by omega) (by omega)
  have h2 : ((t : Int) - (p.REPORT_TEMP_SET_OFF : Int)) = ((t - p.REPORT_TEMP_SET_OFF : Nat) : Int) := by
    omega
  have h3 : (((t - p.REPORT_TEMP_SET_OFF : Nat) : Int) * 2 ^ p.REPORT_TEMP_SET_POS) % 256 =
      (((t - p.REPORT_TEMP_SET_OFF) * 2 ^ p.REPORT_TEMP_SET_POS % 256 : Nat) : Int) := by
    push_cast
    rfl
  simp only [h1, h2, h3, Int.toNat_ofNat]
  rw [mod_and_of_lt _ _ hm, Nat.shiftLeft_eq]

/-- C3. Target temperature round trip. Let the protocol constants be well-formed, let
no other field overlap the target-temperature field, let `REPORT_TEMP_SET_OFF` be at
most 16 and let the temperature mask and shift preserve every code
`0 .. 30 - REPORT_TEMP_SET_OFF`. Then for every whole target temperature `t` in
`16 .. 30` the target-temperature field of the payload holds
`((t - REPORT_TEMP_SET_OFF) << POS) & MASK`, and the decoded value
`((byte & MASK) >> POS) + REPORT_TEMP_SET_OFF` is `t`. When the frame carries the `0xAF`
marker (`UpdateStart`), the marker must not overlap the field. -/
theorem C3_target_temperature_roundtrip (p : Protocol) (hL : p.WellFormed)
    (hI : p.Isolated .temp)
    (hoff : p.REPORT_TEMP_SET_OFF ≤ 16)
    (hfit : ∀ c ∈ List.range (31 - p.REPORT_TEMP_SET_OFF),
      Fits c p.REPORT_TEMP_SET_POS p.REPORT_TEMP_SET_MASK)
    (s r : GreeACCNT) (t : Nat) (h16 : 16 ≤ t) (h30 : t ≤ 30)
    (hs : s.target_temperature = (t : ℚ))
    (hAF : s.update_ = .UpdateStart → p.AFClear .temp)
    (hr : r.serialProcess_.data = params_set_payload p s) :
    rd (params_set_payload p s) p.REPORT_TEMP_SET_BYTE &&& p.REPORT_TEMP_SET_MASK =
        ((t - p.REPORT_TEMP_SET_OFF) <<< p.REPORT_TEMP_SET_POS) &&& p.REPORT_TEMP_SET_MASK ∧
      reported_target_temperature p r = t := by
  have hm : p.REPORT_TEMP_SET_MASK < 256 := hI.maskU8
  have h1 := field_read p hL s .temp hI hAF
  simp only [Protocol.loc, fieldValue, fieldActive, fieldBits, if_true] at h1
  rw [target_temperature_bits_eq p s t (by omega) (by omega)
    (by rw [hs]; exact c_round_natCast t) hm] at h1
  refine ⟨h1, ?_⟩
  have hf := hfit (t - p.REPORT_TEMP_SET_OFF) (List.mem_range.mpr (by omega))
  unfold Fits at hf
  unfold reported_target_temperature
  simp only [hr, h1, hf, Nat.shiftLeft_shiftRight]
  rw [Nat.mod_eq_of_lt (by omega)]
  omega

/-- C3 at the sample layout: a target of 24 degrees is stored as `0x80` in the
temperature field and read back as 24. -/
theorem C3_target_temperature_roundtrip_witness :
    rd (params_set_payload sampleProtocol sampleState) 5 &&& 0xF0 = ((24 - 16) <<< 4) &&& 0xF0 ∧
      reported_target_temperature sampleProtocol sampleReport = 24 :=
  C3_target_temperature_roundtrip sampleProtocol sample_wellFormed (sample_isolated _)
    (by decide) (by decide)
    sampleState sampleReport 24 (by decide) (by decide) rfl (by decide) rfl

/-! ## C4: display mode -/

/-- C4, as stated, fails: with the climate mode off and the display option "actual" held
in the state, the payload built by `send_params_set_packet` decodes to "set". -/
theorem C4_display_counterexample :
    sampleOffState.mode = .OFF ∧ sampleOffState.display_state_ = some .ACT ∧
      determine_display sampleProtocol sampleOffReport = .SET := by
  decide

/-- C4, amended. Let the protocol constants be well-formed, let no other field overlap
the display-mode field, and let the codes of "set" and "actual" differ. Then for both
display options: when the climate mode is not off, `determine_display` applied to the
payload built by `send_params_set_packet` returns the display option held in the state;
when the climate mode is off it returns "set" whatever the option is. When the frame
carries the `0xAF` marker (`UpdateStart`), the marker must not overlap the field. -/
theorem C4_display_roundtrip (p : Protocol) (hL : p.WellFormed) (hI : p.Isolated .dispMode)
    (hne : p.REPORT_DISP_MODE_SET ≠ p.REPORT_DISP_MODE_ACT)
    (s r : GreeACCNT) (d : display_options) (hd : s.display_state_ = some d)
    (hAF : s.update_ = .UpdateStart → p.AFClear .dispMode)
    (hr : r.serialProcess_.data = params_set_payload p s) :
    (s.mode ≠ .OFF → determine_display p r = d) ∧
    (s.mode = .OFF → determine_display p r = .SET) := by
  have h1 := field_read p hL s .dispMode hI hAF
  simp only [Protocol.loc, fieldValue, fieldActive, fieldBits, if_true] at h1
  have hf := hL.dispFits _ (display_code_mem p s)
  unfold Fits at hf
  have hdec : determine_display p r =
      if display_mode p s = p.REPORT_DISP_MODE_SET then .SET
      else if display_mode p s = p.REPORT_DISP_MODE_ACT then .ACT
      else if display_mode p s = p.REPORT_DISP_MODE_OUT then .SET
      else .SET := by
    unfold determine_display
    simp only [hr, h1, hf, Nat.shiftLeft_shiftRight]
  rw [hdec]
  constructor
  · intro hmode
    unfold display_mode
    cases d <;> simp [hd, hmode, hne, Ne.symm hne]
  · intro hmode
    unfold display_mode
    simp [hmode]

/-- C4 (amended) at the sample layout: in cooling mode the option "actual" is read back. -/
theorem C4_display_roundtrip_witness :
    sampleState.mode ≠ .OFF ∧ determine_display sampleProtocol sampleReport = .ACT :=
  ⟨by decide,
    (C4_display_roundtrip sampleProtocol sample_wellFormed (sample_isolated _) (by decide)
      sampleState sampleReport .ACT rfl (by decide) rfl).1 (by decide)⟩

/-! ## C5: power and mode -/

theorem determine_mode_of_code (p : Protocol) (hd : p.modeCodes.Nodup) (r : GreeACCNT)
    (m : ClimateMode) (c : Nat) (hc : p.REPORT_MODE m = some c)
    (hbits : (rd r.serialProcess_.data p.REPORT_MODE_BYTE &&& p.REPORT_MODE_MASK)
      >>> p.REPORT_MODE_POS = c) :
    (determine_mode p r).2.mode_internal_ = m ∧
      (determine_mode p r).1 =
        if rd r.serialProcess_.data p.REPORT_PWR_BYTE &&& p.REPORT_PWR_MASK ≠ 0 then m
        else .OFF := by
  simp only [Protocol.modeCodes, List.nodup_cons, List.mem_cons, List.mem_singleton,
    List.not_mem_nil, not_or, List.nodup_nil, or_false, not_false_eq_true, and_true] at hd
  obtain ⟨⟨h12, h13, h14, h15⟩, ⟨h23, h24, h25⟩, ⟨h34, h35⟩, h45⟩ := hd
  unfold determine_mode
  simp only [hbits]
  by_cases hp : rd r.serialProcess_.data p.REPORT_PWR_BYTE &&& p.REPORT_PWR_MASK = 0
  · cases m <;> simp only [Protocol.REPORT_MODE, Option.some.injEq, reduceCtorEq] at hc <;>
      subst hc <;>
      simp [hp, h12, h13, h14, h15, h23, h24, h25, h34, h35, h45, Ne.symm h12, Ne.symm h13,
        Ne.symm h14, Ne.symm h15, Ne.symm h23, Ne.symm h24, Ne.symm h25, Ne.symm h34,
        Ne.symm h35, Ne.symm h45]
  · cases m <;> simp only [Protocol.REPORT_MODE, Option.some.injEq, reduceCtorEq] at hc <;>
      subst hc <;>
      simp [hp, h12, h13, h14, h15, h23, h24, h25, h34, h35, h45, Ne.symm h12, Ne.symm h13,
        Ne.symm h14, Ne.symm h15, Ne.symm h23, Ne.symm h24, Ne.symm h25, Ne.symm h34,
        Ne.symm h35, Ne.symm h45]

theorem mode_and_power_of_active (p : Protocol) (s : GreeACCNT) (c : Nat)
    (hc : p.REPORT_MODE s.mode = some c) : mode_and_power p s = (c, true) := by
  unfold mode_and_power
  cases hm : s.mode <;> simp only [hm, Protocol.REPORT_MODE, Option.some.injEq, reduceCtorEq] at hc <;>
    simp [hc]

/-- C5. Power and mode decoding. For every received payload `determine_mode` returns
off when the power bit is clear, whatever the mode bits are. When the mode codes are
pairwise distinct (they are the labels of one `switch`) and the power bit is set, it
returns the active mode whose wire code equals the mode bits. That code is the one
`send_params_set_packet` writes: when the constants are well-formed, no other field
overlaps the mode and power fields and the power mask is non-zero, the payload built for
an active mode carries its code and the power bit, and decodes to the same mode. -/
theorem C5_determine_mode (p : Protocol) :
    (∀ r : GreeACCNT,
      rd r.serialProcess_.data p.REPORT_PWR_BYTE &&& p.REPORT_PWR_MASK = 0 →
        (determine_mode p r).1 = .OFF) ∧
    (p.modeCodes.Nodup → ∀ (r : GreeACCNT) (m : ClimateMode) (c : Nat),
      p.REPORT_MODE m = some c →
      rd r.serialProcess_.data p.REPORT_PWR_BYTE &&& p.REPORT_PWR_MASK ≠ 0 →
      (rd r.serialProcess_.data p.REPORT_MODE_BYTE &&& p.REPORT_MODE_MASK)
        >>> p.REPORT_MODE_POS = c →
      (determine_mode p r).1 = m) ∧
    (p.modeCodes.Nodup → p.WellFormed → p.Isolated .mode ∧ p.Isolated .pwr →
      p.REPORT_PWR_MASK ≠ 0 →
      ∀ (s r : GreeACCNT) (c : Nat), p.REPORT_MODE s.mode = some c →
      (s.update_ = .UpdateStart → p.AFClear .mode ∧ p.AFClear .pwr) →
      r.serialProcess_.data = params_set_payload p s →
      (rd r.serialProcess_.data p.REPORT_MODE_BYTE &&& p.REPORT_MODE_MASK)
          >>> p.REPORT_MODE_POS = c ∧
        rd r.serialProcess_.data p.REPORT_PWR_BYTE &&& p.REPORT_PWR_MASK ≠ 0 ∧
        (determine_mode p r).1 = s.mode) := by
  refine ⟨?_, ?_, ?_⟩
  · intro r hp
    unfold determine_mode
    simp [hp]
  · intro hd r m c hc hp hbits
    rw [(determine_mode_of_code p hd r m c hc hbits).2, if_pos hp]
  · intro hd hL hI hnz s r c hc hAF hr
    have hmp := mode_and_power_of_active p s c hc
    have h1 := field_read p hL s .mode hI.1 (fun u => (hAF u).1)
    have h2 := field_read p hL s .pwr hI.2 (fun u => (hAF u).2)
    simp only [Protocol.loc, fieldValue, fieldActive, fieldBits, hmp, if_true] at h1 h2
    have hmem : c ∈ p.modeCodes := by
      have h := mode_code_mem p s
      rw [hmp] at h
      exact h
    have hf := hL.modeFits c hmem
    unfold Fits at hf
    have hbits : (rd r.serialProcess_.data p.REPORT_MODE_BYTE &&& p.REPORT_MODE_MASK)
        >>> p.REPORT_MODE_POS = c := by
      rw [hr, h1, Nat.shiftLeft_shiftRight]
    have hp : rd r.serialProcess_.data p.REPORT_PWR_BYTE &&& p.REPORT_PWR_MASK ≠ 0 := by
      rw [hr, h2]; exact hnz
    refine ⟨hbits, hp, ?_⟩
    rw [(determine_mode_of_code p hd r s.mode c hc hbits).2, if_pos hp]

/-- C5 at the sample layout: the payload of the switched-off sample state decodes to off,
a payload with the power bit set and the mode bits `1` decodes to cool, and the payload
of the cooling sample state carries the code `1`, the power bit, and decodes to cool. -/
theorem C5_determine_mode_witness :
    (determine_mode sampleProtocol sampleOffReport).1 = .OFF ∧
    (determine_mode sampleProtocol sampleReport).1 = .COOL ∧
    ((rd sampleReport.serialProcess_.data 4 &&& 0x70) >>> 4 = 1 ∧
      rd sampleReport.serialProcess_.data 4 &&& 0x80 ≠ 0 ∧
      (determine_mode sampleProtocol sampleReport).1 = sampleState.mode) :=
  have h := C5_determine_mode sampleProtocol
  ⟨h.1 sampleOffReport (by decide),
    h.2.1 (by decide) sampleReport .COOL 1 rfl (by decide) (by decide),
    h.2.2 (by decide) sample_wellFormed ⟨sample_isolated _, sample_isolated _⟩ (by decide)
      sampleState sampleReport 1 rfl (by decide) rfl⟩

/-! ## C6: the off mode keeps the remembered mode -/

theorem length_foldl_fieldStep (p : Protocol) (s : GreeACCNT) (l : List BitField) :
    ∀ pl : Bytes, (l.foldl (fieldStep p s) pl).length = pl.length := by
  induction l with
  | nil => intro pl; rfl
  | cons g l ih => intro pl; rw [List.foldl_cons, ih, length_fieldStep]

theorem length_params_set_payload (p : Protocol) (s : GreeACCNT) :
    (params_set_payload p s).length = p.SET_PACKET_LEN := by
  rw [params_set_payload_eq_foldl, length_foldl_fieldStep, length_payloadBase]

theorem rd_append_left (a b : Bytes) (i : Nat) (h : i < a.length) : rd (a ++ b) i = rd a i := by
  unfold rd
  simp only [List.getD_eq_getElem?_getD, List.getElem?_append_left h]

theorem rd_append_right (a b : Bytes) (i : Nat) : rd (a ++ b) (a.length + i) = rd b i := by
  unfold rd
  simp only [List.getD_eq_getElem?_getD]
  rw [List.getElem?_append_right (Nat.le_add_right _ _), Nat.add_sub_cancel_left]

theorem rd_params_set_packet_payload (p : Protocol) (s : GreeACCNT) (i : Nat)
    (hi : i < p.SET_PACKET_LEN) :
    rd (params_set_packet p s) (4 + i) = rd (params_set_payload p s) i := by
  unfold params_set_packet finalize_checksum_
  rw [rd_wr, if_neg (by omega), List.append_assoc]
  have h4 : ([p.SYNC, p.SYNC, (p.SET_PACKET_LEN + 2) % 256, p.CMD_OUT_PARAMS_SET] : Bytes).length
      = 4 := rfl
  have h := rd_append_right [p.SYNC, p.SYNC, (p.SET_PACKET_LEN + 2) % 256, p.CMD_OUT_PARAMS_SET]
    (params_set_payload p s ++ [0]) i
  rw [h4] at h
  rw [h, rd_append_left _ _ _ (by rw [length_params_set_payload]; exact hi)]

theorem mode_and_power_of_mode_off (p : Protocol) (s : GreeACCNT) (hoff : s.mode = .OFF) :
    mode_and_power p s = ((p.REPORT_MODE s.mode_internal_).getD p.REPORT_MODE_AUTO, false) := by
  unfold mode_and_power
  rw [hoff]
  cases s.mode_internal_ <;> rfl

set_option maxRecDepth 100000 in
/-- C6, as stated, fails. A unit report whose mode bits are `7`, none of the five mode
codes, makes `determine_mode` store off in `mode_internal_`. With the climate mode off,
the parameter frame built afterwards carries the mode bits of `REPORT_MODE_AUTO`: not the
code last seen from the unit and not the code of `mode_internal_`, which has none, but
the value that the encoder starts from. A report that echoes this frame makes the unit's
remembered mode auto. -/
theorem C6_forced_default_counterexample :
    (rd sampleUnknownModeReport.serialProcess_.data 4 &&& 0x70) >>> 4 = 7 ∧
    sampleForgotten.mode = .OFF ∧
    sampleForgotten.mode_internal_ = .OFF ∧
    sampleProtocol.REPORT_MODE sampleForgotten.mode_internal_ = none ∧
    rd (params_set_packet sampleProtocol sampleForgotten) (4 + 4) &&& 0x80 = 0 ∧
    (rd (params_set_packet sampleProtocol sampleForgotten) (4 + 4) &&& 0x70) >>> 4
      = sampleProtocol.REPORT_MODE_AUTO ∧
    (determine_mode sampleProtocol sampleForgottenReport).2.mode_internal_ = .AUTO := by
  decide

/-- C6, amended. Let the protocol constants be well-formed, let no other field overlap
the mode and power fields and let the mode codes be pairwise distinct. When the climate
mode is off, the parameter frame built by `send_params_set_packet` has the power bit
clear. When `mode_internal_` holds one of the five active modes, the mode bits of the
frame are the wire code of `mode_internal_`, and a report that carries the same payload
decodes to off and leaves `mode_internal_` at that mode. When `mode_internal_` holds no
active mode (`determine_mode` stores off there for unknown mode bits), the mode bits are
those of `REPORT_MODE_AUTO`, and a report that carries the same payload decodes to off
and sets `mode_internal_` to auto. -/
theorem C6_off_mode_bits (p : Protocol) (hd : p.modeCodes.Nodup) (hL : p.WellFormed)
    (hI : p.Isolated .mode ∧ p.Isolated .pwr)
    (s : GreeACCNT) (hoff : s.mode = .OFF)
    (hAF : s.update_ = .UpdateStart → p.AFClear .mode ∧ p.AFClear .pwr) :
    rd (params_set_packet p s) (4 + p.REPORT_PWR_BYTE) &&& p.REPORT_PWR_MASK = 0 ∧
    (∀ c : Nat, p.REPORT_MODE s.mode_internal_ = some c →
      (rd (params_set_packet p s) (4 + p.REPORT_MODE_BYTE) &&& p.REPORT_MODE_MASK)
        >>> p.REPORT_MODE_POS = c ∧
      (∀ r : GreeACCNT, r.serialProcess_.data = params_set_payload p s →
        (determine_mode p r).1 = .OFF ∧
        (determine_mode p r).2.mode_internal_ = s.mode_internal_)) ∧
    (p.REPORT_MODE s.mode_internal_ = none →
      (rd (params_set_packet p s) (4 + p.REPORT_MODE_BYTE) &&& p.REPORT_MODE_MASK)
        >>> p.REPORT_MODE_POS = p.REPORT_MODE_AUTO ∧
      (∀ r : GreeACCNT, r.serialProcess_.data = params_set_payload p s →
        (determine_mode p r).1 = .OFF ∧
        (determine_mode p r).2.mode_internal_ = .AUTO)) := by
  have hmp := mode_and_power_of_mode_off p s hoff
  have h1 := field_read p hL s .mode hI.1 (fun u => (hAF u).1)
  have h2 := field_read p hL s .pwr hI.2 (fun u => (hAF u).2)
  simp only [Protocol.loc, fieldValue, fieldActive, fieldBits, hmp, if_true, Bool.false_eq_true,
    if_false] at h1 h2
  have hmem : (p.REPORT_MODE s.mode_internal_).getD p.REPORT_MODE_AUTO ∈ p.modeCodes := by
    have h := mode_code_mem p s
    rw [hmp] at h
    exact h
  have hf := hL.modeFits _ hmem
  unfold Fits at hf
  have hbits : (rd (params_set_payload p s) p.REPORT_MODE_BYTE &&& p.REPORT_MODE_MASK)
      >>> p.REPORT_MODE_POS = (p.REPORT_MODE s.mode_internal_).getD p.REPORT_MODE_AUTO := by
    rw [h1, Nat.shiftLeft_shiftRight]
  have hpb : p.REPORT_PWR_BYTE < p.SET_PACKET_LEN := hL.inBounds .pwr
  have hmb : p.REPORT_MODE_BYTE < p.SET_PACKET_LEN := hL.inBounds .mode
  have hdec : ∀ (m : ClimateMode) (c : Nat), p.REPORT_MODE m = some c →
      (p.REPORT_MODE s.mode_internal_).getD p.REPORT_MODE_AUTO = c →
      ∀ r : GreeACCNT, r.serialProcess_.data = params_set_payload p s →
        (determine_mode p r).1 = .OFF ∧ (determine_mode p r).2.mode_internal_ = m := by
    intro m c hc hcc r hr
    have hdm := determine_mode_of_code p hd r m c hc (by rw [hr, hbits, hcc])
    refine ⟨?_, hdm.1⟩
    rw [hdm.2, hr, h2]
    simp
  refine ⟨?_, ?_, ?_⟩
  · rw [rd_params_set_packet_payload p s _ hpb]
    exact h2
  · intro c hc
    refine ⟨?_, hdec s.mode_internal_ c hc (by rw [hc]; rfl)⟩
    rw [rd_params_set_packet_payload p s _ hmb, hbits, hc]
    rfl
  · intro hn
    refine ⟨?_, hdec .AUTO p.REPORT_MODE_AUTO rfl (by rw [hn]; rfl)⟩
    rw [rd_params_set_packet_payload p s _ hmb, hbits, hn]
    rfl

set_option maxRecDepth 100000 in
/-- C6 at the sample layout. The frame of the switched-off sample state, whose remembered
mode is cool, has the power bit clear and the mode bits `1`, and its echo keeps cool. The
frame of the engine that has forgotten the mode has the power bit clear and the mode bits
`0` of auto, and its echo stores auto. -/
theorem C6_off_mode_bits_witness :
    (rd (params_set_packet sampleProtocol sampleOffState) (4 + 4) &&& 0x80 = 0 ∧
      (rd (params_set_packet sampleProtocol sampleOffState) (4 + 4) &&& 0x70) >>> 4 = 1 ∧
      (determine_mode sampleProtocol sampleOffReport).1 = .OFF ∧
      (determine_mode sampleProtocol sampleOffReport).2.mode_internal_ = .COOL) ∧
    (rd (params_set_packet sampleProtocol sampleForgotten) (4 + 4) &&& 0x80 = 0 ∧
      (rd (params_set_packet sampleProtocol sampleForgotten) (4 + 4) &&& 0x70) >>> 4 = 0 ∧
      (determine_mode sampleProtocol sampleForgottenReport).1 = .OFF ∧
      (determine_mode sampleProtocol sampleForgottenReport).2.mode_internal_ = .AUTO) :=
  have h := C6_off_mode_bits sampleProtocol (by decide) sample_wellFormed
    ⟨sample_isolated _, sample_isolated _⟩ sampleOffState rfl (by decide)
  have g := C6_off_mode_bits sampleProtocol (by decide) sample_wellFormed
    ⟨sample_isolated _, sample_isolated _⟩ sampleForgotten (by decide) (by decide)
  ⟨⟨h.1, (h.2.1 1 rfl).1, ((h.2.1 1 rfl).2 sampleOffReport rfl).1,
      ((h.2.1 1 rfl).2 sampleOffReport rfl).2⟩,
   ⟨g.1, (g.2.2 (by decide)).1, ((g.2.2 (by decide)).2 sampleForgottenReport rfl).1,
      ((g.2.2 (by decide)).2 sampleForgottenReport rfl).2⟩⟩

/-! ## C7: defaults for unknown codes -/

theorem find?_eq_none_of_not_mem {α : Type} (l : List (Nat × α)) (k : Nat)
    (h : k ∉ l.map Prod.fst) : l.find? (fun mapping => k == mapping.1) = none := by
  rw [List.find?_eq_none]
  intro x hx hk
  exact h (by rw [beq_iff_eq] at hk; rw [hk]; exact List.mem_map_of_mem Prod.fst hx)

/-- C7. Decoding is total with fixed defaults. For every receive buffer: a fan code
outside `0x08 .. 0x0D` decodes to fan auto, a vertical swing code outside the table to
vertical off, a horizontal swing code outside the table to horizontal off, a display
code other than the code of "actual" to "set", and mode bits outside the five mode codes
to off (with or without the power bit, and `mode_internal_` becomes off as well). Each
`determine_*` function is a total function of the buffer, so no field value stops the
decoding of a report. -/
theorem C7_decode_defaults (p : Protocol) (r : GreeACCNT) :
    (rd r.serialProcess_.data p.REPORT_FAN_SPD1_BYTE &&& p.REPORT_FAN_SPD1_MASK ∉ fanCodes →
      determine_fan_mode p r = .FAN_AUTO) ∧
    ((rd r.serialProcess_.data p.REPORT_VSWING_BYTE &&& p.REPORT_VSWING_MASK)
        >>> p.REPORT_VSWING_POS ∉ p.vswingCodes →
      determine_vertical_swing p r = .OFF) ∧
    ((rd r.serialProcess_.data p.REPORT_HSWING_BYTE &&& p.REPORT_HSWING_MASK)
        >>> p.REPORT_HSWING_POS ∉ p.hswingCodes →
      determine_horizontal_swing p r = .OFF) ∧
    ((rd r.serialProcess_.data p.REPORT_DISP_MODE_BYTE &&& p.REPORT_DISP_MODE_MASK)
        >>> p.REPORT_DISP_MODE_POS ≠ p.REPORT_DISP_MODE_ACT →
      determine_display p r = .SET) ∧
    ((rd r.serialProcess_.data p.REPORT_MODE_BYTE &&& p.REPORT_MODE_MASK)
        >>> p.REPORT_MODE_POS ∉ p.modeCodes →
      (determine_mode p r).1 = .OFF ∧ (determine_mode p r).2.mode_internal_ = .OFF) := by
  refine ⟨?_, ?_, ?_, ?_, ?_⟩
  · intro h
    unfold determine_fan_mode
    simp only [find?_eq_none_of_not_mem FAN_MAP_REPORT _ h]
  · intro h
    unfold determine_vertical_swing
    simp only [find?_eq_none_of_not_mem (VSWING_MAP_REPORT p) _ h]
  · intro h
    unfold determine_horizontal_swing
    simp only [find?_eq_none_of_not_mem (HSWING_MAP_REPORT p) _ h]
  · intro h
    unfold determine_display
    simp only [h, if_false, ite_self]
  · intro h
    simp only [Protocol.modeCodes, List.mem_cons, List.mem_singleton, List.not_mem_nil, not_or,
      or_false] at h
    obtain ⟨h1, h2, h3, h4, h5⟩ := h
    unfold determine_mode
    simp only [h1, h2, h3, h4, h5, if_false]
    split <;> exact ⟨rfl, rfl⟩

/-- C7 at the sample layout: a buffer whose fan field holds `0x0F`, whose swing byte holds
`0xF7`, whose display field holds `3` and whose mode bits hold `7` decodes to the defaults. -/
theorem C7_decode_defaults_witness :
    determine_fan_mode sampleProtocol
        { serialProcess_ := { data := List.replicate 18 0 ++ [0x0F] } } = .FAN_AUTO ∧
    determine_vertical_swing sampleProtocol
        { serialProcess_ := { data := List.replicate 8 0 ++ [0xF7] } } = .OFF ∧
    determine_horizontal_swing sampleProtocol
        { serialProcess_ := { data := List.replicate 8 0 ++ [0xF7] } } = .OFF ∧
    determine_display sampleProtocol
        { serialProcess_ := { data := List.replicate 9 0 ++ [0x30] } } = .SET ∧
    (determine_mode sampleProtocol
        { serialProcess_ := { data := List.replicate 4 0 ++ [0xF0] } }).1 = .OFF :=
  ⟨(C7_decode_defaults sampleProtocol
      { serialProcess_ := { data := List.replicate 18 0 ++ [0x0F] } }).1 (by decide),
    (C7_decode_defaults sampleProtocol
      { serialProcess_ := { data := List.replicate 8 0 ++ [0xF7] } }).2.1 (by decide),
    (C7_decode_defaults sampleProtocol
      { serialProcess_ := { data := List.replicate 8 0 ++ [0xF7] } }).2.2.1 (by decide),
    (C7_decode_defaults sampleProtocol
      { serialProcess_ := { data := List.replicate 9 0 ++ [0x30] } }).2.2.2.1 (by decide),
    ((C7_decode_defaults sampleProtocol
      { serialProcess_ := { data := List.replicate 4 0 ++ [0xF0] } }).2.2.2.2 (by decide)).1⟩

/-! ## C8: the checksum -/

theorem foldl_checksum_mod (f : Nat → Nat) (l : List Nat) :
    ∀ acc : Nat, l.foldl (fun checksum i => (checksum + f i) % 256) acc % 256 =
      (acc + (l.map f).sum) % 256 := by
  induction l with
  | nil => intro acc; simp
  | cons a l ih =>
    intro acc
    rw [List.foldl_cons, ih, List.map_cons, List.sum_cons]
    omega

theorem foldl_checksum_lt (f : Nat → Nat) (l : List Nat) :
    ∀ acc : Nat, acc < 256 → l.foldl (fun checksum i => (checksum + f i) % 256) acc < 256 := by
  induction l with
  | nil => intro acc h; exact h
  | cons a l ih =>
    intro acc _
    rw [List.foldl_cons]
    exact ih _ (Nat.mod_lt _ (by norm_num))

theorem calculate_checksum_lt (data : Bytes) (len : Nat) : calculate_checksum_ data len < 256 :=
  foldl_checksum_lt (rd data) _ 0 (by norm_num)

theorem calculate_checksum_eq_sum (data : Bytes) (len : Nat) :
    calculate_checksum_ data len = checksum_sum data len := by
  have h := foldl_checksum_mod (rd data) (List.range' 2 (len - 1 - 2)) 0
  rw [Nat.mod_eq_of_lt (foldl_checksum_lt (rd data) _ 0 (by norm_num)), Nat.zero_add] at h
  unfold calculate_checksum_ checksum_sum
  rw [h, Nat.sub_sub]

theorem checksum_sum_congr (data data' : Bytes) (len : Nat)
    (h : ∀ i, 2 ≤ i → i < len - 1 → rd data i = rd data' i) :
    checksum_sum data len = checksum_sum data' len := by
  unfold checksum_sum
  congr 2
  apply List.map_congr_left
  intro i hi
  rw [List.mem_range'_1] at hi
  exact h i hi.1 (by omega)

/-- C8. Checksum definition. For every byte array and every `len >= 1`,
`calculate_checksum_(data, len)` is the sum of `data[2] .. data[len - 2]` modulo 256
(0 when that range is empty); it depends on no other byte, so the two sync bytes and
the trailing byte never contribute. -/
theorem C8_checksum_definition (data : Bytes) (len : Nat) (hlen : 1 ≤ len) :
    calculate_checksum_ data len = checksum_sum data len ∧
    (len ≤ 3 → calculate_checksum_ data len = 0) ∧
    (∀ data' : Bytes, (∀ i, 2 ≤ i → i < len - 1 → rd data i = rd data' i) →
      calculate_checksum_ data' len = calculate_checksum_ data len) := by
  refine ⟨calculate_checksum_eq_sum data len, ?_, ?_⟩
  · intro h3
    have h0 : len - 1 - 2 = 0 := by omega
    unfold calculate_checksum_
    rw [h0]
    rfl
  · intro data' h
    rw [calculate_checksum_eq_sum, calculate_checksum_eq_sum, checksum_sum_congr data data' len h]

/-- C8 on the startup frame: the checksum of its 19 bytes is `0x10 + 0x02 + ... + 0x23`
modulo 256, which is `0xBA`. -/
theorem C8_checksum_definition_witness :
    calculate_checksum_ special_startup_packet 19 = checksum_sum special_startup_packet 19 ∧
      checksum_sum special_startup_packet 19 = 0xBA :=
  ⟨(C8_checksum_definition special_startup_packet 19 (by decide)).1, by decide⟩

/-! ## C9: outbound frames -/

theorem length_finalize_checksum_ (data : Bytes) (len : Nat) :
    (finalize_checksum_ data len).length = data.length := by
  unfold finalize_checksum_
  exact length_wr _ _ _

theorem rd_finalize_checksum_of_lt (data : Bytes) (len i : Nat) (hi : i < len - 1) :
    rd (finalize_checksum_ data len) i = rd data i := by
  unfold finalize_checksum_
  rw [rd_wr, if_neg (by omega)]

theorem verify_finalize_checksum_ (data : Bytes) (len : Nat) (h1 : 1 ≤ len)
    (h2 : len ≤ data.length) : verify_checksum_ (finalize_checksum_ data len) len = true := by
  have hc : calculate_checksum_ (finalize_checksum_ data len) len = calculate_checksum_ data len := by
    rw [calculate_checksum_eq_sum, calculate_checksum_eq_sum]
    exact checksum_sum_congr _ _ _ (fun i _ hi => rd_finalize_checksum_of_lt data len i hi)
  unfold verify_checksum_
  rw [hc]
  unfold finalize_checksum_
  rw [rd_wr, if_pos ⟨rfl, by omega⟩, Nat.mod_eq_of_lt (calculate_checksum_lt data len)]
  exact beq_self_eq_true _

theorem wellFormed_finalize (sync : Nat) (L : Bytes) (h0 : rd L 0 = sync) (h1 : rd L 1 = sync)
    (h2 : rd L 2 = L.length - 3) (h4 : 4 ≤ L.length) :
    FrameWellFormed sync (finalize_checksum_ L L.length) := by
  unfold FrameWellFormed
  rw [length_finalize_checksum_, rd_finalize_checksum_of_lt _ _ _ (by omega),
    rd_finalize_checksum_of_lt _ _ _ (by omega), rd_finalize_checksum_of_lt _ _ _ (by omega)]
  exact ⟨h0, h1, h2, verify_finalize_checksum_ L L.length (by omega) (Nat.le_refl _)⟩

/-- C9. Every outbound frame is well-formed. The hard-coded startup frame (whose literal
`0xBA` is the checksum of its bytes), the MAC report for every MAC address, the time-sync
frame and, when `SET_PACKET_LEN + 2` fits a byte, the parameter frame for every engine
state (hence every climate state and every `PendingUpdate` value) start with two sync
bytes, carry a length byte equal to their total size minus 3, and end with a byte that
`verify_checksum_` accepts; and `finalize_checksum_` followed by `verify_checksum_`
returns true for every array and every length inside it. The startup frame spells its
sync bytes `0x7E`; the other three use `protocol::SYNC`. -/
theorem C9_outbound_frames_well_formed (p : Protocol) (hlen : p.SET_PACKET_LEN + 2 < 256) :
    FrameWellFormed 0x7E special_startup_packet ∧
    calculate_checksum_ special_startup_packet 19 = 0xBA ∧
    (∀ mac : Bytes, FrameWellFormed p.SYNC (mac_report_packet p mac) ∧
      (mac_report_packet p mac).length = 16) ∧
    (FrameWellFormed p.SYNC (sync_time_packet p) ∧ (sync_time_packet p).length = 17) ∧
    (∀ s : GreeACCNT, FrameWellFormed p.SYNC (params_set_packet p s) ∧
      (params_set_packet p s).length = p.SET_PACKET_LEN + 5) ∧
    (∀ (data : Bytes) (len : Nat), 1 ≤ len → len ≤ data.length →
      verify_checksum_ (finalize_checksum_ data len) len = true) := by
  refine ⟨by decide, by decide, ?_, ?_, ?_, verify_finalize_checksum_⟩
  · intro mac
    refine ⟨?_, ?_⟩
    · exact wellFormed_finalize p.SYNC
        [p.SYNC, p.SYNC, 0x0D, p.CMD_OUT_MAC_REPORT, 0x07, 0x00, 0x00, 0x00,
          rd mac 0, rd mac 1, rd mac 2, rd mac 3, rd mac 4, rd mac 5, 0x00, 0] rfl rfl rfl
        (by simp)
    · unfold mac_report_packet
      rw [length_finalize_checksum_]
      rfl
  · refine ⟨?_, ?_⟩
    · exact wellFormed_finalize p.SYNC
        [p.SYNC, p.SYNC, 0x0E, p.CMD_OUT_SYNC_TIME, 0x04,
          0, 0, 0, 0, 0, 0, 0, 0, 0, 0, 0x7E, 0] rfl rfl rfl (by simp)
    · unfold sync_time_packet
      rw [length_finalize_checksum_]
      rfl
  · intro s
    have hL : ([p.SYNC, p.SYNC, (p.SET_PACKET_LEN + 2) % 256, p.CMD_OUT_PARAMS_SET] ++
        params_set_payload p s ++ [0]).length = p.SET_PACKET_LEN + 5 := by
      simp only [List.length_append, List.length_cons, List.length_nil,
        length_params_set_payload]
      omega
    refine ⟨?_, ?_⟩
    · unfold params_set_packet
      simp only []
      rw [← hL]
      refine wellFormed_finalize p.SYNC _ rfl rfl ?_ (by omega)
      rw [hL]
      have h2 : rd ([p.SYNC, p.SYNC, (p.SET_PACKET_LEN + 2) % 256, p.CMD_OUT_PARAMS_SET] ++
          params_set_payload p s ++ [0]) 2 = (p.SET_PACKET_LEN + 2) % 256 := rfl
      rw [h2, Nat.mod_eq_of_lt hlen]
      omega
    · unfold params_set_packet
      rw [length_finalize_checksum_]
      exact hL

/-- C9 at the sample layout, whose parameter payload has 45 bytes: the four frames are
well-formed. -/
theorem C9_outbound_frames_well_formed_witness :
    FrameWellFormed 0x7E special_startup_packet ∧
    FrameWellFormed 0x7E (mac_report_packet sampleProtocol [0xDE, 0xAD, 0xBE, 0xEF, 0x00, 0x01]) ∧
    FrameWellFormed 0x7E (sync_time_packet sampleProtocol) ∧
    FrameWellFormed 0x7E (params_set_packet sampleProtocol sampleState) ∧
    (params_set_packet sampleProtocol sampleState).length = 50 :=
  have h := C9_outbound_frames_well_formed sampleProtocol (by decide)
  ⟨h.1, (h.2.2.1 _).1, h.2.2.2.1.1, (h.2.2.2.2.1 sampleState).1, (h.2.2.2.2.1 sampleState).2⟩

/-! ## C10: single-bit corruption -/

theorem rd_flipBit (data : Bytes) (i k j : Nat) :
    rd (flipBit data i k) j = if i = j ∧ i < data.length then rd data i ^^^ 2 ^ k else rd data j := by
  unfold flipBit rd
  simp only [List.getD_eq_getElem?_getD, List.getElem?_set]
  by_cases hij : i = j
  · subst hij
    by_cases hl : i < data.length
    · simp [hl]
    · simp [hl, List.getElem?_eq_none (Nat.le_of_not_lt hl)]
  · simp [hij]

theorem xor_two_pow_mod_ne (x k : Nat) (hk : k < 8) : (x ^^^ 2 ^ k) % 256 ≠ x % 256 := by
  intro h
  have h256 : (256 : Nat) = 2 ^ 8 := by norm_num
  rw [h256] at h
  have hb := congrArg (fun n => Nat.testBit n k) h
  simp only [Nat.testBit_mod_two_pow, Nat.testBit_xor, Nat.testBit_two_pow, hk, decide_True,
    Bool.true_and] at hb
  cases hx : x.testBit k <;> simp [hx] at hb

theorem sum_map_update (f g : Nat → Nat) (i : Nat) (hfg : ∀ j, j ≠ i → g j = f j)
    (l : List Nat) : l.Nodup → i ∈ l → (l.map g).sum + f i = (l.map f).sum + g i := by
  induction l with
  | nil => intro _ h; cases h
  | cons a l ih =>
    intro hnd hi
    rw [List.nodup_cons] at hnd
    simp only [List.map_cons, List.sum_cons]
    by_cases hai : a = i
    · subst hai
      have hrest : l.map g = l.map f := by
        apply List.map_congr_left
        intro j hj
        exact hfg j (fun e => hnd.1 (e ▸ hj))
      rw [hrest]
      omega
    · have hmem : i ∈ l := by
        rcases List.mem_cons.mp hi with e | e
        · exact absurd e.symm hai
        · exact e
      have h1 := ih hnd.2 hmem
      rw [hfg a hai]
      omega

theorem calculate_checksum_flipBit_ne (data : Bytes) (len i k : Nat) (h2 : 2 ≤ i)
    (hi : i < len - 1) (hd : i < data.length) (hk : k < 8) :
    calculate_checksum_ (flipBit data i k) len ≠ calculate_checksum_ data len := by
  rw [calculate_checksum_eq_sum, calculate_checksum_eq_sum]
  unfold checksum_sum
  intro h
  have hs := sum_map_update (rd data) (rd (flipBit data i k)) i
    (fun j hj => by rw [rd_flipBit, if_neg (fun hc => hj hc.1.symm)])
    (List.range' 2 (len - 3)) (List.nodup_range' 2 (len - 3))
    (by rw [List.mem_range'_1]; omega)
  rw [rd_flipBit, if_pos ⟨rfl, hd⟩] at hs
  have hne := xor_two_pow_mod_ne (rd data i) k hk
  omega

/-- C10, as stated, fails: the assembled report `7E 7E 04 31 12 34 7B` is accepted by
`verify_packet`, and it is still accepted after bit 0 of its first sync byte (byte 0,
not the checksum byte) is flipped. -/
theorem C10_sync_flip_counterexample :
    verify_packet sampleProtocol sampleReceived = true ∧
    (sampleReceived.flipBit 0 0).serialProcess_.data = [0x7F, 0x7E, 0x04, 0x31, 0x12, 0x34, 0x7B] ∧
    verify_packet sampleProtocol (sampleReceived.flipBit 0 0) = true := by
  decide

/-- C10, amended. For every frame accepted by `verify_packet`, flipping exactly one bit
in any byte from offset 2 up to the byte before the trailing checksum byte (the length
byte, the command byte and the payload) yields a frame that `verify_packet` rejects.
The two sync bytes are outside the checksum and are not examined by `verify_packet`. -/
theorem C10_single_bit_flip_rejected (p : Protocol) (s : GreeACCNT) (i k : Nat)
    (hacc : verify_packet p s = true)
    (hbuf : s.serialProcess_.size ≤ s.serialProcess_.data.length)
    (h2 : 2 ≤ i) (hi : i < s.serialProcess_.size - 1) (hk : k < 8) :
    verify_packet p (s.flipBit i k) = false := by
  have hne := calculate_checksum_flipBit_ne s.serialProcess_.data s.serialProcess_.size i k h2 hi
    (by omega) hk
  have hlast : rd (flipBit s.serialProcess_.data i k) (s.serialProcess_.size - 1) =
      rd s.serialProcess_.data (s.serialProcess_.size - 1) := by
    rw [rd_flipBit, if_neg (fun hc => by omega)]
  have hsum : verify_checksum_ s.serialProcess_.data s.serialProcess_.size = true := by
    unfold verify_packet verify_packet_drop at hacc
    split_ifs at hacc with h1 h3 h4
    · exact absurd hacc (by decide)
    · exact absurd hacc (by decide)
    · exact absurd hacc (by decide)
    · simpa using h4
  have hbad : verify_checksum_ (flipBit s.serialProcess_.data i k) s.serialProcess_.size
      = false := by
    unfold verify_checksum_ at hsum ⊢
    rw [beq_iff_eq] at hsum
    rw [hlast, hsum]
    exact beq_false_of_ne (Ne.symm hne)
  unfold verify_packet verify_packet_drop GreeACCNT.flipBit
  simp only [hbad]
  split_ifs with h1 h3 h4
  · rfl
  · rfl
  · rfl
  · exact absurd rfl h4

/-- C10 (amended) on the assembled report `7E 7E 04 31 12 34 7B`: flipping bit 3 of the
payload byte at offset 4 makes `verify_packet` reject it. -/
theorem C10_single_bit_flip_rejected_witness :
    verify_packet sampleProtocol sampleReceived = true ∧
    verify_packet sampleProtocol (sampleReceived.flipBit 4 3) = false :=
  ⟨by decide,
    C10_single_bit_flip_rejected sampleProtocol sampleReceived 4 3 (by decide) (by decide)
      (by decide) (by decide) (by decide)⟩

/-! ## C11: the decision table of `verify_packet` -/

/-- C11. Frame validation decision table. For every assembled buffer `verify_packet`
drops it as too short when it holds fewer than 5 bytes; otherwise as an unsupported
command when byte 3 is not `CMD_IN_UNIT_REPORT`, whatever its checksum; otherwise as a
checksum mismatch when the trailing byte differs from `calculate_checksum_`; and it
accepts the buffer exactly when none of the three conditions holds. -/
theorem C11_verify_packet_decision_table (p : Protocol) (s : GreeACCNT) :
    (s.serialProcess_.size < 5 → verify_packet_drop p s = some .length) ∧
    (5 ≤ s.serialProcess_.size → rd s.serialProcess_.data 3 ≠ p.CMD_IN_UNIT_REPORT →
      verify_packet_drop p s = some .command) ∧
    (5 ≤ s.serialProcess_.size → rd s.serialProcess_.data 3 = p.CMD_IN_UNIT_REPORT →
      rd s.serialProcess_.data (s.serialProcess_.size - 1) ≠
        calculate_checksum_ s.serialProcess_.data s.serialProcess_.size →
      verify_packet_drop p s = some .checksum) ∧
    (verify_packet p s = true ↔
      5 ≤ s.serialProcess_.size ∧ rd s.serialProcess_.data 3 = p.CMD_IN_UNIT_REPORT ∧
        rd s.serialProcess_.data (s.serialProcess_.size - 1) =
          calculate_checksum_ s.serialProcess_.data s.serialProcess_.size) := by
  unfold verify_packet verify_packet_drop verify_checksum_ ALLOWED_PACKETS
  refine ⟨?_, ?_, ?_, ?_⟩
  · intro h
    simp [h]
  · intro h hc
    simp [Nat.not_lt.mpr h, hc]
  · intro h hc hsum
    simp [Nat.not_lt.mpr h, hc, hsum]
  · by_cases h : s.serialProcess_.size < 5
    · simp [h]
    · by_cases hc : rd s.serialProcess_.data 3 = p.CMD_IN_UNIT_REPORT
      · by_cases hsum : rd s.serialProcess_.data (s.serialProcess_.size - 1) =
            calculate_checksum_ s.serialProcess_.data s.serialProcess_.size
        · simp [h, hc, hsum, Nat.le_of_not_lt h]
        · simp [h, hc, hsum]
      · simp [h, hc]

/-- C11 on four assembled buffers: a four-byte one is dropped as too short, the frame
with command `0xA1` and a correct checksum as an unsupported command, the report with a
wrong trailing byte as a checksum mismatch, and the report `7E 7E 04 31 12 34 7B` is
accepted. -/
theorem C11_verify_packet_decision_table_witness :
    verify_packet_drop sampleProtocol sampleShort = some .length ∧
    verify_packet_drop sampleProtocol sampleUnsupported = some .command ∧
    verify_packet_drop sampleProtocol sampleBadChecksum = some .checksum ∧
    verify_packet sampleProtocol sampleReceived = true :=
  ⟨(C11_verify_packet_decision_table sampleProtocol sampleShort).1 (by decide),
    (C11_verify_packet_decision_table sampleProtocol sampleUnsupported).2.1 (by decide)
      (by decide),
    (C11_verify_packet_decision_table sampleProtocol sampleBadChecksum).2.2.1 (by decide)
      (by decide) (by decide),
    (C11_verify_packet_decision_table sampleProtocol sampleReceived).2.2.2.mpr (by decide)⟩

/-! ## The assembler, one byte at a time -/

theorem rd_set (d : Bytes) (i v j : Nat) :
    rd (d.set i v) j = if i = j ∧ i < d.length then v else rd d j := by
  unfold rd
  simp only [List.getD_eq_getElem?_getD, List.getElem?_set]
  by_cases hij : i = j
  · subst hij
    by_cases hl : i < d.length
    · simp [hl]
    · simp [hl, List.getElem?_eq_none (Nat.le_of_not_lt hl)]
  · simp [hij]

theorem feed_finish_size (c : Nat) (sp : SerialProcess) :
    (feed_finish c sp).size = if sp.size ≥ DATA_MAX then 0 else sp.size := by
  unfold feed_finish
  simp only []
  split_ifs <;> rfl

theorem feed_finish_data (c : Nat) (sp : SerialProcess) : (feed_finish c sp).data = sp.data := by
  unfold feed_finish
  simp only []
  split_ifs <;> rfl

theorem feed_size_lt (now c : Nat) (sp : SerialProcess) : (feed now c sp).size < DATA_MAX := by
  unfold feed
  simp only []
  split_ifs
  all_goals first
    | exact (by decide : 0 < DATA_MAX)
    | (rw [feed_finish_size]
       split_ifs with h
       · exact (by decide : 0 < DATA_MAX)
       · exact Nat.lt_of_not_ge h)

theorem feed_data_length (now c : Nat) (sp : SerialProcess) :
    (feed now c sp).data.length = sp.data.length := by
  unfold feed
  simp only []
  split_ifs <;> simp [feed_finish_data]

theorem restart_size_le (sp : SerialProcess) : (restart sp).size ≤ sp.size := by
  unfold restart
  split_ifs <;> simp

theorem restart_data (sp : SerialProcess) : (restart sp).data = sp.data := by
  unfold restart
  split_ifs <;> rfl

theorem assembleAll_invariant (now : Nat) (bytes : List Nat) :
    ∀ sp : SerialProcess, sp.size < DATA_MAX →
      (assembleAll now bytes sp).size < DATA_MAX ∧
        (assembleAll now bytes sp).data.length = sp.data.length := by
  induction bytes with
  | nil => intro sp h; exact ⟨h, rfl⟩
  | cons c rest ih =>
    intro sp _
    have h := ih (feed now c (restart sp)) (feed_size_lt _ _ _)
    rw [feed_data_length, restart_data] at h
    exact h

theorem assembleAll_append (now : Nat) (bytes : List Nat) (c : Nat) (sp : SerialProcess) :
    assembleAll now (bytes ++ [c]) sp = feed now c (restart (assembleAll now bytes sp)) := by
  unfold assembleAll
  rw [List.foldl_append]
  rfl

/-! ## C13: the buffer is bounded -/

/-- C13. Bounded buffer. Start from an empty assembler with its 200-byte array and feed
any byte sequence one at a time, the caller restarting the assembler after each complete
frame. Then the next byte is stored at an index below 200, inside the array, the
assembler holds at most 200 bytes right after that store, and once the byte has been
processed the buffered length is below 200. -/
theorem C13_bounded_buffer (now : Nat) (sp : SerialProcess) (hsize : sp.size = 0)
    (hdata : sp.data.length = DATA_MAX) (bytes : List Nat) (c : Nat) :
    (restart (assembleAll now bytes sp)).size < 200 ∧
    (restart (assembleAll now bytes sp)).size < (restart (assembleAll now bytes sp)).data.length ∧
    (restart (assembleAll now bytes sp)).size + 1 ≤ 200 ∧
    (assembleAll now (bytes ++ [c]) sp).size < 200 := by
  have h := assembleAll_invariant now bytes sp (by rw [hsize]; decide)
  have hr := restart_size_le (assembleAll now bytes sp)
  have h2 := feed_size_lt now c (restart (assembleAll now bytes sp))
  rw [restart_data, assembleAll_append, h.2, hdata]
  unfold DATA_MAX at h h2 ⊢
  omega

/-- C13 on the empty assembler after the three bytes `7E 7E 05`: the next byte goes to
index 3, and after it the buffered length is 4. -/
theorem C13_bounded_buffer_witness :
    (restart (assembleAll 0 [0x7E, 0x7E, 0x05] emptyAssembler)).size = 3 ∧
    (restart (assembleAll 0 [0x7E, 0x7E, 0x05] emptyAssembler)).size < 200 ∧
    (assembleAll 0 ([0x7E, 0x7E, 0x05] ++ [0xA1]) emptyAssembler).size = 4 ∧
    (assembleAll 0 ([0x7E, 0x7E, 0x05] ++ [0xA1]) emptyAssembler).size < 200 :=
  have h := C13_bounded_buffer 0 emptyAssembler rfl rfl [0x7E, 0x7E, 0x05] 0xA1
  ⟨rfl, h.1, rfl, h.2.2.2⟩

/-! ## The assembler on a well-formed frame -/

theorem feed_grow (now c : Nat) (sp : SerialProcess) (hlen : sp.size < sp.data.length)
    (hpair : 2 ≤ sp.size → ¬(rd sp.data (sp.size - 1) = 0x7E ∧ c = 0x7E))
    (hfirst : sp.size = 0 → c = 0x7E)
    (hsecond : sp.size = 1 → rd sp.data 0 = 0x7E → c = 0x7E) :
    (feed now c sp).data = sp.data.set sp.size c ∧
    (feed now c sp).size = (if sp.size + 1 ≥ DATA_MAX then 0 else sp.size + 1) ∧
    (feed now c sp).frame_size = (if sp.size + 1 = 3 then c else sp.frame_size) ∧
    (feed now c sp).state =
      (if sp.size + 1 ≥ 3 ∧ sp.size + 1 = (if sp.size + 1 = 3 then c else sp.frame_size) + 3
        then .STATE_COMPLETE else sp.state) := by
  have hc : rd (sp.data.set sp.size c) sp.size = c := by rw [rd_set, if_pos ⟨rfl, hlen⟩]
  have hp : ∀ j, j ≠ sp.size → rd (sp.data.set sp.size c) j = rd sp.data j := by
    intro j hj
    rw [rd_set, if_neg (fun h => hj h.1.symm)]
  have key : feed now c sp = feed_finish c
      { sp with last_byte_time := now, data := sp.data.set sp.size c, size := sp.size + 1 } := by
    unfold feed
    simp only []
    rcases Nat.lt_or_ge sp.size 2 with h2 | h2
    · rcases Nat.lt_or_ge sp.size 1 with h1 | h1
      · have h0 : sp.size = 0 := by omega
        have hc0 := hfirst h0
        subst hc0
        simp only [h0] at hc ⊢
        simp [hc]
      · have h1' : sp.size = 1 := by omega
        simp only [h1'] at hc hp ⊢
        by_cases hd : rd sp.data 0 = 0x7E
        · have hc1 := hsecond h1' hd
          subst hc1
          simp [hc, hp 0 (by decide), hd]
        · simp [hc, hp 0 (by decide), hd]
    · have hne := hpair h2
      have e1 : sp.size + 1 - 2 = sp.size - 1 := by omega
      have e2 : sp.size + 1 - 1 = sp.size := by omega
      have hcond : ¬(sp.size + 1 ≥ 2 ∧ rd (sp.data.set sp.size c) (sp.size + 1 - 2) = 0x7E ∧
          rd (sp.data.set sp.size c) (sp.size + 1 - 1) = 0x7E) := by
        rw [e1, e2, hc, hp _ (by omega)]
        exact fun h => hne h.2
      rw [if_neg hcond, if_neg (by omega), if_neg (by omega)]
  rw [key]
  unfold feed_finish
  simp only []
  refine ⟨?_, ?_, ?_, ?_⟩ <;> split_ifs <;> simp_all

theorem feedAll_append_single (now : Nat) (bytes : List Nat) (c : Nat) (sp : SerialProcess) :
    feedAll now (bytes ++ [c]) sp =
      if (feedAll now bytes sp).state = .STATE_COMPLETE then feedAll now bytes sp
      else feed now c (feedAll now bytes sp) := by
  unfold feedAll
  rw [List.foldl_append]
  rfl

theorem take_succ_eq_append_rd (frame : Bytes) (k : Nat) (hk : k < frame.length) :
    frame.take (k + 1) = frame.take k ++ [rd frame k] := by
  rw [List.take_succ]
  unfold rd
  simp [List.getD_eq_getElem?_getD, List.getElem?_eq_getElem hk]

theorem take_eq_of_rd (d f : Bytes) (hlen : f.length ≤ d.length)
    (h : ∀ i, i < f.length → rd d i = rd f i) : d.take f.length = f := by
  apply List.ext_getElem
  · simp [hlen]
  · intro i h1 h2
    have hi := h i h2
    unfold rd at hi
    rw [List.getD_eq_getElem?_getD, List.getD_eq_getElem?_getD,
      List.getElem?_eq_getElem (by omega), List.getElem?_eq_getElem h2] at hi
    simpa using hi

theorem feedAll_frame_prefix (now : Nat) (frame : Bytes) (sp : SerialProcess)
    (hsize : sp.size = 0) (hstate : sp.state = .STATE_WAIT_SYNC)
    (hdata : sp.data.length = DATA_MAX)
    (h0 : rd frame 0 = 0x7E) (h1 : rd frame 1 = 0x7E) (hn : frame.length = rd frame 2 + 3)
    (hcap : frame.length < DATA_MAX) (hpair : NoMarkerPair frame) :
    ∀ k, k ≤ frame.length →
      (feedAll now (frame.take k) sp).size = k ∧
      (feedAll now (frame.take k) sp).data.length = DATA_MAX ∧
      (∀ i, i < k → rd (feedAll now (frame.take k) sp).data i = rd frame i) ∧
      (3 ≤ k → (feedAll now (frame.take k) sp).frame_size = rd frame 2) ∧
      (feedAll now (frame.take k) sp).state =
        (if k = frame.length then .STATE_COMPLETE else .STATE_WAIT_SYNC) := by
  intro k
  induction k with
  | zero =>
    intro _
    have hne : ¬(0 = frame.length) := by omega
    simp only [List.take_zero, feedAll, List.foldl_nil, if_neg hne]
    exact ⟨hsize, hdata, fun i hi => absurd hi (Nat.not_lt_zero i), fun h => by omega, hstate⟩
  | succ k ih =>
    intro hk
    obtain ⟨isz, ilen, ird, ifs, ist⟩ := ih (by omega)
    rw [if_neg (by omega)] at ist
    rw [take_succ_eq_append_rd frame k (by omega), feedAll_append_single,
      if_neg (by rw [ist]; decide)]
    have hg := feed_grow now (rd frame k) (feedAll now (frame.take k) sp)
      (by rw [isz, ilen]; omega)
      (by
        rw [isz]
        intro h2 hc
        rw [ird (k - 1) (by omega)] at hc
        have hp := hpair (k - 1) (by omega) (by omega)
        rw [Nat.sub_add_cancel (by omega)] at hp
        exact hp hc)
      (by rw [isz]; intro hk0; rw [hk0]; exact h0)
      (by rw [isz]; intro hk1 _; rw [hk1]; exact h1)
    rw [isz] at hg
    obtain ⟨gdata, gsize, gfs, gst⟩ := hg
    refine ⟨?_, ?_, ?_, ?_, ?_⟩
    · rw [gsize, if_neg (by omega)]
    · rw [gdata, List.length_set, ilen]
    · intro i hi
      rw [gdata, rd_set]
      split
      · next hc => rw [← hc.1]
      · next hc =>
        have hik : i ≠ k := fun e => hc ⟨e.symm, by rw [ilen]; omega⟩
        exact ird i (by omega)
    · intro h3
      rw [gfs]
      split
      · next hk3 =>
        have : k = 2 := by omega
        rw [this]
      · next hk3 => exact ifs (by omega)
    · rw [gst, ist]
      by_cases h3 : k + 1 ≥ 3
      · have hfs : (if k + 1 = 3 then rd frame k else (feedAll now (frame.take k) sp).frame_size)
            = rd frame 2 := by
          split
          · next hk3 =>
            have : k = 2 := by omega
            rw [this]
          · next hk3 => exact ifs (by omega)
        rw [hfs, ← hn]
        by_cases hkn : k + 1 = frame.length
        · rw [if_pos ⟨h3, hkn⟩, if_pos hkn]
        · rw [if_neg (fun h => hkn h.2), if_neg hkn]
      · rw [if_neg (fun h => h3 h.1), if_neg (by omega)]

/-! ## C14: framing -/

/-- C14. Framing correctness. For every frame `[0x7E, 0x7E, L, b1 .. bL]` with
`L + 3 < 200` in which no two adjacent bytes after the first sync byte are both `0x7E`,
feeding its bytes one at a time into an empty assembler leaves the state at
`STATE_WAIT_SYNC` after every proper prefix, signals completion when the last byte is
fed, and the `L + 3` buffered bytes are then the frame, byte for byte. -/
theorem C14_framing_correct (now : Nat) (sp : SerialProcess) (L : Nat) (bs : List Nat)
    (hsize : sp.size = 0) (hstate : sp.state = .STATE_WAIT_SYNC)
    (hdata : sp.data.length = DATA_MAX) (hbs : bs.length = L) (hL : L + 3 < 200)
    (hpair : NoMarkerPair (0x7E :: 0x7E :: L :: bs)) :
    (∀ k, k < L + 3 →
      (feedAll now ((0x7E :: 0x7E :: L :: bs).take k) sp).state = .STATE_WAIT_SYNC) ∧
    (feedAll now (0x7E :: 0x7E :: L :: bs) sp).state = .STATE_COMPLETE ∧
    (feedAll now (0x7E :: 0x7E :: L :: bs) sp).size = L + 3 ∧
    (feedAll now (0x7E :: 0x7E :: L :: bs) sp).data.take (L + 3) = 0x7E :: 0x7E :: L :: bs := by
  have hn : (0x7E :: 0x7E :: L :: bs).length = L + 3 := by simp [hbs]
  have key := feedAll_frame_prefix now (0x7E :: 0x7E :: L :: bs) sp hsize hstate hdata rfl rfl
    (by rw [hn]; rfl) (by rw [hn]; exact hL) hpair
  have hfull := key (L + 3) (by rw [hn])
  rw [← hn, List.take_length] at hfull
  obtain ⟨fsz, flen, frd, _, fst⟩ := hfull
  refine ⟨?_, ?_, ?_, ?_⟩
  · intro k hk
    have h := (key k (by rw [hn]; omega)).2.2.2.2
    rw [if_neg (by rw [hn]; omega)] at h
    exact h
  · rw [fst, if_pos rfl]
  · rw [fsz, hn]
  · rw [← hn]
    exact take_eq_of_rd _ _ (by rw [flen, hn]; unfold DATA_MAX; omega) frd

/-- C14 on the report `7E 7E 04 31 12 34 7B` fed into the empty assembler: no completion
after six bytes, completion after the seventh, and the buffer holds the frame. -/
theorem C14_framing_correct_witness :
    (feedAll 0 ([0x7E, 0x7E, 4, 0x31, 0x12, 0x34, 0x7B].take 6) emptyAssembler).state
      = .STATE_WAIT_SYNC ∧
    (feedAll 0 [0x7E, 0x7E, 4, 0x31, 0x12, 0x34, 0x7B] emptyAssembler).state = .STATE_COMPLETE ∧
    (feedAll 0 [0x7E, 0x7E, 4, 0x31, 0x12, 0x34, 0x7B] emptyAssembler).size = 4 + 3 ∧
    (feedAll 0 [0x7E, 0x7E, 4, 0x31, 0x12, 0x34, 0x7B] emptyAssembler).data.take (4 + 3) =
      [0x7E, 0x7E, 4, 0x31, 0x12, 0x34, 0x7B] :=
  have h := C14_framing_correct 0 emptyAssembler 4 [0x31, 0x12, 0x34, 0x7B] rfl rfl rfl rfl
    (by decide) (by decide)
  ⟨h.1 6 (by decide), h.2.1, h.2.2.1, h.2.2.2⟩

/-! ## C15: the length of a completed frame -/

theorem feed_complete_size (now c : Nat) (sp : SerialProcess)
    (hstate : sp.state = .STATE_WAIT_SYNC) (hsize : sp.size < DATA_MAX)
    (hc : (feed now c sp).state = .STATE_COMPLETE) :
    ((feed now c sp).size = (feed now c sp).frame_size + 3 ∧ (feed now c sp).size < DATA_MAX) ∨
    ((feed now c sp).size = 0 ∧ (feed now c sp).frame_size + 3 = DATA_MAX) := by
  unfold feed at hc ⊢
  simp only [] at hc ⊢
  split_ifs at hc ⊢
  all_goals first
    | (exfalso; simp [hstate] at hc; done)
    | (unfold feed_finish at hc ⊢
       simp only [] at hc ⊢
       unfold DATA_MAX at hsize ⊢
       split_ifs at hc ⊢ <;> simp_all <;> omega)

set_option maxRecDepth 100000 in
/-- C15 fails for the largest frame that fits the buffer: feeding the 200-byte frame
`7E 7E C5 00 ... 00` (declared length 197) into the empty assembler signals completion
on the last byte, and the buffered length handed to the caller is 0, not `197 + 3`. -/
theorem C15_full_buffer_frame_lost :
    frame200.length = 200 ∧
    (feedAll 0 (frame200.take 199) emptyAssembler).state = .STATE_WAIT_SYNC ∧
    (feedAll 0 (frame200.take 199) emptyAssembler).size = 199 ∧
    (feedAll 0 frame200 emptyAssembler).state = .STATE_COMPLETE ∧
    (feedAll 0 frame200 emptyAssembler).frame_size = 197 ∧
    (feedAll 0 frame200 emptyAssembler).size = 0 := by
  decide

/-! ## C16: bounded recovery -/

theorem feed_finish_state (c : Nat) (sp : SerialProcess) :
    (feed_finish c sp).state =
      if sp.size ≥ 3 ∧ sp.size = (if sp.size = 3 then c else sp.frame_size) + 3
        then .STATE_COMPLETE else sp.state := by
  unfold feed_finish
  simp only []
  split_ifs <;> simp_all

theorem feed_cases (now c : Nat) (sp : SerialProcess) :
    (feed now c sp).state = .STATE_COMPLETE ∨ BufferReset sp (feed now c sp) ∨
      ((feed now c sp).size = sp.size + 1 ∧ (feed now c sp).state = sp.state) := by
  unfold feed
  simp only []
  split_ifs with h1 h2 h3 h4
  · -- cut back to the two marker bytes
    right; left; right
    have hlen : sp.size + 1 - 1 < (sp.data.set sp.size c).length := by
      by_contra hcon
      have h0 : rd (sp.data.set sp.size c) (sp.size + 1 - 1) = 0 := by
        unfold rd
        rw [List.getD_eq_getElem?_getD, List.getElem?_eq_none (by omega)]
        rfl
      rw [h0] at h1
      exact absurd h1.2.2 (by decide)
    have hl2 : 2 < (sp.data.set sp.size c).length := by omega
    refine ⟨?_, by omega, ?_, ?_⟩
    · rw [feed_finish_size]
      exact if_neg (by show ¬ (2 ≥ DATA_MAX); decide)
    · rw [feed_finish_data]
      show rd (((sp.data.set sp.size c).set 0 0x7E).set 1 0x7E) 0 = 0x7E
      rw [rd_set, if_neg (by omega), rd_set, if_pos ⟨rfl, by omega⟩]
    · rw [feed_finish_data]
      show rd (((sp.data.set sp.size c).set 0 0x7E).set 1 0x7E) 1 = 0x7E
      rw [rd_set, if_pos ⟨rfl, by rw [List.length_set]; omega⟩]
  · -- the two marker bytes alone
    have hs : sp.size = 1 := by omega
    right; right
    refine ⟨?_, ?_⟩
    · rw [feed_finish_size]
      exact if_neg (by show ¬ (sp.size + 1 ≥ DATA_MAX); rw [hs]; decide)
    · rw [feed_finish_state]
      exact if_neg (by show ¬ (sp.size + 1 ≥ 3 ∧ _); omega)
  · right; left; left; rfl
  · right; left; left; rfl
  · by_cases hcomp : sp.size + 1 ≥ 3 ∧ sp.size + 1 =
        (if sp.size + 1 = 3 then c else sp.frame_size) + 3
    · left
      rw [feed_finish_state]
      exact if_pos hcomp
    · by_cases hcap : sp.size + 1 ≥ DATA_MAX
      · right; left; left
        rw [feed_finish_size]
        exact if_pos hcap
      · right; right
        refine ⟨?_, ?_⟩
        · rw [feed_finish_size]
          exact if_neg hcap
        · rw [feed_finish_state]
          exact if_neg hcomp

theorem feedAll_cons_of_wait (now c : Nat) (rest : List Nat) (sp : SerialProcess)
    (h : sp.state = .STATE_WAIT_SYNC) :
    feedAll now (c :: rest) sp = feedAll now rest (feed now c sp) := by
  unfold feedAll
  rw [List.foldl_cons, if_neg (by rw [h]; decide)]

theorem recovery_aux (now : Nat) :
    ∀ (m : Nat) (sp : SerialProcess) (bytes : List Nat), sp.state = .STATE_WAIT_SYNC →
      DATA_MAX ≤ sp.size + m → sp.size < DATA_MAX → m ≤ bytes.length →
      ∃ k, k < m ∧ (feedAll now (bytes.take k) sp).state = .STATE_WAIT_SYNC ∧
        ((feedAll now (bytes.take (k + 1)) sp).state = .STATE_COMPLETE ∨
          BufferReset (feedAll now (bytes.take k) sp) (feedAll now (bytes.take (k + 1)) sp)) := by
  intro m
  induction m with
  | zero => intro sp bytes _ h1 h2 _; omega
  | succ m ih =>
    intro sp bytes hst hcap hsz hlen
    rcases bytes with _ | ⟨c, rest⟩
    · simp at hlen
    · have hone : feedAll now ((c :: rest).take 1) sp = feed now c sp := by
        rw [List.take_succ_cons, List.take_zero, feedAll_cons_of_wait now c [] sp hst]
        rfl
      have hzero : feedAll now ((c :: rest).take 0) sp = sp := rfl
      rcases feed_cases now c sp with hc | hr | ⟨hg, hs⟩
      · exact ⟨0, by omega, by rw [hzero]; exact hst, Or.inl (by rw [hone]; exact hc)⟩
      · exact ⟨0, by omega, by rw [hzero]; exact hst,
          Or.inr (by rw [hone, hzero]; exact hr)⟩
      · have hlt := feed_size_lt now c sp
        obtain ⟨k, hk, hw, hres⟩ := ih (feed now c sp) rest (by rw [hs]; exact hst)
          (by rw [hg]; omega) hlt (by simpa using hlen)
        refine ⟨k + 1, by omega, ?_, ?_⟩
        · rw [List.take_succ_cons, feedAll_cons_of_wait now c _ sp hst]
          exact hw
        · rw [List.take_succ_cons, List.take_succ_cons, feedAll_cons_of_wait now c _ sp hst,
            feedAll_cons_of_wait now c _ sp hst]
          exact hres

/-- C16. Bounded recovery. From every in-progress assembler state (waiting for bytes,
fewer than 200 buffered) and for every sequence of 200 further bytes, some byte of the
sequence, fed after its predecessors, completes a frame or resets the buffer: the buffer
is cleared, or it is cut back to the two marker bytes. -/
theorem C16_bounded_recovery (now : Nat) (sp : SerialProcess)
    (hstate : sp.state = .STATE_WAIT_SYNC) (hsize : sp.size < 200)
    (bytes : List Nat) (hlen : bytes.length = 200) :
    ∃ k, k < 200 ∧ (feedAll now (bytes.take k) sp).state = .STATE_WAIT_SYNC ∧
      ((feedAll now (bytes.take (k + 1)) sp).state = .STATE_COMPLETE ∨
        BufferReset (feedAll now (bytes.take k) sp) (feedAll now (bytes.take (k + 1)) sp)) :=
  recovery_aux now 200 sp bytes hstate (by unfold DATA_MAX; omega) hsize (by omega)

/-- C16 on the assembler that holds `7E 7E 10 31`, followed by 200 zero bytes. -/
theorem C16_bounded_recovery_witness :
    ∃ k, k < 200 ∧
      (feedAll 0 ((List.replicate 200 0).take k) sampleInProgress).state = .STATE_WAIT_SYNC ∧
      ((feedAll 0 ((List.replicate 200 0).take (k + 1)) sampleInProgress).state
          = .STATE_COMPLETE ∨
        BufferReset (feedAll 0 ((List.replicate 200 0).take k) sampleInProgress)
          (feedAll 0 ((List.replicate 200 0).take (k + 1)) sampleInProgress)) :=
  C16_bounded_recovery 0 sampleInProgress (by decide) (by decide) (List.replicate 200 0)
    (List.length_replicate 200 0)

/-! ## C12: a frame with an unsupported command -/

theorem feedAll_nil (now : Nat) (sp : SerialProcess) : feedAll now [] sp = sp := rfl

theorem loop_read_of_wait (now : Nat) :
    ∀ (n : Nat) (s : GreeACCNT), s.uart_rx.length ≤ n →
      (∀ k, k < s.uart_rx.length →
        (feedAll now (s.uart_rx.take k) s.serialProcess_).state = .STATE_WAIT_SYNC) →
      loop_read now n s =
        { s with uart_rx := [], serialProcess_ := feedAll now s.uart_rx s.serialProcess_ } := by
  intro n
  induction n with
  | zero =>
    intro s hlen _
    have h : s.uart_rx = [] := List.length_eq_zero.mp (Nat.le_zero.mp hlen)
    cases s
    simp only at h
    subst h
    rfl
  | succ n ih =>
    intro s hlen hw
    rcases hrx : s.uart_rx with _ | ⟨c, rest⟩
    · unfold loop_read
      simp only [hrx]
      cases s
      simp only at hrx
      subst hrx
      rfl
    · rw [hrx] at hlen hw
      have h0 : s.serialProcess_.state = .STATE_WAIT_SYNC := hw 0 (by simp)
      unfold loop_read
      simp only [hrx]
      rw [if_neg (by rw [h0]; decide)]
      rw [ih _ (by simpa using hlen) (by
        intro k hk
        have := hw (k + 1) (by simpa using hk)
        rw [List.take_succ_cons, feedAll_cons_of_wait now c _ _ h0] at this
        exact this)]
      simp only [feedAll_cons_of_wait now c rest _ h0]

theorem loop_frame_of_drop (p : Protocol) (now : Nat) (a : GreeACCNT)
    (hst : a.serialProcess_.state = .STATE_COMPLETE) (hv : verify_packet p a = false) :
    loop_frame p now a =
      { a with
        wait_response_ := false
        serialProcess_ := { a.serialProcess_ with size := 0, state := .STATE_WAIT_SYNC } } := by
  have hv2 : verify_packet p { a with wait_response_ := false } = false := hv
  unfold loop_frame
  rw [if_pos hst]
  simp only [hv2]
  rfl

/-- C12, as stated, fails: the length byte `0x05` declares a frame of eight bytes, so after
the seven bytes `7E 7E 05 A1 00 00 A6` the assembler still waits for the eighth: all
seven bytes are consumed and buffered, no frame is complete, and nothing is decoded. -/
theorem C12_seven_bytes_counterexample :
    (feedAll 0 unsupportedSeven emptyAssembler).state = .STATE_WAIT_SYNC ∧
    (feedAll 0 unsupportedSeven emptyAssembler).size = 7 ∧
    (loop 0 { powerOn with uart_rx := unsupportedSeven }).uart_rx = [] ∧
    (loop 0 { powerOn with uart_rx := unsupportedSeven }).serialProcess_.state
      = .STATE_WAIT_SYNC ∧
    (loop 0 { powerOn with uart_rx := unsupportedSeven }).serialProcess_.size = 7 := by
  decide

/-- C12, amended. Let `0xA1` not be the unit report command. When the eight bytes
`7E 7E 05 A1 00 00 00 A6` wait on the UART of an engine whose assembler is empty, one
pass of the read loop consumes them and completes the eight-byte frame, `verify_packet`
drops it as an unsupported command, and the frame block of `GreeACCNT::loop` changes
nothing but the receive buffer, which it restarts, and the flag `wait_response_`, which
it clears: the climate state is unchanged and nothing is published. -/
theorem C12_unsupported_command_frame (p : Protocol) (hcmd : p.CMD_IN_UNIT_REPORT ≠ 0xA1)
    (now : Nat) (s : GreeACCNT)
    (hsize : s.serialProcess_.size = 0) (hstate : s.serialProcess_.state = .STATE_WAIT_SYNC)
    (hdata : s.serialProcess_.data.length = DATA_MAX) (hrx : s.uart_rx = unsupportedEight) :
    (loop now s).serialProcess_.state = .STATE_COMPLETE ∧
    (loop now s).serialProcess_.size = 8 ∧
    (loop now s).serialProcess_.data.take 8 = unsupportedEight ∧
    verify_packet_drop p (loop now s) = some .command ∧
    loop_frame p now (loop now s) =
      { s with
        uart_rx := []
        wait_response_ := false
        serialProcess_ := { (loop now s).serialProcess_ with
          size := 0, state := .STATE_WAIT_SYNC } } := by
  have hpre := feedAll_frame_prefix now unsupportedEight s.serialProcess_ hsize hstate hdata
    rfl rfl rfl (by decide) (by decide)
  have hloop : loop now s =
      { s with uart_rx := [], serialProcess_ := feedAll now unsupportedEight s.serialProcess_ } := by
    unfold loop
    rw [loop_read_of_wait now 32 s (by rw [hrx]; decide) (by
      intro k hk
      rw [hrx] at hk ⊢
      have h := (hpre k (Nat.le_of_lt hk)).2.2.2.2
      rw [if_neg (Nat.ne_of_lt hk)] at h
      exact h), hrx]
  obtain ⟨fsz, flen, frd, _, fst⟩ := hpre 8 (by decide)
  have htake : unsupportedEight.take 8 = unsupportedEight := rfl
  rw [htake] at fsz flen frd fst
  have hst : (loop now s).serialProcess_.state = .STATE_COMPLETE := by
    rw [hloop]
    exact fst
  have hsz : (loop now s).serialProcess_.size = 8 := by
    rw [hloop]
    exact fsz
  have hdrop : verify_packet_drop p (loop now s) = some .command := by
    have h3 : rd (loop now s).serialProcess_.data 3 = 0xA1 := by
      rw [hloop]
      exact frd 3 (by decide)
    unfold verify_packet_drop ALLOWED_PACKETS
    rw [hsz, h3, if_neg (by decide)]
    simp [Ne.symm hcmd]
  refine ⟨hst, hsz, ?_, hdrop, ?_⟩
  · rw [hloop]
    exact take_eq_of_rd _ unsupportedEight (by rw [flen]; decide) frd
  · have hv : verify_packet p (loop now s) = false := by
      unfold verify_packet
      rw [hdrop]
      rfl
    rw [loop_frame_of_drop p now (loop now s) hst hv]
    generalize feedAll now unsupportedEight s.serialProcess_ = F at hloop
    generalize loop now s = a at hloop
    subst hloop
    rfl

/-- C12, amended, at a powered-on engine with the sample constants. -/
theorem C12_unsupported_command_frame_witness :
    (loop 7 { powerOn with uart_rx := unsupportedEight }).serialProcess_.state = .STATE_COMPLETE ∧
    (loop 7 { powerOn with uart_rx := unsupportedEight }).serialProcess_.size = 8 ∧
    (loop 7 { powerOn with uart_rx := unsupportedEight }).serialProcess_.data.take 8
      = unsupportedEight ∧
    verify_packet_drop sampleProtocol (loop 7 { powerOn with uart_rx := unsupportedEight })
      = some .command ∧
    loop_frame sampleProtocol 7 (loop 7 { powerOn with uart_rx := unsupportedEight }) =
      { ({ powerOn with uart_rx := unsupportedEight } : GreeACCNT) with
        uart_rx := []
        wait_response_ := false
        serialProcess_ := { (loop 7 { powerOn with uart_rx := unsupportedEight }).serialProcess_ with
          size := 0, state := .STATE_WAIT_SYNC } } :=
  C12_unsupported_command_frame sampleProtocol (by decide) 7
    { powerOn with uart_rx := unsupportedEight } rfl rfl rfl rfl

/-! ## Requests of the user -/

theorem update_turbo_snd (turbo : Bool) (s : GreeACCNT) :
    (update_turbo turbo s).2 = { s with turbo_state_ := turbo } := by
  unfold update_turbo
  split_ifs with h
  · cases s
    simp only at h
    subst h
    rfl
  · rfl

theorem update_quiet_snd (quiet : quiet_options) (s : GreeACCNT) :
    (update_quiet quiet s).2 = { s with quiet_state_ := some quiet } := by
  unfold update_quiet
  split_ifs with h
  · cases s
    simp only at h
    subst h
    rfl
  · rfl

/-! ## C17: turbo and quiet through the setters -/

/-- C17. Turbo and quiet exclude each other through the setters. With the connection
`Ready`, `on_turbo_change(true)` leaves turbo on and quiet off, whatever quiet was
before, and `on_quiet_change` with the value on or auto leaves quiet at the requested
value and turbo off, whatever turbo was before; each call also sets the pending update
to `UpdateStart`. -/
theorem C17_turbo_quiet_setters (s : GreeACCNT) (hready : s.state_ = .Ready) :
    ((on_turbo_change true s).turbo_state_ = true ∧
      (on_turbo_change true s).quiet_state_ = some .OFF ∧
      (on_turbo_change true s).update_ = .UpdateStart) ∧
    (∀ quiet : quiet_options, quiet ≠ .OFF →
      (on_quiet_change quiet s).quiet_state_ = some quiet ∧
      (on_quiet_change quiet s).turbo_state_ = false ∧
      (on_quiet_change quiet s).update_ = .UpdateStart) := by
  have hr : ¬ (s.state_ ≠ .Ready) := not_not.mpr hready
  refine ⟨?_, ?_⟩
  · unfold on_turbo_change
    rw [if_neg hr]
    simp [update_quiet_snd, mark_for_update_]
  · intro quiet hq
    unfold on_quiet_change
    rw [if_neg hr]
    simp [hq, update_turbo_snd, mark_for_update_]

/-- C17 at the sample state, where quiet is auto, and at the sample state with turbo and
quiet both on. -/
theorem C17_turbo_quiet_setters_witness :
    ((on_turbo_change true sampleState).turbo_state_ = true ∧
      (on_turbo_change true sampleState).quiet_state_ = some .OFF ∧
      (on_turbo_change true sampleState).update_ = .UpdateStart) ∧
    ((on_quiet_change .AUTO sampleTurboQuiet).quiet_state_ = some .AUTO ∧
      (on_quiet_change .AUTO sampleTurboQuiet).turbo_state_ = false ∧
      (on_quiet_change .AUTO sampleTurboQuiet).update_ = .UpdateStart) :=
  ⟨(C17_turbo_quiet_setters sampleState rfl).1,
   (C17_turbo_quiet_setters sampleTurboQuiet rfl).2 .AUTO (by decide)⟩

/-! ## C19: requests are gated on the connection state -/

theorem control_fan_mode_eq (custom_fan_mode : fan_modes) (s : GreeACCNT) :
    control_fan_mode custom_fan_mode s =
      { s with reqmodechange := true, update_ := .UpdateStart,
               custom_fan_mode := some custom_fan_mode, turbo_state_ := false,
               quiet_state_ := some .OFF } := by
  unfold control_fan_mode
  simp only [update_turbo_snd, update_quiet_snd, mark_for_update_]

theorem control_target_temperature_eq (target_temperature : ℚ) (s : GreeACCNT) :
    control_target_temperature target_temperature s =
      { s with reqmodechange := true, update_ := .UpdateStart,
               target_temperature := max 16 (min 30 target_temperature) } := by
  unfold control_target_temperature MIN_TEMPERATURE MAX_TEMPERATURE mark_for_update_
  simp only []
  split_ifs with h1 h2
  · have : max 16 (min 30 target_temperature) = 16 := by
      simp only [Nat.cast_ofNat] at h1
      exact max_eq_left (min_le_of_right_le h1.le)
    rw [this]
    simp only [Nat.cast_ofNat]
  · have : max 16 (min 30 target_temperature) = 30 := by
      simp only [Nat.cast_ofNat] at h1 h2
      rw [min_eq_left h2.le]
      norm_num
    rw [this]
    simp only [Nat.cast_ofNat]
  · have : max 16 (min 30 target_temperature) = target_temperature := by
      simp only [Nat.cast_ofNat, not_lt] at h1 h2
      rw [min_eq_right h2, max_eq_right h1]
    rw [this]

theorem control_mode_eq (mode : ClimateMode) (s : GreeACCNT) :
    control_mode mode s =
      { s with reqmodechange := true, update_ := .UpdateStart, mode := mode,
               light_state_ := if s.light_mode_ = some .AUTO then decide (mode ≠ .OFF)
                 else s.light_state_ } := by
  unfold control_mode mark_for_update_
  simp only []
  split_ifs <;> rfl

theorem control_swing_mode_eq (swing_mode : ClimateSwingMode) (s : GreeACCNT) :
    control_swing_mode swing_mode s =
      { s with reqmodechange := true, update_ := .UpdateStart,
               vertical_swing_state_ :=
                 some (if swing_mode = .BOTH ∨ swing_mode = .VERTICAL then .FULL else .CMID),
               horizontal_swing_state_ :=
                 some (if swing_mode = .BOTH ∨ swing_mode = .HORIZONTAL then .FULL else .CMID) } := by
  cases swing_mode <;> rfl

/-- C19. Requests of the user are gated on the connection state. While the connection
is not `Ready`, `control` with any combination of sub-fields and each of the thirteen
narrow setters leave the whole engine state unchanged (so the pending update stays what
it was, `NoUpdate` included). While it is `Ready`, `control` stores every sub-field that
has a value (the target temperature clamped to `16 .. 30`, the swing mode as the pair of
vertical and horizontal positions) and each narrow setter stores its argument, and the
pending update is then `UpdateStart`. -/
theorem C19_requests_gated (call : ClimateCall) (s : GreeACCNT) :
    (s.state_ ≠ .Ready →
      control call s = s ∧
      (∀ x, on_vertical_swing_change x s = s) ∧
      (∀ x, on_horizontal_swing_change x s = s) ∧
      (∀ x, on_display_change x s = s) ∧
      (∀ x, on_display_unit_change x s = s) ∧
      (∀ x, on_light_mode_change x s = s) ∧
      (∀ x, on_ionizer_change x s = s) ∧
      (∀ x, on_beeper_change x s = s) ∧
      (∀ x, on_sleep_change x s = s) ∧
      (∀ x, on_xfan_change x s = s) ∧
      (∀ x, on_powersave_change x s = s) ∧
      (∀ x, on_turbo_change x s = s) ∧
      (∀ x, on_ifeel_change x s = s) ∧
      (∀ x, on_quiet_change x s = s)) ∧
    (s.state_ = .Ready →
      (∀ m, call.mode = some m →
        (control call s).mode = m ∧ (control call s).update_ = .UpdateStart) ∧
      (∀ v, call.target_temperature = some v →
        (control call s).target_temperature = max 16 (min 30 v) ∧
        (control call s).update_ = .UpdateStart) ∧
      (∀ f, call.custom_fan_mode = some f →
        (control call s).custom_fan_mode = some f ∧ (control call s).update_ = .UpdateStart) ∧
      (∀ sw, call.swing_mode = some sw →
        (control call s).vertical_swing_state_ =
          some (if sw = .BOTH ∨ sw = .VERTICAL then .FULL else .CMID) ∧
        (control call s).horizontal_swing_state_ =
          some (if sw = .BOTH ∨ sw = .HORIZONTAL then .FULL else .CMID) ∧
        (control call s).update_ = .UpdateStart) ∧
      (∀ x, (on_vertical_swing_change x s).vertical_swing_state_ = some x ∧
        (on_vertical_swing_change x s).update_ = .UpdateStart) ∧
      (∀ x, (on_horizontal_swing_change x s).horizontal_swing_state_ = some x ∧
        (on_horizontal_swing_change x s).update_ = .UpdateStart) ∧
      (∀ x, (on_display_change x s).display_state_ = some x ∧
        (on_display_change x s).update_ = .UpdateStart) ∧
      (∀ x, (on_display_unit_change x s).display_unit_state_ = some x ∧
        (on_display_unit_change x s).update_ = .UpdateStart) ∧
      (∀ x, (on_light_mode_change x s).light_mode_ = some x ∧
        (on_light_mode_change x s).update_ = .UpdateStart) ∧
      (∀ x, (on_ionizer_change x s).ionizer_state_ = x ∧
        (on_ionizer_change x s).update_ = .UpdateStart) ∧
      (∀ x, (on_beeper_change x s).beeper_state_ = x ∧
        (on_beeper_change x s).update_ = .UpdateStart) ∧
      (∀ x, (on_sleep_change x s).sleep_state_ = x ∧
        (on_sleep_change x s).update_ = .UpdateStart) ∧
      (∀ x, (on_xfan_change x s).xfan_state_ = x ∧
        (on_xfan_change x s).update_ = .UpdateStart) ∧
      (∀ x, (on_powersave_change x s).powersave_state_ = x ∧
        (on_powersave_change x s).update_ = .UpdateStart) ∧
      (∀ x, (on_turbo_change x s).turbo_state_ = x ∧
        (on_turbo_change x s).update_ = .UpdateStart) ∧
      (∀ x, (on_ifeel_change x s).ifeel_state_ = x ∧
        (on_ifeel_change x s).update_ = .UpdateStart) ∧
      (∀ x, (on_quiet_change x s).quiet_state_ = some x ∧
        (on_quiet_change x s).update_ = .UpdateStart)) := by
  refine ⟨?_, ?_⟩
  · intro h
    unfold control on_vertical_swing_change on_horizontal_swing_change on_display_change
      on_display_unit_change on_light_mode_change on_ionizer_change on_beeper_change
      on_sleep_change on_xfan_change on_powersave_change on_turbo_change on_ifeel_change
      on_quiet_change
    simp [h]
  · intro hready
    have hr : ¬ (s.state_ ≠ .Ready) := not_not.mpr hready
    refine ⟨?_, ?_, ?_, ?_, ?_, ?_, ?_, ?_, ?_, ?_, ?_, ?_, ?_, ?_, ?_, ?_, ?_⟩
    · intro m hm
      rcases call with ⟨_, t, f, sw⟩
      simp only at hm
      subst hm
      unfold control
      rw [if_neg hr]
      rcases t with _ | t <;> rcases f with _ | f <;> rcases sw with _ | sw <;>
        simp [control_mode_eq, control_fan_mode_eq, control_target_temperature_eq,
          control_swing_mode_eq]
    · intro v hv
      rcases call with ⟨m, _, f, sw⟩
      simp only at hv
      subst hv
      unfold control
      rw [if_neg hr]
      rcases m with _ | m <;> rcases f with _ | f <;> rcases sw with _ | sw <;>
        simp [control_mode_eq, control_fan_mode_eq, control_target_temperature_eq,
          control_swing_mode_eq]
    · intro f hf
      rcases call with ⟨m, t, _, sw⟩
      simp only at hf
      subst hf
      unfold control
      rw [if_neg hr]
      rcases m with _ | m <;> rcases t with _ | t <;> rcases sw with _ | sw <;>
        simp [control_mode_eq, control_fan_mode_eq, control_target_temperature_eq,
          control_swing_mode_eq]
    · intro sw hsw
      rcases call with ⟨m, t, f, _⟩
      simp only at hsw
      subst hsw
      unfold control
      rw [if_neg hr]
      simp [control_swing_mode_eq]
    · intro x; unfold on_vertical_swing_change; rw [if_neg hr]; exact ⟨rfl, rfl⟩
    · intro x; unfold on_horizontal_swing_change; rw [if_neg hr]; exact ⟨rfl, rfl⟩
    · intro x; unfold on_display_change; rw [if_neg hr]; exact ⟨rfl, rfl⟩
    · intro x; unfold on_display_unit_change; rw [if_neg hr]; exact ⟨rfl, rfl⟩
    · intro x; unfold on_light_mode_change; rw [if_neg hr]; simp only []
      split_ifs <;> exact ⟨rfl, rfl⟩
    · intro x; unfold on_ionizer_change; rw [if_neg hr]; exact ⟨rfl, rfl⟩
    · intro x; unfold on_beeper_change; rw [if_neg hr]; exact ⟨rfl, rfl⟩
    · intro x; unfold on_sleep_change; rw [if_neg hr]; exact ⟨rfl, rfl⟩
    · intro x; unfold on_xfan_change; rw [if_neg hr]; exact ⟨rfl, rfl⟩
    · intro x; unfold on_powersave_change; rw [if_neg hr]; exact ⟨rfl, rfl⟩
    · intro x; unfold on_turbo_change; rw [if_neg hr]; simp only [update_quiet_snd]
      split_ifs <;> exact ⟨rfl, rfl⟩
    · intro x; unfold on_ifeel_change; rw [if_neg hr]; exact ⟨rfl, rfl⟩
    · intro x; unfold on_quiet_change; rw [if_neg hr]; simp only [update_turbo_snd]
      split_ifs <;> exact ⟨rfl, rfl⟩

/-- C19 at the sample state: while `Initializing` a target temperature request and a
turbo request change nothing; while `Ready` a request of 35 degrees stores 30 and a quiet
request stores its value, both with the pending update `UpdateStart`. -/
theorem C19_requests_gated_witness :
    control { target_temperature := some 24 } sampleInitializing = sampleInitializing ∧
    on_turbo_change true sampleInitializing = sampleInitializing ∧
    ((control { target_temperature := some 35 } sampleState).target_temperature
        = max 16 (min 30 35) ∧
      (control { target_temperature := some 35 } sampleState).update_ = .UpdateStart) ∧
    ((on_quiet_change .ON sampleState).quiet_state_ = some .ON ∧
      (on_quiet_change .ON sampleState).update_ = .UpdateStart) := by
  obtain ⟨h1, _, _, _, _, _, _, _, _, _, _, h12, _, _⟩ :=
    (C19_requests_gated { target_temperature := some 24 } sampleInitializing).1 (by decide)
  obtain ⟨_, h2, _, _, _, _, _, _, _, _, _, _, _, _, _, _, h17⟩ :=
    (C19_requests_gated { target_temperature := some 35 } sampleState).2 rfl
  exact ⟨h1, h12 true, h2 35 rfl, h17 .ON⟩

/-! ## C20: the target temperature is clamped -/

theorem target_temperature_field (p : Protocol) (hL : p.WellFormed)
    (hI : p.Isolated .temp)
    (hoff : p.REPORT_TEMP_SET_OFF ≤ 16)
    (hfit : ∀ c ∈ List.range (31 - p.REPORT_TEMP_SET_OFF),
      Fits c p.REPORT_TEMP_SET_POS p.REPORT_TEMP_SET_MASK)
    (s r : GreeACCNT) (t : Nat) (h16 : 16 ≤ t) (h30 : t ≤ 30)
    (hs : c_round s.target_temperature = (t : Int))
    (hAF : s.update_ = .UpdateStart → p.AFClear .temp)
    (hr : r.serialProcess_.data = params_set_payload p s) :
    reported_target_temperature p r = t := by
  have hm : p.REPORT_TEMP_SET_MASK < 256 := hI.maskU8
  have h1 := field_read p hL s .temp hI hAF
  simp only [Protocol.loc, fieldValue, fieldActive, fieldBits, if_true] at h1
  rw [target_temperature_bits_eq p s t (by omega) (by omega) hs hm] at h1
  have hf := hfit (t - p.REPORT_TEMP_SET_OFF) (List.mem_range.mpr (by omega))
  unfold Fits at hf
  unfold reported_target_temperature
  simp only [hr, h1, hf, Nat.shiftLeft_shiftRight]
  rw [Nat.mod_eq_of_lt (by omega)]
  omega

theorem control_target_temperature_stored (call : ClimateCall) (v : ℚ)
    (hv : call.target_temperature = some v) (s : GreeACCNT) (hready : s.state_ = .Ready) :
    (control call s).target_temperature = max 16 (min 30 v) ∧
      (control call s).update_ = .UpdateStart := by
  have hr : ¬ (s.state_ ≠ .Ready) := not_not.mpr hready
  rcases call with ⟨m, _, f, sw⟩
  simp only at hv
  subst hv
  unfold control
  rw [if_neg hr]
  rcases m with _ | m <;> rcases f with _ | f <;> rcases sw with _ | sw <;>
    simp [control_mode_eq, control_fan_mode_eq, control_target_temperature_eq,
      control_swing_mode_eq]

/-- C20, as stated, fails. A request of 23.5 degrees made while the connection is `Ready`
lies inside the visual range, so the target temperature stored afterwards is 23.5; the
parameter payload built from that state carries the temperature code of
`round(23.5) = 24`, and decodes to 24, which is not the clamped request. -/
theorem C20_fractional_request_counterexample :
    sampleState.state_ = .Ready ∧
      sampleCallHalf.target_temperature = some (47 / 2) ∧
      (control sampleCallHalf sampleState).target_temperature = 47 / 2 ∧
      max 16 (min 30 (47 / 2 : ℚ)) = 47 / 2 ∧
      sampleHalfReport.serialProcess_.data =
        params_set_payload sampleProtocol (control sampleCallHalf sampleState) ∧
      reported_target_temperature sampleProtocol sampleHalfReport = 24 ∧
      ((24 : Nat) : ℚ) ≠ max 16 (min 30 (47 / 2 : ℚ)) := by
  with_unfolding_all decide

/-- C20, amended. For every target temperature `v` passed to `control` while the
connection is `Ready`, whole or fractional, the target temperature stored afterwards is
`v` clamped to `16 .. 30`, unrounded. When the protocol constants are well-formed, no
other field and not the `0xAF` marker overlap the target-temperature field,
`REPORT_TEMP_SET_OFF` is at most 16 and the mask and shift preserve every code
`0 .. 30 - REPORT_TEMP_SET_OFF`, the parameter payload built from the state after the
call decodes to the clamped value rounded to the nearest whole degree, a half going up:
a whole number in `16 .. 30` at most half a degree away from the clamped value, and equal
to it exactly when the clamped value is a whole number. -/
theorem C20_target_temperature_rounded (p : Protocol) (call : ClimateCall) (v : ℚ)
    (hv : call.target_temperature = some v) (s : GreeACCNT) (hready : s.state_ = .Ready) :
    (control call s).target_temperature = max 16 (min 30 v) ∧
    (p.WellFormed → p.Isolated .temp → p.AFClear .temp → p.REPORT_TEMP_SET_OFF ≤ 16 →
      (∀ c ∈ List.range (31 - p.REPORT_TEMP_SET_OFF),
        Fits c p.REPORT_TEMP_SET_POS p.REPORT_TEMP_SET_MASK) →
      ∀ r : GreeACCNT, r.serialProcess_.data = params_set_payload p (control call s) →
        (reported_target_temperature p r : Int) = c_round (max 16 (min 30 v)) ∧
        (reported_target_temperature p r : Int) = ⌊max 16 (min 30 v) + 1 / 2⌋ ∧
        16 ≤ reported_target_temperature p r ∧ reported_target_temperature p r ≤ 30 ∧
        |(reported_target_temperature p r : ℚ) - max 16 (min 30 v)| ≤ 1 / 2 ∧
        ((reported_target_temperature p r : ℚ) = max 16 (min 30 v) ↔
          ∃ n : Int, max 16 (min 30 v) = n)) := by
  have hst := control_target_temperature_stored call v hv s hready
  refine ⟨hst.1, ?_⟩
  intro hL hI hAF hoff hfit r hr
  have hlo : (((16 : Nat) : ℚ)) ≤ max 16 (min 30 v) := by
    simp only [Nat.cast_ofNat]
    exact le_max_left _ _
  have hhi : max 16 (min 30 v) ≤ (((30 : Nat) : ℚ)) := by
    simp only [Nat.cast_ofNat]
    exact max_le (by norm_num) (min_le_left _ _)
  have hb := c_round_bounds _ 16 30 hlo hhi
  have h16 : 16 ≤ (c_round (max 16 (min 30 v))).toNat := by omega
  have h30 : (c_round (max 16 (min 30 v))).toNat ≤ 30 := by omega
  have hcast : (((c_round (max 16 (min 30 v))).toNat : Nat) : Int)
      = c_round (max 16 (min 30 v)) := by omega
  have h := target_temperature_field p hL hI hoff hfit (control call s) r
    (c_round (max 16 (min 30 v))).toNat h16 h30 (by rw [hst.1, hcast]) (fun _ => hAF) hr
  have hint : (reported_target_temperature p r : Int) = c_round (max 16 (min 30 v)) := by
    rw [h, hcast]
  have hq : (reported_target_temperature p r : ℚ) = (c_round (max 16 (min 30 v)) : ℚ) := by
    rw [← hint]
    rfl
  refine ⟨hint, ?_, by omega, by omega, ?_, ?_, ?_⟩
  · rw [hint]
    exact c_round_of_nonneg _ (le_trans (by norm_num) hlo)
  · rw [hq]
    exact c_round_near _
  · intro he
    exact ⟨c_round (max 16 (min 30 v)), by rw [← hq, he]⟩
  · rintro ⟨n, hn⟩
    rw [hq, hn, c_round_intCast]

/-- C20 at the sample state and layout: a request of 35 degrees stores 30 and the payload
decodes to 30; a request of 23.5 degrees stores 23.5 and the payload decodes to 24; a
request of 3 degrees stores 16. -/
theorem C20_target_temperature_rounded_witness :
    ((control sampleCall35 sampleState).target_temperature = max 16 (min 30 35) ∧
      (reported_target_temperature sampleProtocol sampleClampedReport : Int)
        = c_round (max 16 (min 30 35))) ∧
    ((control sampleCallHalf sampleState).target_temperature = max 16 (min 30 (mkRat 47 2)) ∧
      (reported_target_temperature sampleProtocol sampleHalfReport : Int)
        = c_round (max 16 (min 30 (mkRat 47 2)))) ∧
    (control { target_temperature := some 3 } sampleState).target_temperature
        = max 16 (min 30 3) :=
  ⟨⟨(C20_target_temperature_rounded sampleProtocol sampleCall35 35 rfl sampleState rfl).1,
    ((C20_target_temperature_rounded sampleProtocol sampleCall35 35 rfl sampleState rfl).2
      sample_wellFormed (sample_isolated _) (by decide) (by decide) (by decide)
      sampleClampedReport rfl).1⟩,
   ⟨(C20_target_temperature_rounded sampleProtocol sampleCallHalf (mkRat 47 2) rfl
      sampleState rfl).1,
    ((C20_target_temperature_rounded sampleProtocol sampleCallHalf (mkRat 47 2) rfl
      sampleState rfl).2
      sample_wellFormed (sample_isolated _) (by decide) (by decide) (by decide)
      sampleHalfReport rfl).1⟩,
   (C20_target_temperature_rounded sampleProtocol { target_temperature := some 3 } 3 rfl
      sampleState rfl).1⟩

/-! ## C18: turbo and quiet in the reachable states -/

theorem SameTurboQuiet.refl (a : GreeACCNT) : SameTurboQuiet a a := ⟨rfl, rfl, rfl⟩

theorem SameTurboQuiet.trans {a b c : GreeACCNT} (h1 : SameTurboQuiet a b)
    (h2 : SameTurboQuiet b c) : SameTurboQuiet a c :=
  ⟨h1.1.trans h2.1, h1.2.1.trans h2.2.1, h1.2.2.trans h2.2.2⟩

theorem Exclusive_congr {a b : GreeACCNT} (h1 : a.turbo_state_ = b.turbo_state_)
    (h2 : a.quiet_state_ = b.quiet_state_) (h : Exclusive b) : Exclusive a := by
  unfold Exclusive at h ⊢
  rw [h1, h2]
  exact h

theorem determine_turbo_congr (p : Protocol) {a b : GreeACCNT}
    (h : a.serialProcess_ = b.serialProcess_) : determine_turbo p a = determine_turbo p b := by
  unfold determine_turbo
  rw [h]

theorem determine_quiet_congr (p : Protocol) {a b : GreeACCNT}
    (h : a.serialProcess_ = b.serialProcess_) : determine_quiet p a = determine_quiet p b := by
  unfold determine_quiet
  rw [h]

theorem determine_mode_same (p : Protocol) (s : GreeACCNT) :
    SameTurboQuiet (determine_mode p s).2 s := by
  unfold determine_mode
  simp only [apply_ite Prod.snd, ite_self]
  exact ⟨rfl, rfl, rfl⟩

theorem report_mode_same (p : Protocol) (s : GreeACCNT) : SameTurboQuiet (report_mode p s).2 s := by
  have h := determine_mode_same p s
  unfold report_mode
  simp only []
  split_ifs <;> exact ⟨h.1, h.2.1, h.2.2⟩

theorem report_fan_same (p : Protocol) (s : GreeACCNT) : SameTurboQuiet (report_fan p s).2 s := by
  unfold report_fan
  simp only []
  split_ifs <;> exact ⟨rfl, rfl, rfl⟩

theorem report_temperature_same (p : Protocol) (s : GreeACCNT) :
    SameTurboQuiet (report_temperature p s).2 s := by
  unfold report_temperature update_target_temperature update_current_temperature
  simp only []
  split_ifs <;> exact ⟨rfl, rfl, rfl⟩

theorem report_swing_same (p : Protocol) (s : GreeACCNT) :
    SameTurboQuiet (report_swing p s).2 s := by
  unfold report_swing update_swing_vertical update_swing_horizontal
  simp only []
  split_ifs <;> exact ⟨rfl, rfl, rfl⟩

theorem report_display_same (p : Protocol) (s : GreeACCNT) :
    SameTurboQuiet (report_display p s).2 s := by
  unfold report_display update_display
  simp only []
  split_ifs <;> exact ⟨rfl, rfl, rfl⟩

theorem update_light_same (light : Bool) (s : GreeACCNT) :
    SameTurboQuiet (update_light light s).2 s := by
  unfold update_light
  simp only []
  split
  · split_ifs <;> exact ⟨rfl, rfl, rfl⟩
  · exact ⟨rfl, rfl, rfl⟩

theorem report_light_same (p : Protocol) (modeChanged : Bool) (s : GreeACCNT) :
    SameTurboQuiet (report_light p modeChanged s).2 s := by
  unfold report_light
  simp only []
  split_ifs
  all_goals first
    | exact ⟨rfl, rfl, rfl⟩
    | exact update_light_same _ _

theorem report_flags_turbo_quiet (p : Protocol) (s : GreeACCNT) :
    (report_flags p s).2.turbo_state_ = determine_turbo p s ∧
      (report_flags p s).2.quiet_state_ = some (determine_quiet p s) := by
  have hd (v : display_unit_options) (a : GreeACCNT) :
      (update_display_unit v a).2 = { a with display_unit_state_ := some v } := by
    unfold update_display_unit
    split_ifs with h
    · cases a; simp only at h; subst h; rfl
    · rfl
  have hi (v : Bool) (a : GreeACCNT) : (update_ionizer v a).2 = { a with ionizer_state_ := v } := by
    unfold update_ionizer
    split_ifs with h
    · cases a; simp only at h; subst h; rfl
    · rfl
  have hb (v : Bool) (a : GreeACCNT) : (update_beeper v a).2 = { a with beeper_state_ := v } := by
    unfold update_beeper
    split_ifs with h
    · cases a; simp only at h; subst h; rfl
    · rfl
  have hs (v : Bool) (a : GreeACCNT) : (update_sleep v a).2 = { a with sleep_state_ := v } := by
    unfold update_sleep
    split_ifs with h
    · cases a; simp only at h; subst h; rfl
    · rfl
  have hx (v : Bool) (a : GreeACCNT) : (update_xfan v a).2 = { a with xfan_state_ := v } := by
    unfold update_xfan
    split_ifs with h
    · cases a; simp only at h; subst h; rfl
    · rfl
  have hp (v : Bool) (a : GreeACCNT) :
      (update_powersave v a).2 = { a with powersave_state_ := v } := by
    unfold update_powersave
    split_ifs with h
    · cases a; simp only at h; subst h; rfl
    · rfl
  have hf (v : Bool) (a : GreeACCNT) : (update_ifeel v a).2 = { a with ifeel_state_ := v } := by
    unfold update_ifeel
    split_ifs with h
    · cases a; simp only at h; subst h; rfl
    · rfl
  unfold report_flags
  simp only [hd, hi, hb, hs, hx, hp, hf, update_turbo_snd, update_quiet_snd]
  exact ⟨rfl, rfl⟩

theorem processUnitReport_turbo_quiet (p : Protocol) (s : GreeACCNT) :
    (processUnitReport p s).2.turbo_state_ = determine_turbo p s ∧
      (processUnitReport p s).2.quiet_state_ = some (determine_quiet p s) := by
  have h6 : SameTurboQuiet
      (report_light p (report_mode p s).1
        (report_display p (report_swing p (report_temperature p
          (report_fan p (report_mode p s).2).2).2).2).2).2 s :=
    (report_light_same p _ _).trans ((report_display_same p _).trans
      ((report_swing_same p _).trans ((report_temperature_same p _).trans
        ((report_fan_same p _).trans (report_mode_same p s)))))
  have hf := report_flags_turbo_quiet p
    (report_light p (report_mode p s).1
      (report_display p (report_swing p (report_temperature p
        (report_fan p (report_mode p s).2).2).2).2).2).2
  rw [determine_turbo_congr p h6.1, determine_quiet_congr p h6.1] at hf
  exact hf

theorem handle_packet_turbo_quiet (p : Protocol) (s : GreeACCNT)
    (hcmd : rd s.serialProcess_.data 3 = p.CMD_IN_UNIT_REPORT) :
    (handle_packet p s).turbo_state_ = determine_turbo p (move_payload s) ∧
      (handle_packet p s).quiet_state_ = some (determine_quiet p (move_payload s)) := by
  unfold handle_packet
  rw [if_pos hcmd]
  simp only []
  split_ifs
  · exact processUnitReport_turbo_quiet p (move_payload s)
  · exact processUnitReport_turbo_quiet p (move_payload s)

theorem verify_packet_command (p : Protocol) (s : GreeACCNT) (h : verify_packet p s = true) :
    rd s.serialProcess_.data 3 = p.CMD_IN_UNIT_REPORT := by
  unfold verify_packet verify_packet_drop ALLOWED_PACKETS at h
  split_ifs at h with h1 h2 h3
  all_goals first
    | simpa using h2
    | simp at h

theorem loop_frame_of_not_complete (p : Protocol) (now : Nat) (s : GreeACCNT)
    (hst : ¬ s.serialProcess_.state = .STATE_COMPLETE) : loop_frame p now s = s := by
  unfold loop_frame
  rw [if_neg hst]

theorem loop_frame_of_accept_busy (p : Protocol) (now : Nat) (s : GreeACCNT)
    (hst : s.serialProcess_.state = .STATE_COMPLETE) (hv : verify_packet p s = true)
    (hu : ¬ s.update_ = .NoUpdate) :
    (loop_frame p now s).turbo_state_ = s.turbo_state_ ∧
      (loop_frame p now s).quiet_state_ = s.quiet_state_ := by
  have hv2 : verify_packet p { s with wait_response_ := false } = true := hv
  unfold loop_frame
  by_cases hrd : s.state_ ≠ .Ready
  · simp only [if_pos hst, if_pos hv2, if_pos hrd, if_neg hu, and_self]
  · simp only [if_pos hst, if_pos hv2, if_neg hrd, if_neg hu, and_self]

theorem loop_frame_of_accept_idle (p : Protocol) (now : Nat) (s : GreeACCNT)
    (hst : s.serialProcess_.state = .STATE_COMPLETE) (hv : verify_packet p s = true)
    (hu : s.update_ = .NoUpdate) :
    ∃ a : GreeACCNT, a.serialProcess_ = s.serialProcess_ ∧
      (loop_frame p now s).turbo_state_ = (handle_packet p a).turbo_state_ ∧
      (loop_frame p now s).quiet_state_ = (handle_packet p a).quiet_state_ := by
  have hv2 : verify_packet p { s with wait_response_ := false } = true := hv
  by_cases hrd : s.state_ ≠ .Ready
  · refine ⟨{ s with
              wait_response_ := false
              last_packet_received_ := now
              state_ := .Ready
              status_error := false }, rfl, ?_⟩
    unfold loop_frame
    simp only [if_pos hst, if_pos hv2, if_pos hrd, if_pos hu, and_self]
  · refine ⟨{ s with
              wait_response_ := false
              last_packet_received_ := now }, rfl, ?_⟩
    unfold loop_frame
    simp only [if_pos hst, if_pos hv2, if_neg hrd, if_pos hu, and_self]

theorem loop_frame_exclusive (p : Protocol) (now : Nat) (s : GreeACCNT) (h : Exclusive s)
    (hrep : ReportExclusive p s) : Exclusive (loop_frame p now s) := by
  by_cases hst : s.serialProcess_.state = .STATE_COMPLETE
  · by_cases hv : verify_packet p s = true
    · by_cases hu : s.update_ = .NoUpdate
      · obtain ⟨a, ha, hat, haq⟩ := loop_frame_of_accept_idle p now s hst hv hu
        have hcmd := verify_packet_command p s hv
        have hex := hrep hst hv hu
        have hm : (move_payload a).serialProcess_ = (move_payload s).serialProcess_ := by
          unfold move_payload
          simp only [ha]
        obtain ⟨ht, hq⟩ := handle_packet_turbo_quiet p a (by rw [ha]; exact hcmd)
        rw [determine_turbo_congr p hm] at ht
        rw [determine_quiet_congr p hm] at hq
        unfold Exclusive
        rw [hat, haq, ht, hq]
        intro hc
        apply hex
        refine ⟨hc.1, ?_⟩
        rcases hc.2 with h1 | h1
        · rw [Option.some.inj h1]; decide
        · rw [Option.some.inj h1]; decide
      · obtain ⟨hat, haq⟩ := loop_frame_of_accept_busy p now s hst hv hu
        exact Exclusive_congr hat haq h
    · rw [loop_frame_of_drop p now s hst (by simpa using hv)]
      exact h
  · rw [loop_frame_of_not_complete p now s hst]
    exact h

theorem loop_read_same (now : Nat) :
    ∀ (n : Nat) (s : GreeACCNT), (loop_read now n s).turbo_state_ = s.turbo_state_ ∧
      (loop_read now n s).quiet_state_ = s.quiet_state_ ∧
      (loop_read now n s).update_ = s.update_ := by
  intro n
  induction n with
  | zero => intro s; exact ⟨rfl, rfl, rfl⟩
  | succ n ih =>
    intro s
    unfold loop_read
    split
    · exact ⟨rfl, rfl, rfl⟩
    · split_ifs
      · exact ⟨rfl, rfl, rfl⟩
      · exact ih _

theorem send_params_set_packet_same (p : Protocol) (now : Nat) (s : GreeACCNT) :
    (send_params_set_packet p now s).turbo_state_ = s.turbo_state_ ∧
      (send_params_set_packet p now s).quiet_state_ = s.quiet_state_ := by
  unfold send_params_set_packet transmit_packet
  simp only []
  split_ifs
  · exact ⟨rfl, rfl⟩
  · split <;> exact ⟨rfl, rfl⟩
  · split <;> exact ⟨rfl, rfl⟩

theorem loop_send_same (p : Protocol) (mac : Bytes) (now : Nat) (s : GreeACCNT) :
    (loop_send p mac now s).turbo_state_ = s.turbo_state_ ∧
      (loop_send p mac now s).quiet_state_ = s.quiet_state_ := by
  unfold loop_send
  simp only []
  split_ifs
  all_goals first
    | exact ⟨rfl, rfl⟩
    | exact send_params_set_packet_same p now s

theorem loop_timeout_same (p : Protocol) (now : Nat) (s : GreeACCNT) :
    (loop_timeout p now s).turbo_state_ = s.turbo_state_ ∧
      (loop_timeout p now s).quiet_state_ = s.quiet_state_ := by
  unfold loop_timeout
  split_ifs <;> exact ⟨rfl, rfl⟩

theorem loop_exclusive (p : Protocol) (mac : Bytes) (now : Nat) (s : GreeACCNT)
    (h : Exclusive s) (hrep : ReportExclusive p (loop now s)) :
    Exclusive (s.loop p mac now) := by
  unfold GreeACCNT.loop
  have h1 : Exclusive (loop now s) :=
    Exclusive_congr (loop_read_same now 32 s).1 (loop_read_same now 32 s).2.1 h
  have h2 := loop_frame_exclusive p now (loop now s) h1 hrep
  have h3 := loop_send_same p mac now (loop_frame p now (loop now s))
  have h4 := loop_timeout_same p now (loop_send p mac now (loop_frame p now (loop now s)))
  exact Exclusive_congr (h4.1.trans h3.1) (h4.2.trans h3.2) h2

theorem control_exclusive (call : ClimateCall) (s : GreeACCNT) (h : Exclusive s) :
    Exclusive (control call s) := by
  unfold control
  split_ifs with hr
  · exact h
  · rcases call with ⟨m, t, f, sw⟩
    rcases m with _ | m <;> rcases t with _ | t <;> rcases f with _ | f <;>
      rcases sw with _ | sw <;>
      simp only [control_mode_eq, control_fan_mode_eq, control_target_temperature_eq,
        control_swing_mode_eq] <;>
      first
        | exact h
        | exact @Exclusive_congr _ s rfl rfl h
        | (unfold Exclusive; simp)

theorem apply_exclusive (p : Protocol) (mac : Bytes) (e : Event) (s : GreeACCNT)
    (h : Exclusive s) (hrep : e.reportExclusive p s) : Exclusive (e.apply p mac s) := by
  have hr : s.state_ ≠ .Ready ∨ ¬ (s.state_ ≠ .Ready) := Classical.em _
  cases e with
  | arrive bytes => exact h
  | loop now => exact loop_exclusive p mac now s h hrep
  | control call => exact control_exclusive call s h
  | on_turbo_change turbo =>
    show Exclusive (on_turbo_change turbo s)
    unfold on_turbo_change
    split_ifs with h1 h2
    · exact h
    · rw [update_quiet_snd]
      unfold Exclusive
      simp
    · have ht : turbo = false := by simpa using h2
      unfold Exclusive
      simp [ht]
  | on_quiet_change quiet =>
    show Exclusive (on_quiet_change quiet s)
    unfold on_quiet_change
    split_ifs with h1 h2
    · exact h
    · rw [update_turbo_snd]
      unfold Exclusive
      simp
    · have hq : quiet = .OFF := not_not.mp h2
      unfold Exclusive
      simp [hq]
  | on_vertical_swing_change x =>
    show Exclusive (on_vertical_swing_change x s)
    unfold on_vertical_swing_change
    split_ifs
    · exact h
    · exact @Exclusive_congr _ s rfl rfl h
  | on_horizontal_swing_change x =>
    show Exclusive (on_horizontal_swing_change x s)
    unfold on_horizontal_swing_change
    split_ifs
    · exact h
    · exact @Exclusive_congr _ s rfl rfl h
  | on_display_change x =>
    show Exclusive (on_display_change x s)
    unfold on_display_change
    split_ifs
    · exact h
    · exact @Exclusive_congr _ s rfl rfl h
  | on_display_unit_change x =>
    show Exclusive (on_display_unit_change x s)
    unfold on_display_unit_change
    split_ifs
    · exact h
    · exact @Exclusive_congr _ s rfl rfl h
  | on_light_mode_change x =>
    show Exclusive (on_light_mode_change x s)
    unfold on_light_mode_change
    simp only []
    split_ifs
    all_goals exact h
  | on_ionizer_change x =>
    show Exclusive (on_ionizer_change x s)
    unfold on_ionizer_change
    split_ifs
    · exact h
    · exact @Exclusive_congr _ s rfl rfl h
  | on_beeper_change x =>
    show Exclusive (on_beeper_change x s)
    unfold on_beeper_change
    split_ifs
    · exact h
    · exact @Exclusive_congr _ s rfl rfl h
  | on_sleep_change x =>
    show Exclusive (on_sleep_change x s)
    unfold on_sleep_change
    split_ifs
    · exact h
    · exact @Exclusive_congr _ s rfl rfl h
  | on_xfan_change x =>
    show Exclusive (on_xfan_change x s)
    unfold on_xfan_change
    split_ifs
    · exact h
    · exact @Exclusive_congr _ s rfl rfl h
  | on_powersave_change x =>
    show Exclusive (on_powersave_change x s)
    unfold on_powersave_change
    split_ifs
    · exact h
    · exact @Exclusive_congr _ s rfl rfl h
  | on_ifeel_change x =>
    show Exclusive (on_ifeel_change x s)
    unfold on_ifeel_change
    split_ifs
    · exact h
    · exact @Exclusive_congr _ s rfl rfl h

theorem run_exclusive (p : Protocol) (mac : Bytes) :
    ∀ (events : List Event) (s : GreeACCNT), Exclusive s →
      (∀ k, k < events.length →
        (events.getD k (.arrive [])).reportExclusive p (run p mac (events.take k) s)) →
      Exclusive (run p mac events s) := by
  intro events
  induction events with
  | nil => intro s h _; exact h
  | cons e es ih =>
    intro s h hrep
    have h0 := hrep 0 (by simp)
    have h1 : Exclusive (e.apply p mac s) := apply_exclusive p mac e s h h0
    exact ih (e.apply p mac s) h1 (fun k hk => hrep (k + 1) (by simpa using hk))

set_option maxRecDepth 100000 in
/-- C18, as stated, fails: after `setup`, the well-formed unit report `turboQuietFrame`,
which carries the turbo bit and the quiet bit, arrives and two scheduling passes run:
the report is accepted and processed, and the engine state then has turbo on and quiet
on. -/
theorem C18_report_counterexample :
    FrameWellFormed 0x7E turboQuietFrame ∧
    Exclusive (GreeACCNT.setup sampleProtocol 0 powerOn) ∧
    (run sampleProtocol [] turboQuietEvents (GreeACCNT.setup sampleProtocol 0 powerOn)).state_
      = .Ready ∧
    (run sampleProtocol [] turboQuietEvents
      (GreeACCNT.setup sampleProtocol 0 powerOn)).turbo_state_ = true ∧
    (run sampleProtocol [] turboQuietEvents
      (GreeACCNT.setup sampleProtocol 0 powerOn)).quiet_state_ = some .ON ∧
    ¬ Exclusive
      (run sampleProtocol [] turboQuietEvents (GreeACCNT.setup sampleProtocol 0 powerOn)) := by
  decide

/-- C18, amended. Turbo and quiet exclude each other in every state reached from `setup`
by arriving bytes, scheduling passes (which receive, process and transmit frames),
`control` calls and narrow setters, provided that they do so before `setup` and that no
unit report processed on the way reports turbo together with quiet on or auto. -/
theorem C18_exclusion_invariant (p : Protocol) (mac : Bytes) (now : Nat) (s0 : GreeACCNT)
    (events : List Event) (h0 : Exclusive s0)
    (hrep : ∀ k, k < events.length →
      (events.getD k (.arrive [])).reportExclusive p
        (run p mac (events.take k) (GreeACCNT.setup p now s0))) :
    Exclusive (run p mac events (GreeACCNT.setup p now s0)) :=
  run_exclusive p mac events (GreeACCNT.setup p now s0)
    (@Exclusive_congr _ s0 rfl rfl h0) hrep

set_option maxRecDepth 100000 in
/-- C18, amended, on `sampleEvents`: a report without turbo is processed, then the user
turns turbo on and then quiet on. -/
theorem C18_exclusion_invariant_witness :
    Exclusive (run sampleProtocol [] sampleEvents (GreeACCNT.setup sampleProtocol 0 powerOn)) :=
  C18_exclusion_invariant sampleProtocol [] 0 powerOn sampleEvents (by decide) (by decide)

/-! ## The blocks of `processUnitReport` as record updates -/

theorem determine_mode_snd (p : Protocol) (s : GreeACCNT) :
    (determine_mode p s).2 =
      { s with
        power_internal_ := (determine_mode p s).2.power_internal_
        mode_internal_ := (determine_mode p s).2.mode_internal_ } := by
  unfold determine_mode
  simp only [apply_ite Prod.snd, ite_self]

theorem update_target_temperature_snd (temperature : ℚ) (s : GreeACCNT) :
    (update_target_temperature temperature s).2 =
      { s with target_temperature :=
          if temperature > (TEMPERATURE_THRESHOLD : ℚ) then s.target_temperature
          else temperature } := by
  unfold update_target_temperature
  split_ifs with h1 h2
  · rfl
  · cases s; simp only at h2; subst h2; rfl
  · rfl

theorem update_current_temperature_snd (temperature : Int) (s : GreeACCNT) :
    (update_current_temperature temperature s).2 =
      { s with current_temperature :=
          if temperature > (TEMPERATURE_THRESHOLD : Int) then s.current_temperature
          else temperature } := by
  unfold update_current_temperature
  split_ifs with h1 h2
  · rfl
  · cases s; simp only at h2; subst h2; rfl
  · rfl

theorem update_swing_vertical_snd (swing : vertical_swing_options) (s : GreeACCNT) :
    (update_swing_vertical swing s).2 = { s with vertical_swing_state_ := some swing } := by
  unfold update_swing_vertical
  split_ifs with h
  · cases s; simp only at h; subst h; rfl
  · rfl

theorem update_swing_horizontal_snd (swing : horizontal_swing_options) (s : GreeACCNT) :
    (update_swing_horizontal swing s).2 = { s with horizontal_swing_state_ := some swing } := by
  unfold update_swing_horizontal
  split_ifs with h
  · cases s; simp only at h; subst h; rfl
  · rfl

theorem update_display_snd (display : display_options) (s : GreeACCNT) :
    (update_display display s).2 = { s with display_state_ := some display } := by
  unfold update_display
  split_ifs with h
  · cases s; simp only at h; subst h; rfl
  · rfl

theorem update_display_unit_snd (display_unit : display_unit_options) (s : GreeACCNT) :
    (update_display_unit display_unit s).2 =
      { s with display_unit_state_ := some display_unit } := by
  unfold update_display_unit
  split_ifs with h
  · cases s; simp only at h; subst h; rfl
  · rfl

theorem update_ionizer_snd (ionizer : Bool) (s : GreeACCNT) :
    (update_ionizer ionizer s).2 = { s with ionizer_state_ := ionizer } := by
  unfold update_ionizer
  split_ifs with h
  · cases s; simp only at h; subst h; rfl
  · rfl

theorem update_beeper_snd (beeper : Bool) (s : GreeACCNT) :
    (update_beeper beeper s).2 = { s with beeper_state_ := beeper } := by
  unfold update_beeper
  split_ifs with h
  · cases s; simp only at h; subst h; rfl
  · rfl

theorem update_sleep_snd (sleep : Bool) (s : GreeACCNT) :
    (update_sleep sleep s).2 = { s with sleep_state_ := sleep } := by
  unfold update_sleep
  split_ifs with h
  · cases s; simp only at h; subst h; rfl
  · rfl

theorem update_xfan_snd (xfan : Bool) (s : GreeACCNT) :
    (update_xfan xfan s).2 = { s with xfan_state_ := xfan } := by
  unfold update_xfan
  split_ifs with h
  · cases s; simp only at h; subst h; rfl
  · rfl

theorem update_powersave_snd (powersave : Bool) (s : GreeACCNT) :
    (update_powersave powersave s).2 = { s with powersave_state_ := powersave } := by
  unfold update_powersave
  split_ifs with h
  · cases s; simp only at h; subst h; rfl
  · rfl

theorem update_ifeel_snd (ifeel : Bool) (s : GreeACCNT) :
    (update_ifeel ifeel s).2 = { s with ifeel_state_ := ifeel } := by
  unfold update_ifeel
  split_ifs with h
  · cases s; simp only at h; subst h; rfl
  · rfl

theorem update_light_snd (light : Bool) (s : GreeACCNT) :
    (update_light light s).2 =
      { s with
        light_state_ := light
        light_select_ := (update_light light s).2.light_select_ } := by
  unfold update_light
  simp only []
  split
  · split_ifs <;> rfl
  · rfl

theorem report_mode_frame (p : Protocol) (s : GreeACCNT) :
    (report_mode p s).2 =
      { s with
        power_internal_ := (report_mode p s).2.power_internal_
        mode_internal_ := (report_mode p s).2.mode_internal_
        mode := (report_mode p s).2.mode
        light_state_ := (report_mode p s).2.light_state_
        update_ := (report_mode p s).2.update_ } := by
  have hdm := determine_mode_snd p s
  generalize (determine_mode p s).2.power_internal_ = pw at hdm
  generalize (determine_mode p s).2.mode_internal_ = mi at hdm
  unfold report_mode
  simp only []
  generalize (determine_mode p s).1 = newMode
  rw [hdm]
  simp only []
  split_ifs
  all_goals exact rfl

theorem report_light_frame (p : Protocol) (modeChanged : Bool) (s : GreeACCNT) :
    (report_light p modeChanged s).2 =
      { s with
        light_state_ := (report_light p modeChanged s).2.light_state_
        light_select_ := (report_light p modeChanged s).2.light_select_
        update_ := (report_light p modeChanged s).2.update_ } := by
  unfold report_light
  simp only []
  split_ifs
  all_goals first
    | rfl
    | rw [update_light_snd]

theorem report_fan_snd (p : Protocol) (s : GreeACCNT) :
    (report_fan p s).2 = { s with custom_fan_mode := some (determine_fan_mode p s) } := by
  unfold report_fan
  simp only []
  split_ifs with h
  · rfl
  · have h2 := not_not.mp h
    generalize determine_fan_mode p s = f at h2 ⊢
    cases s
    simp only at h2
    subst h2
    rfl

theorem report_temperature_snd (p : Protocol) (s : GreeACCNT) :
    (report_temperature p s).2 =
      { s with
        target_temperature :=
          if (reported_target_temperature p s : ℚ) > (TEMPERATURE_THRESHOLD : ℚ) then
            s.target_temperature
          else (reported_target_temperature p s : ℚ)
        current_temperature :=
          if (rd s.serialProcess_.data p.REPORT_TEMP_ACT_BYTE : Int) - p.REPORT_TEMP_ACT_OFF
              > (TEMPERATURE_THRESHOLD : Int) then s.current_temperature
          else (rd s.serialProcess_.data p.REPORT_TEMP_ACT_BYTE : Int) - p.REPORT_TEMP_ACT_OFF } := by
  unfold report_temperature
  simp only [update_target_temperature_snd, update_current_temperature_snd]

theorem report_swing_snd (p : Protocol) (s : GreeACCNT) :
    (report_swing p s).2 =
      { s with
        vertical_swing_state_ := some (determine_vertical_swing p s)
        horizontal_swing_state_ := some (determine_horizontal_swing p s)
        swing_mode :=
          if determine_vertical_swing p s = .FULL ∧ determine_horizontal_swing p s = .FULL then
            .BOTH
          else if determine_vertical_swing p s = .FULL then .VERTICAL
          else if determine_horizontal_swing p s = .FULL then .HORIZONTAL
          else .OFF } := by
  unfold report_swing
  simp only [update_swing_vertical_snd, update_swing_horizontal_snd]
  generalize (if determine_vertical_swing p s = .FULL ∧ determine_horizontal_swing p s = .FULL
    then ClimateSwingMode.BOTH
    else if determine_vertical_swing p s = .FULL then .VERTICAL
    else if determine_horizontal_swing p s = .FULL then .HORIZONTAL
    else .OFF) = sm
  split_ifs with h
  · rfl
  · have h2 : s.swing_mode = sm := not_not.mp h
    cases s
    simp only at h2
    subst h2
    rfl

theorem report_display_snd (p : Protocol) (s : GreeACCNT) :
    (report_display p s).2 =
      { s with display_state_ :=
          if s.display_state_ = none ∨ determine_display p s = .ACT ∨ s.mode ≠ .OFF then
            some (determine_display p s)
          else s.display_state_ } := by
  unfold report_display
  simp only []
  split_ifs with h
  · rw [update_display_snd]
  · rfl

theorem report_flags_snd (p : Protocol) (s : GreeACCNT) :
    (report_flags p s).2 =
      { s with
        display_unit_state_ := some (determine_display_unit p s)
        ionizer_state_ := determine_ionizer p s
        beeper_state_ := determine_beeper p s
        sleep_state_ := determine_sleep p s
        xfan_state_ := determine_xfan p s
        powersave_state_ := determine_powersave p s
        turbo_state_ := determine_turbo p s
        ifeel_state_ := determine_ifeel p s
        quiet_state_ := some (determine_quiet p s) } := by
  unfold report_flags
  simp only [update_display_unit_snd, update_ionizer_snd, update_beeper_snd, update_sleep_snd,
    update_xfan_snd, update_powersave_snd, update_turbo_snd, update_ifeel_snd, update_quiet_snd]
  rfl

/-! ## What `processUnitReport` leaves alone, and what it stores -/

theorem reportedFrom_trans {a b c : GreeACCNT} (h1 : b = a.reportedFrom b)
    (h2 : c = b.reportedFrom c) : c = a.reportedFrom c :=
  h2.trans (congrArg (fun x => x.reportedFrom c) h1)

theorem reportedFrom_serialProcess {a c : GreeACCNT} (h : c = a.reportedFrom c) :
    c.serialProcess_ = a.serialProcess_ := by
  rw [h]
  rfl

theorem report_mode_reportedFrom (p : Protocol) (s : GreeACCNT) :
    (report_mode p s).2 = s.reportedFrom (report_mode p s).2 := by
  rw [report_mode_frame]
  rfl

theorem report_fan_reportedFrom (p : Protocol) (s : GreeACCNT) :
    (report_fan p s).2 = s.reportedFrom (report_fan p s).2 := by
  rw [report_fan_snd]
  rfl

theorem report_temperature_reportedFrom (p : Protocol) (s : GreeACCNT) :
    (report_temperature p s).2 = s.reportedFrom (report_temperature p s).2 := by
  rw [report_temperature_snd]
  rfl

theorem report_swing_reportedFrom (p : Protocol) (s : GreeACCNT) :
    (report_swing p s).2 = s.reportedFrom (report_swing p s).2 := by
  rw [report_swing_snd]
  rfl

theorem report_display_reportedFrom (p : Protocol) (s : GreeACCNT) :
    (report_display p s).2 = s.reportedFrom (report_display p s).2 := by
  rw [report_display_snd]
  rfl

theorem report_light_reportedFrom (p : Protocol) (modeChanged : Bool) (s : GreeACCNT) :
    (report_light p modeChanged s).2 = s.reportedFrom (report_light p modeChanged s).2 := by
  rw [report_light_frame]
  rfl

theorem report_flags_reportedFrom (p : Protocol) (s : GreeACCNT) :
    (report_flags p s).2 = s.reportedFrom (report_flags p s).2 := by
  rw [report_flags_snd]
  rfl

theorem before_display_reportedFrom (p : Protocol) (s : GreeACCNT) :
    (report_swing p (report_temperature p (report_fan p (report_mode p s).2).2).2).2 =
      s.reportedFrom
        (report_swing p (report_temperature p (report_fan p (report_mode p s).2).2).2).2 :=
  reportedFrom_trans (reportedFrom_trans (reportedFrom_trans (report_mode_reportedFrom p s)
    (report_fan_reportedFrom p _)) (report_temperature_reportedFrom p _))
    (report_swing_reportedFrom p _)

theorem before_flags_reportedFrom (p : Protocol) (s : GreeACCNT) :
    (report_light p (report_mode p s).1 (report_display p
      (report_swing p (report_temperature p (report_fan p (report_mode p s).2).2).2).2).2).2 =
      s.reportedFrom
        (report_light p (report_mode p s).1 (report_display p
          (report_swing p (report_temperature p (report_fan p (report_mode p s).2).2).2).2).2).2 :=
  reportedFrom_trans (reportedFrom_trans (before_display_reportedFrom p s)
    (report_display_reportedFrom p _)) (report_light_reportedFrom p _ _)

/-- Whatever the report holds, `processUnitReport` writes only the climate state, the
pending update and what the light select shows. -/
theorem processUnitReport_reportedFrom (p : Protocol) (s : GreeACCNT) :
    (processUnitReport p s).2 = s.reportedFrom (processUnitReport p s).2 :=
  reportedFrom_trans (before_flags_reportedFrom p s) (report_flags_reportedFrom p _)

theorem determine_mode_congr (p : Protocol) {a b : GreeACCNT}
    (h : a.serialProcess_ = b.serialProcess_) : (determine_mode p a).1 = (determine_mode p b).1 := by
  unfold determine_mode
  simp only [h]
  split_ifs <;> rfl

theorem determine_fan_mode_congr (p : Protocol) {a b : GreeACCNT}
    (h : a.serialProcess_ = b.serialProcess_) :
    determine_fan_mode p a = determine_fan_mode p b := by
  unfold determine_fan_mode
  rw [h]

theorem determine_vertical_swing_congr (p : Protocol) {a b : GreeACCNT}
    (h : a.serialProcess_ = b.serialProcess_) :
    determine_vertical_swing p a = determine_vertical_swing p b := by
  unfold determine_vertical_swing
  rw [h]

theorem determine_horizontal_swing_congr (p : Protocol) {a b : GreeACCNT}
    (h : a.serialProcess_ = b.serialProcess_) :
    determine_horizontal_swing p a = determine_horizontal_swing p b := by
  unfold determine_horizontal_swing
  rw [h]

theorem determine_display_congr (p : Protocol) {a b : GreeACCNT}
    (h : a.serialProcess_ = b.serialProcess_) : determine_display p a = determine_display p b := by
  unfold determine_display
  rw [h]

theorem determine_light_congr (p : Protocol) {a b : GreeACCNT}
    (h : a.serialProcess_ = b.serialProcess_) : determine_light p a = determine_light p b := by
  unfold determine_light
  rw [h]

theorem determine_display_unit_congr (p : Protocol) {a b : GreeACCNT}
    (h : a.serialProcess_ = b.serialProcess_) :
    determine_display_unit p a = determine_display_unit p b := by
  unfold determine_display_unit
  rw [h]

theorem determine_ionizer_congr (p : Protocol) {a b : GreeACCNT}
    (h : a.serialProcess_ = b.serialProcess_) : determine_ionizer p a = determine_ionizer p b := by
  unfold determine_ionizer
  rw [h]

theorem determine_beeper_congr (p : Protocol) {a b : GreeACCNT}
    (h : a.serialProcess_ = b.serialProcess_) : determine_beeper p a = determine_beeper p b := by
  unfold determine_beeper
  rw [h]

theorem determine_sleep_congr (p : Protocol) {a b : GreeACCNT}
    (h : a.serialProcess_ = b.serialProcess_) : determine_sleep p a = determine_sleep p b := by
  unfold determine_sleep
  rw [h]

theorem determine_xfan_congr (p : Protocol) {a b : GreeACCNT}
    (h : a.serialProcess_ = b.serialProcess_) : determine_xfan p a = determine_xfan p b := by
  unfold determine_xfan
  rw [h]

theorem determine_powersave_congr (p : Protocol) {a b : GreeACCNT}
    (h : a.serialProcess_ = b.serialProcess_) :
    determine_powersave p a = determine_powersave p b := by
  unfold determine_powersave
  rw [h]

theorem determine_ifeel_congr (p : Protocol) {a b : GreeACCNT}
    (h : a.serialProcess_ = b.serialProcess_) : determine_ifeel p a = determine_ifeel p b := by
  unfold determine_ifeel
  rw [h]

theorem reported_target_temperature_congr (p : Protocol) {a b : GreeACCNT}
    (h : a.serialProcess_ = b.serialProcess_) :
    reported_target_temperature p a = reported_target_temperature p b := by
  unfold reported_target_temperature
  rw [h]

theorem report_mode_mode (p : Protocol) (s : GreeACCNT) :
    (report_mode p s).2.mode = (determine_mode p s).1 := by
  have hdm := determine_mode_snd p s
  generalize (determine_mode p s).2.power_internal_ = pw at hdm
  generalize (determine_mode p s).2.mode_internal_ = mi at hdm
  unfold report_mode
  simp only []
  generalize (determine_mode p s).1 = newMode
  rw [hdm]
  simp only []
  split_ifs with h1 h2 h3
  · rfl
  · rfl
  · rfl
  · exact not_not.mp h1

/-- The members that `processUnitReport` stores whatever they held before, each with
the value decoded from the report. -/
theorem processUnitReport_applied (p : Protocol) (s : GreeACCNT) :
    (processUnitReport p s).2.mode = (determine_mode p s).1 ∧
    (processUnitReport p s).2.custom_fan_mode = some (determine_fan_mode p s) ∧
    (processUnitReport p s).2.vertical_swing_state_ = some (determine_vertical_swing p s) ∧
    (processUnitReport p s).2.horizontal_swing_state_ = some (determine_horizontal_swing p s) ∧
    (processUnitReport p s).2.display_unit_state_ = some (determine_display_unit p s) ∧
    (processUnitReport p s).2.ionizer_state_ = determine_ionizer p s ∧
    (processUnitReport p s).2.beeper_state_ = determine_beeper p s ∧
    (processUnitReport p s).2.sleep_state_ = determine_sleep p s ∧
    (processUnitReport p s).2.xfan_state_ = determine_xfan p s ∧
    (processUnitReport p s).2.powersave_state_ = determine_powersave p s ∧
    (processUnitReport p s).2.turbo_state_ = determine_turbo p s ∧
    (processUnitReport p s).2.ifeel_state_ = determine_ifeel p s ∧
    (processUnitReport p s).2.quiet_state_ = some (determine_quiet p s) := by
  have h1 : (report_mode p s).2.serialProcess_ = s.serialProcess_ :=
    reportedFrom_serialProcess (report_mode_reportedFrom p s)
  have h3 : (report_temperature p (report_fan p (report_mode p s).2).2).2.serialProcess_
      = s.serialProcess_ :=
    reportedFrom_serialProcess
      (reportedFrom_trans (reportedFrom_trans (report_mode_reportedFrom p s)
        (report_fan_reportedFrom p _)) (report_temperature_reportedFrom p _))
  have h6 := reportedFrom_serialProcess (before_flags_reportedFrom p s)
  unfold processUnitReport
  simp only []
  rw [report_flags_snd]
  simp only []
  rw [determine_display_unit_congr p h6, determine_ionizer_congr p h6,
    determine_beeper_congr p h6, determine_sleep_congr p h6, determine_xfan_congr p h6,
    determine_powersave_congr p h6, determine_turbo_congr p h6, determine_ifeel_congr p h6,
    determine_quiet_congr p h6]
  refine ⟨?_, ?_, ?_, ?_, rfl, rfl, rfl, rfl, rfl, rfl, rfl, rfl, rfl⟩
  · rw [report_light_frame]
    simp only []
    rw [report_display_snd, report_swing_snd, report_temperature_snd, report_fan_snd]
    exact report_mode_mode p s
  · rw [report_light_frame]
    simp only []
    rw [report_display_snd, report_swing_snd, report_temperature_snd, report_fan_snd]
    simp only []
    rw [determine_fan_mode_congr p h1]
  · rw [report_light_frame]
    simp only []
    rw [report_display_snd, report_swing_snd]
    simp only []
    rw [determine_vertical_swing_congr p h3]
  · rw [report_light_frame]
    simp only []
    rw [report_display_snd, report_swing_snd]
    simp only []
    rw [determine_horizontal_swing_congr p h3]

/-! ## C25: which reports are applied -/

theorem reportedFrom_eq_fields {s a b : GreeACCNT} (h : s.reportedFrom a = s.reportedFrom b) :
    a.mode = b.mode ∧ a.custom_fan_mode = b.custom_fan_mode ∧
    a.vertical_swing_state_ = b.vertical_swing_state_ ∧
    a.horizontal_swing_state_ = b.horizontal_swing_state_ ∧
    a.display_unit_state_ = b.display_unit_state_ ∧ a.ionizer_state_ = b.ionizer_state_ ∧
    a.beeper_state_ = b.beeper_state_ ∧ a.sleep_state_ = b.sleep_state_ ∧
    a.xfan_state_ = b.xfan_state_ ∧ a.powersave_state_ = b.powersave_state_ ∧
    a.turbo_state_ = b.turbo_state_ ∧ a.ifeel_state_ = b.ifeel_state_ ∧
    a.quiet_state_ = b.quiet_state_ := by
  have h1 := congrArg GreeACCNT.mode h
  have h2 := congrArg GreeACCNT.custom_fan_mode h
  have h3 := congrArg GreeACCNT.vertical_swing_state_ h
  have h4 := congrArg GreeACCNT.horizontal_swing_state_ h
  have h5 := congrArg GreeACCNT.display_unit_state_ h
  have h6 := congrArg GreeACCNT.ionizer_state_ h
  have h7 := congrArg GreeACCNT.beeper_state_ h
  have h8 := congrArg GreeACCNT.sleep_state_ h
  have h9 := congrArg GreeACCNT.xfan_state_ h
  have h10 := congrArg GreeACCNT.powersave_state_ h
  have h11 := congrArg GreeACCNT.turbo_state_ h
  have h12 := congrArg GreeACCNT.ifeel_state_ h
  have h13 := congrArg GreeACCNT.quiet_state_ h
  exact ⟨h1, h2, h3, h4, h5, h6, h7, h8, h9, h10, h11, h12, h13⟩

theorem handle_packet_climate (p : Protocol) (s a : GreeACCNT)
    (hcmd : rd a.serialProcess_.data 3 = p.CMD_IN_UNIT_REPORT) :
    s.reportedFrom (handle_packet p a) =
      s.reportedFrom (processUnitReport p (move_payload a)).2 := by
  unfold handle_packet
  rw [if_pos hcmd]
  simp only []
  split_ifs <;> rfl

theorem accept_frame_of_ready (now : Nat) (s : GreeACCNT) (h : ¬ s.state_ ≠ .Ready) :
    accept_frame now s = { s with wait_response_ := false, last_packet_received_ := now } := by
  have hr : s.state_ = .Ready := not_not.mp h
  unfold accept_frame
  rw [if_neg h]
  cases s
  simp only at hr
  subst hr
  rfl

theorem loop_frame_idle (p : Protocol) (now : Nat) (s : GreeACCNT)
    (hst : s.serialProcess_.state = .STATE_COMPLETE) (hv : verify_packet p s = true)
    (hu : s.update_ = .NoUpdate) :
    loop_frame p now s =
      { handle_packet p (accept_frame now s) with
        serialProcess_ := { (handle_packet p (accept_frame now s)).serialProcess_ with
          size := 0, state := .STATE_WAIT_SYNC } } := by
  have hv2 : verify_packet p { s with wait_response_ := false } = true := hv
  by_cases hrd : s.state_ ≠ .Ready
  · unfold loop_frame accept_frame
    simp only [if_pos hst, if_pos hv2, if_pos hrd, if_pos hu]
  · rw [accept_frame_of_ready now s hrd]
    unfold loop_frame
    simp only [if_pos hst, if_pos hv2, if_neg hrd, if_pos hu]

theorem loop_frame_busy (p : Protocol) (now : Nat) (s : GreeACCNT)
    (hst : s.serialProcess_.state = .STATE_COMPLETE) (hv : verify_packet p s = true)
    (hu : s.update_ ≠ .NoUpdate) :
    loop_frame p now s =
      { accept_frame now s with
        serialProcess_ := { s.serialProcess_ with size := 0, state := .STATE_WAIT_SYNC } } := by
  have hv2 : verify_packet p { s with wait_response_ := false } = true := hv
  by_cases hrd : s.state_ ≠ .Ready
  · unfold loop_frame accept_frame
    simp only [if_pos hst, if_pos hv2, if_pos hrd, if_neg hu]
  · rw [accept_frame_of_ready now s hrd]
    unfold loop_frame
    simp only [if_pos hst, if_pos hv2, if_neg hrd, if_neg hu]

theorem loop_frame_idle_climate (p : Protocol) (now : Nat) (s : GreeACCNT)
    (hst : s.serialProcess_.state = .STATE_COMPLETE) (hv : verify_packet p s = true)
    (hu : s.update_ = .NoUpdate) :
    s.reportedFrom (loop_frame p now s) =
      s.reportedFrom (processUnitReport p (move_payload (accept_frame now s))).2 := by
  rw [loop_frame_idle p now s hst hv hu,
    ← handle_packet_climate p s (accept_frame now s) (verify_packet_command p s hv)]
  rfl

set_option maxRecDepth 100000 in
/-- C25, as stated, fails: the state `samplePending` holds a complete report that
`verify_packet` accepts and that decodes to turbo on, while an update is pending
(`UpdateStart`); the frame block of `GreeACCNT::loop` marks the connection ready and
restarts the buffer, and turbo, quiet and the rest of the climate state stay as they
were, nothing being published. -/
theorem C25_pending_update_counterexample :
    samplePending.serialProcess_.state = .STATE_COMPLETE ∧
    verify_packet sampleProtocol samplePending = true ∧
    determine_turbo sampleProtocol (move_payload samplePending) = true ∧
    samplePending.turbo_state_ = false ∧
    (loop_frame sampleProtocol 5 samplePending).turbo_state_ = false ∧
    loop_frame sampleProtocol 5 samplePending =
      { samplePending with
        wait_response_ := false
        last_packet_received_ := 5
        serialProcess_ := { samplePending.serialProcess_ with
          size := 0, state := .STATE_WAIT_SYNC } } := by
  decide

theorem handle_packet_link (p : Protocol) (a : GreeACCNT) :
    (handle_packet p a).state_ = a.state_ ∧
      (handle_packet p a).last_packet_received_ = a.last_packet_received_ := by
  have hr := processUnitReport_reportedFrom p (move_payload a)
  unfold handle_packet
  simp only []
  generalize (processUnitReport p (move_payload a)).1 = changed
  generalize (processUnitReport p (move_payload a)).2 = r at hr
  split_ifs
  · rw [hr]
    exact ⟨rfl, rfl⟩
  · rw [hr]
    exact ⟨rfl, rfl⟩
  · exact ⟨rfl, rfl⟩

theorem handle_packet_wait_response (p : Protocol) (a : GreeACCNT) :
    (handle_packet p a).wait_response_ = a.wait_response_ := by
  have hr := processUnitReport_reportedFrom p (move_payload a)
  unfold handle_packet
  simp only []
  generalize (processUnitReport p (move_payload a)).1 = changed
  generalize (processUnitReport p (move_payload a)).2 = r at hr
  split_ifs
  · rw [hr]
    rfl
  · rw [hr]
    rfl
  · rfl

/-- Every completed frame, accepted or not, clears the awaiting-response flag. -/
theorem loop_frame_wait_response (p : Protocol) (now : Nat) (s : GreeACCNT)
    (hst : s.serialProcess_.state = .STATE_COMPLETE) :
    (loop_frame p now s).wait_response_ = false := by
  by_cases hv : verify_packet p s = true
  · by_cases hu : s.update_ = .NoUpdate
    · rw [loop_frame_idle p now s hst hv hu]
      exact handle_packet_wait_response p (accept_frame now s)
    · rw [loop_frame_busy p now s hst hv hu]
      rfl
  · rw [loop_frame_of_drop p now s hst (by simpa using hv)]

/-- C25, amended. For each completed frame accepted by `verify_packet`: when no update
is pending (`NoUpdate`) the engine marks the connection `Ready`, records the reception
time, clears `wait_response_`, decodes the report and stores the decoded mode, fan
mode, swing positions, display unit and the eight switch and select values; when an
update is pending the report is not decoded: the frame only marks the connection
`Ready`, records the reception time, clears `wait_response_` and restarts the buffer,
and the climate state is unchanged. -/
theorem C25_report_applied_when_idle (p : Protocol) (now : Nat) (s : GreeACCNT)
    (hst : s.serialProcess_.state = .STATE_COMPLETE) (hv : verify_packet p s = true) :
    (s.update_ = .NoUpdate →
      (loop_frame p now s).state_ = .Ready ∧
      (loop_frame p now s).last_packet_received_ = now ∧
      (loop_frame p now s).wait_response_ = false ∧
      (loop_frame p now s).mode = (determine_mode p (move_payload s)).1 ∧
      (loop_frame p now s).custom_fan_mode = some (determine_fan_mode p (move_payload s)) ∧
      (loop_frame p now s).vertical_swing_state_ =
        some (determine_vertical_swing p (move_payload s)) ∧
      (loop_frame p now s).horizontal_swing_state_ =
        some (determine_horizontal_swing p (move_payload s)) ∧
      (loop_frame p now s).display_unit_state_ =
        some (determine_display_unit p (move_payload s)) ∧
      (loop_frame p now s).ionizer_state_ = determine_ionizer p (move_payload s) ∧
      (loop_frame p now s).beeper_state_ = determine_beeper p (move_payload s) ∧
      (loop_frame p now s).sleep_state_ = determine_sleep p (move_payload s) ∧
      (loop_frame p now s).xfan_state_ = determine_xfan p (move_payload s) ∧
      (loop_frame p now s).powersave_state_ = determine_powersave p (move_payload s) ∧
      (loop_frame p now s).turbo_state_ = determine_turbo p (move_payload s) ∧
      (loop_frame p now s).ifeel_state_ = determine_ifeel p (move_payload s) ∧
      (loop_frame p now s).quiet_state_ = some (determine_quiet p (move_payload s))) ∧
    (s.update_ ≠ .NoUpdate →
      loop_frame p now s =
        { s with
          wait_response_ := false
          last_packet_received_ := now
          state_ := .Ready
          status_error := if s.state_ ≠ .Ready then false else s.status_error
          serialProcess_ := { s.serialProcess_ with size := 0, state := .STATE_WAIT_SYNC } }) := by
  refine ⟨?_, loop_frame_busy p now s hst hv⟩
  intro hu
  obtain ⟨l1, l2⟩ := handle_packet_link p (accept_frame now s)
  have k1 : (loop_frame p now s).state_ = .Ready := by
    rw [loop_frame_idle p now s hst hv hu]
    exact l1
  have k2 : (loop_frame p now s).last_packet_received_ = now := by
    rw [loop_frame_idle p now s hst hv hu]
    exact l2
  refine ⟨k1, k2, loop_frame_wait_response p now s hst, ?_⟩
  have hclim := loop_frame_idle_climate p now s hst hv hu
  have hm : (move_payload (accept_frame now s)).serialProcess_ =
      (move_payload s).serialProcess_ := rfl
  obtain ⟨e1, e2, e3, e4, e5, e6, e7, e8, e9, e10, e11, e12, e13⟩ := reportedFrom_eq_fields hclim
  obtain ⟨d1, d2, d3, d4, d5, d6, d7, d8, d9, d10, d11, d12, d13⟩ :=
    processUnitReport_applied p (move_payload (accept_frame now s))
  rw [e1, e2, e3, e4, e5, e6, e7, e8, e9, e10, e11, e12, e13,
    d1, d2, d3, d4, d5, d6, d7, d8, d9, d10, d11, d12, d13,
    determine_mode_congr p hm, determine_fan_mode_congr p hm,
    determine_vertical_swing_congr p hm, determine_horizontal_swing_congr p hm,
    determine_display_unit_congr p hm, determine_ionizer_congr p hm,
    determine_beeper_congr p hm, determine_sleep_congr p hm, determine_xfan_congr p hm,
    determine_powersave_congr p hm, determine_turbo_congr p hm, determine_ifeel_congr p hm,
    determine_quiet_congr p hm]
  exact ⟨rfl, rfl, rfl, rfl, rfl, rfl, rfl, rfl, rfl, rfl, rfl, rfl, rfl⟩

set_option maxRecDepth 100000 in
/-- C25, amended, on the sample state: with no update pending the report `sampleFrame`
is decoded and stored and the reception time 5 is recorded; with an update pending the
report `turboQuietFrame` leaves the climate state as it was. -/
theorem C25_report_applied_when_idle_witness :
    ((loop_frame sampleProtocol 5 sampleAccepted).state_ = .Ready ∧
      (loop_frame sampleProtocol 5 sampleAccepted).last_packet_received_ = 5 ∧
      (loop_frame sampleProtocol 5 sampleAccepted).wait_response_ = false ∧
      (loop_frame sampleProtocol 5 sampleAccepted).turbo_state_ =
        determine_turbo sampleProtocol (move_payload sampleAccepted)) ∧
    loop_frame sampleProtocol 5 samplePending =
      { samplePending with
        wait_response_ := false
        last_packet_received_ := 5
        state_ := .Ready
        status_error := if samplePending.state_ ≠ .Ready then false else samplePending.status_error
        serialProcess_ := { samplePending.serialProcess_ with
          size := 0, state := .STATE_WAIT_SYNC } } :=
  ⟨⟨((C25_report_applied_when_idle sampleProtocol 5 sampleAccepted rfl (by decide)).1
      rfl).1,
    ((C25_report_applied_when_idle sampleProtocol 5 sampleAccepted rfl (by decide)).1
      rfl).2.1,
    ((C25_report_applied_when_idle sampleProtocol 5 sampleAccepted rfl (by decide)).1
      rfl).2.2.1,
    ((C25_report_applied_when_idle sampleProtocol 5 sampleAccepted rfl (by decide)).1
      rfl).2.2.2.2.2.2.2.2.2.2.2.2.2.1⟩,
   (C25_report_applied_when_idle sampleProtocol 5 samplePending rfl (by decide)).2
      (by decide)⟩

/-! ## C26: the notification rule -/

theorem reportedFrom_published {a c : GreeACCNT} (h : c = a.reportedFrom c) :
    c.published = a.published := by
  rw [h]
  rfl

theorem reportedFrom_reqmodechange {a c : GreeACCNT} (h : c = a.reportedFrom c) :
    c.reqmodechange = a.reqmodechange := by
  rw [h]
  rfl

/-- C26. Notification rule. Handling one unit-report frame publishes the climate state
at most once; it publishes exactly when `processUnitReport` returns `true` (some member
changed) or `reqmodechange` was set; after a publication `reqmodechange` is `false`, and
without one it keeps its value. -/
theorem C26_notification_rule (p : Protocol) (s : GreeACCNT)
    (hcmd : rd s.serialProcess_.data 3 = p.CMD_IN_UNIT_REPORT) :
    ((handle_packet p s).published = s.published ∨
      (handle_packet p s).published = s.published + 1) ∧
    ((handle_packet p s).published = s.published + 1 ↔
      ((processUnitReport p (move_payload s)).1 = true ∨ s.reqmodechange = true)) ∧
    ((handle_packet p s).published = s.published + 1 →
      (handle_packet p s).reqmodechange = false) ∧
    ((handle_packet p s).published = s.published →
      (handle_packet p s).reqmodechange = s.reqmodechange) := by
  have hp0 := reportedFrom_published (processUnitReport_reportedFrom p (move_payload s))
  have hq0 := reportedFrom_reqmodechange (processUnitReport_reportedFrom p (move_payload s))
  have hp : (processUnitReport p (move_payload s)).2.published = s.published := hp0
  have hq : (processUnitReport p (move_payload s)).2.reqmodechange = s.reqmodechange := hq0
  unfold handle_packet
  rw [if_pos hcmd]
  simp only []
  by_cases hc : ((processUnitReport p (move_payload s)).1 ||
      (processUnitReport p (move_payload s)).2.reqmodechange) = true
  · rw [if_pos hc]
    rw [hq, Bool.or_eq_true] at hc
    have h1 : ({ (processUnitReport p (move_payload s)).2 with
        published := (processUnitReport p (move_payload s)).2.published + 1
        reqmodechange := false } : GreeACCNT).published = s.published + 1 := by
      show (processUnitReport p (move_payload s)).2.published + 1 = s.published + 1
      rw [hp]
    refine ⟨Or.inr h1, ⟨fun _ => hc, fun _ => h1⟩, fun _ => rfl, fun h => ?_⟩
    rw [h1] at h
    omega
  · rw [if_neg hc]
    rw [hq, Bool.or_eq_true] at hc
    refine ⟨Or.inl hp, ⟨fun h => ?_, fun h => absurd h hc⟩, fun h => ?_, fun _ => hq⟩
    · rw [hp] at h
      omega
    · rw [hp] at h
      omega

set_option maxRecDepth 100000 in
/-- C26 on the sample state: its first report changes the measured temperature and is
published once; the same report handled again changes nothing and is not published. -/
theorem C26_notification_rule_witness :
    ((handle_packet sampleProtocol sampleAccepted).published = sampleAccepted.published + 1 ∧
      (handle_packet sampleProtocol sampleAccepted).reqmodechange = false) ∧
    ((handle_packet sampleProtocol sampleSettled).published = sampleSettled.published ∧
      (processUnitReport sampleProtocol (move_payload sampleSettled)).1 = false ∧
      sampleSettled.reqmodechange = false) :=
  ⟨⟨(C26_notification_rule sampleProtocol sampleAccepted (by decide)).2.1.mpr
      (Or.inl (by decide)),
    (C26_notification_rule sampleProtocol sampleAccepted (by decide)).2.2.1
      ((C26_notification_rule sampleProtocol sampleAccepted (by decide)).2.1.mpr
        (Or.inl (by decide)))⟩,
   ⟨((C26_notification_rule sampleProtocol sampleSettled (by decide)).1.resolve_right
      (fun h => absurd
        ((C26_notification_rule sampleProtocol sampleSettled (by decide)).2.1.mp h)
        (by decide))),
    by decide, by decide⟩⟩

/-! ## C27 and C28: the light policy when a report disagrees -/

theorem report_mode_same_mode (p : Protocol) (s : GreeACCNT)
    (h : (determine_mode p s).1 = s.mode) : report_mode p s = (false, (determine_mode p s).2) := by
  have hm : (determine_mode p s).2.mode = s.mode := by
    rw [determine_mode_snd]
  unfold report_mode
  simp only []
  rw [if_neg (by rw [hm, h]; exact fun hne => hne rfl)]

theorem report_mode_not_auto (p : Protocol) (s : GreeACCNT) (h : s.light_mode_ ≠ some .AUTO) :
    (report_mode p s).2.light_state_ = s.light_state_ ∧
      (report_mode p s).2.update_ = s.update_ := by
  have hdm := determine_mode_snd p s
  generalize (determine_mode p s).2.power_internal_ = pw at hdm
  generalize (determine_mode p s).2.mode_internal_ = mi at hdm
  unfold report_mode
  simp only []
  generalize (determine_mode p s).1 = newMode
  rw [hdm]
  simp only []
  rw [if_neg h]
  split_ifs <;> exact ⟨rfl, rfl⟩

theorem sameLight_trans {a b c : GreeACCNT} (h1 : SameLight a b) (h2 : SameLight b c) :
    SameLight a c :=
  ⟨h1.1.trans h2.1, h1.2.1.trans h2.2.1, h1.2.2.1.trans h2.2.2.1,
    h1.2.2.2.1.trans h2.2.2.2.1, h1.2.2.2.2.trans h2.2.2.2.2⟩

theorem report_fan_sameLight (p : Protocol) (a : GreeACCNT) :
    SameLight (report_fan p a).2 a := by
  rw [report_fan_snd]
  exact ⟨rfl, rfl, rfl, rfl, rfl⟩

theorem report_temperature_sameLight (p : Protocol) (a : GreeACCNT) :
    SameLight (report_temperature p a).2 a := by
  rw [report_temperature_snd]
  exact ⟨rfl, rfl, rfl, rfl, rfl⟩

theorem report_swing_sameLight (p : Protocol) (a : GreeACCNT) :
    SameLight (report_swing p a).2 a := by
  rw [report_swing_snd]
  exact ⟨rfl, rfl, rfl, rfl, rfl⟩

theorem report_display_sameLight (p : Protocol) (a : GreeACCNT) :
    SameLight (report_display p a).2 a := by
  rw [report_display_snd]
  exact ⟨rfl, rfl, rfl, rfl, rfl⟩

theorem before_light_facts (p : Protocol) (a : GreeACCNT) :
    SameLight
      (report_display p (report_swing p (report_temperature p (report_fan p a).2).2).2).2 a :=
  sameLight_trans (report_display_sameLight p _) (sameLight_trans (report_swing_sameLight p _)
    (sameLight_trans (report_temperature_sameLight p _) (report_fan_sameLight p a)))

theorem report_light_auto (p : Protocol) (a : GreeACCNT) (hauto : a.light_mode_ = some .AUTO)
    (hl : a.light_state_ ≠ determine_light p a) :
    (report_light p false a).2.light_state_ = determine_light p a ∧
      (report_light p false a).2.update_ = a.update_ := by
  unfold report_light
  simp only []
  rw [if_pos (Or.inl hl), if_pos hauto]
  simp only [Bool.not_false, if_true]
  rw [update_light_snd]
  exact ⟨rfl, rfl⟩

theorem report_light_on (p : Protocol) (modeChanged : Bool) (a : GreeACCNT)
    (hon : a.light_mode_ = some .ON) (hst : a.light_state_ = true)
    (hrep : determine_light p a = false) :
    (report_light p modeChanged a).2.light_state_ = true ∧
      (report_light p modeChanged a).2.update_ = .UpdateStart := by
  unfold report_light
  simp only []
  rw [if_pos (Or.inl (by rw [hst, hrep]; decide)), if_neg (by rw [hon]; decide),
    if_neg (by rw [hon]; decide), if_pos hon, if_pos hrep]
  exact ⟨rfl, rfl⟩

theorem report_light_off (p : Protocol) (modeChanged : Bool) (a : GreeACCNT)
    (hoff : a.light_mode_ = some .OFF) (hst : a.light_state_ = false)
    (hrep : determine_light p a = true) :
    (report_light p modeChanged a).2.light_state_ = false ∧
      (report_light p modeChanged a).2.update_ = .UpdateStart := by
  unfold report_light
  simp only []
  rw [if_pos (Or.inl (by rw [hst, hrep]; decide)), if_neg (by rw [hoff]; decide),
    if_pos hoff, if_pos hrep]
  exact ⟨rfl, rfl⟩

theorem processUnitReport_light (p : Protocol) (s : GreeACCNT) :
    (processUnitReport p s).2.light_state_ =
      (report_light p (report_mode p s).1 (report_display p (report_swing p
        (report_temperature p (report_fan p (report_mode p s).2).2).2).2).2).2.light_state_ ∧
    (processUnitReport p s).2.update_ =
      (report_light p (report_mode p s).1 (report_display p (report_swing p
        (report_temperature p (report_fan p (report_mode p s).2).2).2).2).2).2.update_ := by
  unfold processUnitReport
  simp only []
  rw [report_flags_snd]
  exact ⟨rfl, rfl⟩

/-- C27. Light remote override under the policy "auto". When the light policy is auto
and the report decodes to the mode the state holds and to a light state different from
the desired one, `processUnitReport` stores the reported light state as the desired one
and leaves the pending update as it was, so `NoUpdate` stays `NoUpdate` and no outbound
correction is scheduled. -/
theorem C27_light_remote_override (p : Protocol) (s : GreeACCNT)
    (hauto : s.light_mode_ = some .AUTO) (hmode : (determine_mode p s).1 = s.mode)
    (hlight : determine_light p s ≠ s.light_state_) :
    (processUnitReport p s).2.light_state_ = determine_light p s ∧
      (processUnitReport p s).2.update_ = s.update_ := by
  obtain ⟨e1, e2⟩ := processUnitReport_light p s
  rw [e1, e2, report_mode_same_mode p s hmode]
  simp only []
  obtain ⟨f1, f2, f3, _, f5⟩ := before_light_facts p (determine_mode p s).2
  have g1 : (determine_mode p s).2.light_state_ = s.light_state_ := by rw [determine_mode_snd]
  have g2 : (determine_mode p s).2.update_ = s.update_ := by rw [determine_mode_snd]
  have g3 : (determine_mode p s).2.light_mode_ = s.light_mode_ := by rw [determine_mode_snd]
  have g5 : (determine_mode p s).2.serialProcess_ = s.serialProcess_ := by
    rw [determine_mode_snd]
  have hrep := determine_light_congr p (f5.trans g5)
  obtain ⟨r1, r2⟩ := report_light_auto p _ (f3.trans (g3.trans hauto))
    (by rw [f1, g1, hrep]; exact fun h => hlight h.symm)
  rw [r1, r2, hrep, f2, g2]
  exact ⟨rfl, rfl⟩

/-- C27 on the sample state (mode cool, light on, policy auto) and a report of the same
mode with the light off: the desired light state becomes off and the pending update
stays `NoUpdate`. -/
theorem C27_light_remote_override_witness :
    (processUnitReport sampleProtocol sampleLightReport).2.light_state_ = false ∧
      (processUnitReport sampleProtocol sampleLightReport).2.update_ = .NoUpdate :=
  C27_light_remote_override sampleProtocol sampleLightReport rfl (by decide) (by decide)

/-! ## C23 and C21: sending a parameter frame -/

theorem length_params_set_packet (p : Protocol) (s : GreeACCNT) :
    (params_set_packet p s).length = p.SET_PACKET_LEN + 5 := by
  unfold params_set_packet finalize_checksum_
  simp only [length_wr, List.length_append, List.length_cons, List.length_nil,
    length_params_set_payload]
  omega

theorem send_params_set_packet_of_withheld (p : Protocol) (now : Nat) (s : GreeACCNT)
    (h : withheld p now s) : send_params_set_packet p now s = s := by
  have h2 : s.wait_response_ = true ∧
      u32sub now s.last_packet_sent_ < p.TIME_WAIT_RESPONSE_TIMEOUT_MS := h
  unfold send_params_set_packet
  rw [if_pos h2]

theorem send_params_set_packet_of_sent (p : Protocol) (now : Nat) (s : GreeACCNT)
    (h : ¬ withheld p now s) :
    send_params_set_packet p now s =
      { s with
        wait_response_ := true
        last_packet_sent_ := now
        last_packet_duration_ms_ := ((p.SET_PACKET_LEN + 5) * 11000) / 4800
        transmitted := params_set_packet p s :: s.transmitted
        update_ := .NoUpdate } := by
  have hpk : ∀ b : Bool, params_set_packet p { s with wait_response_ := b } =
      params_set_packet p s := fun _ => rfl
  have htake : (params_set_packet p s).take (p.SET_PACKET_LEN + 5) = params_set_packet p s := by
    rw [← length_params_set_packet p s, List.take_length]
  have h2 : ¬(s.wait_response_ = true ∧
      u32sub now s.last_packet_sent_ < p.TIME_WAIT_RESPONSE_TIMEOUT_MS) := h
  unfold send_params_set_packet transmit_packet
  rw [if_neg h2]
  simp only []
  by_cases hw : s.wait_response_ = true
  · simp only [hw, if_true, hpk, htake]
    cases hu : s.update_ <;> rfl
  · simp only [hw, Bool.false_eq_true, if_false, htake]
    cases hu : s.update_ <;> rfl

/-- C23. Request/response discipline. When `send_params_set_packet` is called while a
response is awaited and less than the response timeout has elapsed since the last
transmission, it transmits nothing and changes no state, the pending update included.
Otherwise (no response awaited, or the timeout elapsed) it transmits exactly one
parameter frame, the one built from the state as it is, stamps it, sets the pending
update to `NoUpdate` and leaves the awaiting-response flag set. -/
theorem C23_request_response (p : Protocol) (now : Nat) (s : GreeACCNT) :
    (withheld p now s → send_params_set_packet p now s = s) ∧
    (¬ withheld p now s →
      send_params_set_packet p now s =
        { s with
          wait_response_ := true
          last_packet_sent_ := now
          last_packet_duration_ms_ := ((p.SET_PACKET_LEN + 5) * 11000) / 4800
          transmitted := params_set_packet p s :: s.transmitted
          update_ := .NoUpdate }) :=
  ⟨send_params_set_packet_of_withheld p now s, send_params_set_packet_of_sent p now s⟩

/-- C23 on the sample state that awaits a response to a frame sent at time 1000, with a
response timeout of 1000 ms: at time 1500 nothing is sent and the state is unchanged; at
time 2000 one frame is sent and the flag is set again. -/
theorem C23_request_response_witness :
    send_params_set_packet sampleProtocol 1500 sampleWaiting = sampleWaiting ∧
    (send_params_set_packet sampleProtocol 2000 sampleWaiting).transmitted =
      [params_set_packet sampleProtocol sampleWaiting] ∧
    (send_params_set_packet sampleProtocol 2000 sampleWaiting).wait_response_ = true :=
  ⟨(C23_request_response sampleProtocol 1500 sampleWaiting).1 (by decide),
   congrArg GreeACCNT.transmitted
     ((C23_request_response sampleProtocol 2000 sampleWaiting).2 (by decide)),
   congrArg GreeACCNT.wait_response_
     ((C23_request_response sampleProtocol 2000 sampleWaiting).2 (by decide))⟩

theorem or_eq_of_and_eq (a b : Nat) (h : a &&& b = a) : a ||| b = b := by
  apply Nat.eq_of_testBit_eq
  intro i
  have hi := congrArg (fun x => x.testBit i) h
  simp only [Nat.testBit_and] at hi
  rw [Nat.testBit_or]
  cases ha : a.testBit i <;> cases hb : b.testBit i <;> simp_all

theorem rd_foldl_absorb (p : Protocol) (s : GreeACCNT) (i v : Nat) (hv : v < 256)
    (l : List BitField) :
    ∀ pl : Bytes, rd pl i = v → (∀ g ∈ l, (p.loc g).1 = i → fieldValue p s g ||| v = v) →
      rd (l.foldl (fieldStep p s) pl) i = v := by
  induction l with
  | nil => intro pl h _; exact h
  | cons g l ih =>
    intro pl h habs
    rw [List.foldl_cons]
    apply ih _ _ (fun g' hg' => habs g' (List.mem_cons_of_mem _ hg'))
    rw [rd_fieldStep]
    split
    · next hc =>
      rw [h, Nat.lor_comm, habs g (List.mem_cons_self _ _) hc.1, Nat.mod_eq_of_lt hv]
    · exact h

theorem rd_payloadBase_start (p : Protocol) (hL : p.WellFormed) (hv : p.SET_AF_VAL < 256) :
    rd (payloadBase p .UpdateStart) p.SET_AF_BYTE = p.SET_AF_VAL := by
  unfold payloadBase
  simp only []
  rw [rd_wr, if_pos ⟨rfl, by rw [length_wr, length_wr, List.length_replicate]; exact hL.afInBounds⟩,
    Nat.mod_eq_of_lt hv]

theorem and_rd_payloadBase_idle (p : Protocol) (m : Nat) (hA : p.AFMarker m) (u : ACUpdate)
    (hu : u ≠ .UpdateStart) : rd (payloadBase p u) p.SET_AF_BYTE &&& m = 0 := by
  have h2 : rd (wr (wr (List.replicate p.SET_PACKET_LEN 0) p.SET_CONST_02_BYTE p.SET_CONST_02_VAL)
      p.SET_CONST_BIT_BYTE p.SET_CONST_BIT_MASK) p.SET_AF_BYTE &&& m = 0 := by
    apply and_rd_wr_of_clear _ _ _ _ _ hA.maskU8 hA.constBit
    apply and_rd_wr_of_clear _ _ _ _ _ hA.maskU8 hA.const02
    rw [rd_replicate_zero, Nat.zero_and]
  unfold payloadBase
  cases u
  · exact h2
  · exact absurd rfl hu
  · exact h2

theorem apply_flag_iff (p : Protocol) (hL : p.WellFormed) (m : Nat) (hA : p.AFMarker m)
    (s : GreeACCNT) : apply_flag p (params_set_packet p s) ↔ s.update_ = .UpdateStart := by
  unfold apply_flag
  rw [rd_params_set_packet_payload p s _ hL.afInBounds, params_set_payload_eq_foldl]
  constructor
  · intro h
    by_contra hu
    have hz := and_rd_foldl_of_clear p s p.SET_AF_BYTE m hA.maskU8 BitField.order
      (payloadBase p s.update_) (fun g _ hb => by
        rw [← fieldValue_fits p hL s g, Nat.and_assoc, hA.free g hb, Nat.and_zero])
    rw [h, and_rd_payloadBase_idle p m hA _ hu] at hz
    exact hA.own hz
  · intro hu
    rw [hu]
    apply rd_foldl_absorb p s _ _ hA.valU8 _ _ (rd_payloadBase_start p hL hA.valU8)
    intro g _ hb
    apply or_eq_of_and_eq
    rw [← fieldValue_fits p hL s g, Nat.and_assoc, hA.inside g hb]

theorem sample_afMarker : sampleProtocol.AFMarker 1 where
  valU8 := by decide
  inside := by decide
  maskU8 := by decide
  own := by decide
  free := by decide
  const02 := by decide
  constBit := by decide

/-- C21. Pending update lifecycle on transmission. Let the protocol constants be
well-formed and let the apply flag be distinguishable in its byte (`AFMarker`). Then the
parameter frame built from a state carries the apply flag exactly when the pending
update of that state is `UpdateStart`; every call of `send_params_set_packet` that
transmits leaves the pending update at `NoUpdate`; hence, of two consecutive
transmitting calls with no request in between, the second frame does not carry the
apply flag, whatever the first one carried. -/
theorem C21_pending_update_lifecycle (p : Protocol) (hL : p.WellFormed) (m : Nat)
    (hA : p.AFMarker m) (now : Nat) (s : GreeACCNT) :
    (apply_flag p (params_set_packet p s) ↔ s.update_ = .UpdateStart) ∧
    (¬ withheld p now s →
      (send_params_set_packet p now s).transmitted = params_set_packet p s :: s.transmitted ∧
      (send_params_set_packet p now s).update_ = .NoUpdate) ∧
    (∀ later : Nat, ¬ withheld p now s → ¬ withheld p later (send_params_set_packet p now s) →
      ∃ frame, (send_params_set_packet p later (send_params_set_packet p now s)).transmitted =
          frame :: params_set_packet p s :: s.transmitted ∧
        ¬ apply_flag p frame) := by
  refine ⟨apply_flag_iff p hL m hA s, ?_, ?_⟩
  · intro h
    rw [send_params_set_packet_of_sent p now s h]
    exact ⟨rfl, rfl⟩
  · intro later h h2
    refine ⟨params_set_packet p (send_params_set_packet p now s), ?_, ?_⟩
    · rw [send_params_set_packet_of_sent p later _ h2]
      show _ :: (send_params_set_packet p now s).transmitted = _
      rw [send_params_set_packet_of_sent p now s h]
    · rw [apply_flag_iff p hL m hA]
      rw [send_params_set_packet_of_sent p now s h]
      show ¬ (ACUpdate.NoUpdate = ACUpdate.UpdateStart)
      decide

/-- C21 at the sample layout and the sample state with a request pending: the frame
carries the apply flag, the state after the transmission at time 5 has no pending
update, and the frame of the next transmission, at time 2000, does not carry the flag. -/
theorem C21_pending_update_lifecycle_witness :
    apply_flag sampleProtocol (params_set_packet sampleProtocol sampleRequested) ∧
    ((send_params_set_packet sampleProtocol 5 sampleRequested).transmitted =
        params_set_packet sampleProtocol sampleRequested :: sampleRequested.transmitted ∧
      (send_params_set_packet sampleProtocol 5 sampleRequested).update_ = .NoUpdate) ∧
    (∃ frame,
      (send_params_set_packet sampleProtocol 2000
          (send_params_set_packet sampleProtocol 5 sampleRequested)).transmitted =
        frame :: params_set_packet sampleProtocol sampleRequested ::
          sampleRequested.transmitted ∧
      ¬ apply_flag sampleProtocol frame) :=
  ⟨(C21_pending_update_lifecycle sampleProtocol sample_wellFormed 1 sample_afMarker 5
      sampleRequested).1.mpr rfl,
   (C21_pending_update_lifecycle sampleProtocol sample_wellFormed 1 sample_afMarker 5
      sampleRequested).2.1 (by decide),
   (C21_pending_update_lifecycle sampleProtocol sample_wellFormed 1 sample_afMarker 5
      sampleRequested).2.2 2000 (by decide) (by decide)⟩

/-! ## C30: the resync rule -/

theorem feed_finish_frame_size (c : Nat) (sp : SerialProcess) :
    (feed_finish c sp).frame_size = if sp.size = 3 then c else sp.frame_size := by
  unfold feed_finish
  simp only []
  split_ifs <;> rfl

/-- C30. Resync rule. For every assembler state and every fed byte: if, once the byte is
appended, the last two buffered bytes are both `0x7E` and more than two bytes are
buffered, the buffer is cut back to exactly `[0x7E, 0x7E]` (length 2), the state is left
as it was (no completion is signalled), and the declared length is left as it was. This
holds also when the appended byte is the third one (no length capture), when the length
reached equals the declared one plus 3 (no completion) and when it reaches 200 (no cap
reset). -/
theorem C30_resync_rule (now c : Nat) (sp : SerialProcess) (hmore : 2 ≤ sp.size)
    (h1 : rd (sp.data.set sp.size c) (sp.size - 1) = 0x7E)
    (h2 : rd (sp.data.set sp.size c) sp.size = 0x7E) :
    (feed now c sp).size = 2 ∧ (feed now c sp).data.take 2 = [0x7E, 0x7E] ∧
    (feed now c sp).state = sp.state ∧ (feed now c sp).frame_size = sp.frame_size := by
  have hlen : sp.size < (sp.data.set sp.size c).length := by
    by_contra hcon
    have h0 : rd (sp.data.set sp.size c) sp.size = 0 := by
      unfold rd
      rw [List.getD_eq_getElem?_getD, List.getElem?_eq_none (by omega)]
      rfl
    rw [h0] at h2
    exact absurd h2 (by decide)
  have hcond : sp.size + 1 ≥ 2 ∧ rd (sp.data.set sp.size c) (sp.size + 1 - 2) = 0x7E ∧
      rd (sp.data.set sp.size c) (sp.size + 1 - 1) = 0x7E := by
    refine ⟨by omega, ?_, ?_⟩
    · rw [show sp.size + 1 - 2 = sp.size - 1 by omega]
      exact h1
    · rw [show sp.size + 1 - 1 = sp.size by omega]
      exact h2
  unfold feed
  simp only []
  rw [if_pos hcond, if_pos (by omega)]
  refine ⟨?_, ?_, ?_, ?_⟩
  · rw [feed_finish_size]
    exact if_neg (by show ¬ (2 ≥ DATA_MAX); decide)
  · rw [feed_finish_data]
    show (((sp.data.set sp.size c).set 0 0x7E).set 1 0x7E).take 2 = [0x7E, 0x7E]
    apply take_eq_of_rd _ [0x7E, 0x7E]
    · simp only [List.length_set, List.length_cons, List.length_nil] at hlen ⊢
      omega
    · intro i hi
      have hi2 : i < 2 := hi
      rw [List.length_set] at hlen
      have hl0 : 0 < sp.data.length := by omega
      have hl1 : 1 < sp.data.length := by omega
      rcases Nat.lt_or_ge i 1 with h | h
      · have h0 : i = 0 := by omega
        subst h0
        rw [rd_set, if_neg (by omega), rd_set, if_pos ⟨rfl, by rw [List.length_set]; exact hl0⟩]
        rfl
      · have h1 : i = 1 := by omega
        subst h1
        rw [rd_set, if_pos ⟨rfl, by rw [List.length_set, List.length_set]; exact hl1⟩]
        rfl
  · rw [feed_finish_state]
    exact if_neg (by show ¬ (2 ≥ 3 ∧ _); omega)
  · rw [feed_finish_frame_size]
    exact if_neg (by show ¬ (2 = 3); decide)

/-- C30 on the assembler that holds `7E 7E`, fed a third `0x7E`: the buffer is `7E 7E`
again and the third byte is not taken as the declared length. -/
theorem C30_resync_rule_witness :
    (feed 0 0x7E sampleMarkers).size = 2 ∧
    (feed 0 0x7E sampleMarkers).data.take 2 = [0x7E, 0x7E] ∧
    (feed 0 0x7E sampleMarkers).state = sampleMarkers.state ∧
    (feed 0 0x7E sampleMarkers).frame_size = sampleMarkers.frame_size :=
  C30_resync_rule 0 0x7E sampleMarkers (by decide) (by decide) (by decide)

/-! ## What the steps of a scheduling pass leave alone -/

theorem receivedFrom_trans {a b c : GreeACCNT} (h1 : b = a.receivedFrom b)
    (h2 : c = b.receivedFrom c) : c = a.receivedFrom c :=
  h2.trans (by rw [h1]; rfl)

theorem linkedFrom_trans {a b c : GreeACCNT} (h1 : b = a.linkedFrom b)
    (h2 : c = b.linkedFrom c) : c = a.linkedFrom c :=
  h2.trans (by rw [h1]; rfl)

theorem receivedFrom_fields {s c : GreeACCNT} (h : c = s.receivedFrom c) :
    c.last_packet_sent_ = s.last_packet_sent_ ∧
    c.last_packet_duration_ms_ = s.last_packet_duration_ms_ ∧
    c.transmitted = s.transmitted ∧
    c.startup_special_sent_ = s.startup_special_sent_ ∧
    c.mac_packets_pending_ = s.mac_packets_pending_ ∧
    c.last_sync_time_sent_ = s.last_sync_time_sent_ ∧
    c.last_mac_sequence_millis_ = s.last_mac_sequence_millis_ := by
  rw [h]
  exact ⟨rfl, rfl, rfl, rfl, rfl, rfl, rfl⟩

theorem linkedFrom_fields {s c : GreeACCNT} (h : c = s.linkedFrom c) :
    c.state_ = s.state_ ∧ c.last_packet_received_ = s.last_packet_received_ := by
  rw [h]
  exact ⟨rfl, rfl⟩

theorem loop_read_frames (now : Nat) :
    ∀ (n : Nat) (s : GreeACCNT), loop_read now n s = s.receivedFrom (loop_read now n s) ∧
      loop_read now n s = s.linkedFrom (loop_read now n s) := by
  intro n
  induction n with
  | zero => intro s; exact ⟨rfl, rfl⟩
  | succ n ih =>
    intro s
    unfold loop_read
    split
    · exact ⟨rfl, rfl⟩
    · split_ifs
      · exact ⟨rfl, rfl⟩
      · exact ⟨(ih _).1, (ih _).2⟩

theorem reportedFrom_receivedFrom {a c : GreeACCNT} (h : c = a.reportedFrom c) :
    c = a.receivedFrom c := by
  rw [h]
  rfl

theorem reportedFrom_linkedFrom {a c : GreeACCNT} (h : c = a.reportedFrom c) :
    c = a.linkedFrom c := by
  rw [h]
  rfl

theorem handle_packet_frames (p : Protocol) (a : GreeACCNT) :
    handle_packet p a = a.receivedFrom (handle_packet p a) ∧
      handle_packet p a = a.linkedFrom (handle_packet p a) := by
  have hr := processUnitReport_reportedFrom p (move_payload a)
  unfold handle_packet
  simp only []
  generalize (processUnitReport p (move_payload a)).1 = changed
  generalize (processUnitReport p (move_payload a)).2 = r at hr
  split_ifs
  · rw [hr]
    exact ⟨rfl, rfl⟩
  · rw [hr]
    exact ⟨rfl, rfl⟩
  · exact ⟨rfl, rfl⟩

theorem loop_frame_receivedFrom (p : Protocol) (now : Nat) (s : GreeACCNT) :
    loop_frame p now s = s.receivedFrom (loop_frame p now s) := by
  by_cases hst : s.serialProcess_.state = .STATE_COMPLETE
  · by_cases hv : verify_packet p s = true
    · by_cases hu : s.update_ = .NoUpdate
      · rw [loop_frame_idle p now s hst hv hu]
        have h := (handle_packet_frames p (accept_frame now s)).1
        generalize handle_packet p (accept_frame now s) = r at h
        rw [h]
        rfl
      · rw [loop_frame_busy p now s hst hv hu]
        rfl
    · rw [loop_frame_of_drop p now s hst (by simpa using hv)]
      rfl
  · rw [loop_frame_of_not_complete p now s hst]
    rfl

theorem loop_timeout_receivedFrom (p : Protocol) (now : Nat) (s : GreeACCNT) :
    loop_timeout p now s = s.receivedFrom (loop_timeout p now s) := by
  unfold loop_timeout
  split_ifs <;> rfl

theorem control_frames (call : ClimateCall) (s : GreeACCNT) :
    control call s = s.receivedFrom (control call s) ∧
      control call s = s.linkedFrom (control call s) := by
  unfold control
  split_ifs with hr
  · exact ⟨rfl, rfl⟩
  · rcases call with ⟨m, t, f, sw⟩
    rcases m with _ | m <;> rcases t with _ | t <;> rcases f with _ | f <;>
      rcases sw with _ | sw <;>
      simp only [control_mode_eq, control_fan_mode_eq, control_target_temperature_eq,
        control_swing_mode_eq] <;>
      exact ⟨rfl, rfl⟩

theorem request_frames (p : Protocol) (mac : Bytes) (e : Event) (s : GreeACCNT)
    (he : ∀ now, e ≠ .loop now) :
    e.apply p mac s = s.receivedFrom (e.apply p mac s) ∧
      e.apply p mac s = s.linkedFrom (e.apply p mac s) := by
  cases e with
  | arrive bytes => exact ⟨rfl, rfl⟩
  | loop now => exact absurd rfl (he now)
  | control call => exact control_frames call s
  | on_turbo_change turbo =>
    show on_turbo_change turbo s = s.receivedFrom (on_turbo_change turbo s) ∧ on_turbo_change turbo s = s.linkedFrom (on_turbo_change turbo s)
    unfold on_turbo_change
    simp only [update_quiet_snd]
    split_ifs <;> exact ⟨rfl, rfl⟩
  | on_quiet_change quiet =>
    show on_quiet_change quiet s = s.receivedFrom (on_quiet_change quiet s) ∧ on_quiet_change quiet s = s.linkedFrom (on_quiet_change quiet s)
    unfold on_quiet_change
    simp only [update_turbo_snd]
    split_ifs <;> exact ⟨rfl, rfl⟩
  | on_vertical_swing_change x =>
    show on_vertical_swing_change x s = s.receivedFrom (on_vertical_swing_change x s) ∧ on_vertical_swing_change x s = s.linkedFrom (on_vertical_swing_change x s)
    unfold on_vertical_swing_change
    split_ifs <;> exact ⟨rfl, rfl⟩
  | on_horizontal_swing_change x =>
    show on_horizontal_swing_change x s = s.receivedFrom (on_horizontal_swing_change x s) ∧ on_horizontal_swing_change x s = s.linkedFrom (on_horizontal_swing_change x s)
    unfold on_horizontal_swing_change
    split_ifs <;> exact ⟨rfl, rfl⟩
  | on_display_change x =>
    show on_display_change x s = s.receivedFrom (on_display_change x s) ∧ on_display_change x s = s.linkedFrom (on_display_change x s)
    unfold on_display_change
    split_ifs <;> exact ⟨rfl, rfl⟩
  | on_display_unit_change x =>
    show on_display_unit_change x s = s.receivedFrom (on_display_unit_change x s) ∧ on_display_unit_change x s = s.linkedFrom (on_display_unit_change x s)
    unfold on_display_unit_change
    split_ifs <;> exact ⟨rfl, rfl⟩
  | on_light_mode_change x =>
    show on_light_mode_change x s = s.receivedFrom (on_light_mode_change x s) ∧ on_light_mode_change x s = s.linkedFrom (on_light_mode_change x s)
    unfold on_light_mode_change
    simp only []
    split_ifs <;> exact ⟨rfl, rfl⟩
  | on_ionizer_change x =>
    show on_ionizer_change x s = s.receivedFrom (on_ionizer_change x s) ∧ on_ionizer_change x s = s.linkedFrom (on_ionizer_change x s)
    unfold on_ionizer_change
    split_ifs <;> exact ⟨rfl, rfl⟩
  | on_beeper_change x =>
    show on_beeper_change x s = s.receivedFrom (on_beeper_change x s) ∧ on_beeper_change x s = s.linkedFrom (on_beeper_change x s)
    unfold on_beeper_change
    split_ifs <;> exact ⟨rfl, rfl⟩
  | on_sleep_change x =>
    show on_sleep_change x s = s.receivedFrom (on_sleep_change x s) ∧ on_sleep_change x s = s.linkedFrom (on_sleep_change x s)
    unfold on_sleep_change
    split_ifs <;> exact ⟨rfl, rfl⟩
  | on_xfan_change x =>
    show on_xfan_change x s = s.receivedFrom (on_xfan_change x s) ∧ on_xfan_change x s = s.linkedFrom (on_xfan_change x s)
    unfold on_xfan_change
    split_ifs <;> exact ⟨rfl, rfl⟩
  | on_powersave_change x =>
    show on_powersave_change x s = s.receivedFrom (on_powersave_change x s) ∧ on_powersave_change x s = s.linkedFrom (on_powersave_change x s)
    unfold on_powersave_change
    split_ifs <;> exact ⟨rfl, rfl⟩
  | on_ifeel_change x =>
    show on_ifeel_change x s = s.receivedFrom (on_ifeel_change x s) ∧ on_ifeel_change x s = s.linkedFrom (on_ifeel_change x s)
    unfold on_ifeel_change
    split_ifs <;> exact ⟨rfl, rfl⟩

/-! ## C22: the order of the scheduler -/

theorem loop_send_eq_scheduled (p : Protocol) (mac : Bytes) (now : Nat) (s : GreeACCNT) :
    loop_send p mac now s =
      match scheduled p now s with
      | none => s
      | some a => a.perform p mac now s := by
  unfold loop_send scheduled gap_elapsed
  by_cases hg : u32sub now s.last_packet_sent_ ≥
      p.TIME_REFRESH_PERIOD_MS + s.last_packet_duration_ms_
  · rw [if_pos hg, if_neg (not_not.mpr hg)]
    by_cases hs : s.startup_special_sent_ = false
    · have hb : (!s.startup_special_sent_) = true := by rw [hs]; rfl
      rw [if_pos hs, if_pos hb]
      rfl
    · have hs2 : s.startup_special_sent_ = true := by simpa using hs
      have hb : ¬ ((!s.startup_special_sent_) = true) := by rw [hs2]; decide
      rw [if_neg hs, if_neg hb]
      by_cases hm : s.mac_packets_pending_ > 0
      · rw [if_pos hm, if_pos hm]
        simp only [Action.perform, send_mac_report_packet, transmit_packet]
        split_ifs <;> rfl
      · rw [if_neg hm, if_neg hm]
        split_ifs <;> rfl
  · rw [if_neg hg, if_pos hg]

theorem length_mac_report_packet (p : Protocol) (mac : Bytes) :
    (mac_report_packet p mac).length = 16 := by
  unfold mac_report_packet
  rw [length_finalize_checksum_]
  rfl

theorem length_sync_time_packet (p : Protocol) : (sync_time_packet p).length = 17 := by
  unfold sync_time_packet
  rw [length_finalize_checksum_]
  rfl

theorem perform_handshake (p : Protocol) (mac : Bytes) (now : Nat) (s : GreeACCNT) :
    Action.handshake.perform p mac now s =
      { s with
        last_packet_sent_ := now
        last_packet_duration_ms_ := (19 * 11000) / 4800
        transmitted := special_startup_packet :: s.transmitted
        startup_special_sent_ := true } := rfl

theorem perform_identity (p : Protocol) (mac : Bytes) (now : Nat) (s : GreeACCNT) :
    Action.identity.perform p mac now s =
      { s with
        last_packet_sent_ := now
        last_packet_duration_ms_ := (16 * 11000) / 4800
        transmitted := mac_report_packet p mac :: s.transmitted
        mac_packets_pending_ := s.mac_packets_pending_ - 1
        last_mac_sequence_millis_ :=
          if s.mac_packets_pending_ - 1 = 0 then now else s.last_mac_sequence_millis_ } := by
  have h : (mac_report_packet p mac).take 16 = mac_report_packet p mac := by
    rw [← length_mac_report_packet p mac, List.take_length]
  unfold Action.perform send_mac_report_packet transmit_packet
  simp only [h]

theorem perform_timeSync (p : Protocol) (mac : Bytes) (now : Nat) (s : GreeACCNT) :
    Action.timeSync.perform p mac now s =
      { s with
        last_packet_sent_ := now
        last_packet_duration_ms_ := (17 * 11000) / 4800
        transmitted := sync_time_packet p :: s.transmitted
        last_sync_time_sent_ := now } := by
  have h : (sync_time_packet p).take 17 = sync_time_packet p := by
    rw [← length_sync_time_packet p, List.take_length]
  unfold Action.perform send_sync_time_packet transmit_packet
  simp only [h]

theorem scheduled_of_sent (p : Protocol) (now : Nat) (s : GreeACCNT)
    (h : s.startup_special_sent_ = true) : scheduled p now s ≠ some .handshake := by
  unfold scheduled
  by_cases hg : gap_elapsed p now s
  · rw [if_neg (not_not.mpr hg), if_neg (by rw [h]; decide)]
    split_ifs <;> decide
  · rw [if_pos hg]
    decide

theorem scheduled_of_not_sent (p : Protocol) (now : Nat) (s : GreeACCNT)
    (h : s.startup_special_sent_ = false) :
    scheduled p now s = none ∨ scheduled p now s = some .handshake := by
  unfold scheduled
  by_cases hg : gap_elapsed p now s
  · rw [if_neg (not_not.mpr hg), if_pos h]
    exact Or.inr rfl
  · rw [if_pos hg]
    exact Or.inl rfl

theorem perform_startup_sent (p : Protocol) (mac : Bytes) (now : Nat) (a : Action)
    (s : GreeACCNT) (h : a = .handshake ∨ s.startup_special_sent_ = true) :
    (a.perform p mac now s).startup_special_sent_ = true := by
  cases a with
  | handshake => rfl
  | identity =>
    rw [perform_identity]
    exact h.resolve_left (by decide)
  | timeSync =>
    rw [perform_timeSync]
    exact h.resolve_left (by decide)
  | rearm => exact h.resolve_left (by decide)
  | parameters =>
    show (send_params_set_packet p now s).startup_special_sent_ = true
    by_cases hw : withheld p now s
    · rw [send_params_set_packet_of_withheld p now s hw]
      exact h.resolve_left (by decide)
    · rw [send_params_set_packet_of_sent p now s hw]
      exact h.resolve_left (by decide)

theorem loop_startup_sent (p : Protocol) (mac : Bytes) (now : Nat) (s : GreeACCNT) :
    (s.loop p mac now).startup_special_sent_ =
      (loop_send p mac now (loop_frame p now (GreeAC.loop now s))).startup_special_sent_ ∧
    (loop_frame p now (GreeAC.loop now s)).startup_special_sent_ = s.startup_special_sent_ := by
  refine ⟨?_, ?_⟩
  · exact (receivedFrom_fields (loop_timeout_receivedFrom p now _)).2.2.2.1
  · exact (receivedFrom_fields (receivedFrom_trans (loop_read_frames now 32 s).1
      (loop_frame_receivedFrom p now _))).2.2.2.1

theorem actions_of_sent (p : Protocol) (mac : Bytes) :
    ∀ (events : List Event) (s : GreeACCNT), s.startup_special_sent_ = true →
      Action.handshake ∉ actions p mac events s := by
  intro events
  induction events with
  | nil => intro s _; simp [actions]
  | cons e events ih =>
    intro s hs
    by_cases he : ∃ now, e = .loop now
    · obtain ⟨now, rfl⟩ := he
      obtain ⟨h1, h2⟩ := loop_startup_sent p mac now s
      have hs2 := h2.trans hs
      have hne := scheduled_of_sent p now _ hs2
      have hafter : (Event.apply p mac (.loop now) s).startup_special_sent_ = true := by
        show (s.loop p mac now).startup_special_sent_ = true
        rw [h1, loop_send_eq_scheduled]
        rcases hsch : scheduled p now (loop_frame p now (GreeAC.loop now s)) with _ | a
        · exact hs2
        · exact perform_startup_sent p mac now a _ (Or.inr hs2)
      unfold actions
      simp only [List.mem_append, Option.mem_toList, Option.mem_def]
      rintro (h | h)
      · exact hne h
      · exact ih _ hafter h
    · have he2 : ∀ now, e ≠ .loop now := fun now h => he ⟨now, h⟩
      have hafter : (e.apply p mac s).startup_special_sent_ = true :=
        ((receivedFrom_fields (request_frames p mac e s he2).1).2.2.2.1).trans hs
      have hact : actions p mac (e :: events) s = actions p mac events (e.apply p mac s) := by
        cases e with
        | loop now => exact absurd rfl (he2 now)
        | _ => rfl
      rw [hact]
      exact ih _ hafter

theorem actions_of_not_sent (p : Protocol) (mac : Bytes) :
    ∀ (events : List Event) (s : GreeACCNT), s.startup_special_sent_ = false →
      actions p mac events s = [] ∨
        ∃ rest, actions p mac events s = .handshake :: rest ∧ Action.handshake ∉ rest := by
  intro events
  induction events with
  | nil => intro s _; exact Or.inl rfl
  | cons e events ih =>
    intro s hs
    by_cases he : ∃ now, e = .loop now
    · obtain ⟨now, rfl⟩ := he
      obtain ⟨h1, h2⟩ := loop_startup_sent p mac now s
      have hs2 := h2.trans hs
      have hact : actions p mac (.loop now :: events) s =
          (scheduled p now (loop_frame p now (GreeAC.loop now s))).toList ++
            actions p mac events (s.loop p mac now) := rfl
      rw [hact]
      rcases scheduled_of_not_sent p now _ hs2 with hsch | hsch
      · have hafter : (s.loop p mac now).startup_special_sent_ = false := by
          rw [h1, loop_send_eq_scheduled, hsch]
          exact hs2
        rw [hsch]
        exact ih _ hafter
      · have hafter : (s.loop p mac now).startup_special_sent_ = true := by
          rw [h1, loop_send_eq_scheduled, hsch]
          rfl
        rw [hsch]
        exact Or.inr ⟨_, rfl, actions_of_sent p mac events _ hafter⟩
    · have he2 : ∀ now, e ≠ .loop now := fun now h => he ⟨now, h⟩
      have hafter : (e.apply p mac s).startup_special_sent_ = false :=
        ((receivedFrom_fields (request_frames p mac e s he2).1).2.2.2.1).trans hs
      have hact : actions p mac (e :: events) s = actions p mac events (e.apply p mac s) := by
        cases e with
        | loop now => exact absurd rfl (he2 now)
        | _ => rfl
      rw [hact]
      exact ih _ hafter

/-- C22. Outbound scheduling priority. At every tick the sending block of
`GreeACCNT::loop` does nothing before the minimum spacing has elapsed and otherwise
performs exactly the one action chosen in the order of the specification (`scheduled`):
the startup handshake if it has not been sent; else the next identity frame if a burst
is pending, the completion time being recorded when the pending count reaches zero;
else the time-sync frame if 10000 ms have passed since the last one; else re-arming an
identity burst, which sends nothing, if the identity cycle period has passed since the
last burst completed; else a parameter frame. In every run after `setup` the handshake
is performed at most once and is the first action performed. Once the handshake is sent
and no burst is pending, at a tick at which neither the time-sync nor a new burst is
due, the action is a parameter frame. -/
theorem C22_scheduling_priority (p : Protocol) (mac : Bytes) (now : Nat) (s : GreeACCNT)
    (events : List Event) (t0 : Nat) (s0 : GreeACCNT) :
    (loop_send p mac now s =
      match scheduled p now s with
      | none => s
      | some a => a.perform p mac now s) ∧
    ((Action.handshake.perform p mac now s).transmitted = special_startup_packet :: s.transmitted ∧
      (Action.handshake.perform p mac now s).startup_special_sent_ = true) ∧
    ((Action.identity.perform p mac now s).transmitted = mac_report_packet p mac :: s.transmitted ∧
      (Action.identity.perform p mac now s).mac_packets_pending_ = s.mac_packets_pending_ - 1 ∧
      (Action.identity.perform p mac now s).last_mac_sequence_millis_ =
        if s.mac_packets_pending_ - 1 = 0 then now else s.last_mac_sequence_millis_) ∧
    ((Action.timeSync.perform p mac now s).transmitted = sync_time_packet p :: s.transmitted ∧
      (Action.timeSync.perform p mac now s).last_sync_time_sent_ = now) ∧
    ((Action.rearm.perform p mac now s).transmitted = s.transmitted ∧
      (Action.rearm.perform p mac now s).mac_packets_pending_ = 6) ∧
    (Action.parameters.perform p mac now s = send_params_set_packet p now s) ∧
    ((actions p mac events (GreeACCNT.setup p t0 s0)).count .handshake ≤ 1 ∧
      ∀ a ∈ (actions p mac events (GreeACCNT.setup p t0 s0)).head?, a = .handshake) ∧
    (gap_elapsed p now s → s.startup_special_sent_ = true → s.mac_packets_pending_ = 0 →
      u32sub now s.last_sync_time_sent_ < 10000 →
      u32sub now s.last_mac_sequence_millis_ < p.TIME_MAC_CYCLE_PERIOD_MS →
      scheduled p now s = some .parameters) := by
  refine ⟨loop_send_eq_scheduled p mac now s, ⟨rfl, rfl⟩, ?_, ?_, ⟨rfl, rfl⟩, rfl, ?_, ?_⟩
  · rw [perform_identity]
    exact ⟨rfl, rfl, rfl⟩
  · rw [perform_timeSync]
    exact ⟨rfl, rfl⟩
  · rcases actions_of_not_sent p mac events (GreeACCNT.setup p t0 s0) rfl with h | ⟨rest, h, hr⟩
    · rw [h]
      exact ⟨by simp, by simp⟩
    · rw [h]
      refine ⟨?_, by simp⟩
      rw [List.count_cons_self, List.count_eq_zero_of_not_mem hr]
  · intro hg hs hm hsync hcycle
    unfold scheduled
    rw [if_neg (not_not.mpr hg), if_neg (by rw [hs]; decide), if_neg (by omega),
      if_neg (by omega), if_neg (by omega)]

set_option maxRecDepth 100000 in
/-- C22 on six scheduling passes 400 ms apart after `setup` at time 0, with the sample
constants: the handshake, the three identity frames of the first burst, the time-sync
frame, then a parameter frame. -/
theorem C22_scheduling_priority_witness :
    actions sampleProtocol [] sampleTicks (GreeACCNT.setup sampleProtocol 0 powerOn) =
      [.handshake, .identity, .identity, .identity, .timeSync, .parameters] ∧
    (actions sampleProtocol [] sampleTicks
      (GreeACCNT.setup sampleProtocol 0 powerOn)).count .handshake ≤ 1 ∧
    (run sampleProtocol [] sampleTicks (GreeACCNT.setup sampleProtocol 0 powerOn)).transmitted.length
      = 6 ∧
    scheduled sampleProtocol 2001
      (run sampleProtocol [] (sampleTicks.take 5) (GreeACCNT.setup sampleProtocol 0 powerOn))
      = some .parameters :=
  ⟨by decide,
   (C22_scheduling_priority sampleProtocol [] 2001
      (run sampleProtocol [] (sampleTicks.take 5) (GreeACCNT.setup sampleProtocol 0 powerOn))
      sampleTicks 0 powerOn).2.2.2.2.2.2.1.1,
   by decide,
   (C22_scheduling_priority sampleProtocol [] 2001
      (run sampleProtocol [] (sampleTicks.take 5) (GreeACCNT.setup sampleProtocol 0 powerOn))
      sampleTicks 0 powerOn).2.2.2.2.2.2.2 (by decide) (by decide) (by decide) (by decide)
      (by decide)⟩

/-! ## C29: the minimum gap between two frames -/

theorem u32sub_le (a b : Nat) (h : b ≤ a) : u32sub a b ≤ a - b := by
  unfold u32sub
  omega

theorem perform_sends (p : Protocol) (mac : Bytes) (now : Nat) (a : Action) (s : GreeACCNT) :
    ((a.perform p mac now s).transmitted = s.transmitted ∧
      (a.perform p mac now s).last_packet_sent_ = s.last_packet_sent_ ∧
      (a.perform p mac now s).last_packet_duration_ms_ = s.last_packet_duration_ms_) ∨
    ∃ frame, (a.perform p mac now s).transmitted = frame :: s.transmitted ∧
      (a.perform p mac now s).last_packet_sent_ = now ∧
      (a.perform p mac now s).last_packet_duration_ms_ = (frame.length * 11000) / 4800 := by
  cases a with
  | handshake => exact Or.inr ⟨special_startup_packet, rfl, rfl, rfl⟩
  | identity =>
    rw [perform_identity]
    exact Or.inr ⟨mac_report_packet p mac, rfl, rfl, by rw [length_mac_report_packet]⟩
  | timeSync =>
    rw [perform_timeSync]
    exact Or.inr ⟨sync_time_packet p, rfl, rfl, by rw [length_sync_time_packet]⟩
  | rearm => exact Or.inl ⟨rfl, rfl, rfl⟩
  | parameters =>
    show (_ ∧ _ ∧ _) ∨ ∃ frame, (send_params_set_packet p now s).transmitted = _ ∧
      (send_params_set_packet p now s).last_packet_sent_ = _ ∧
      (send_params_set_packet p now s).last_packet_duration_ms_ = _
    by_cases hw : withheld p now s
    · left
      show (send_params_set_packet p now s).transmitted = _ ∧
        (send_params_set_packet p now s).last_packet_sent_ = _ ∧
        (send_params_set_packet p now s).last_packet_duration_ms_ = _
      rw [send_params_set_packet_of_withheld p now s hw]
      exact ⟨rfl, rfl, rfl⟩
    · right
      rw [send_params_set_packet_of_sent p now s hw]
      exact ⟨params_set_packet p s, rfl, rfl, by rw [length_params_set_packet]⟩

/-- One scheduling pass transmits nothing and leaves the stamp of the last transmission
as it was, or it transmits exactly one frame, stamps it with the time of the pass and
with its transmission time, and the minimum spacing had elapsed. -/
theorem loop_sends (p : Protocol) (mac : Bytes) (now : Nat) (s : GreeACCNT) :
    ((s.loop p mac now).transmitted = s.transmitted ∧
      (s.loop p mac now).last_packet_sent_ = s.last_packet_sent_ ∧
      (s.loop p mac now).last_packet_duration_ms_ = s.last_packet_duration_ms_) ∨
    ∃ frame, (s.loop p mac now).transmitted = frame :: s.transmitted ∧
      (s.loop p mac now).last_packet_sent_ = now ∧
      (s.loop p mac now).last_packet_duration_ms_ = (frame.length * 11000) / 4800 ∧
      u32sub now s.last_packet_sent_ ≥ p.TIME_REFRESH_PERIOD_MS + s.last_packet_duration_ms_ := by
  obtain ⟨b1, b2, b3, _⟩ := receivedFrom_fields (receivedFrom_trans (loop_read_frames now 32 s).1
    (loop_frame_receivedFrom p now _))
  obtain ⟨d1, d2, d3, _⟩ := receivedFrom_fields (loop_timeout_receivedFrom p now
    (loop_send p mac now (loop_frame p now (GreeAC.loop now s))))
  have d1 : (s.loop p mac now).last_packet_sent_ =
      (loop_send p mac now (loop_frame p now (GreeAC.loop now s))).last_packet_sent_ := d1
  have d2 : (s.loop p mac now).last_packet_duration_ms_ =
      (loop_send p mac now (loop_frame p now (GreeAC.loop now s))).last_packet_duration_ms_ := d2
  have d3 : (s.loop p mac now).transmitted =
      (loop_send p mac now (loop_frame p now (GreeAC.loop now s))).transmitted := d3
  rw [d1, d2, d3, loop_send_eq_scheduled]
  rcases hsch : scheduled p now (loop_frame p now (GreeAC.loop now s)) with _ | a
  · exact Or.inl ⟨b3, b1, b2⟩
  · show (_ ∧ _ ∧ _) ∨ ∃ frame,
      (a.perform p mac now (loop_frame p now (GreeAC.loop now s))).transmitted = _ ∧
      (a.perform p mac now (loop_frame p now (GreeAC.loop now s))).last_packet_sent_ = _ ∧
      (a.perform p mac now (loop_frame p now (GreeAC.loop now s))).last_packet_duration_ms_ = _ ∧ _
    have hg : gap_elapsed p now (loop_frame p now (GreeAC.loop now s)) := by
      by_contra hn
      unfold scheduled at hsch
      rw [if_pos hn] at hsch
      cases hsch
    have b1 : (loop_frame p now (GreeAC.loop now s)).last_packet_sent_ = s.last_packet_sent_ := b1
    have b2 : (loop_frame p now (GreeAC.loop now s)).last_packet_duration_ms_ =
        s.last_packet_duration_ms_ := b2
    have b3 : (loop_frame p now (GreeAC.loop now s)).transmitted = s.transmitted := b3
    unfold gap_elapsed at hg
    rw [b1, b2] at hg
    rcases perform_sends p mac now a (loop_frame p now (GreeAC.loop now s)) with
      ⟨h1, h2, h3⟩ | ⟨frame, h1, h2, h3⟩
    · exact Or.inl ⟨h1.trans b3, h2.trans b1, h3.trans b2⟩
    · exact Or.inr ⟨frame, h1.trans (by rw [b3]), h2, h3, hg⟩

theorem apply_sends (p : Protocol) (mac : Bytes) (e : Event) (s : GreeACCNT) :
    (sendLog p mac [e] s = [] ∧ (e.apply p mac s).transmitted = s.transmitted ∧
      (e.apply p mac s).last_packet_sent_ = s.last_packet_sent_ ∧
      (e.apply p mac s).last_packet_duration_ms_ = s.last_packet_duration_ms_) ∨
    ∃ now frame, e = .loop now ∧ sendLog p mac [e] s = [(now, frame)] ∧
      (e.apply p mac s).transmitted = frame :: s.transmitted ∧
      (e.apply p mac s).last_packet_sent_ = now ∧
      (e.apply p mac s).last_packet_duration_ms_ = (frame.length * 11000) / 4800 ∧
      u32sub now s.last_packet_sent_ ≥ p.TIME_REFRESH_PERIOD_MS + s.last_packet_duration_ms_ := by
  by_cases he : ∃ now, e = .loop now
  · obtain ⟨now, rfl⟩ := he
    have hlog : sendLog p mac [.loop now] s =
        (newFrames s (s.loop p mac now)).reverse.map (fun frame => (now, frame)) := by
      show _ ++ [] = _
      rw [List.append_nil]
      rfl
    rcases loop_sends p mac now s with ⟨h1, h2, h3⟩ | ⟨frame, h1, h2, h3, h4⟩
    · left
      refine ⟨?_, h1, h2, h3⟩
      rw [hlog]
      unfold newFrames
      rw [h1, Nat.sub_self, List.take_zero]
      rfl
    · right
      refine ⟨now, frame, rfl, ?_, h1, h2, h3, h4⟩
      rw [hlog]
      unfold newFrames
      rw [h1]
      simp
  · have he2 : ∀ now, e ≠ .loop now := fun now h => he ⟨now, h⟩
    obtain ⟨f1, f2, f3, _⟩ := receivedFrom_fields (request_frames p mac e s he2).1
    left
    refine ⟨?_, f3, f1, f2⟩
    cases e with
    | loop now => exact absurd rfl (he2 now)
    | _ => rfl

theorem sendLog_cons (p : Protocol) (mac : Bytes) (e : Event) (events : List Event)
    (s : GreeACCNT) :
    sendLog p mac (e :: events) s = sendLog p mac [e] s ++ sendLog p mac events (e.apply p mac s) := by
  show _ ++ _ = (_ ++ []) ++ _
  rw [List.append_nil]

theorem sendLog_chain (p : Protocol) (mac : Bytes) :
    ∀ (events : List Event) (s : GreeACCNT) (prev : Nat × Bytes),
      s.last_packet_sent_ = prev.1 →
      s.last_packet_duration_ms_ = (prev.2.length * 11000) / 4800 →
      List.Chain (Spaced p) prev (sendLog p mac events s) := by
  intro events
  induction events with
  | nil => intro s prev _ _; exact List.Chain.nil
  | cons e events ih =>
    intro s prev h1 h2
    rw [sendLog_cons]
    rcases apply_sends p mac e s with ⟨hl, _, g2, g3⟩ | ⟨now, frame, _, hl, _, g2, g3, g4⟩
    · rw [hl, List.nil_append]
      exact ih _ prev (g2.trans h1) (g3.trans h2)
    · rw [hl]
      refine List.Chain.cons ?_ (ih _ (now, frame) g2 g3)
      unfold Spaced min_gap
      rw [h1, h2] at g4
      exact g4

theorem sendLog_chain' (p : Protocol) (mac : Bytes) :
    ∀ (events : List Event) (s : GreeACCNT), List.Chain' (Spaced p) (sendLog p mac events s) := by
  intro events
  induction events with
  | nil => intro s; exact List.chain'_nil
  | cons e events ih =>
    intro s
    rw [sendLog_cons]
    rcases apply_sends p mac e s with ⟨hl, _, _, _⟩ | ⟨now, frame, _, hl, _, g2, g3, _⟩
    · rw [hl, List.nil_append]
      exact ih _
    · rw [hl]
      exact sendLog_chain p mac events _ (now, frame) g2 g3

theorem sendLog_transmitted (p : Protocol) (mac : Bytes) :
    ∀ (events : List Event) (s : GreeACCNT),
      (run p mac events s).transmitted =
        ((sendLog p mac events s).map Prod.snd).reverse ++ s.transmitted := by
  intro events
  induction events with
  | nil => intro s; rfl
  | cons e events ih =>
    intro s
    have hrun : run p mac (e :: events) s = run p mac events (e.apply p mac s) := rfl
    rw [hrun, ih, sendLog_cons]
    rcases apply_sends p mac e s with ⟨hl, g1, _, _⟩ | ⟨now, frame, _, hl, g1, _, _, _⟩
    · rw [hl, g1]
      rfl
    · rw [hl, g1]
      simp

/-- C29. Minimum inter-frame gap. One scheduling pass transmits at most one frame, and it
transmits one only if at least `TIME_REFRESH_PERIOD_MS` plus the recorded transmission
time of the last frame has elapsed, on the 32-bit millisecond clock, since the recorded
time of the last transmission. In every run the recorded values are those of the
previous transmission, its transmission time being `length * 11000 / 4800` ms rounded
down: any two consecutive transmissions of the run are at least that gap apart, and so
is their true distance when the clock has not run backwards. The transmissions listed
are exactly the frames handed to the UART during the run. -/
theorem C29_min_inter_frame_gap (p : Protocol) (mac : Bytes) (now : Nat) (s : GreeACCNT)
    (events : List Event) :
    ((s.loop p mac now).transmitted = s.transmitted ∨
      ∃ frame, (s.loop p mac now).transmitted = frame :: s.transmitted ∧
        u32sub now s.last_packet_sent_ ≥
          p.TIME_REFRESH_PERIOD_MS + s.last_packet_duration_ms_) ∧
    List.Chain' (Spaced p) (sendLog p mac events s) ∧
    List.Chain' (fun a b : Nat × Bytes => a.1 ≤ b.1 → b.1 - a.1 ≥ min_gap p a.2)
      (sendLog p mac events s) ∧
    (run p mac events s).transmitted =
      ((sendLog p mac events s).map Prod.snd).reverse ++ s.transmitted := by
  refine ⟨?_, sendLog_chain' p mac events s, ?_, sendLog_transmitted p mac events s⟩
  · rcases loop_sends p mac now s with ⟨h1, _, _⟩ | ⟨frame, h1, _, _, h4⟩
    · exact Or.inl h1
    · exact Or.inr ⟨frame, h1, h4⟩
  · refine List.Chain'.imp ?_ (sendLog_chain' p mac events s)
    intro a b hab hle
    unfold Spaced at hab
    exact le_trans hab (u32sub_le b.1 a.1 hle)

set_option maxRecDepth 100000 in
/-- C29 on six scheduling passes 400 ms apart after `setup`, with the sample constants:
six frames are sent, one per pass, the first at time 1. -/
theorem C29_min_inter_frame_gap_witness :
    (sendLog sampleProtocol [] sampleTicks (GreeACCNT.setup sampleProtocol 0 powerOn)).map Prod.fst
      = [1, 401, 801, 1201, 1601, 2001] ∧
    List.Chain' (Spaced sampleProtocol)
      (sendLog sampleProtocol [] sampleTicks (GreeACCNT.setup sampleProtocol 0 powerOn)) ∧
    (run sampleProtocol [] sampleTicks (GreeACCNT.setup sampleProtocol 0 powerOn)).transmitted =
      ((sendLog sampleProtocol [] sampleTicks
        (GreeACCNT.setup sampleProtocol 0 powerOn)).map Prod.snd).reverse ++
        (GreeACCNT.setup sampleProtocol 0 powerOn).transmitted :=
  ⟨by decide,
   (C29_min_inter_frame_gap sampleProtocol [] 0 (GreeACCNT.setup sampleProtocol 0 powerOn)
      sampleTicks).2.1,
   (C29_min_inter_frame_gap sampleProtocol [] 0 (GreeACCNT.setup sampleProtocol 0 powerOn)
      sampleTicks).2.2.2⟩

/-! ## C24: the connection state -/

theorem perform_links (p : Protocol) (mac : Bytes) (now : Nat) (a : Action) (s : GreeACCNT) :
    (a.perform p mac now s).state_ = s.state_ ∧
      (a.perform p mac now s).last_packet_received_ = s.last_packet_received_ := by
  cases a with
  | handshake => exact ⟨rfl, rfl⟩
  | identity =>
    rw [perform_identity]
    exact ⟨rfl, rfl⟩
  | timeSync =>
    rw [perform_timeSync]
    exact ⟨rfl, rfl⟩
  | rearm => exact ⟨rfl, rfl⟩
  | parameters =>
    show (send_params_set_packet p now s).state_ = _ ∧
      (send_params_set_packet p now s).last_packet_received_ = _
    by_cases hw : withheld p now s
    · rw [send_params_set_packet_of_withheld p now s hw]
      exact ⟨rfl, rfl⟩
    · rw [send_params_set_packet_of_sent p now s hw]
      exact ⟨rfl, rfl⟩

theorem loop_send_links (p : Protocol) (mac : Bytes) (now : Nat) (s : GreeACCNT) :
    (loop_send p mac now s).state_ = s.state_ ∧
      (loop_send p mac now s).last_packet_received_ = s.last_packet_received_ := by
  rw [loop_send_eq_scheduled]
  rcases scheduled p now s with _ | a
  · exact ⟨rfl, rfl⟩
  · exact perform_links p mac now a s

/-- The connection members after the first block of a scheduling pass. -/
theorem loop_frame_links (p : Protocol) (now : Nat) (s : GreeACCNT) :
    (loop_frame p now (GreeAC.loop now s)).last_packet_received_ =
        (if accepts p now s then now else s.last_packet_received_) ∧
      (loop_frame p now (GreeAC.loop now s)).state_ =
        (if accepts p now s then .Ready else s.state_) := by
  obtain ⟨r1, r2⟩ := linkedFrom_fields (loop_read_frames now 32 s).2
  have r1 : (GreeAC.loop now s).state_ = s.state_ := r1
  have r2 : (GreeAC.loop now s).last_packet_received_ = s.last_packet_received_ := r2
  by_cases hst : (GreeAC.loop now s).serialProcess_.state = .STATE_COMPLETE
  · by_cases hv : verify_packet p (GreeAC.loop now s) = true
    · have ha : accepts p now s := ⟨hst, hv⟩
      rw [if_pos ha, if_pos ha]
      by_cases hu : (GreeAC.loop now s).update_ = .NoUpdate
      · rw [loop_frame_idle p now _ hst hv hu]
        obtain ⟨h1, h2⟩ := linkedFrom_fields (handle_packet_frames p
          (accept_frame now (GreeAC.loop now s))).2
        exact ⟨h2, h1⟩
      · rw [loop_frame_busy p now _ hst hv hu]
        exact ⟨rfl, rfl⟩
    · have ha : ¬ accepts p now s := fun h => hv h.2
      rw [if_neg ha, if_neg ha, loop_frame_of_drop p now _ hst (by simpa using hv)]
      exact ⟨r2, r1⟩
  · have ha : ¬ accepts p now s := fun h => hst h.1
    rw [if_neg ha, if_neg ha, loop_frame_of_not_complete p now _ hst]
    exact ⟨r2, r1⟩

/-- The connection members at the end of a scheduling pass. -/
theorem loop_links (p : Protocol) (mac : Bytes) (now : Nat) (s : GreeACCNT) :
    (s.loop p mac now).last_packet_received_ =
        (if accepts p now s then now else s.last_packet_received_) ∧
      (s.loop p mac now).state_ =
        (if u32sub now (if accepts p now s then now else s.last_packet_received_) ≥
            p.TIME_TIMEOUT_INACTIVE_MS then .Initializing
          else if accepts p now s then .Ready else s.state_) := by
  obtain ⟨f1, f2⟩ := loop_frame_links p now s
  obtain ⟨g1, g2⟩ := loop_send_links p mac now (loop_frame p now (GreeAC.loop now s))
  rw [← f1, ← f2, ← g1, ← g2]
  show (loop_timeout p now (loop_send p mac now (loop_frame p now (GreeAC.loop now s)))).last_packet_received_ = _ ∧
    (loop_timeout p now (loop_send p mac now (loop_frame p now (GreeAC.loop now s)))).state_ = _
  generalize loop_send p mac now (loop_frame p now (GreeAC.loop now s)) = r
  unfold loop_timeout
  split_ifs with h1 h2
  · exact ⟨rfl, rfl⟩
  · exact ⟨rfl, not_not.mp h2⟩
  · exact ⟨rfl, rfl⟩

theorem u32sub_self (now : Nat) : u32sub now now = 0 := by
  unfold u32sub
  omega

theorem u32sub_of_le (a b : Nat) (h : b ≤ a) (ha : a < 2 ^ 32) : u32sub a b = a - b := by
  unfold u32sub
  omega

theorem connInv_loop (p : Protocol) (mac : Bytes) (now : Nat) (s : GreeACCNT)
    (acc : Option Nat) (tp : Nat) (h : ConnInv p s acc tp) (hle : tp ≤ now)
    (hnow : now < 2 ^ 32) :
    ConnInv p (s.loop p mac now) (if accepts p now s then some now else acc) now := by
  obtain ⟨l1, l2⟩ := loop_links p mac now s
  by_cases ha : accepts p now s
  · rw [if_pos ha] at l1 l2
    rw [if_pos ha, u32sub_self now] at l2
    rw [if_pos ha]
    refine ⟨(fun h0 => nomatch h0), ?_⟩
    intro t ht
    cases ht
    refine ⟨l1, le_refl _, ?_⟩
    rw [l2, Nat.sub_self]
    by_cases hz : 0 ≥ p.TIME_TIMEOUT_INACTIVE_MS
    · rw [if_pos hz]
      exact ⟨(fun h0 => nomatch h0), fun h0 => absurd h0 (by omega)⟩
    · rw [if_neg hz]
      exact ⟨(fun _ => by omega), fun _ => rfl⟩
  · rw [if_neg ha] at l1 l2
    rw [if_neg ha] at l2
    rw [if_neg ha]
    refine ⟨?_, ?_⟩
    · intro h0
      rw [l2, h.1 h0]
      exact ite_self _
    · intro t ht
      obtain ⟨i1, i2, i3⟩ := h.2 t ht
      refine ⟨l1.trans i1, le_trans i2 hle, ?_⟩
      rw [l2, i1, u32sub_of_le now t (le_trans i2 hle) hnow]
      by_cases hz : now - t ≥ p.TIME_TIMEOUT_INACTIVE_MS
      · rw [if_pos hz]
        exact ⟨(fun h0 => nomatch h0), fun h0 => absurd h0 (by omega)⟩
      · rw [if_neg hz]
        exact ⟨(fun _ => by omega), fun _ => i3.mpr (by omega)⟩

theorem connInv_request (p : Protocol) (mac : Bytes) (e : Event) (s : GreeACCNT)
    (acc : Option Nat) (tp : Nat) (h : ConnInv p s acc tp) (he : ∀ now, e ≠ .loop now) :
    ConnInv p (e.apply p mac s) acc tp := by
  obtain ⟨r1, r2⟩ := linkedFrom_fields (request_frames p mac e s he).2
  unfold ConnInv
  rw [r1, r2]
  exact h

theorem run_connInv (p : Protocol) (mac : Bytes) :
    ∀ (events : List Event) (s : GreeACCNT) (acc : Option Nat) (tp : Nat),
      ConnInv p s acc tp → List.Chain (fun a b => a ≤ b) tp (passTimes events) →
      (∀ t ∈ passTimes events, t < 2 ^ 32) →
      ∃ tl, (tp :: passTimes events).getLast? = some tl ∧
        ConnInv p (run p mac events s) (lastAccepted p mac events s acc) tl := by
  intro events
  induction events with
  | nil => intro s acc tp h _ _; exact ⟨tp, rfl, h⟩
  | cons e events ih =>
    intro s acc tp h hc hb
    by_cases he : ∃ now, e = .loop now
    · obtain ⟨now, rfl⟩ := he
      have hp : passTimes (.loop now :: events) = now :: passTimes events := rfl
      rw [hp] at hc hb
      have hstep := connInv_loop p mac now s acc tp h (List.rel_of_chain_cons hc)
        (hb now (List.mem_cons_self _ _))
      obtain ⟨tl, hl, hrec⟩ := ih _ _ now hstep (List.chain_of_chain_cons hc)
        (fun t ht => hb t (List.mem_cons_of_mem _ ht))
      refine ⟨tl, ?_, hrec⟩
      rw [hp, List.getLast?_cons_cons]
      exact hl
    · have he2 : ∀ now, e ≠ .loop now := fun now h0 => he ⟨now, h0⟩
      have hp : passTimes (e :: events) = passTimes events := by
        cases e with
        | loop now => exact absurd rfl (he2 now)
        | _ => rfl
      have hacc : lastAccepted p mac (e :: events) s acc =
          lastAccepted p mac events (e.apply p mac s) acc := by
        cases e with
        | loop now => exact absurd rfl (he2 now)
        | _ => rfl
      rw [hp] at hc hb
      obtain ⟨tl, hl, hrec⟩ := ih _ acc tp (connInv_request p mac e s acc tp h he2) hc hb
      refine ⟨tl, ?_, ?_⟩
      · rw [hp]
        exact hl
      · rw [hacc]
        exact hrec

theorem passTimes_append_loop (events : List Event) (now : Nat) :
    passTimes (events ++ [.loop now]) = passTimes events ++ [now] := by
  induction events with
  | nil => rfl
  | cons e events ih =>
    cases e with
    | loop t =>
      show t :: passTimes (events ++ [.loop now]) = t :: passTimes events ++ [now]
      rw [ih]
      rfl
    | _ => exact ih

/-- C24. Connection state characterisation. Take the engine from `setup`, the connection
state being Initializing as at power-on, through any run of events whose scheduling
passes read a clock that does not run backwards, and let the run end with a scheduling
pass at time `now`. At the end of that pass the connection state is Ready if and only if
some pass of the run has accepted a frame (`verify_packet` returned `true`) and less than
`TIME_TIMEOUT_INACTIVE_MS` has elapsed since the most recent such pass; otherwise it is
Initializing. One pass sets the state to Initializing when the timeout has elapsed since
the last accepted frame, else to Ready when it accepts a frame, and else leaves it. -/
theorem C24_connection_state (p : Protocol) (mac : Bytes) (t0 : Nat) (s0 : GreeACCNT)
    (events : List Event) (now : Nat)
    (h0 : s0.state_ = .Initializing)
    (hmono : List.Pairwise (fun a b => a ≤ b) (passTimes (events ++ [.loop now])))
    (hclock : ∀ t ∈ passTimes (events ++ [.loop now]), t < 2 ^ 32) :
    (GreeACCNT.setup p t0 s0).state_ = .Initializing ∧
    ((run p mac (events ++ [.loop now]) (GreeACCNT.setup p t0 s0)).state_ = .Ready ↔
      ∃ t, lastAccepted p mac (events ++ [.loop now]) (GreeACCNT.setup p t0 s0) none = some t ∧
        t ≤ now ∧ now - t < p.TIME_TIMEOUT_INACTIVE_MS) ∧
    ((run p mac (events ++ [.loop now]) (GreeACCNT.setup p t0 s0)).state_ ≠ .Ready →
      (run p mac (events ++ [.loop now]) (GreeACCNT.setup p t0 s0)).state_ = .Initializing) ∧
    ∀ (t : Nat) (s : GreeACCNT), (s.loop p mac t).state_ =
      (if u32sub t (if accepts p t s then t else s.last_packet_received_) ≥
          p.TIME_TIMEOUT_INACTIVE_MS then .Initializing
        else if accepts p t s then .Ready else s.state_) := by
  have hinit : ConnInv p (GreeACCNT.setup p t0 s0) none 0 :=
    ⟨fun _ => h0, fun t ht => nomatch ht⟩
  have hc : List.Chain (fun a b => a ≤ b) 0 (passTimes (events ++ [.loop now])) := by
    cases hl : passTimes (events ++ [.loop now]) with
    | nil => exact List.Chain.nil
    | cons a l =>
      have hch := List.Pairwise.chain' hmono
      rw [hl] at hch
      exact List.Chain.cons (Nat.zero_le _) hch
  obtain ⟨tl, hl, hinv⟩ := run_connInv p mac (events ++ [.loop now]) _ none 0 hinit hc hclock
  have hlast : tl = now := by
    rw [passTimes_append_loop, ← List.cons_append, List.getLast?_append, List.getLast?_singleton] at hl
    exact (Option.some.inj hl).symm
  rw [hlast] at hinv
  refine ⟨h0, ?_, ?_, fun t s => (loop_links p mac t s).2⟩
  · constructor
    · intro hr
      cases hacc : lastAccepted p mac (events ++ [.loop now]) (GreeACCNT.setup p t0 s0) none with
      | none =>
        have := hinv.1 hacc
        rw [hr] at this
        cases this
      | some t =>
        obtain ⟨_, i2, i3⟩ := hinv.2 t hacc
        exact ⟨t, rfl, i2, i3.mp hr⟩
    · rintro ⟨t, ht, _, hlt⟩
      exact (hinv.2 t ht).2.2.mpr hlt
  · intro hn
    cases hs : (run p mac (events ++ [.loop now]) (GreeACCNT.setup p t0 s0)).state_ with
    | Initializing => rfl
    | Ready => exact absurd hs hn


set_option maxRecDepth 100000 in
/-- C24 on a run with the sample constants: a frame is accepted at time 2, the pass at
time 5000 ends Ready, and a pass at time 12002, more than 10000 ms after the frame, ends
Initializing. -/
theorem C24_connection_state_witness :
    lastAccepted sampleProtocol [] (sampleLinkEvents ++ [.loop 5000])
      (GreeACCNT.setup sampleProtocol 0 powerOn) none = some 2 ∧
    (run sampleProtocol [] (sampleLinkEvents ++ [.loop 5000])
      (GreeACCNT.setup sampleProtocol 0 powerOn)).state_ = .Ready ∧
    ((run sampleProtocol [] (sampleLinkEvents ++ [.loop 5000])
        (GreeACCNT.setup sampleProtocol 0 powerOn)).state_ = .Ready ↔
      ∃ t, lastAccepted sampleProtocol [] (sampleLinkEvents ++ [.loop 5000])
          (GreeACCNT.setup sampleProtocol 0 powerOn) none = some t ∧
        t ≤ 5000 ∧ 5000 - t < sampleProtocol.TIME_TIMEOUT_INACTIVE_MS) ∧
    lastAccepted sampleProtocol [] (sampleLinkEvents ++ [.loop 12002])
      (GreeACCNT.setup sampleProtocol 0 powerOn) none = some 2 ∧
    (run sampleProtocol [] (sampleLinkEvents ++ [.loop 12002])
      (GreeACCNT.setup sampleProtocol 0 powerOn)).state_ = .Initializing ∧
    ((run sampleProtocol [] (sampleLinkEvents ++ [.loop 12002])
        (GreeACCNT.setup sampleProtocol 0 powerOn)).state_ = .Ready ↔
      ∃ t, lastAccepted sampleProtocol [] (sampleLinkEvents ++ [.loop 12002])
          (GreeACCNT.setup sampleProtocol 0 powerOn) none = some t ∧
        t ≤ 12002 ∧ 12002 - t < sampleProtocol.TIME_TIMEOUT_INACTIVE_MS) :=
  ⟨by decide, by decide,
   (C24_connection_state sampleProtocol [] 0 powerOn sampleLinkEvents 5000 rfl
      (by decide) (by decide)).2.1,
   by decide, by decide,
   (C24_connection_state sampleProtocol [] 0 powerOn sampleLinkEvents 12002 rfl
      (by decide) (by decide)).2.1⟩

/-! ## The light policy in the states reachable from `setup` -/

theorem lightPolicy_congr {a b : GreeACCNT} (hm : b.light_mode_ = a.light_mode_)
    (hs : b.light_state_ = a.light_state_) (h : LightPolicy a) : LightPolicy b := by
  unfold LightPolicy
  rw [hm, hs]
  exact h

theorem update_light_light (light : Bool) (s : GreeACCNT) :
    (update_light light s).2.light_state_ = light := by
  rw [update_light_snd]

theorem report_light_policy (p : Protocol) (modeChanged : Bool) (a : GreeACCNT)
    (h : LightPolicy a) : LightPolicy (report_light p modeChanged a).2 := by
  have hm : (report_light p modeChanged a).2.light_mode_ = a.light_mode_ := by
    rw [report_light_frame]
  unfold LightPolicy
  rw [hm]
  constructor
  · intro hon
    unfold report_light
    simp only []
    by_cases hc : a.light_state_ ≠ determine_light p a ∨ a.light_select_ = some none
    · rw [if_pos hc, if_neg (by rw [hon]; decide), if_neg (by rw [hon]; decide), if_pos hon]
      by_cases hr : determine_light p a = false
      · rw [if_pos hr]
      · rw [if_neg hr]
        exact update_light_light true a
    · rw [if_neg hc]
      exact h.1 hon
  · intro hoff
    unfold report_light
    simp only []
    by_cases hc : a.light_state_ ≠ determine_light p a ∨ a.light_select_ = some none
    · rw [if_pos hc, if_neg (by rw [hoff]; decide), if_pos hoff]
      by_cases hr : determine_light p a = true
      · rw [if_pos hr]
      · rw [if_neg hr]
        exact update_light_light false a
    · rw [if_neg hc]
      exact h.2 hoff

theorem report_mode_policy (p : Protocol) (s : GreeACCNT) (h : LightPolicy s) :
    LightPolicy (report_mode p s).2 := by
  have hm : (report_mode p s).2.light_mode_ = s.light_mode_ := by rw [report_mode_frame]
  unfold LightPolicy
  rw [hm]
  constructor
  · intro hon
    rw [(report_mode_not_auto p s (by rw [hon]; decide)).1]
    exact h.1 hon
  · intro hoff
    rw [(report_mode_not_auto p s (by rw [hoff]; decide)).1]
    exact h.2 hoff

theorem reportedFrom_light_mode {a c : GreeACCNT} (h : c = a.reportedFrom c) :
    c.light_mode_ = a.light_mode_ := by
  rw [h]
  rfl

theorem processUnitReport_policy (p : Protocol) (s : GreeACCNT) (h : LightPolicy s) :
    LightPolicy (processUnitReport p s).2 := by
  obtain ⟨e1, _⟩ := processUnitReport_light p s
  obtain ⟨f1, _, f3, _, _⟩ := before_light_facts p (report_mode p s).2
  have hx := report_light_policy p (report_mode p s).1 _
    (lightPolicy_congr f3 f1 (report_mode_policy p s h))
  refine lightPolicy_congr ?_ e1 hx
  have hm1 := reportedFrom_light_mode (processUnitReport_reportedFrom p s)
  have hm2 : (report_mode p s).2.light_mode_ = s.light_mode_ := by rw [report_mode_frame]
  rw [hm1, report_light_frame]
  exact (f3.trans hm2).symm

theorem handle_packet_policy (p : Protocol) (a : GreeACCNT) (h : LightPolicy a) :
    LightPolicy (handle_packet p a) := by
  have hr : LightPolicy (processUnitReport p (move_payload a)).2 :=
    processUnitReport_policy p (move_payload a) h
  unfold handle_packet
  simp only []
  split_ifs
  · exact hr
  · exact hr
  · exact h

theorem loop_frame_policy (p : Protocol) (now : Nat) (s : GreeACCNT) (h : LightPolicy s) :
    LightPolicy (loop_frame p now s) := by
  by_cases hst : s.serialProcess_.state = .STATE_COMPLETE
  · by_cases hv : verify_packet p s = true
    · by_cases hu : s.update_ = .NoUpdate
      · rw [loop_frame_idle p now s hst hv hu]
        exact handle_packet_policy p (accept_frame now s) h
      · rw [loop_frame_busy p now s hst hv hu]
        exact h
    · rw [loop_frame_of_drop p now s hst (by simpa using hv)]
      exact h
  · rw [loop_frame_of_not_complete p now s hst]
    exact h

theorem loop_read_policy (now : Nat) :
    ∀ (n : Nat) (s : GreeACCNT), LightPolicy s → LightPolicy (loop_read now n s) := by
  intro n
  induction n with
  | zero => intro s h; exact h
  | succ n ih =>
    intro s h
    unfold loop_read
    split
    · exact h
    · split_ifs
      · exact h
      · exact ih _ h

theorem perform_policy (p : Protocol) (mac : Bytes) (now : Nat) (a : Action) (s : GreeACCNT)
    (h : LightPolicy s) : LightPolicy (a.perform p mac now s) := by
  cases a with
  | handshake => exact h
  | identity =>
    rw [perform_identity]
    exact h
  | timeSync =>
    rw [perform_timeSync]
    exact h
  | rearm => exact h
  | parameters =>
    show LightPolicy (send_params_set_packet p now s)
    by_cases hw : withheld p now s
    · rw [send_params_set_packet_of_withheld p now s hw]
      exact h
    · rw [send_params_set_packet_of_sent p now s hw]
      exact h

theorem loop_policy (p : Protocol) (mac : Bytes) (now : Nat) (s : GreeACCNT)
    (h : LightPolicy s) : LightPolicy (s.loop p mac now) := by
  have h1 : LightPolicy (loop_frame p now (GreeAC.loop now s)) :=
    loop_frame_policy p now _ (loop_read_policy now 32 s h)
  have h2 : LightPolicy (loop_send p mac now (loop_frame p now (GreeAC.loop now s))) := by
    rw [loop_send_eq_scheduled]
    rcases scheduled p now (loop_frame p now (GreeAC.loop now s)) with _ | a
    · exact h1
    · exact perform_policy p mac now a _ h1
  show LightPolicy (loop_timeout p now (loop_send p mac now (loop_frame p now (GreeAC.loop now s))))
  unfold loop_timeout
  split_ifs
  · exact h2
  · exact h2
  · exact h2

theorem control_mode_policy (mode : ClimateMode) (s : GreeACCNT) (h : LightPolicy s) :
    LightPolicy (control_mode mode s) := by
  rw [control_mode_eq]
  constructor
  · intro hon
    have hon : s.light_mode_ = some .ON := hon
    show (if s.light_mode_ = some .AUTO then decide (mode ≠ .OFF) else s.light_state_) = true
    rw [if_neg (by rw [hon]; decide)]
    exact h.1 hon
  · intro hoff
    have hoff : s.light_mode_ = some .OFF := hoff
    show (if s.light_mode_ = some .AUTO then decide (mode ≠ .OFF) else s.light_state_) = false
    rw [if_neg (by rw [hoff]; decide)]
    exact h.2 hoff

theorem control_policy (call : ClimateCall) (s : GreeACCNT) (h : LightPolicy s) :
    LightPolicy (control call s) := by
  unfold control
  split_ifs with hr
  · exact h
  · rcases call with ⟨m, t, f, sw⟩
    have h1 : LightPolicy (match m with
        | some mode => control_mode mode s
        | none => s) := by
      cases m with
      | none => exact h
      | some mode => exact control_mode_policy mode s h
    rcases m with _ | m <;> rcases t with _ | t <;> rcases f with _ | f <;>
      rcases sw with _ | sw <;>
      simp only [control_fan_mode_eq, control_target_temperature_eq, control_swing_mode_eq] <;>
      exact h1

theorem on_light_mode_change_policy (mode : light_options) (s : GreeACCNT)
    (h : LightPolicy s) : LightPolicy (on_light_mode_change mode s) := by
  unfold on_light_mode_change
  split_ifs with hr
  · exact h
  · cases mode <;> simp [LightPolicy, mark_for_update_]

theorem request_policy (p : Protocol) (mac : Bytes) (e : Event) (s : GreeACCNT)
    (h : LightPolicy s) : LightPolicy (e.apply p mac s) := by
  cases e with
  | arrive bytes => exact h
  | loop now => exact loop_policy p mac now s h
  | control call => exact control_policy call s h
  | on_light_mode_change x => exact on_light_mode_change_policy x s h
  | on_turbo_change turbo =>
    show LightPolicy (on_turbo_change turbo s)
    unfold on_turbo_change
    simp only [update_quiet_snd]
    split_ifs <;> exact h
  | on_quiet_change quiet =>
    show LightPolicy (on_quiet_change quiet s)
    unfold on_quiet_change
    simp only [update_turbo_snd]
    split_ifs <;> exact h
  | on_vertical_swing_change x =>
    show LightPolicy (on_vertical_swing_change x s)
    unfold on_vertical_swing_change
    split_ifs <;> exact h
  | on_horizontal_swing_change x =>
    show LightPolicy (on_horizontal_swing_change x s)
    unfold on_horizontal_swing_change
    split_ifs <;> exact h
  | on_display_change x =>
    show LightPolicy (on_display_change x s)
    unfold on_display_change
    split_ifs <;> exact h
  | on_display_unit_change x =>
    show LightPolicy (on_display_unit_change x s)
    unfold on_display_unit_change
    split_ifs <;> exact h
  | on_ionizer_change x =>
    show LightPolicy (on_ionizer_change x s)
    unfold on_ionizer_change
    split_ifs <;> exact h
  | on_beeper_change x =>
    show LightPolicy (on_beeper_change x s)
    unfold on_beeper_change
    split_ifs <;> exact h
  | on_sleep_change x =>
    show LightPolicy (on_sleep_change x s)
    unfold on_sleep_change
    split_ifs <;> exact h
  | on_xfan_change x =>
    show LightPolicy (on_xfan_change x s)
    unfold on_xfan_change
    split_ifs <;> exact h
  | on_powersave_change x =>
    show LightPolicy (on_powersave_change x s)
    unfold on_powersave_change
    split_ifs <;> exact h
  | on_ifeel_change x =>
    show LightPolicy (on_ifeel_change x s)
    unfold on_ifeel_change
    split_ifs <;> exact h

theorem run_policy (p : Protocol) (mac : Bytes) :
    ∀ (events : List Event) (s : GreeACCNT), LightPolicy s →
      LightPolicy (run p mac events s) := by
  intro events
  induction events with
  | nil => intro s h; exact h
  | cons e events ih =>
    intro s h
    exact ih _ (request_policy p mac e s h)

theorem setup_policy (p : Protocol) (t0 : Nat) (s0 : GreeACCNT) :
    LightPolicy (GreeACCNT.setup p t0 s0) := by
  constructor
  · intro h
    have h : some light_options.AUTO = some light_options.ON := h
    cases h
  · intro h
    have h : some light_options.AUTO = some light_options.OFF := h
    cases h

/-! ## C28: enforcement of the light policy -/

/-- C28. Light policy enforcement. When the light policy is on, the desired light state
is on and the report decodes to light off, `processUnitReport` keeps the desired light
state on and sets the pending update to `UpdateStart`; when the policy is off, the
desired light state is off and the report decodes to light on, it keeps the desired
light state off and sets the pending update to `UpdateStart`. In every state reachable
from `setup` the desired light state is on under the policy "on" and off under the
policy "off". -/
theorem C28_light_policy_enforced (p : Protocol) (s : GreeACCNT) :
    (s.light_mode_ = some .ON → s.light_state_ = true → determine_light p s = false →
      (processUnitReport p s).2.light_state_ = true ∧
        (processUnitReport p s).2.update_ = .UpdateStart) ∧
    (s.light_mode_ = some .OFF → s.light_state_ = false → determine_light p s = true →
      (processUnitReport p s).2.light_state_ = false ∧
        (processUnitReport p s).2.update_ = .UpdateStart) ∧
    (∀ (mac : Bytes) (events : List Event) (t0 : Nat) (s0 : GreeACCNT),
      LightPolicy (run p mac events (GreeACCNT.setup p t0 s0))) := by
  obtain ⟨e1, e2⟩ := processUnitReport_light p s
  obtain ⟨f1, _, f3, _, f5⟩ := before_light_facts p (report_mode p s).2
  have g3 : (report_mode p s).2.light_mode_ = s.light_mode_ := by rw [report_mode_frame]
  have g5 : (report_mode p s).2.serialProcess_ = s.serialProcess_ := by
    rw [report_mode_frame]
  have hrep := determine_light_congr p (f5.trans g5)
  rw [e1, e2]
  refine ⟨?_, ?_, fun mac events t0 s0 => run_policy p mac events _ (setup_policy p t0 s0)⟩
  · intro hon hst hoff
    have g1 := (report_mode_not_auto p s (by rw [hon]; decide)).1
    exact report_light_on p _ _ (f3.trans (g3.trans hon)) (f1.trans (g1.trans hst))
      (hrep.trans hoff)
  · intro hoffm hst hon
    have g1 := (report_mode_not_auto p s (by rw [hoffm]; decide)).1
    exact report_light_off p _ _ (f3.trans (g3.trans hoffm)) (f1.trans (g1.trans hst))
      (hrep.trans hon)

/-- C28 on the sample state under the policy "on" with a report of light off, and under
the policy "off" with a report of light on. -/
theorem C28_light_policy_enforced_witness :
    ((processUnitReport sampleProtocol sampleLightReportOn).2.light_state_ = true ∧
      (processUnitReport sampleProtocol sampleLightReportOn).2.update_ = .UpdateStart) ∧
    ((processUnitReport sampleProtocol sampleLightReportOff).2.light_state_ = false ∧
      (processUnitReport sampleProtocol sampleLightReportOff).2.update_ = .UpdateStart) :=
  ⟨(C28_light_policy_enforced sampleProtocol sampleLightReportOn).1 rfl rfl (by decide),
   (C28_light_policy_enforced sampleProtocol sampleLightReportOff).2.1 rfl rfl (by decide)⟩

/-! ## The marker prefix of the buffer -/

theorem markerHead_of_empty (sp : SerialProcess) (h : sp.size = 0) : MarkerHead sp := by
  unfold MarkerHead
  rw [h]
  exact ⟨fun h0 => absurd h0 (by decide), fun h0 => absurd h0 (by decide),
    fun h0 => absurd h0 (by decide)⟩

theorem noBufferedPair_of_empty (sp : SerialProcess) (h : sp.size = 0) : NoBufferedPair sp := by
  intro i _ hlt
  rw [h] at hlt
  exact absurd hlt (Nat.not_lt_zero _)

theorem feed_markerHead (now c : Nat) (sp : SerialProcess) (hlen : sp.size < sp.data.length)
    (h : MarkerHead sp) : MarkerHead (feed now c sp) := by
  obtain ⟨m1, m2, m3⟩ := h
  have hc : rd (sp.data.set sp.size c) sp.size = c := by rw [rd_set, if_pos ⟨rfl, hlen⟩]
  have hp : ∀ j, j ≠ sp.size → rd (sp.data.set sp.size c) j = rd sp.data j := by
    intro j hj
    rw [rd_set, if_neg (fun h => hj h.1.symm)]
  unfold feed
  simp only []
  split_ifs with h1 h2 h3 h4
  · -- cut back to the two marker bytes
    unfold MarkerHead
    rw [feed_finish_size, feed_finish_data, feed_finish_frame_size]
    simp only []
    rw [if_neg (by show ¬ (2 ≥ DATA_MAX); decide)]
    refine ⟨fun _ => ?_, fun _ => ?_, fun h3 => absurd h3 (by decide)⟩
    · rw [rd_set, if_neg (by omega), rd_set, if_pos ⟨rfl, by rw [List.length_set]; omega⟩]
    · rw [rd_set, if_pos ⟨rfl, by rw [List.length_set, List.length_set]; omega⟩]
  · -- the second marker byte
    have hs : sp.size = 1 := by omega
    unfold MarkerHead
    rw [feed_finish_size, feed_finish_data, feed_finish_frame_size]
    simp only []
    rw [hs] at h1 ⊢
    rw [if_neg (by show ¬ (1 + 1 ≥ DATA_MAX); decide)]
    exact ⟨fun _ => h1.2.1, fun _ => h1.2.2, fun h3 => absurd h3 (by decide)⟩
  · exact markerHead_of_empty _ rfl
  · exact markerHead_of_empty _ rfl
  · unfold MarkerHead
    rw [feed_finish_size, feed_finish_data, feed_finish_frame_size]
    simp only []
    by_cases hcap : sp.size + 1 ≥ DATA_MAX
    · rw [if_pos hcap]
      exact ⟨fun h0 => absurd h0 (by decide), fun h0 => absurd h0 (by decide),
        fun h0 => absurd h0 (by decide)⟩
    · rw [if_neg hcap]
      refine ⟨fun _ => ?_, fun h2' => ?_, fun h3' => ?_⟩
      · by_cases h0 : sp.size = 0
        · by_contra hne
          exact h3 ⟨by omega, hne⟩
        · rw [hp 0 (by omega)]
          exact m1 (by omega)
      · by_cases h0 : sp.size = 1
        · by_contra hne
          refine h4 ⟨by omega, ?_, hne⟩
          rw [hp 0 (by omega)]
          exact m1 (by omega)
        · rw [hp 1 (by omega)]
          exact m2 (by omega)
      · by_cases h0 : sp.size = 2
        · rw [if_pos (by omega)]
          rw [← h0, hc]
        · rw [if_neg (by omega), hp 2 (by omega)]
          exact m3 (by omega)

theorem feed_noBufferedPair (now c : Nat) (sp : SerialProcess) (h : NoBufferedPair sp) :
    NoBufferedPair (feed now c sp) := by
  have hp : ∀ j, j ≠ sp.size → rd (sp.data.set sp.size c) j = rd sp.data j := by
    intro j hj
    rw [rd_set, if_neg (fun h => hj h.1.symm)]
  unfold feed
  simp only []
  split_ifs with h1 h2 h3 h4
  · intro i hi hlt
    rw [feed_finish_size] at hlt
    simp only [] at hlt
    rw [if_neg (by show ¬ (2 ≥ DATA_MAX); decide)] at hlt
    omega
  · intro i hi hlt
    rw [feed_finish_size] at hlt
    simp only [] at hlt
    split_ifs at hlt <;> omega
  · intro i hi hlt
    exact absurd hlt (Nat.not_lt_zero _)
  · intro i hi hlt
    exact absurd hlt (Nat.not_lt_zero _)
  · intro i hi hlt
    rw [feed_finish_size] at hlt
    rw [feed_finish_data]
    simp only [] at hlt ⊢
    have hlt2 : i + 1 < sp.size + 1 := by
      split_ifs at hlt
      · omega
      · exact hlt
    by_cases hlast : i + 1 = sp.size
    · intro hpair
      refine h1 ⟨by omega, ?_, ?_⟩
      · rw [show sp.size + 1 - 2 = i by omega]
        exact hpair.1
      · rw [show sp.size + 1 - 1 = i + 1 by omega]
        exact hpair.2
    · rw [hp i (by omega), hp (i + 1) (by omega)]
      exact h i hi (by omega)

theorem restart_markerHead (sp : SerialProcess) (h : MarkerHead sp) :
    MarkerHead (restart sp) := by
  unfold restart
  split_ifs
  · exact markerHead_of_empty _ rfl
  · exact h

theorem restart_noBufferedPair (sp : SerialProcess) (h : NoBufferedPair sp) :
    NoBufferedPair (restart sp) := by
  unfold restart
  split_ifs
  · intro i _ hlt
    exact absurd hlt (Nat.not_lt_zero _)
  · exact h

theorem restart_size_lt (sp : SerialProcess) (h : sp.size < DATA_MAX) :
    (restart sp).size < DATA_MAX :=
  Nat.lt_of_le_of_lt (restart_size_le sp) h

/-- The invariants of the buffer along a byte stream, the caller restarting the
assembler after each complete frame. -/
theorem assembleAll_buffer (now : Nat) (bytes : List Nat) :
    ∀ sp : SerialProcess, sp.size < DATA_MAX → sp.data.length = DATA_MAX →
      MarkerHead sp → NoBufferedPair sp →
      (assembleAll now bytes sp).size < DATA_MAX ∧
      (assembleAll now bytes sp).data.length = DATA_MAX ∧
      MarkerHead (assembleAll now bytes sp) ∧ NoBufferedPair (assembleAll now bytes sp) := by
  induction bytes with
  | nil => intro sp h1 h2 h3 h4; exact ⟨h1, h2, h3, h4⟩
  | cons c rest ih =>
    intro sp h1 h2 h3 h4
    have hl : (restart sp).size < (restart sp).data.length := by
      rw [restart_data, h2]
      exact restart_size_lt sp h1
    exact ih (feed now c (restart sp)) (feed_size_lt _ _ _)
      (by rw [feed_data_length, restart_data, h2])
      (feed_markerHead now c _ hl (restart_markerHead sp h3))
      (feed_noBufferedPair now c _ (restart_noBufferedPair sp h4))

/-- The invariants of the buffer along a byte stream fed until a frame is complete. -/
theorem feedAll_buffer (now : Nat) (bytes : List Nat) :
    ∀ sp : SerialProcess, sp.size < DATA_MAX → sp.data.length = DATA_MAX →
      MarkerHead sp → NoBufferedPair sp →
      (feedAll now bytes sp).size < DATA_MAX ∧
      (feedAll now bytes sp).data.length = DATA_MAX ∧
      MarkerHead (feedAll now bytes sp) ∧ NoBufferedPair (feedAll now bytes sp) := by
  induction bytes with
  | nil => intro sp h1 h2 h3 h4; exact ⟨h1, h2, h3, h4⟩
  | cons c rest ih =>
    intro sp h1 h2 h3 h4
    have hstep : feedAll now (c :: rest) sp =
        feedAll now rest (if sp.state = .STATE_COMPLETE then sp else feed now c sp) := rfl
    rw [hstep]
    split_ifs
    · exact ih sp h1 h2 h3 h4
    · exact ih (feed now c sp) (feed_size_lt _ _ _) (by rw [feed_data_length, h2])
        (feed_markerHead now c sp (by rw [h2]; exact h1) h3)
        (feed_noBufferedPair now c sp h4)

/-! ## The receive buffer in the states reachable from `setup` -/

theorem verify_packet_size (p : Protocol) (s : GreeACCNT) (h : verify_packet p s = true) :
    5 ≤ s.serialProcess_.size := by
  unfold verify_packet verify_packet_drop at h
  by_contra hlt
  rw [if_pos (Nat.lt_of_not_ge hlt)] at h
  exact absurd h (by decide)

theorem bufferInv_congr {a b : GreeACCNT} (h : b.serialProcess_ = a.serialProcess_)
    (ha : BufferInv a) : BufferInv b := by
  unfold BufferInv
  rw [h]
  exact ha

theorem bufferInv_of_restart (b : GreeACCNT) (hd : b.serialProcess_.data.length = DATA_MAX)
    (hs : b.serialProcess_.size = 0) : BufferInv b :=
  ⟨hd, by rw [hs]; decide, markerHead_of_empty _ hs⟩

theorem loop_read_bufferInv (now : Nat) :
    ∀ (n : Nat) (s : GreeACCNT), BufferInv s → BufferInv (loop_read now n s) := by
  intro n
  induction n with
  | zero => intro s h; exact h
  | succ n ih =>
    intro s h
    unfold loop_read
    split
    · exact h
    · split_ifs
      · exact h
      · refine ih _ ⟨?_, ?_, ?_⟩
        · show (feed now _ s.serialProcess_).data.length = DATA_MAX
          rw [feed_data_length]
          exact h.1
        · exact feed_size_lt _ _ _
        · exact feed_markerHead now _ s.serialProcess_ (by rw [h.1]; exact h.2.1) h.2.2

theorem length_move_payload (s : GreeACCNT) (hd : s.serialProcess_.data.length = DATA_MAX)
    (hs : s.serialProcess_.size < DATA_MAX) :
    (move_payload s).serialProcess_.data.length = DATA_MAX := by
  unfold move_payload
  simp only [List.length_append, List.length_take, List.length_drop]
  unfold DATA_MAX at hd hs ⊢
  omega

theorem handle_packet_data_length (p : Protocol) (a : GreeACCNT)
    (hd : a.serialProcess_.data.length = DATA_MAX) (hs : a.serialProcess_.size < DATA_MAX) :
    (handle_packet p a).serialProcess_.data.length = DATA_MAX := by
  have hr := reportedFrom_serialProcess (processUnitReport_reportedFrom p (move_payload a))
  have hm := length_move_payload a hd hs
  unfold handle_packet
  simp only []
  split_ifs
  · show (processUnitReport p (move_payload a)).2.serialProcess_.data.length = DATA_MAX
    rw [hr]
    exact hm
  · rw [hr]
    exact hm
  · exact hd

theorem loop_frame_bufferInv (p : Protocol) (now : Nat) (s : GreeACCNT) (h : BufferInv s) :
    BufferInv (loop_frame p now s) := by
  by_cases hst : s.serialProcess_.state = .STATE_COMPLETE
  · by_cases hv : verify_packet p s = true
    · by_cases hu : s.update_ = .NoUpdate
      · rw [loop_frame_idle p now s hst hv hu]
        exact bufferInv_of_restart _
          (handle_packet_data_length p (accept_frame now s) h.1 h.2.1) rfl
      · rw [loop_frame_busy p now s hst hv hu]
        exact bufferInv_of_restart _ h.1 rfl
    · rw [loop_frame_of_drop p now s hst (by simpa using hv)]
      exact bufferInv_of_restart _ h.1 rfl
  · rw [loop_frame_of_not_complete p now s hst]
    exact h

theorem perform_serialProcess (p : Protocol) (mac : Bytes) (now : Nat) (a : Action)
    (s : GreeACCNT) : (a.perform p mac now s).serialProcess_ = s.serialProcess_ := by
  cases a with
  | handshake => rfl
  | identity =>
    rw [perform_identity]
  | timeSync =>
    rw [perform_timeSync]
  | rearm => rfl
  | parameters =>
    show (send_params_set_packet p now s).serialProcess_ = _
    by_cases hw : withheld p now s
    · rw [send_params_set_packet_of_withheld p now s hw]
    · rw [send_params_set_packet_of_sent p now s hw]

theorem loop_bufferInv (p : Protocol) (mac : Bytes) (now : Nat) (s : GreeACCNT)
    (h : BufferInv s) : BufferInv (s.loop p mac now) := by
  have h1 : BufferInv (loop_frame p now (GreeAC.loop now s)) :=
    loop_frame_bufferInv p now _ (loop_read_bufferInv now 32 s h)
  have h2 : BufferInv (loop_send p mac now (loop_frame p now (GreeAC.loop now s))) := by
    rw [loop_send_eq_scheduled]
    rcases scheduled p now (loop_frame p now (GreeAC.loop now s)) with _ | a
    · exact h1
    · exact bufferInv_congr (perform_serialProcess p mac now a _) h1
  show BufferInv (loop_timeout p now (loop_send p mac now (loop_frame p now (GreeAC.loop now s))))
  unfold loop_timeout
  split_ifs
  · exact h2
  · exact h2
  · exact h2

theorem control_bufferInv (call : ClimateCall) (s : GreeACCNT) (h : BufferInv s) :
    BufferInv (control call s) := by
  unfold control
  split_ifs with hr
  · exact h
  · rcases call with ⟨m, t, f, sw⟩
    rcases m with _ | m <;> rcases t with _ | t <;> rcases f with _ | f <;>
      rcases sw with _ | sw <;>
      simp only [control_mode_eq, control_fan_mode_eq, control_target_temperature_eq,
        control_swing_mode_eq] <;>
      exact h

theorem apply_bufferInv (p : Protocol) (mac : Bytes) (e : Event) (s : GreeACCNT)
    (h : BufferInv s) : BufferInv (e.apply p mac s) := by
  cases e with
  | arrive bytes => exact h
  | loop now => exact loop_bufferInv p mac now s h
  | control call => exact control_bufferInv call s h
  | on_light_mode_change x =>
    show BufferInv (on_light_mode_change x s)
    unfold on_light_mode_change
    simp only []
    split_ifs <;> exact h
  | on_turbo_change turbo =>
    show BufferInv (on_turbo_change turbo s)
    unfold on_turbo_change
    simp only [update_quiet_snd]
    split_ifs <;> exact h
  | on_quiet_change quiet =>
    show BufferInv (on_quiet_change quiet s)
    unfold on_quiet_change
    simp only [update_turbo_snd]
    split_ifs <;> exact h
  | on_vertical_swing_change x =>
    show BufferInv (on_vertical_swing_change x s)
    unfold on_vertical_swing_change
    split_ifs <;> exact h
  | on_horizontal_swing_change x =>
    show BufferInv (on_horizontal_swing_change x s)
    unfold on_horizontal_swing_change
    split_ifs <;> exact h
  | on_display_change x =>
    show BufferInv (on_display_change x s)
    unfold on_display_change
    split_ifs <;> exact h
  | on_display_unit_change x =>
    show BufferInv (on_display_unit_change x s)
    unfold on_display_unit_change
    split_ifs <;> exact h
  | on_ionizer_change x =>
    show BufferInv (on_ionizer_change x s)
    unfold on_ionizer_change
    split_ifs <;> exact h
  | on_beeper_change x =>
    show BufferInv (on_beeper_change x s)
    unfold on_beeper_change
    split_ifs <;> exact h
  | on_sleep_change x =>
    show BufferInv (on_sleep_change x s)
    unfold on_sleep_change
    split_ifs <;> exact h
  | on_xfan_change x =>
    show BufferInv (on_xfan_change x s)
    unfold on_xfan_change
    split_ifs <;> exact h
  | on_powersave_change x =>
    show BufferInv (on_powersave_change x s)
    unfold on_powersave_change
    split_ifs <;> exact h
  | on_ifeel_change x =>
    show BufferInv (on_ifeel_change x s)
    unfold on_ifeel_change
    split_ifs <;> exact h

theorem run_bufferInv (p : Protocol) (mac : Bytes) :
    ∀ (events : List Event) (s : GreeACCNT), BufferInv s → BufferInv (run p mac events s) := by
  intro events
  induction events with
  | nil => intro s h; exact h
  | cons e events ih =>
    intro s h
    exact ih _ (apply_bufferInv p mac e s h)

theorem setup_bufferInv (p : Protocol) (t0 : Nat) (s0 : GreeACCNT)
    (h : s0.serialProcess_.data.length = DATA_MAX) : BufferInv (GreeACCNT.setup p t0 s0) :=
  ⟨h, by show 0 < DATA_MAX; decide, markerHead_of_empty _ rfl⟩

/-! ## C31: the marker prefix -/

/-- C31. Marker-prefix invariant. Start from an assembler with an empty buffer in its
200-byte array and feed any byte stream, either until a frame is complete or with the
caller restarting the assembler after each complete frame. After every fed byte a
non-empty buffer has `0x7E` as its first byte, a buffer of two or more bytes has `0x7E` as
its second byte, and when three or more bytes are buffered `frame_size` is the third
buffered byte. Hence, in every run of the engine from `setup`, the buffer that a
scheduling pass hands to `verify_packet` has the marker prefix, and a frame that
`verify_packet` accepts begins with the two sync bytes and has its third byte as
declared length. -/
theorem C31_marker_head_invariant (now : Nat) (sp : SerialProcess) (hsize : sp.size = 0)
    (hdata : sp.data.length = DATA_MAX) (bytes : List Nat) :
    ((1 ≤ (assembleAll now bytes sp).size → rd (assembleAll now bytes sp).data 0 = 0x7E) ∧
      (2 ≤ (assembleAll now bytes sp).size → rd (assembleAll now bytes sp).data 1 = 0x7E) ∧
      (3 ≤ (assembleAll now bytes sp).size →
        (assembleAll now bytes sp).frame_size = rd (assembleAll now bytes sp).data 2)) ∧
    ((1 ≤ (feedAll now bytes sp).size → rd (feedAll now bytes sp).data 0 = 0x7E) ∧
      (2 ≤ (feedAll now bytes sp).size → rd (feedAll now bytes sp).data 1 = 0x7E) ∧
      (3 ≤ (feedAll now bytes sp).size →
        (feedAll now bytes sp).frame_size = rd (feedAll now bytes sp).data 2)) ∧
    (∀ (p : Protocol) (mac : Bytes) (t0 : Nat) (s0 : GreeACCNT) (events : List Event) (t : Nat),
      s0.serialProcess_.data.length = DATA_MAX →
      MarkerHead (GreeAC.loop t (run p mac events (GreeACCNT.setup p t0 s0))).serialProcess_ ∧
      (verify_packet p (GreeAC.loop t (run p mac events (GreeACCNT.setup p t0 s0))) = true →
        (GreeAC.loop t (run p mac events (GreeACCNT.setup p t0 s0))).serialProcess_.data.take 2 =
          [0x7E, 0x7E] ∧
        (GreeAC.loop t (run p mac events (GreeACCNT.setup p t0 s0))).serialProcess_.frame_size =
          rd (GreeAC.loop t (run p mac events (GreeACCNT.setup p t0 s0))).serialProcess_.data 2)) := by
  have hlt : sp.size < DATA_MAX := by rw [hsize]; decide
  refine ⟨(assembleAll_buffer now bytes sp hlt hdata (markerHead_of_empty sp hsize)
      (noBufferedPair_of_empty sp hsize)).2.2.1,
    (feedAll_buffer now bytes sp hlt hdata (markerHead_of_empty sp hsize)
      (noBufferedPair_of_empty sp hsize)).2.2.1, ?_⟩
  intro p mac t0 s0 events t hs0
  have hinv := loop_read_bufferInv t 32 _ (run_bufferInv p mac events _
    (setup_bufferInv p t0 s0 hs0))
  have hinv : BufferInv (GreeAC.loop t (run p mac events (GreeACCNT.setup p t0 s0))) := hinv
  refine ⟨hinv.2.2, fun hv => ?_⟩
  have h5 := verify_packet_size p _ hv
  obtain ⟨hd, _, m1, m2, m3⟩ := hinv
  refine ⟨?_, m3 (by omega)⟩
  apply take_eq_of_rd _ [0x7E, 0x7E]
  · rw [hd]
    decide
  · intro i hi
    have hi2 : i < 2 := hi
    rcases Nat.lt_or_ge i 1 with h | h
    · have h0 : i = 0 := by omega
      subst h0
      exact m1 (by omega)
    · have h1 : i = 1 := by omega
      subst h1
      exact m2 (by omega)

set_option maxRecDepth 100000 in
/-- C31 on the empty assembler and the bytes `55 7E 01 7E 7E 04 31`: the first three are
discarded and the buffer holds `7E 7E 04 31` with declared length 4. In the run in which
the bytes of `sampleFrame` arrive, the frame that the second scheduling pass hands to
`verify_packet` is accepted and begins with the two sync bytes. -/
theorem C31_marker_head_invariant_witness :
    (assembleAll 0 [0x55, 0x7E, 0x01, 0x7E, 0x7E, 0x04, 0x31] emptyAssembler).buffered =
      [0x7E, 0x7E, 0x04, 0x31] ∧
    (3 ≤ (assembleAll 0 [0x55, 0x7E, 0x01, 0x7E, 0x7E, 0x04, 0x31] emptyAssembler).size →
      (assembleAll 0 [0x55, 0x7E, 0x01, 0x7E, 0x7E, 0x04, 0x31] emptyAssembler).frame_size =
        rd (assembleAll 0 [0x55, 0x7E, 0x01, 0x7E, 0x7E, 0x04, 0x31] emptyAssembler).data 2) ∧
    (GreeAC.loop 2 (run sampleProtocol [] [.arrive sampleFrame, .loop 1]
        (GreeACCNT.setup sampleProtocol 0 powerOn))).serialProcess_.data.take 2 =
      [0x7E, 0x7E] :=
  ⟨by decide,
   (C31_marker_head_invariant 0 emptyAssembler rfl rfl
      [0x55, 0x7E, 0x01, 0x7E, 0x7E, 0x04, 0x31]).1.2.2,
   (((C31_marker_head_invariant 0 emptyAssembler rfl rfl []).2.2 sampleProtocol [] 0 powerOn
      [.arrive sampleFrame, .loop 1] 2 rfl).2 (by decide)).1⟩

/-! ## C34: frames that contain the marker pair -/

theorem rd_take (d : Bytes) (n j : Nat) (h : j < n) : rd (d.take n) j = rd d j := by
  unfold rd
  rw [List.getD_eq_getElem?_getD, List.getD_eq_getElem?_getD, List.getElem?_take_of_lt h]

theorem rd_of_length_le (d : Bytes) (j : Nat) (h : d.length ≤ j) : rd d j = 0 := by
  unfold rd
  rw [List.getD_eq_getElem?_getD, List.getElem?_eq_none h]
  rfl

theorem buffered_ne_of_pair (sp : SerialProcess) (frame : Bytes) (h : NoBufferedPair sp)
    (hpair : ¬ NoMarkerPair frame) : sp.buffered ≠ frame := by
  intro heq
  apply hpair
  intro i hi h1 hp
  have hi1 : i + 1 < frame.length := by
    by_contra hcon
    have h0 := rd_of_length_le frame (i + 1) (by omega)
    rw [h0] at hp
    exact absurd hp.2 (by decide)
  have hlen : frame.length ≤ sp.size := by
    rw [← heq]
    unfold SerialProcess.buffered
    rw [List.length_take]
    exact Nat.min_le_left _ _
  rw [← heq] at hp
  unfold SerialProcess.buffered at hp
  rw [rd_take _ _ _ (by omega), rd_take _ _ _ (by omega)] at hp
  exact h i h1 (by omega) hp

/-- C34. Frames containing the marker pair cannot be received. Take a frame in which two
adjacent bytes after the first one are both `0x7E`, and an assembler with an empty buffer
in its 200-byte array. Whatever byte stream is fed, until a frame is complete or with the
caller restarting the assembler after each complete frame, the buffer never equals that
frame; in particular, after each prefix of the bytes of the frame itself, completion is
not signalled with the buffer equal to the frame. -/
theorem C34_marker_pair_not_received (now : Nat) (sp : SerialProcess) (hsize : sp.size = 0)
    (hdata : sp.data.length = DATA_MAX) (frame : Bytes) (hpair : ¬ NoMarkerPair frame)
    (bytes : List Nat) :
    (feedAll now bytes sp).buffered ≠ frame ∧
    (assembleAll now bytes sp).buffered ≠ frame ∧
    ∀ k, ¬ ((feedAll now (frame.take k) sp).state = .STATE_COMPLETE ∧
      (feedAll now (frame.take k) sp).buffered = frame) := by
  have hlt : sp.size < DATA_MAX := by rw [hsize]; decide
  have hm := markerHead_of_empty sp hsize
  have hn := noBufferedPair_of_empty sp hsize
  refine ⟨buffered_ne_of_pair _ frame (feedAll_buffer now bytes sp hlt hdata hm hn).2.2.2 hpair,
    buffered_ne_of_pair _ frame (assembleAll_buffer now bytes sp hlt hdata hm hn).2.2.2 hpair,
    fun k h => ?_⟩
  exact buffered_ne_of_pair _ frame
    (feedAll_buffer now (frame.take k) sp hlt hdata hm hn).2.2.2 hpair h.2

set_option maxRecDepth 100000 in
/-- C34 on the frame `7E 7E 04 31 7E 7E 7B`, whose fifth and sixth bytes are both `0x7E`:
once all its bytes are fed the buffer holds `7E 7E 7B`. -/
theorem C34_marker_pair_not_received_witness :
    (feedAll 0 [0x7E, 0x7E, 0x04, 0x31, 0x7E, 0x7E, 0x7B] emptyAssembler).buffered =
      [0x7E, 0x7E, 0x7B] ∧
    (feedAll 0 [0x7E, 0x7E, 0x04, 0x31, 0x7E, 0x7E, 0x7B] emptyAssembler).buffered ≠
      [0x7E, 0x7E, 0x04, 0x31, 0x7E, 0x7E, 0x7B] :=
  ⟨by decide,
   (C34_marker_pair_not_received 0 emptyAssembler rfl rfl
      [0x7E, 0x7E, 0x04, 0x31, 0x7E, 0x7E, 0x7B] (by decide)
      [0x7E, 0x7E, 0x04, 0x31, 0x7E, 0x7E, 0x7B]).1⟩

/-! ## C32: re-arming on the marker -/

theorem restart_state (sp : SerialProcess) : (restart sp).state = .STATE_WAIT_SYNC := by
  unfold restart
  split_ifs with h
  · rfl
  · cases hs : sp.state with
    | STATE_WAIT_SYNC => rfl
    | STATE_COMPLETE => exact absurd hs h

theorem restart_of_wait (sp : SerialProcess) (h : sp.state = .STATE_WAIT_SYNC) :
    restart sp = sp := by
  unfold restart
  rw [if_neg (by rw [h]; decide)]

/-- A marker byte fed after a buffered marker byte: the buffer is, or is cut back to, the
two marker bytes. -/
theorem feed_marker_after_marker (now : Nat) (sp : SerialProcess)
    (hlen : sp.size < sp.data.length) (h1 : 1 ≤ sp.size)
    (hlast : rd sp.data (sp.size - 1) = 0x7E) :
    (feed now 0x7E sp).size = 2 ∧ rd (feed now 0x7E sp).data 0 = 0x7E ∧
      rd (feed now 0x7E sp).data 1 = 0x7E ∧ (feed now 0x7E sp).state = sp.state ∧
      (feed now 0x7E sp).data.length = sp.data.length := by
  have hc : rd (sp.data.set sp.size 0x7E) sp.size = 0x7E := by rw [rd_set, if_pos ⟨rfl, hlen⟩]
  have hp : rd (sp.data.set sp.size 0x7E) (sp.size - 1) = 0x7E := by
    rw [rd_set, if_neg (fun h => by omega)]
    exact hlast
  have hcond : sp.size + 1 ≥ 2 ∧ rd (sp.data.set sp.size 0x7E) (sp.size + 1 - 2) = 0x7E ∧
      rd (sp.data.set sp.size 0x7E) (sp.size + 1 - 1) = 0x7E := by
    refine ⟨by omega, ?_, ?_⟩
    · rw [show sp.size + 1 - 2 = sp.size - 1 by omega]
      exact hp
    · rw [show sp.size + 1 - 1 = sp.size by omega]
      exact hc
  refine ⟨?_, ?_, ?_, ?_, feed_data_length now 0x7E sp⟩
  all_goals unfold feed
  all_goals simp only []
  all_goals rw [if_pos hcond]
  all_goals by_cases h2 : sp.size + 1 > 2
  · rw [if_pos h2, feed_finish_size]
    exact if_neg (by show ¬ (2 ≥ DATA_MAX); decide)
  · rw [if_neg h2, feed_finish_size]
    simp only []
    rw [if_neg (by unfold DATA_MAX; omega)]
    omega
  · rw [if_pos h2, feed_finish_data]
    simp only []
    rw [rd_set, if_neg (by omega), rd_set, if_pos ⟨rfl, by rw [List.length_set]; omega⟩]
  · rw [if_neg h2, feed_finish_data]
    simp only []
    have hs : sp.size = 1 := by omega
    rw [show (0 : Nat) = sp.size - 1 by omega]
    exact hp
  · rw [if_pos h2, feed_finish_data]
    simp only []
    rw [rd_set, if_pos ⟨rfl, by rw [List.length_set, List.length_set]; omega⟩]
  · rw [if_neg h2, feed_finish_data]
    simp only []
    have hs : sp.size = 1 := by omega
    rw [show (1 : Nat) = sp.size by omega]
    exact hc
  · rw [if_pos h2, feed_finish_state]
    exact if_neg (by show ¬ (2 ≥ 3 ∧ _); omega)
  · rw [if_neg h2, feed_finish_state]
    simp only []
    rw [if_neg (by omega)]

/-- A marker byte fed into an empty buffer is kept as its first byte. -/
theorem feed_marker_of_empty (now : Nat) (sp : SerialProcess) (hlen : 0 < sp.data.length)
    (h0 : sp.size = 0) :
    (feed now 0x7E sp).size = 1 ∧ rd (feed now 0x7E sp).data 0 = 0x7E ∧
      (feed now 0x7E sp).state = sp.state ∧
      (feed now 0x7E sp).data.length = sp.data.length := by
  obtain ⟨gd, gs, _, gst⟩ := feed_grow now 0x7E sp (by rw [h0]; exact hlen)
    (fun h => by omega) (fun _ => rfl) (fun _ _ => rfl)
  rw [h0] at gd gs gst
  refine ⟨?_, ?_, ?_, feed_data_length now 0x7E sp⟩
  · rw [gs]
    exact if_neg (by show ¬ (0 + 1 ≥ DATA_MAX); decide)
  · rw [gd, rd_set, if_pos ⟨rfl, hlen⟩]
  · rw [gst]
    exact if_neg (by omega)

/-- A marker byte fed into any buffer: completion is signalled, or the buffer is
cleared, or the marker is the last buffered byte. -/
theorem feed_marker_cases (now : Nat) (sp : SerialProcess) (hlen : sp.size < sp.data.length) :
    (feed now 0x7E sp).state = .STATE_COMPLETE ∨ (feed now 0x7E sp).size = 0 ∨
      (1 ≤ (feed now 0x7E sp).size ∧
        rd (feed now 0x7E sp).data ((feed now 0x7E sp).size - 1) = 0x7E) := by
  by_cases hm : 1 ≤ sp.size ∧ rd sp.data (sp.size - 1) = 0x7E
  · obtain ⟨g1, _, g3, _, _⟩ := feed_marker_after_marker now sp hlen hm.1 hm.2
    right; right
    rw [g1]
    exact ⟨by decide, g3⟩
  · obtain ⟨gd, gs, _, _⟩ := feed_grow now 0x7E sp hlen
      (fun h2 hc => hm ⟨by omega, hc.1⟩) (fun _ => rfl) (fun _ _ => rfl)
    by_cases hcap : sp.size + 1 ≥ DATA_MAX
    · right; left
      rw [gs, if_pos hcap]
    · right; right
      rw [gs, if_neg hcap, gd]
      refine ⟨by omega, ?_⟩
      rw [show sp.size + 1 - 1 = sp.size by omega, rd_set, if_pos ⟨rfl, hlen⟩]

theorem buffered_one (sp : SerialProcess) (hs : sp.size = 1) (hlen : 0 < sp.data.length)
    (h0 : rd sp.data 0 = 0x7E) : sp.buffered = [0x7E] := by
  unfold SerialProcess.buffered
  rw [hs]
  apply take_eq_of_rd _ [0x7E]
  · exact hlen
  · intro i hi
    have hi0 : i = 0 := by
      have : i < 1 := hi
      omega
    subst hi0
    exact h0

theorem buffered_two (sp : SerialProcess) (hs : sp.size = 2) (hlen : 1 < sp.data.length)
    (h0 : rd sp.data 0 = 0x7E) (h1 : rd sp.data 1 = 0x7E) : sp.buffered = [0x7E, 0x7E] := by
  unfold SerialProcess.buffered
  rw [hs]
  apply take_eq_of_rd _ [0x7E, 0x7E]
  · exact hlen
  · intro i hi
    have hi2 : i < 2 := hi
    rcases Nat.lt_or_ge i 1 with h | h
    · have e : i = 0 := by omega
      subst e
      exact h0
    · have e : i = 1 := by omega
      subst e
      exact h1

theorem rd_drop (frame : Bytes) (k j : Nat) : rd (frame.drop k) j = rd frame (k + j) := by
  unfold rd
  rw [List.getD_eq_getElem?_getD, List.getD_eq_getElem?_getD, List.getElem?_drop]

/-- The assembler on the rest of a well-formed frame of which it holds the first `k0`
bytes. -/
theorem feedAll_frame_from (now : Nat) (frame : Bytes) (sp : SerialProcess) (k0 : Nat)
    (hsize : sp.size = k0) (hstate : sp.state = .STATE_WAIT_SYNC)
    (hdata : sp.data.length = DATA_MAX)
    (hbuf : ∀ i, i < k0 → rd sp.data i = rd frame i)
    (hfs : 3 ≤ k0 → sp.frame_size = rd frame 2) (hk0 : k0 < frame.length)
    (h0 : rd frame 0 = 0x7E) (h1 : rd frame 1 = 0x7E) (hn : frame.length = rd frame 2 + 3)
    (hcap : frame.length < DATA_MAX) (hpair : NoMarkerPair frame) :
    ∀ j, k0 + j ≤ frame.length →
      (feedAll now ((frame.drop k0).take j) sp).size = k0 + j ∧
      (feedAll now ((frame.drop k0).take j) sp).data.length = DATA_MAX ∧
      (∀ i, i < k0 + j → rd (feedAll now ((frame.drop k0).take j) sp).data i = rd frame i) ∧
      (3 ≤ k0 + j → (feedAll now ((frame.drop k0).take j) sp).frame_size = rd frame 2) ∧
      (feedAll now ((frame.drop k0).take j) sp).state =
        (if k0 + j = frame.length then .STATE_COMPLETE else .STATE_WAIT_SYNC) := by
  intro j
  induction j with
  | zero =>
    intro _
    have hne : ¬(k0 + 0 = frame.length) := by omega
    simp only [List.take_zero, feedAll, List.foldl_nil, if_neg hne]
    exact ⟨hsize, hdata, hbuf, hfs, hstate⟩
  | succ j ih =>
    intro hk
    obtain ⟨isz, ilen, ird, ifs, ist⟩ := ih (by omega)
    rw [if_neg (by omega)] at ist
    rw [take_succ_eq_append_rd (frame.drop k0) j (by rw [List.length_drop]; omega),
      feedAll_append_single, if_neg (by rw [ist]; decide), rd_drop]
    have hg := feed_grow now (rd frame (k0 + j)) (feedAll now ((frame.drop k0).take j) sp)
      (by rw [isz, ilen]; omega)
      (by
        rw [isz]
        intro h2 hc
        rw [ird (k0 + j - 1) (by omega)] at hc
        have hp := hpair (k0 + j - 1) (by omega) (by omega)
        rw [Nat.sub_add_cancel (by omega)] at hp
        exact hp hc)
      (by rw [isz]; intro hk0'; rw [hk0']; exact h0)
      (by rw [isz]; intro hk1 _; rw [hk1]; exact h1)
    rw [isz] at hg
    obtain ⟨gdata, gsize, gfs, gst⟩ := hg
    refine ⟨?_, ?_, ?_, ?_, ?_⟩
    · rw [gsize, if_neg (by omega)]
      omega
    · rw [gdata, List.length_set, ilen]
    · intro i hi
      rw [gdata, rd_set]
      split
      · next hc => rw [← hc.1]
      · next hc =>
        have hik : i ≠ k0 + j := fun e => hc ⟨e.symm, by rw [ilen]; omega⟩
        exact ird i (by omega)
    · intro h3
      rw [gfs]
      split
      · next hk3 =>
        have : k0 + j = 2 := by omega
        rw [this]
      · next hk3 => exact ifs (by omega)
    · rw [gst, ist]
      by_cases h3 : k0 + j + 1 ≥ 3
      · have hfs2 : (if k0 + j + 1 = 3 then rd frame (k0 + j)
            else (feedAll now ((frame.drop k0).take j) sp).frame_size) = rd frame 2 := by
          split
          · next hk3 =>
            have : k0 + j = 2 := by omega
            rw [this]
          · next hk3 => exact ifs (by omega)
        rw [hfs2, ← hn]
        by_cases hkn : k0 + j + 1 = frame.length
        · rw [if_pos ⟨h3, hkn⟩, if_pos (by omega)]
        · rw [if_neg (fun h => hkn h.2), if_neg (by omega)]
      · rw [if_neg (fun h => h3 h.1), if_neg (by omega)]

/-- A well-formed frame whose two sync bytes the assembler holds is assembled intact
from its remaining bytes. -/
theorem feedAll_after_markers (now : Nat) (t : SerialProcess) (L : Nat) (bs : List Nat)
    (hsize : t.size = 2) (hstate : t.state = .STATE_WAIT_SYNC)
    (hdata : t.data.length = DATA_MAX) (h0 : rd t.data 0 = 0x7E) (h1 : rd t.data 1 = 0x7E)
    (hbs : bs.length = L) (hL : L + 3 < 200) (hpair : NoMarkerPair (0x7E :: 0x7E :: L :: bs)) :
    (feedAll now (L :: bs) t).state = .STATE_COMPLETE ∧
      (feedAll now (L :: bs) t).buffered = 0x7E :: 0x7E :: L :: bs := by
  have hn : (0x7E :: 0x7E :: L :: bs).length = L + 3 := by simp [hbs]
  have key := feedAll_frame_from now (0x7E :: 0x7E :: L :: bs) t 2 hsize hstate hdata
    (by
      intro i hi
      rcases Nat.lt_or_ge i 1 with h | h
      · have e : i = 0 := by omega
        subst e
        exact h0
      · have e : i = 1 := by omega
        subst e
        exact h1)
    (fun h => absurd h (by decide)) (by rw [hn]; omega) rfl rfl (by rw [hn]; rfl)
    (by rw [hn]; exact hL) hpair (L + 1) (by rw [hn]; omega)
  have hdrop : ((0x7E :: 0x7E :: L :: bs).drop 2).take (L + 1) = L :: bs := by
    show (L :: bs).take (L + 1) = L :: bs
    rw [List.take_of_length_le (by simp [hbs])]
  rw [hdrop] at key
  obtain ⟨ksz, klen, krd, _, kst⟩ := key
  refine ⟨?_, ?_⟩
  · rw [kst]
    exact if_pos (by rw [hn]; omega)
  · unfold SerialProcess.buffered
    rw [ksz, show 2 + (L + 1) = (0x7E :: 0x7E :: L :: bs).length by rw [hn]; omega]
    apply take_eq_of_rd
    · rw [klen, hn]
      unfold DATA_MAX
      omega
    · intro i hi
      exact krd i (by rw [hn] at hi; omega)

theorem feed_discard_second (now c : Nat) (sp : SerialProcess) (hs : sp.size = 1)
    (hlen : 1 < sp.data.length) (h0 : rd sp.data 0 = 0x7E) (hc : c ≠ 0x7E) :
    (feed now c sp).size = 0 := by
  have h1 : rd (sp.data.set 1 c) 1 = c := by rw [rd_set, if_pos ⟨rfl, hlen⟩]
  have h2 : rd (sp.data.set 1 c) 0 = 0x7E := by
    rw [rd_set, if_neg (fun h => absurd h.1 (by decide))]
    exact h0
  unfold feed
  simp only []
  rw [hs]
  rw [if_neg (fun h => hc (h1.symm.trans h.2.2)), if_neg (fun h => absurd h.1 (by decide)),
    if_pos ⟨rfl, h2, by rw [h1]; exact hc⟩]

theorem restart_size_of_cleared (a : SerialProcess)
    (h : a.state = .STATE_COMPLETE ∨ a.size = 0) : (restart a).size = 0 := by
  unfold restart
  split_ifs with hc
  · rfl
  · exact h.resolve_left hc

/-- The buffer after two consecutive marker bytes, the caller restarting the assembler
after each complete frame. -/
theorem assembleAll_two_markers (now : Nat) (sp : SerialProcess) (hsize : sp.size < DATA_MAX)
    (hdata : sp.data.length = DATA_MAX) :
    (assembleAll now [0x7E, 0x7E] sp).state = .STATE_WAIT_SYNC ∧
    (assembleAll now [0x7E, 0x7E] sp).data.length = DATA_MAX ∧
    (((assembleAll now [0x7E] sp).state = .STATE_COMPLETE ∨ (assembleAll now [0x7E] sp).size = 0) →
      (assembleAll now [0x7E, 0x7E] sp).size = 1 ∧
        rd (assembleAll now [0x7E, 0x7E] sp).data 0 = 0x7E) ∧
    (¬ ((assembleAll now [0x7E] sp).state = .STATE_COMPLETE ∨
        (assembleAll now [0x7E] sp).size = 0) →
      (assembleAll now [0x7E, 0x7E] sp).size = 2 ∧
        rd (assembleAll now [0x7E, 0x7E] sp).data 0 = 0x7E ∧
        rd (assembleAll now [0x7E, 0x7E] sp).data 1 = 0x7E) := by
  have ha : assembleAll now [0x7E] sp = feed now 0x7E (restart sp) := rfl
  have hb : assembleAll now [0x7E, 0x7E] sp =
      feed now 0x7E (restart (feed now 0x7E (restart sp))) := rfl
  rw [ha, hb]
  have hrl : (restart sp).size < (restart sp).data.length := by
    rw [restart_data, hdata]
    exact restart_size_lt sp hsize
  have hal : (feed now 0x7E (restart sp)).data.length = DATA_MAX := by
    rw [feed_data_length, restart_data, hdata]
  have hral : (restart (feed now 0x7E (restart sp))).data.length = DATA_MAX := by
    rw [restart_data, hal]
  by_cases hE : (feed now 0x7E (restart sp)).state = .STATE_COMPLETE ∨
      (feed now 0x7E (restart sp)).size = 0
  · obtain ⟨g1, g2, g3, g4⟩ := feed_marker_of_empty now (restart (feed now 0x7E (restart sp)))
      (by rw [hral]; decide) (restart_size_of_cleared _ hE)
    exact ⟨g3.trans (restart_state _), g4.trans hral, fun _ => ⟨g1, g2⟩, fun h => absurd hE h⟩
  · have hst : (feed now 0x7E (restart sp)).state = .STATE_WAIT_SYNC := by
      cases hs : (feed now 0x7E (restart sp)).state with
      | STATE_WAIT_SYNC => rfl
      | STATE_COMPLETE => exact absurd (Or.inl hs) hE
    have hlast : 1 ≤ (feed now 0x7E (restart sp)).size ∧
        rd (feed now 0x7E (restart sp)).data ((feed now 0x7E (restart sp)).size - 1) = 0x7E := by
      rcases feed_marker_cases now (restart sp) hrl with h | h | h
      · exact absurd (Or.inl h) hE
      · exact absurd (Or.inr h) hE
      · exact h
    rw [restart_of_wait _ hst]
    obtain ⟨g1, g2, g3, g4, g5⟩ := feed_marker_after_marker now (feed now 0x7E (restart sp))
      (by rw [hal]; exact feed_size_lt _ _ _) hlast.1 hlast.2
    exact ⟨g4.trans hst, g5.trans hal, fun h => absurd h hE, fun _ => ⟨g1, g2, g3⟩⟩

set_option maxRecDepth 100000 in
/-- C32, as stated, fails: the assembler `sampleTruncated` holds `7E 7E 01` of a frame cut
short. The first marker byte of the next frame completes that frame of declared length 1;
the caller clears the buffer, and after the second marker byte the buffer holds one
marker byte only. The length byte `04` of the frame `7E 7E 04 31 12 34 7B` then discards
it, and no byte of the frame signals completion: the frame is lost. -/
theorem C32_truncated_frame_counterexample :
    sampleTruncated.buffered = [0x7E, 0x7E, 0x01] ∧
    (assembleAll 0 [0x7E] sampleTruncated).state = .STATE_COMPLETE ∧
    (assembleAll 0 [0x7E, 0x7E] sampleTruncated).buffered = [0x7E] ∧
    (assembleAll 0 [0x7E, 0x7E] sampleTruncated).buffered ≠ [0x7E, 0x7E] ∧
    (assembleAll 0 [0x7E, 0x7E, 0x04] sampleTruncated).buffered = [] ∧
    (∀ k, k ≤ 5 →
      (assembleAll 0 ([0x7E, 0x7E] ++ [0x04, 0x31, 0x12, 0x34, 0x7B].take k)
        sampleTruncated).state = .STATE_WAIT_SYNC) ∧
    (assembleAll 0 [0x7E, 0x7E, 0x04, 0x31, 0x12, 0x34, 0x7B] sampleTruncated).buffered = [] := by
  decide

/-- A byte fed to an assembler that is outside a frame (waiting, with nothing buffered or
one marker byte, the byte fed last) leaves it outside a frame, unless the byte is the
second of two consecutive marker bytes. -/
theorem feed_unsynced (now c last : Nat) (sp : SerialProcess)
    (hst : sp.state = .STATE_WAIT_SYNC) (hlen : sp.data.length = DATA_MAX)
    (hsz : sp.size = 0 ∨ (sp.size = 1 ∧ rd sp.data 0 = 0x7E ∧ last = 0x7E))
    (hnp : ¬(last = 0x7E ∧ c = 0x7E)) :
    (feed now c sp).state = .STATE_WAIT_SYNC ∧ (feed now c sp).data.length = DATA_MAX ∧
      ((feed now c sp).size = 0 ∨
        ((feed now c sp).size = 1 ∧ rd (feed now c sp).data 0 = 0x7E ∧ c = 0x7E)) := by
  refine ⟨?_, by rw [feed_data_length, hlen], ?_⟩
  · rcases hsz with h0 | ⟨h1, hd, hl⟩
    · have hrd : rd (sp.data.set 0 c) 0 = c := by
        rw [rd_set, if_pos ⟨rfl, by rw [hlen]; decide⟩]
      unfold feed feed_finish
      simp only []
      rw [h0]
      rw [if_neg (fun h => absurd h.1 (by decide))]
      by_cases hc : c = 0x7E
      · rw [if_neg (fun h => h.2 (hrd.trans hc)), if_neg (fun h => absurd h.1 (by decide))]
        simp [hst, DATA_MAX]
      · rw [if_pos ⟨rfl, fun h => hc (hrd.symm.trans h)⟩]
        exact hst
    · have hc : c ≠ 0x7E := fun h => hnp ⟨hl, h⟩
      have g1 : rd (sp.data.set 1 c) 1 = c := by
        rw [rd_set, if_pos ⟨rfl, by rw [hlen]; decide⟩]
      have g2 : rd (sp.data.set 1 c) 0 = 0x7E := by
        rw [rd_set, if_neg (fun h => absurd h.1 (by decide))]
        exact hd
      unfold feed
      simp only []
      rw [h1]
      rw [if_neg (fun h => hc (g1.symm.trans h.2.2)), if_neg (fun h => absurd h.1 (by decide)),
        if_pos ⟨rfl, g2, by rw [g1]; exact hc⟩]
      exact hst
  · rcases hsz with h0 | ⟨h1, hd, hl⟩
    · have hrd : rd (sp.data.set 0 c) 0 = c := by
        rw [rd_set, if_pos ⟨rfl, by rw [hlen]; decide⟩]
      by_cases hc : c = 0x7E
      · right
        subst hc
        obtain ⟨g1, g2, _, _⟩ := feed_marker_of_empty now sp (by rw [hlen]; decide) h0
        exact ⟨g1, g2, rfl⟩
      · left
        unfold feed
        simp only []
        rw [h0]
        rw [if_neg (fun h => absurd h.1 (by decide)),
          if_pos ⟨rfl, fun h => hc (hrd.symm.trans h)⟩]
    · left
      exact feed_discard_second now c sp h1 (by rw [hlen]; decide) hd (fun h => hnp ⟨hl, h⟩)

/-- Bytes without two consecutive marker bytes, fed to an assembler that is outside a
frame, never complete a frame. -/
theorem assembleAll_unsynced (now : Nat) (bs : List Nat) :
    ∀ (k last : Nat) (sp : SerialProcess), sp.state = .STATE_WAIT_SYNC →
      sp.data.length = DATA_MAX →
      (sp.size = 0 ∨ (sp.size = 1 ∧ rd sp.data 0 = 0x7E ∧ last = 0x7E)) →
      (∀ i, i < (last :: bs).length →
        ¬(rd (last :: bs) i = 0x7E ∧ rd (last :: bs) (i + 1) = 0x7E)) →
      (assembleAll now (bs.take k) sp).state = .STATE_WAIT_SYNC := by
  induction bs with
  | nil => intro k last sp hst _ _ _; rw [List.take_nil]; exact hst
  | cons c bs ih =>
    intro k last sp hst hlen hsz hnp
    cases k with
    | zero => exact hst
    | succ k =>
      have h0 : ¬(last = 0x7E ∧ c = 0x7E) := hnp 0 (by simp)
      obtain ⟨f1, f2, f3⟩ := feed_unsynced now c last sp hst hlen hsz h0
      have hstep : assembleAll now ((c :: bs).take (k + 1)) sp =
          assembleAll now (bs.take k) (feed now c (restart sp)) := rfl
      rw [hstep, restart_of_wait sp hst]
      exact ih k c _ f1 f2 f3 (fun i hi => hnp (i + 1) (by simpa using hi))

theorem assembleAll_concat (now : Nat) (l1 l2 : List Nat) (sp : SerialProcess) :
    assembleAll now (l1 ++ l2) sp = assembleAll now l2 (assembleAll now l1 sp) := by
  unfold assembleAll
  rw [List.foldl_append]

/-- C32, amended. Take any assembler state within its 200-byte array and feed two
consecutive marker bytes, the caller restarting the assembler after each complete frame.
Unless the first marker byte completes a frame or fills the buffer, the buffer then
consists of exactly the two marker bytes, and a well-formed frame that starts with them
is assembled intact from its remaining bytes. When the first marker byte completes a
frame or fills the buffer, the buffer holds one marker byte only, the length byte of
the frame discards it, and the frame is lost: no later byte of it signals completion.
After three consecutive marker bytes the buffer always consists of exactly two marker
bytes, and the frame that starts with them is assembled intact. -/
theorem C32_rearm_on_marker (now : Nat) (sp : SerialProcess) (hsize : sp.size < DATA_MAX)
    (hdata : sp.data.length = DATA_MAX) (L : Nat) (bs : List Nat) (hbs : bs.length = L)
    (hL : L + 3 < 200) (hpair : NoMarkerPair (0x7E :: 0x7E :: L :: bs)) :
    (¬ ((assembleAll now [0x7E] sp).state = .STATE_COMPLETE ∨
        (assembleAll now [0x7E] sp).size = 0) →
      (assembleAll now [0x7E, 0x7E] sp).buffered = [0x7E, 0x7E] ∧
      (feedAll now (L :: bs) (assembleAll now [0x7E, 0x7E] sp)).state = .STATE_COMPLETE ∧
      (feedAll now (L :: bs) (assembleAll now [0x7E, 0x7E] sp)).buffered =
        0x7E :: 0x7E :: L :: bs) ∧
    (((assembleAll now [0x7E] sp).state = .STATE_COMPLETE ∨
        (assembleAll now [0x7E] sp).size = 0) →
      (assembleAll now [0x7E, 0x7E] sp).buffered = [0x7E] ∧
      (assembleAll now [0x7E, 0x7E, L] sp).size = 0 ∧
      (∀ k : Nat,
        (assembleAll now (0x7E :: 0x7E :: L :: bs.take k) sp).state = .STATE_WAIT_SYNC)) ∧
    ((assembleAll now [0x7E, 0x7E, 0x7E] sp).buffered = [0x7E, 0x7E] ∧
      (feedAll now (L :: bs) (assembleAll now [0x7E, 0x7E, 0x7E] sp)).state = .STATE_COMPLETE ∧
      (feedAll now (L :: bs) (assembleAll now [0x7E, 0x7E, 0x7E] sp)).buffered =
        0x7E :: 0x7E :: L :: bs) := by
  obtain ⟨bst, blen, bE, bN⟩ := assembleAll_two_markers now sp hsize hdata
  have hLne : L ≠ 0x7E := by
    intro h
    exact hpair 1 (by simp) (le_refl 1) ⟨rfl, h⟩
  have h200 : (1 : Nat) < DATA_MAX := by decide
  refine ⟨fun hN => ?_, fun hE => ?_, ?_⟩
  · obtain ⟨b1, b2, b3⟩ := bN hN
    exact ⟨buffered_two _ b1 (by rw [blen]; exact h200) b2 b3,
      feedAll_after_markers now _ L bs b1 bst blen b2 b3 hbs hL hpair⟩
  · obtain ⟨b1, b2⟩ := bE hE
    have hc : assembleAll now [0x7E, 0x7E, L] sp =
        feed now L (restart (assembleAll now [0x7E, 0x7E] sp)) :=
      assembleAll_append now [0x7E, 0x7E] L sp
    refine ⟨buffered_one _ b1 (by rw [blen]; decide) b2, ?_, ?_⟩
    · rw [hc, restart_of_wait _ bst]
      exact feed_discard_second now L _ b1 (by rw [blen]; exact h200) b2 hLne
    · intro k
      have hk : assembleAll now (0x7E :: 0x7E :: L :: bs.take k) sp =
          assembleAll now (bs.take k) (assembleAll now [0x7E, 0x7E, L] sp) :=
        assembleAll_concat now [0x7E, 0x7E, L] (bs.take k) sp
      have hnp : ∀ i, i < (L :: bs).length →
          ¬(rd (L :: bs) i = 0x7E ∧ rd (L :: bs) (i + 1) = 0x7E) := by
        intro i hi
        have h := hpair (i + 2) (by simpa using hi) (by omega)
        exact h
      rw [hk, hc, restart_of_wait _ bst]
      obtain ⟨f1, f2, f3⟩ := feed_unsynced now L 0x7E (assembleAll now [0x7E, 0x7E] sp) bst blen
        (Or.inr ⟨b1, b2, rfl⟩) (fun h => hLne h.2)
      exact assembleAll_unsynced now bs k L _ f1 f2 f3 hnp
  · have hc : assembleAll now [0x7E, 0x7E, 0x7E] sp =
        feed now 0x7E (restart (assembleAll now [0x7E, 0x7E] sp)) :=
      assembleAll_append now [0x7E, 0x7E] 0x7E sp
    have hlast : 1 ≤ (assembleAll now [0x7E, 0x7E] sp).size ∧
        rd (assembleAll now [0x7E, 0x7E] sp).data ((assembleAll now [0x7E, 0x7E] sp).size - 1)
          = 0x7E := by
      by_cases hE : (assembleAll now [0x7E] sp).state = .STATE_COMPLETE ∨
          (assembleAll now [0x7E] sp).size = 0
      · obtain ⟨b1, b2⟩ := bE hE
        rw [b1]
        exact ⟨le_refl 1, b2⟩
      · obtain ⟨b1, _, b3⟩ := bN hE
        rw [b1]
        exact ⟨by decide, b3⟩
    have hsz : (assembleAll now [0x7E, 0x7E] sp).size < DATA_MAX :=
      (assembleAll_invariant now [0x7E, 0x7E] sp hsize).1
    rw [hc, restart_of_wait _ bst]
    obtain ⟨g1, g2, g3, g4, g5⟩ := feed_marker_after_marker now (assembleAll now [0x7E, 0x7E] sp)
      (by rw [blen]; exact hsz) hlast.1 hlast.2
    exact ⟨buffered_two _ g1 (by rw [g5, blen]; exact h200) g2 g3,
      feedAll_after_markers now _ L bs g1 (g4.trans bst) (g5.trans blen) g2 g3 hbs hL hpair⟩

set_option maxRecDepth 100000 in
/-- C32, amended, on two assemblers and the frame `7E 7E 04 31 12 34 7B`: from
`sampleInProgress`, which holds `7E 7E 10 31`, the two marker bytes re-arm the assembler
and the frame is delivered; from `sampleTruncated` one marker byte is left after two and
the two marker bytes after three, and the frame fed after the two marker bytes is not
delivered. -/
theorem C32_rearm_on_marker_witness :
    ((assembleAll 0 [0x7E, 0x7E] sampleInProgress).buffered = [0x7E, 0x7E] ∧
      (feedAll 0 [0x04, 0x31, 0x12, 0x34, 0x7B]
        (assembleAll 0 [0x7E, 0x7E] sampleInProgress)).state = .STATE_COMPLETE ∧
      (feedAll 0 [0x04, 0x31, 0x12, 0x34, 0x7B]
        (assembleAll 0 [0x7E, 0x7E] sampleInProgress)).buffered =
          [0x7E, 0x7E, 0x04, 0x31, 0x12, 0x34, 0x7B]) ∧
    ((assembleAll 0 [0x7E, 0x7E] sampleTruncated).buffered = [0x7E] ∧
      (assembleAll 0 [0x7E, 0x7E, 0x04] sampleTruncated).size = 0 ∧
      (assembleAll 0 [0x7E, 0x7E, 0x04, 0x31, 0x12, 0x34, 0x7B] sampleTruncated).state
        = .STATE_WAIT_SYNC) ∧
    (assembleAll 0 [0x7E, 0x7E, 0x7E] sampleTruncated).buffered = [0x7E, 0x7E] :=
  ⟨(C32_rearm_on_marker 0 sampleInProgress (by decide) (by decide) 4 [0x31, 0x12, 0x34, 0x7B]
      rfl (by decide) (by decide)).1 (by decide),
   ⟨((C32_rearm_on_marker 0 sampleTruncated (by decide) (by decide) 4
      [0x31, 0x12, 0x34, 0x7B] rfl (by decide) (by decide)).2.1 (by decide)).1,
    ((C32_rearm_on_marker 0 sampleTruncated (by decide) (by decide) 4
      [0x31, 0x12, 0x34, 0x7B] rfl (by decide) (by decide)).2.1 (by decide)).2.1,
    ((C32_rearm_on_marker 0 sampleTruncated (by decide) (by decide) 4
      [0x31, 0x12, 0x34, 0x7B] rfl (by decide) (by decide)).2.1 (by decide)).2.2 4⟩,
   (C32_rearm_on_marker 0 sampleTruncated (by decide) (by decide) 4 [0x31, 0x12, 0x34, 0x7B]
      rfl (by decide) (by decide)).2.2.1⟩

/-! ## C33: a frame that `verify_packet` rejects -/

set_option maxRecDepth 100000 in
/-- C33, as stated, fails: the state `sampleRejected` awaits a response, so that a
parameter frame is withheld at time 1500, and holds a complete frame with a wrong
checksum. The frame block of `GreeACCNT::loop` drops the frame and clears the
awaiting-response flag: the request is resolved, and a parameter frame is no longer
withheld at time 1500, before the response timeout of 1000 ms has elapsed. -/
theorem C33_flag_cleared_counterexample :
    sampleRejected.serialProcess_.state = .STATE_COMPLETE ∧
    verify_packet sampleProtocol sampleRejected = false ∧
    sampleRejected.wait_response_ = true ∧
    withheld sampleProtocol 1500 sampleRejected ∧
    (loop_frame sampleProtocol 1500 sampleRejected).wait_response_ = false ∧
    ¬ withheld sampleProtocol 1500 (loop_frame sampleProtocol 1500 sampleRejected) ∧
    (send_params_set_packet sampleProtocol 1500
      (loop_frame sampleProtocol 1500 sampleRejected)).transmitted.length = 1 := by
  decide

/-- C33, amended. A completed frame that `verify_packet` rejects leaves the climate
state, the connection state and the pending update unchanged and publishes nothing: the
frame block of `GreeACCNT::loop` only restarts the receive buffer and clears the
awaiting-response flag, so that no parameter frame is withheld afterwards. Every
completed frame, accepted or rejected, clears that flag. -/
theorem C33_rejected_frame (p : Protocol) (now : Nat) (s : GreeACCNT)
    (hst : s.serialProcess_.state = .STATE_COMPLETE) (hv : verify_packet p s = false) :
    loop_frame p now s =
      { s with
        wait_response_ := false
        serialProcess_ := { s.serialProcess_ with size := 0, state := .STATE_WAIT_SYNC } } ∧
    (loop_frame p now s).published = s.published ∧
    (loop_frame p now s).state_ = s.state_ ∧
    (loop_frame p now s).update_ = s.update_ ∧
    (∀ t, ¬ withheld p t (loop_frame p now s)) ∧
    (∀ a : GreeACCNT, a.serialProcess_.state = .STATE_COMPLETE →
      (loop_frame p now a).wait_response_ = false) := by
  have h := loop_frame_of_drop p now s hst hv
  refine ⟨h, ?_, ?_, ?_, ?_, fun a ha => loop_frame_wait_response p now a ha⟩
  · rw [h]
  · rw [h]
  · rw [h]
  · intro t hw
    have hw1 : (loop_frame p now s).wait_response_ = true := hw.1
    rw [loop_frame_wait_response p now s hst] at hw1
    exact absurd hw1 (by decide)

set_option maxRecDepth 100000 in
/-- C33, amended, on the state `sampleRejected`. -/
theorem C33_rejected_frame_witness :
    loop_frame sampleProtocol 1500 sampleRejected =
      { sampleRejected with
        wait_response_ := false
        serialProcess_ := { sampleRejected.serialProcess_ with
          size := 0, state := .STATE_WAIT_SYNC } } ∧
    (loop_frame sampleProtocol 1500 sampleRejected).update_ = .UpdateStart :=
  ⟨(C33_rejected_frame sampleProtocol 1500 sampleRejected rfl (by decide)).1,
   (C33_rejected_frame sampleProtocol 1500 sampleRejected rfl (by decide)).2.2.2.1⟩

/-! ## C35: what the decoder reads -/

set_option maxRecDepth 100000 in
/-- C35 fails on the five-byte unit report `7E 7E 02 31 33`. The states `sampleStaleA`
and `sampleStaleB` hold the same climate state and the same complete frame, which
`verify_packet` accepts; its payload is empty, and the buffers differ only in the bytes
left from the report handled before. The frame block decodes turbo off and quiet auto
from the one and turbo on and quiet on from the other. For every protocol, a frame of
five bytes has an empty payload and `handle_packet` leaves the buffer as it is, so that
every offset the decoder reads is outside the payload. -/
theorem C35_short_report_reads_stale :
    (sampleStaleA.serialProcess_.state = .STATE_COMPLETE ∧
      sampleStaleA.serialProcess_.buffered = shortReport ∧
      sampleStaleB.serialProcess_.buffered = shortReport ∧
      verify_packet sampleProtocol sampleStaleA = true ∧
      verify_packet sampleProtocol sampleStaleB = true ∧
      (move_payload sampleStaleA).serialProcess_.size = 0 ∧
      (loop_frame sampleProtocol 5 sampleStaleA).turbo_state_ = false ∧
      (loop_frame sampleProtocol 5 sampleStaleB).turbo_state_ = true ∧
      (loop_frame sampleProtocol 5 sampleStaleA).quiet_state_ = some .AUTO ∧
      (loop_frame sampleProtocol 5 sampleStaleB).quiet_state_ = some .ON) ∧
    (∀ (p : Protocol) (s : GreeACCNT), s.serialProcess_.size = 5 →
      (move_payload s).serialProcess_.size = 0 ∧
      (move_payload s).serialProcess_.data = s.serialProcess_.data ∧
      (determine_mode p (move_payload s)).1 = (determine_mode p s).1 ∧
      determine_turbo p (move_payload s) = determine_turbo p s) := by
  refine ⟨by decide, fun p s h => ?_⟩
  have hd : (move_payload s).serialProcess_.data = s.serialProcess_.data := by
    unfold move_payload
    simp only []
    rw [h]
    rfl
  refine ⟨?_, hd, ?_, ?_⟩
  · unfold move_payload
    simp only []
    rw [h]
  · unfold determine_mode
    simp only []
    rw [hd]
    split_ifs <;> rfl
  · unfold determine_turbo
    rw [hd]

/-! ## C37: the light policy in reachable states -/

/-- C37. Light policy invariant. In every state reachable from `setup` through any
sequence of arriving bytes, scheduling passes (which process the unit reports), control
calls, light-policy changes and other requests, the desired light state is on whenever
the light policy is "on" and off whenever the light policy is "off". -/
theorem C37_light_policy_invariant (p : Protocol) (mac : Bytes) (events : List Event)
    (t0 : Nat) (s0 : GreeACCNT) :
    ((run p mac events (GreeACCNT.setup p t0 s0)).light_mode_ = some .ON →
      (run p mac events (GreeACCNT.setup p t0 s0)).light_state_ = true) ∧
    ((run p mac events (GreeACCNT.setup p t0 s0)).light_mode_ = some .OFF →
      (run p mac events (GreeACCNT.setup p t0 s0)).light_state_ = false) :=
  run_policy p mac events _ (setup_policy p t0 s0)

/-! ## C36: a report processed twice -/

theorem report_fan_of_settled (p : Protocol) (a : GreeACCNT)
    (h : a.custom_fan_mode = some (determine_fan_mode p a)) : report_fan p a = (false, a) := by
  unfold report_fan
  simp only []
  rw [if_neg (not_not.mpr h)]

theorem update_target_temperature_of_settled (x : ℚ) (a : GreeACCNT)
    (h : x > (TEMPERATURE_THRESHOLD : ℚ) ∨ a.target_temperature = x) :
    update_target_temperature x a = (false, a) := by
  unfold update_target_temperature
  by_cases hx : x > (TEMPERATURE_THRESHOLD : ℚ)
  · rw [if_pos hx]
  · rw [if_neg hx, if_pos (h.resolve_left hx)]

theorem update_current_temperature_of_settled (x : Int) (a : GreeACCNT)
    (h : x > (TEMPERATURE_THRESHOLD : Int) ∨ a.current_temperature = x) :
    update_current_temperature x a = (false, a) := by
  unfold update_current_temperature
  by_cases hx : x > (TEMPERATURE_THRESHOLD : Int)
  · rw [if_pos hx]
  · rw [if_neg hx, if_pos (h.resolve_left hx)]

theorem report_temperature_of_settled (p : Protocol) (a : GreeACCNT)
    (h1 : (reported_target_temperature p a : ℚ) > (TEMPERATURE_THRESHOLD : ℚ) ∨
      a.target_temperature = (reported_target_temperature p a : ℚ))
    (h2 : (rd a.serialProcess_.data p.REPORT_TEMP_ACT_BYTE : Int) - p.REPORT_TEMP_ACT_OFF
        > (TEMPERATURE_THRESHOLD : Int) ∨
      a.current_temperature =
        (rd a.serialProcess_.data p.REPORT_TEMP_ACT_BYTE : Int) - p.REPORT_TEMP_ACT_OFF) :
    report_temperature p a = (false, a) := by
  unfold report_temperature
  simp only []
  rw [update_target_temperature_of_settled _ a h1]
  simp only []
  rw [update_current_temperature_of_settled _ a h2]
  rfl

theorem report_swing_of_settled (p : Protocol) (a : GreeACCNT)
    (hv : a.vertical_swing_state_ = some (determine_vertical_swing p a))
    (hh : a.horizontal_swing_state_ = some (determine_horizontal_swing p a))
    (hm : a.swing_mode =
      (if determine_vertical_swing p a = .FULL ∧ determine_horizontal_swing p a = .FULL
        then .BOTH
        else if determine_vertical_swing p a = .FULL then .VERTICAL
        else if determine_horizontal_swing p a = .FULL then .HORIZONTAL
        else .OFF)) :
    report_swing p a = (false, a) := by
  have e1 : update_swing_vertical (determine_vertical_swing p a) a = (false, a) := by
    unfold update_swing_vertical
    rw [if_pos hv]
  have e2 : update_swing_horizontal (determine_horizontal_swing p a) a = (false, a) := by
    unfold update_swing_horizontal
    rw [if_pos hh]
  unfold report_swing
  simp only []
  rw [e1]
  simp only []
  rw [e2]
  simp only []
  rw [if_neg (not_not.mpr hm)]
  rfl

theorem report_display_of_settled (p : Protocol) (a : GreeACCNT)
    (h : a.display_state_ = none ∨ determine_display p a = .ACT ∨ a.mode ≠ .OFF →
      a.display_state_ = some (determine_display p a)) :
    report_display p a = (false, a) := by
  unfold report_display
  simp only []
  by_cases hc : a.display_state_ = none ∨ determine_display p a = .ACT ∨ a.mode ≠ .OFF
  · rw [if_pos hc]
    unfold update_display
    rw [if_pos (h hc)]
  · rw [if_neg hc]

theorem update_light_of_none (light : Bool) (a : GreeACCNT) (hsel : a.light_select_ = none) :
    update_light light a = (a.light_state_ != light, { a with light_state_ := light }) := by
  unfold update_light
  simp only []
  rw [hsel]

theorem update_light_self (x : GreeACCNT) (hsel : x.light_select_ = none) :
    (update_light x.light_state_ x).1 = false := by
  rw [update_light_of_none _ _ hsel]
  simp

theorem report_light_of_settled (p : Protocol) (modeChanged : Bool) (a : GreeACCNT)
    (h : SettledLight p a) : (report_light p modeChanged a).1 = false := by
  obtain ⟨hsel, hoff, hon⟩ := h
  unfold report_light
  simp only []
  by_cases hc : a.light_state_ ≠ determine_light p a ∨ a.light_select_ = some none
  · have hne : a.light_state_ ≠ determine_light p a := by
      rcases hc with h | h
      · exact h
      · rw [hsel] at h
        cases h
    rw [if_pos hc]
    by_cases hauto : a.light_mode_ = some .AUTO
    · rw [if_pos hauto]
      cases modeChanged
      · exact update_light_self _ hsel
      · exact update_light_self _ hsel
    · rw [if_neg hauto]
      by_cases hoffm : a.light_mode_ = some .OFF
      · rw [if_pos hoffm]
        by_cases hr : determine_light p a = true
        · rw [if_pos hr]
        · rw [if_neg hr, update_light_of_none _ _ hsel]
          cases hl : a.light_state_ with
          | false => rfl
          | true => exact absurd (hoff hoffm hl) hr
      · rw [if_neg hoffm]
        by_cases honm : a.light_mode_ = some .ON
        · rw [if_pos honm]
          by_cases hr : determine_light p a = false
          · rw [if_pos hr]
          · rw [if_neg hr, update_light_of_none _ _ hsel]
            cases hl : a.light_state_ with
            | true => rfl
            | false => exact absurd (hon honm hl) hr
        · rw [if_neg honm]
  · rw [if_neg hc]

theorem report_flags_of_settled (p : Protocol) (a : GreeACCNT) (h : SettledFlags p a) :
    report_flags p a = (false, a) := by
  obtain ⟨h1, h2, h3, h4, h5, h6, h7, h8, h9⟩ := h
  have e1 : update_display_unit (determine_display_unit p a) a = (false, a) := by
    unfold update_display_unit
    rw [if_pos h1]
  have e2 : update_ionizer (determine_ionizer p a) a = (false, a) := by
    unfold update_ionizer
    rw [if_pos h2]
  have e3 : update_beeper (determine_beeper p a) a = (false, a) := by
    unfold update_beeper
    rw [if_pos h3]
  have e4 : update_sleep (determine_sleep p a) a = (false, a) := by
    unfold update_sleep
    rw [if_pos h4]
  have e5 : update_xfan (determine_xfan p a) a = (false, a) := by
    unfold update_xfan
    rw [if_pos h5]
  have e6 : update_powersave (determine_powersave p a) a = (false, a) := by
    unfold update_powersave
    rw [if_pos h6]
  have e7 : update_turbo (determine_turbo p a) a = (false, a) := by
    unfold update_turbo
    rw [if_pos h7]
  have e8 : update_ifeel (determine_ifeel p a) a = (false, a) := by
    unfold update_ifeel
    rw [if_pos h8]
  have e9 : update_quiet (determine_quiet p a) a = (false, a) := by
    unfold update_quiet
    rw [if_pos h9]
  unfold report_flags
  simp only [e1, e2, e3, e4, e5, e6, e7, e8, e9, Bool.or_self]

/-- A state that holds what the report in its buffer decodes to: processing the report
reports no change. -/
theorem processUnitReport_of_settled (p : Protocol) (t : GreeACCNT) (hc : SettledClimate p t)
    (hl : SettledLight p t) (hf : SettledFlags p t) : (processUnitReport p t).1 = false := by
  have hc1 : SettledClimate p (determine_mode p t).2 := by
    rw [determine_mode_snd]
    exact hc
  have hl1 : SettledLight p (determine_mode p t).2 := by
    rw [determine_mode_snd]
    exact hl
  have hf1 : SettledFlags p (determine_mode p t).2 := by
    rw [determine_mode_snd]
    exact hf
  obtain ⟨_, c2, c3, c4, c5, c6, c7, c8⟩ := hc1
  have hf6 : SettledFlags p (report_light p false (determine_mode p t).2).2 := by
    rw [report_light_frame]
    exact hf1
  unfold processUnitReport
  simp only []
  rw [report_mode_same_mode p t hc.1.symm]
  simp only []
  rw [report_fan_of_settled p _ c2]
  simp only []
  rw [report_temperature_of_settled p _ c3 c4]
  simp only []
  rw [report_swing_of_settled p _ c5 c6 c7]
  simp only []
  rw [report_display_of_settled p _ c8]
  simp only []
  rw [report_light_of_settled p false _ hl1, report_flags_of_settled p _ hf6]
  rfl

/-- The members that `processUnitReport` stores under a condition, each with the value
it holds afterwards. -/
theorem processUnitReport_stored (p : Protocol) (s : GreeACCNT) :
    (processUnitReport p s).2.target_temperature =
      (if (reported_target_temperature p s : ℚ) > (TEMPERATURE_THRESHOLD : ℚ) then
        s.target_temperature
      else (reported_target_temperature p s : ℚ)) ∧
    (processUnitReport p s).2.current_temperature =
      (if (rd s.serialProcess_.data p.REPORT_TEMP_ACT_BYTE : Int) - p.REPORT_TEMP_ACT_OFF
          > (TEMPERATURE_THRESHOLD : Int) then s.current_temperature
      else (rd s.serialProcess_.data p.REPORT_TEMP_ACT_BYTE : Int) - p.REPORT_TEMP_ACT_OFF) ∧
    (processUnitReport p s).2.swing_mode =
      (if determine_vertical_swing p s = .FULL ∧ determine_horizontal_swing p s = .FULL then
        .BOTH
      else if determine_vertical_swing p s = .FULL then .VERTICAL
      else if determine_horizontal_swing p s = .FULL then .HORIZONTAL
      else .OFF) ∧
    (processUnitReport p s).2.display_state_ =
      (if s.display_state_ = none ∨ determine_display p s = .ACT ∨
          (determine_mode p s).1 ≠ .OFF then some (determine_display p s)
      else s.display_state_) := by
  have h2 : (report_fan p (report_mode p s).2).2.serialProcess_ = s.serialProcess_ :=
    reportedFrom_serialProcess (reportedFrom_trans (report_mode_reportedFrom p s)
      (report_fan_reportedFrom p _))
  have h3 : (report_temperature p (report_fan p (report_mode p s).2).2).2.serialProcess_
      = s.serialProcess_ :=
    reportedFrom_serialProcess
      (reportedFrom_trans (reportedFrom_trans (report_mode_reportedFrom p s)
        (report_fan_reportedFrom p _)) (report_temperature_reportedFrom p _))
  have h4 := reportedFrom_serialProcess (before_display_reportedFrom p s)
  have t2t : (report_fan p (report_mode p s).2).2.target_temperature = s.target_temperature := by
    rw [report_fan_snd, report_mode_frame]
  have t2c : (report_fan p (report_mode p s).2).2.current_temperature = s.current_temperature := by
    rw [report_fan_snd, report_mode_frame]
  have t4d : (report_swing p (report_temperature p (report_fan p (report_mode p s).2).2).2).2.display_state_
      = s.display_state_ := by
    rw [report_swing_snd, report_temperature_snd, report_fan_snd, report_mode_frame]
  have t4m : (report_swing p (report_temperature p (report_fan p (report_mode p s).2).2).2).2.mode
      = (determine_mode p s).1 := by
    rw [report_swing_snd, report_temperature_snd, report_fan_snd]
    exact report_mode_mode p s
  unfold processUnitReport
  simp only []
  rw [report_flags_snd]
  simp only []
  rw [report_light_frame]
  simp only []
  rw [report_display_snd]
  simp only []
  refine ⟨?_, ?_, ?_, ?_⟩
  · rw [report_swing_snd]
    simp only []
    rw [report_temperature_snd]
    simp only []
    rw [reported_target_temperature_congr p h2, t2t]
  · rw [report_swing_snd]
    simp only []
    rw [report_temperature_snd]
    simp only []
    rw [h2, t2c]
  · rw [report_swing_snd]
    simp only []
    rw [determine_vertical_swing_congr p h3, determine_horizontal_swing_congr p h3]
  · rw [t4d, t4m, determine_display_congr p h4]

theorem update_light_select_none (light : Bool) (a : GreeACCNT) (hsel : a.light_select_ = none) :
    (update_light light a).2.light_select_ = none := by
  rw [update_light_of_none _ _ hsel]
  exact hsel

theorem report_light_settled (p : Protocol) (modeChanged : Bool) (a : GreeACCNT)
    (hsel : a.light_select_ = none) :
    (report_light p modeChanged a).2.light_select_ = none ∧
    (a.light_mode_ = some .OFF → (report_light p modeChanged a).2.light_state_ = true →
      determine_light p a = true) ∧
    (a.light_mode_ = some .ON → (report_light p modeChanged a).2.light_state_ = false →
      determine_light p a = false) := by
  refine ⟨?_, ?_, ?_⟩
  · unfold report_light
    simp only []
    split_ifs
    all_goals first
      | exact hsel
      | exact update_light_select_none _ _ hsel
  · intro hoff
    unfold report_light
    simp only []
    by_cases hc : a.light_state_ ≠ determine_light p a ∨ a.light_select_ = some none
    · rw [if_pos hc, if_neg (by rw [hoff]; decide), if_pos hoff]
      by_cases hr : determine_light p a = true
      · exact fun _ => hr
      · rw [if_neg hr, update_light_of_none _ _ hsel]
        intro h
        exact absurd (show false = true from h) (by decide)
    · rw [if_neg hc]
      intro h
      have he : a.light_state_ = determine_light p a := not_not.mp (fun hne => hc (Or.inl hne))
      rw [← he]
      exact h
  · intro hon
    unfold report_light
    simp only []
    by_cases hc : a.light_state_ ≠ determine_light p a ∨ a.light_select_ = some none
    · rw [if_pos hc, if_neg (by rw [hon]; decide), if_neg (by rw [hon]; decide), if_pos hon]
      by_cases hr : determine_light p a = false
      · exact fun _ => hr
      · rw [if_neg hr, update_light_of_none _ _ hsel]
        intro h
        exact absurd (show true = false from h) (by decide)
    · rw [if_neg hc]
      intro h
      have he : a.light_state_ = determine_light p a := not_not.mp (fun hne => hc (Or.inl hne))
      rw [← he]
      exact h

/-- Once `processUnitReport` has run on a state without a light select, the state holds
what the report decodes to. -/
theorem processUnitReport_settled (p : Protocol) (s : GreeACCNT) (hsel : s.light_select_ = none) :
    SettledClimate p (processUnitReport p s).2 ∧ SettledLight p (processUnitReport p s).2 ∧
      SettledFlags p (processUnitReport p s).2 := by
  have hser := reportedFrom_serialProcess (processUnitReport_reportedFrom p s)
  obtain ⟨a1, a2, a3, a4, a5, a6, a7, a8, a9, a10, a11, a12, a13⟩ := processUnitReport_applied p s
  obtain ⟨s1, s2, s3, s4⟩ := processUnitReport_stored p s
  refine ⟨⟨?_, ?_, ?_, ?_, ?_, ?_, ?_, ?_⟩, ?_, ⟨?_, ?_, ?_, ?_, ?_, ?_, ?_, ?_, ?_⟩⟩
  · rw [determine_mode_congr p hser]
    exact a1
  · rw [determine_fan_mode_congr p hser]
    exact a2
  · rw [reported_target_temperature_congr p hser, s1]
    by_cases h : (reported_target_temperature p s : ℚ) > (TEMPERATURE_THRESHOLD : ℚ)
    · exact Or.inl h
    · rw [if_neg h]
      exact Or.inr rfl
  · rw [hser, s2]
    by_cases h : (rd s.serialProcess_.data p.REPORT_TEMP_ACT_BYTE : Int) - p.REPORT_TEMP_ACT_OFF
        > (TEMPERATURE_THRESHOLD : Int)
    · exact Or.inl h
    · rw [if_neg h]
      exact Or.inr rfl
  · rw [determine_vertical_swing_congr p hser]
    exact a3
  · rw [determine_horizontal_swing_congr p hser]
    exact a4
  · rw [determine_vertical_swing_congr p hser, determine_horizontal_swing_congr p hser]
    exact s3
  · rw [determine_display_congr p hser, a1, s4]
    intro hc
    by_cases h : s.display_state_ = none ∨ determine_display p s = .ACT ∨
        (determine_mode p s).1 ≠ .OFF
    · rw [if_pos h]
    · rw [if_neg h] at hc
      exact absurd hc h
  · obtain ⟨f1, _, f3, f4, f5⟩ := before_light_facts p (report_mode p s).2
    have g3 : (report_mode p s).2.light_mode_ = s.light_mode_ := by rw [report_mode_frame]
    have g4 : (report_mode p s).2.light_select_ = s.light_select_ := by rw [report_mode_frame]
    have g5 : (report_mode p s).2.serialProcess_ = s.serialProcess_ := by rw [report_mode_frame]
    obtain ⟨r1, r2, r3⟩ := report_light_settled p (report_mode p s).1 _ (f4.trans (g4.trans hsel))
    have hd := (determine_light_congr p hser).trans (determine_light_congr p (f5.trans g5)).symm
    have e1 := (processUnitReport_light p s).1
    have em : (processUnitReport p s).2.light_mode_ = s.light_mode_ := by
      have h0 := processUnitReport_reportedFrom p s
      rw [h0]
      rfl
    have es : (processUnitReport p s).2.light_select_ =
        (report_light p (report_mode p s).1 (report_display p (report_swing p
          (report_temperature p (report_fan p (report_mode p s).2).2).2).2).2).2.light_select_ := by
      unfold processUnitReport
      simp only []
      rw [report_flags_snd]
    refine ⟨es.trans r1, ?_, ?_⟩
    · intro hoff hl
      rw [hd]
      exact r2 (f3.trans (g3.trans (em.symm.trans hoff))) (e1.symm.trans hl)
    · intro hon hl
      rw [hd]
      exact r3 (f3.trans (g3.trans (em.symm.trans hon))) (e1.symm.trans hl)
  · rw [determine_display_unit_congr p hser]
    exact a5
  · rw [determine_ionizer_congr p hser]
    exact a6
  · rw [determine_beeper_congr p hser]
    exact a7
  · rw [determine_sleep_congr p hser]
    exact a8
  · rw [determine_xfan_congr p hser]
    exact a9
  · rw [determine_powersave_congr p hser]
    exact a10
  · rw [determine_turbo_congr p hser]
    exact a11
  · rw [determine_ifeel_congr p hser]
    exact a12
  · rw [determine_quiet_congr p hser]
    exact a13

theorem with_serialProcess_self (c : GreeACCNT) (sp : SerialProcess)
    (h : c.serialProcess_ = sp) : { c with serialProcess_ := sp } = c := by
  subst h
  rfl

theorem settledClimate_congr (p : Protocol) {a b : GreeACCNT}
    (hser : b.serialProcess_ = a.serialProcess_) (h1 : b.mode = a.mode)
    (h2 : b.custom_fan_mode = a.custom_fan_mode)
    (h3 : b.target_temperature = a.target_temperature)
    (h4 : b.current_temperature = a.current_temperature)
    (h5 : b.vertical_swing_state_ = a.vertical_swing_state_)
    (h6 : b.horizontal_swing_state_ = a.horizontal_swing_state_)
    (h7 : b.swing_mode = a.swing_mode) (h8 : b.display_state_ = a.display_state_)
    (h : SettledClimate p a) : SettledClimate p b := by
  unfold SettledClimate at h ⊢
  rw [hser, determine_mode_congr p hser, determine_fan_mode_congr p hser,
    reported_target_temperature_congr p hser, determine_vertical_swing_congr p hser,
    determine_horizontal_swing_congr p hser, determine_display_congr p hser,
    h1, h2, h3, h4, h5, h6, h7, h8]
  exact h

/-- What `handle_packet` leaves behind once it has handled a unit report on a state
without a light select. -/
theorem handle_packet_settled (p : Protocol) (s : GreeACCNT)
    (hcmd : rd s.serialProcess_.data 3 = p.CMD_IN_UNIT_REPORT) (hsel : s.light_select_ = none) :
    (handle_packet p s).reqmodechange = false ∧
    (handle_packet p s).serialProcess_ = (move_payload s).serialProcess_ ∧
    SettledClimate p (handle_packet p s) ∧ SettledLight p (handle_packet p s) ∧
      SettledFlags p (handle_packet p s) := by
  obtain ⟨hc, hl, hf⟩ := processUnitReport_settled p (move_payload s) hsel
  have hser := reportedFrom_serialProcess (processUnitReport_reportedFrom p (move_payload s))
  unfold handle_packet
  rw [if_pos hcmd]
  simp only []
  generalize (processUnitReport p (move_payload s)).2 = c at hc hl hf hser ⊢
  by_cases hp : ((processUnitReport p (move_payload s)).1 || c.reqmodechange) = true
  · rw [if_pos hp]
    refine ⟨rfl, hser, ?_, ?_, ?_⟩
    · exact @settledClimate_congr p c _ rfl rfl rfl rfl rfl rfl rfl rfl rfl hc
    · exact hl
    · exact hf
  · rw [if_neg hp]
    rw [Bool.or_eq_true, not_or] at hp
    exact ⟨by simpa using hp.2, hser, hc, hl, hf⟩

/-- C36. Report processing is idempotent with respect to notifications. For every engine
state without a light select and every buffered payload, `processUnitReport` applied to
the state that a first application has produced returns `false`. Hence, once
`handle_packet` has handled a unit report, `reqmodechange` is `false`, and handling the
same frame again with no request in between publishes nothing. -/
theorem C36_report_idempotent (p : Protocol) (s : GreeACCNT) (hsel : s.light_select_ = none) :
    (processUnitReport p (processUnitReport p s).2).1 = false ∧
    (rd s.serialProcess_.data 3 = p.CMD_IN_UNIT_REPORT →
      (handle_packet p s).reqmodechange = false ∧
      (handle_packet p { handle_packet p s with serialProcess_ := s.serialProcess_ }).published =
        (handle_packet p s).published) := by
  refine ⟨?_, fun hcmd => ?_⟩
  · obtain ⟨hc, hl, hf⟩ := processUnitReport_settled p s hsel
    exact processUnitReport_of_settled p _ hc hl hf
  · obtain ⟨hq, hser, hc, hl, hf⟩ := handle_packet_settled p s hcmd hsel
    refine ⟨hq, ?_⟩
    have hmove : move_payload { handle_packet p s with serialProcess_ := s.serialProcess_ } =
        handle_packet p s :=
      with_serialProcess_self (handle_packet p s) (move_payload s).serialProcess_ hser
    have hfalse := processUnitReport_of_settled p (handle_packet p s) hc hl hf
    have hq2 := (reportedFrom_reqmodechange
      (processUnitReport_reportedFrom p (handle_packet p s))).trans hq
    have hp2 := reportedFrom_published (processUnitReport_reportedFrom p (handle_packet p s))
    generalize handle_packet p s = h1 at hmove hfalse hq2 hp2 ⊢
    unfold handle_packet
    rw [if_pos hcmd]
    simp only []
    rw [hmove, hfalse, hq2]
    exact hp2

set_option maxRecDepth 100000 in
/-- C36 on the sample state and the report `sampleFrame`: the first handling publishes
once, the second handling of the same frame publishes nothing. -/
theorem C36_report_idempotent_witness :
    (processUnitReport sampleProtocol
      (processUnitReport sampleProtocol (move_payload sampleAccepted)).2).1 = false ∧
    (handle_packet sampleProtocol sampleAccepted).published = sampleAccepted.published + 1 ∧
    (handle_packet sampleProtocol
      { handle_packet sampleProtocol sampleAccepted with
        serialProcess_ := sampleAccepted.serialProcess_ }).published =
      (handle_packet sampleProtocol sampleAccepted).published :=
  ⟨(C36_report_idempotent sampleProtocol (move_payload sampleAccepted) rfl).1,
   by decide,
   ((C36_report_idempotent sampleProtocol sampleAccepted rfl).2 (by decide)).2⟩

end GreeAC
